import Mathlib

/-! Collision detection and dynamic bonding (src/core/collision.cpp) and cluster geometry
(src/core/cluster_analysis.cpp)

A shallow embedding of the collision subsystem: the configuration entry point
`collision_detection_set_params`, the per-pair detector `detect_collision`, and the
once-per-step binder `handle_collisions` with its helpers; and of the geometry functions of
the class `Cluster`.

Conventions of the embedding

* `double` values live in an arbitrary linear ordered field `K` with a floor function
  (exact arithmetic); the library functions `sqrt`, `cos`, `sin`, `acos` and the constant
  `M_PI` are fields of the environment `Env`, so the definitions run on `ℚ`.
* `int` values are mathematical integers; the mode word is a bit mask in `ℕ`. The `int` sum
  `bond_three_particles + three_particle_angle_resolution` of lines 100, 103 and 357 is
  reduced to the 32-bit two's complement range by `int_wrap`.
* The conversion of a NaN `double` to `int` (line 410, for a center that coincides with a
  partner) gives the value `int_of_nan` of the environment.
* Particles live in a memory `mem` of records addressed by their index; a `Particle*` is an
  address, `local_particles` maps an identity to an address (`none` is the null pointer).
* Dereferencing a null or dangling pointer, and exhausting the fuel of the random corner
  search, make an operation return `none`.
* Declarations of the headers that are not part of the sources (mode flag values, the bonded
  interaction table, particle store primitives, collectives) are fields of `Env` or are
  modelled from the specification; the doc comment of each such definition says so.
* The receive buffer of the gather is a list of bytes, each labelled with the queue entry
  and the offset it comes from, so that displacements and byte counts keep their meaning.
* Debug output on stdout (`printf`, `TRACE`) is not modelled; the reads its arguments make
  are.
* The cluster geometry functions return `Except Fault`: a value, or the fault (null pointer,
  index past the end of a vector, uninitialised variable) at which the run leaves defined
  behaviour.
-/

set_option linter.unusedSectionVars false

namespace Collision

/-- A `double[3]`. -/
structure Vec3 (K : Type) where
  x : K
  y : K
  z : K
  deriving DecidableEq

/-- The entry `collision_struct` of the collision queue. -/
structure collision_struct (K : Type) where
  pp1 : Int
  pp2 : Int
  point_of_collision : Vec3 K
  deriving DecidableEq

/-- The fields of `Collision_parameters` (declared in collision.hpp) that collision.cpp uses. -/
structure Collision_parameters (K : Type) where
  mode : Nat
  distance : K
  bond_centers : Int
  bond_vs : Int
  vs_particle_type : Int
  dist_glued_part_to_vs : K
  part_type_to_be_glued : Int
  part_type_to_attach_vs_to : Int
  part_type_after_glueing : Int
  bond_three_particles : Int
  three_particle_angle_resolution : Int
  triangle_size : K

/-- The fields of `Particle` (declared in particle_data.hpp) that collision.cpp reads or writes:
`p.identity`, `p.type`, `p.isVirtual`, `p.rotation`, the parent set by `vs_relate_to`,
`r.p`, `l.ghost` and the flat bond list `bl.e[0 .. bl.n)`. -/
structure Particle (K : Type) where
  identity : Int
  type : Int
  isVirtual : Bool
  rotation : Int
  vs_relative_to_particle_id : Int
  pos : Vec3 K
  ghost : Bool
  bl : List Int

/-- Everything collision.cpp takes from its surroundings without changing it: compile-time
switches, the mode flag constants of collision.hpp, the rank layout, the bonded interaction
table (`bonded_ia_params i` is `bonded_ia_params[i].num`; an index outside
`0 .. n_bonded_ia - 1` reads outside the table), numerical library functions, the `int` a
conversion of a NaN `double` gives (`int_of_nan`: undefined in the language, `INT_MIN` with
the conversion instruction of x86-64), the random number stream, the pair energy evaluator, the minimum image convention, the local queues of
the other ranks with `sizeof(collision_struct)`, and the cell system. -/
structure Env (K : Type) where
  COLLISION_MODE_EXCEPTION : Nat
  COLLISION_MODE_BOND : Nat
  COLLISION_MODE_VS : Nat
  COLLISION_MODE_GLUE_TO_SURF : Nat
  COLLISION_MODE_BIND_THREE_PARTICLES : Nat
  COLLISION_MODE_TRIANGLE_BINDING : Nat
  VIRTUAL_SITES_RELATIVE : Bool
  ROTATION_PER_PARTICLE : Bool
  n_nodes : Nat
  this_node : Nat
  n_bonded_ia : Int
  bonded_ia_params : Int → Nat
  TINY_COS_VALUE : K
  M_PI : K
  int_of_nan : Int
  sqrt : K → K
  cos : K → K
  sin : K → K
  acos : K → K
  d_random : Nat → K
  vec_rotate : Vec3 K → K → Vec3 K → Vec3 K
  get_mi_vector : Vec3 K → Vec3 K → Vec3 K
  gb_pair_energy : Particle K → Particle K → Vec3 K → K → K
  rank_queue : Nat → List (collision_struct K)
  sizeof_collision_struct : Nat
  domdec : Bool
  local_cells : List Nat
  position_to_cell : Vec3 K → Nat
  dd_position_to_cell_indices : Vec3 K → Int × Int × Int
  get_linear_index : Int → Int → Int → Int

/-- The mutable state collision.cpp works on: its own statics (`collision_params`,
`collision_queue` whose length is `number_of_collisions`, `gathered_queue`,
`total_collisions`) and the parts of the simulator it changes (particle memory,
`local_particles`, `max_seen_particle`, the cells, the registered particle types, the
broadcasts sent, `recalc_forces`, `resort_particles`, the runtime error notices and the
number of random draws made so far). -/
structure State (K : Type) where
  collision_params : Collision_parameters K
  collision_queue : List (collision_struct K)
  gathered_queue : List (collision_struct K)
  total_collisions : Nat
  mem : List (Particle K)
  local_particles : Int → Option Nat
  max_seen_particle : Int
  cells : List (List Nat)
  particle_types : List Int
  bcasts : List (Collision_parameters K)
  recalc_forces : Int
  resort_particles : Bool
  notices : List (Int × Int)
  rng : Nat

/-- The C truth value of `mode & flag`. -/
def flag_set (mode flag : Nat) : Bool := (mode &&& flag) != 0

/-- The `int` an arithmetic operation with the mathematical result `x` leaves: `x` reduced to
the range `-2^31 .. 2^31 - 1` of a 32-bit two's complement `int`. Signed overflow is undefined
in the language; the compiled code wraps around. -/
def int_wrap (x : Int) : Int := (x + 2147483648) % 4294967296 - 2147483648

variable {K : Type} [LinearOrderedField K]

/-- Modelled from the spec: `make_particle_type_exist` (particle store, type-table
registration) is not part of the sources; it records the type as registered. -/
def make_particle_type_exist (st : State K) (t : Int) : State K :=
  { st with particle_types := if t ∈ st.particle_types then st.particle_types
                              else st.particle_types ++ [t] }

/-- Modelled from the spec: `mpi_bcast_collision_params` (parameter broadcast) is not part of
the sources; it sends the current parameters to all ranks. -/
def mpi_bcast_collision_params (st : State K) : State K :=
  { st with bcasts := st.bcasts ++ [st.collision_params] }

/-- The loop of lines 103-106: some bond id `i` from `bond_three_particles` up to the `int`
sum `bond_three_particles + angle_resolution` does not have two partners. The loop is reached
only with the sum below `n_bonded_ia`, so `i++` does not overflow. -/
def three_particle_range_bad (env : Env K) (bond_three_particles angle_resolution : Int) : Bool :=
  (List.range
      (int_wrap (bond_three_particles + angle_resolution) - bond_three_particles + 1).toNat).any
    (fun k => env.bonded_ia_params (bond_three_particles + (k : Int)) != 2)

/-- The mode after the two expansions of lines 62-66. -/
def expand_mode (env : Env K) (mode : Nat) : Nat :=
  let mode1 :=
    if flag_set mode env.COLLISION_MODE_VS || flag_set mode env.COLLISION_MODE_GLUE_TO_SURF
        || (env.COLLISION_MODE_TRIANGLE_BINDING != 0)
    then mode ||| env.COLLISION_MODE_BOND else mode
  if flag_set mode1 env.COLLISION_MODE_BIND_THREE_PARTICLES
  then mode1 ||| env.COLLISION_MODE_BOND else mode1

/-- The validation of lines 68-107 on the expanded mode: the status of the first failing
check, or 0. -/
def validate_params (env : Env K) (mode : Nat) (bond_centers bond_vs : Int)
    (bond_three_particles angle_resolution : Int) : Int :=
  let vs_based := flag_set mode env.COLLISION_MODE_VS
    || flag_set mode env.COLLISION_MODE_GLUE_TO_SURF
    || flag_set mode env.COLLISION_MODE_TRIANGLE_BINDING
  if !env.VIRTUAL_SITES_RELATIVE && vs_based then 1
  else if vs_based && env.n_nodes != 1 then 2
  else if flag_set mode env.COLLISION_MODE_BOND && decide (bond_centers ≥ env.n_bonded_ia) then 3
  else if flag_set mode env.COLLISION_MODE_VS && decide (bond_vs ≥ env.n_bonded_ia) then 3
  else if flag_set mode env.COLLISION_MODE_BOND && env.bonded_ia_params bond_centers != 1 then 4
  else if flag_set mode env.COLLISION_MODE_VS
      && !(env.bonded_ia_params bond_vs == 1 || env.bonded_ia_params bond_vs == 2) then 5
  else if flag_set mode env.COLLISION_MODE_BIND_THREE_PARTICLES
      && decide (int_wrap (bond_three_particles + angle_resolution) ≥ env.n_bonded_ia) then 6
  else if flag_set mode env.COLLISION_MODE_BIND_THREE_PARTICLES
      && three_particle_range_bad env bond_three_particles angle_resolution then 7
  else 0

/-- The function `collision_detection_set_params`: the returned status and the state after
the call. The glue distance `d2` is an `int` parameter. -/
def collision_detection_set_params (env : Env K) (st : State K) (mode : Nat) (d : K)
    (bond_centers bond_vs t d2 tg tv ta bond_three_particles angle_resolution : Int)
    (triangle_size : K) : Int × State K :=
  let mode := expand_mode env mode
  let status := validate_params env mode bond_centers bond_vs bond_three_particles
    angle_resolution
  if status != 0 then (status, st)
  else
    let st1 : State K := { st with collision_params :=
      { mode := mode
        bond_centers := bond_centers
        bond_vs := bond_vs
        distance := d
        vs_particle_type := t
        dist_glued_part_to_vs := (d2 : K)
        part_type_to_be_glued := tg
        part_type_to_attach_vs_to := tv
        part_type_after_glueing := ta
        bond_three_particles := bond_three_particles
        three_particle_angle_resolution := angle_resolution
        triangle_size := triangle_size } }
    let st2 :=
      if flag_set mode env.COLLISION_MODE_VS || (env.COLLISION_MODE_TRIANGLE_BINDING != 0)
          || (env.COLLISION_MODE_TRIANGLE_BINDING != 0)
      then make_particle_type_exist st1 t else st1
    let st3 :=
      if flag_set mode env.COLLISION_MODE_GLUE_TO_SURF
      then make_particle_type_exist (make_particle_type_exist
        (make_particle_type_exist (make_particle_type_exist st2 t) tg) tv) ta
      else st2
    let st4 := mpi_bcast_collision_params st3
    (0, { st4 with recalc_forces := 1 })

/-! ## Vector helpers -/

/-- Componentwise difference of two `double[3]`. -/
def Vec3.sub (a b : Vec3 K) : Vec3 K := ⟨a.x - b.x, a.y - b.y, a.z - b.z⟩

/-- Componentwise sum of two `double[3]`. -/
def Vec3.add (a b : Vec3 K) : Vec3 K := ⟨a.x + b.x, a.y + b.y, a.z + b.z⟩

/-- Every component multiplied by `c`. -/
def Vec3.smul (c : K) (a : Vec3 K) : Vec3 K := ⟨a.x * c, a.y * c, a.z * c⟩

/-- Modelled from the spec: `sqrlen` (utils.hpp) is not part of the sources; the squared
length of a vector. -/
def sqrlen (a : Vec3 K) : K := a.x * a.x + a.y * a.y + a.z * a.z

/-- Modelled from the spec: `scalar` (utils.hpp) is not part of the sources; the dot product. -/
def scalar (a b : Vec3 K) : K := a.x * b.x + a.y * b.y + a.z * b.z

/-- Modelled from the spec: `vector_product` (utils.hpp) is not part of the sources; the cross
product. -/
def vector_product (a b : Vec3 K) : Vec3 K :=
  ⟨a.y * b.z - a.z * b.y, a.z * b.x - a.x * b.z, a.x * b.y - a.y * b.x⟩

/-- Modelled from the spec: `distance2vec` (utils.hpp) is not part of the sources; it stores the
pair vector `pos1 - pos2` and returns its squared length. -/
def distance2vec (pos1 pos2 : Vec3 K) : K × Vec3 K :=
  (sqrlen (Vec3.sub pos1 pos2), Vec3.sub pos1 pos2)

/-! ## The detector -/

/-- The function `prepare_collision_queue`: `number_of_collisions = 0`. -/
def prepare_collision_queue (st : State K) : State K :=
  { st with collision_queue := [] }

/-- The `while` loop of `bond_exists` over the flat bond list `e`, started at index `i`.
Every iteration advances `i` by at least one, so `e.length` iterations are enough; the first
argument bounds the number of iterations. Reading `e[i + 1]` past the end of the list
compares unequal. -/
def bond_exists_loop (env : Env K) (e : List Int) (partner_identity bond_type : Int) :
    Nat → Nat → Bool
  | 0, _ => false
  | fuel + 1, i =>
    if i < e.length then
      if e[i]? == some bond_type && e[i + 1]? == some partner_identity then true
      else bond_exists_loop env e partner_identity bond_type fuel
        (i + env.bonded_ia_params (e.getD i 0) + 1)
    else false

/-- The function `bond_exists`: the bond list of `p` has an entry of type `bond_type` whose
first partner is `partner`. -/
def bond_exists (env : Env K) (p partner : Particle K) (bond_type : Int) : Bool :=
  bond_exists_loop env p.bl partner.identity bond_type p.bl.length 0

/-- The function `queue_collision`: one more entry at the end of the queue. -/
def queue_collision (st : State K) (part1 part2 : Int) (point_of_collision : Vec3 K) :
    State K :=
  { st with collision_queue := st.collision_queue ++ [⟨part1, part2, point_of_collision⟩] }

/-- The pair passes the type filter of the glue to surface mode (lines 226-232). -/
def glue_types_match (cp : Collision_parameters K) (t1 t2 : Int) : Bool :=
  (t1 == cp.part_type_to_be_glued && t2 == cp.part_type_to_attach_vs_to)
    || (t2 == cp.part_type_to_be_glued && t1 == cp.part_type_to_attach_vs_to)

/-- Lines 270-321 of `detect_collision`: the pair has passed every bond check; `q1` and `q2`
are the records `local_particles` resolved the identities `part1` and `part2` to. In the glue
to surface mode the third branch leaves the prefactor `c` uninitialised. -/
def detect_collision_queue_pair (env : Env K) (st : State K) (q1 q2 : Particle K)
    (part1 part2 : Int) (vec21 : Vec3 K) (dist_betw_part : K) : Option (State K) :=
  let cp := st.collision_params
  if flag_set cp.mode env.COLLISION_MODE_BOND then
    if q1.ghost && q2.ghost then some st
    else if !flag_set cp.mode env.COLLISION_MODE_GLUE_TO_SURF then
      some (queue_collision st part1 part2 (Vec3.sub q1.pos (Vec3.smul (1 / 2) vec21)))
    else if q1.type == cp.part_type_to_be_glued && q2.type == cp.part_type_to_attach_vs_to then
      some (queue_collision st part1 part2
        (Vec3.sub q1.pos (Vec3.smul (cp.dist_glued_part_to_vs / dist_betw_part) vec21)))
    else if q2.type == cp.part_type_to_be_glued && q1.type == cp.part_type_to_attach_vs_to then
      some (queue_collision st part2 part1
        (Vec3.sub q1.pos (Vec3.smul (-cp.dist_glued_part_to_vs / dist_betw_part) vec21)))
    else none
  else some st

/-- Lines 237-261 of `detect_collision`: the identities are resolved through
`local_particles`; virtual particles, identical particles and pairs that already have a center
bond are dropped. -/
def detect_collision_resolved (env : Env K) (st : State K) (part1 part2 : Int)
    (vec21 : Vec3 K) (dist_betw_part : K) : Option (State K) :=
  match st.local_particles part1, st.local_particles part2 with
  | none, none => if env.VIRTUAL_SITES_RELATIVE then none else some st
  | some a1, some a2 =>
    match st.mem[a1]?, st.mem[a2]? with
    | some q1, some q2 =>
      if env.VIRTUAL_SITES_RELATIVE && (q1.isVirtual || q2.isVirtual) then some st
      else if a1 = a2 then some st
      else if bond_exists env q1 q2 st.collision_params.bond_centers then some st
      else if bond_exists env q2 q1 st.collision_params.bond_centers then some st
      else detect_collision_queue_pair env st q1 q2 part1 part2 vec21 dist_betw_part
    | _, _ => none
  | _, _ => none

/-- The function `detect_collision` on the particles at the addresses `p1` and `p2`. -/
def detect_collision (env : Env K) (st : State K) (p1 p2 : Nat) : Option (State K) :=
  match st.mem[p1]?, st.mem[p2]? with
  | some r1, some r2 =>
    let vec21 := (distance2vec r1.pos r2.pos).2
    let dist_betw_part := env.sqrt (distance2vec r1.pos r2.pos).1
    if dist_betw_part > st.collision_params.distance then some st
    else
      let gb_en := env.gb_pair_energy r1 r2 vec21 dist_betw_part
      if gb_en ≥ -(1 / 1000) ∧ gb_en ≤ 1 / 1000 then some st
      else if flag_set st.collision_params.mode env.COLLISION_MODE_GLUE_TO_SURF
          && !glue_types_match st.collision_params r1.type r2.type then some st
      else detect_collision_resolved env st r1.identity r2.identity vec21 dist_betw_part
  | _, _ => none

/-! ## Particle store primitives -/

/-- The record at address `a` after `f` has been applied to it; `none` for a dangling
address. -/
def modify_at (st : State K) (a : Nat) (f : Particle K → Particle K) : Option (State K) :=
  match st.mem[a]? with
  | some r => some { st with mem := st.mem.set a (f r) }
  | none => none

/-- A write through `local_particles[part]->`; `none` if the pointer is null or dangling. -/
def modify_particle (st : State K) (part : Int) (f : Particle K → Particle K) :
    Option (State K) :=
  match st.local_particles part with
  | some a => modify_at st a f
  | none => none

/-- A read of `*local_particles[part]`; `none` if the pointer is null or dangling. -/
def get_particle (st : State K) (part : Int) : Option (Particle K) :=
  match st.local_particles part with
  | some a => st.mem[a]?
  | none => none

/-- Modelled from the spec: `local_change_bond(part, bond, 0)` (particle store, bond-list
mutation) is not part of the sources; it appends the bond record (bond type id, partner ids)
to the bond list of the particle `local_particles[part]`. -/
def local_change_bond (st : State K) (part : Int) (bond : List Int) : Option (State K) :=
  modify_particle st part (fun r => { r with bl := r.bl ++ bond })

/-- Modelled from the spec: `place_particle` (virtual-site primitive, append particle at
position) is not part of the sources; it stores a new particle with identity `part` at `pos`
in the cell of that position, makes `local_particles[part]` point to it and keeps
`max_seen_particle` the largest identity seen. -/
def place_particle (env : Env K) (st : State K) (part : Int) (pos : Vec3 K) : State K :=
  let c := env.position_to_cell pos
  { st with
    mem := st.mem ++ [{ identity := part, type := 0, isVirtual := false, rotation := 0,
                        vs_relative_to_particle_id := 0, pos := pos, ghost := false,
                        bl := [] }]
    local_particles := Function.update st.local_particles part (some st.mem.length)
    max_seen_particle := max st.max_seen_particle part
    cells := st.cells.set c (st.cells.getD c [] ++ [st.mem.length]) }

/-- Modelled from the spec: `vs_relate_to` (virtual-site primitive, relate to parent) is not
part of the sources; it reads the parent `local_particles[relate_to]` and records it as the
particle the site `local_particles[part_num]` is positioned from. -/
def vs_relate_to (st : State K) (part_num relate_to : Int) : Option (State K) :=
  match get_particle st relate_to with
  | some _ => modify_particle st part_num (fun r => { r with vs_relative_to_particle_id := relate_to })
  | none => none

/-- Modelled from the spec: `announce_resort_particles` (request resort signal) is not part of
the sources; it raises `resort_particles`. -/
def announce_resort_particles (st : State K) : State K :=
  { st with resort_particles := true }

/-- Modelled from the spec: `runtimeError` (non-fatal runtime-notice sink) is not part of the
sources; the notice "collision between particles id1 and id2" is kept as the pair of ids. -/
def runtimeError (st : State K) (id1 id2 : Int) : State K :=
  { st with notices := st.notices ++ [(id1, id2)] }

/-! ## The binder: notices, virtual sites, glue to surface -/

/-- The function `handle_exception_throwing_for_single_collision` on the queue entry `e`. -/
def handle_exception_throwing_for_single_collision (env : Env K) (st : State K)
    (e : collision_struct K) : State K :=
  if flag_set st.collision_params.mode env.COLLISION_MODE_EXCEPTION then
    if e.pp1 > e.pp2 then runtimeError st e.pp2 e.pp1 else runtimeError st e.pp1 e.pp2
  else st

/-- The function `place_vs_and_relate_to_particle`. -/
def place_vs_and_relate_to_particle (env : Env K) (st : State K) (pos : Vec3 K)
    (relate_to : Int) : Option (State K) :=
  let st1 := place_particle env st (st.max_seen_particle + 1) pos
  (vs_relate_to st1 st1.max_seen_particle relate_to).bind fun st2 =>
  (modify_particle st2 st2.max_seen_particle (fun r => { r with isVirtual := true })).bind
    fun st3 =>
  (if env.ROTATION_PER_PARTICLE
    then modify_particle st3 relate_to (fun r => { r with rotation := 14 })
    else some st3).bind fun st4 =>
  modify_particle st4 st4.max_seen_particle
    (fun r => { r with type := st4.collision_params.vs_particle_type })

/-- The function `bind_at_poc_create_bond_between_vs` on the queue entry `e`. -/
def bind_at_poc_create_bond_between_vs (env : Env K) (st : State K) (e : collision_struct K) :
    Option (State K) :=
  let bond_vs := st.collision_params.bond_vs
  match env.bonded_ia_params bond_vs with
  | 1 => local_change_bond st st.max_seen_particle [bond_vs, st.max_seen_particle - 1]
  | 2 =>
    (local_change_bond st st.max_seen_particle [bond_vs, e.pp1, e.pp2]).bind fun st1 =>
    (local_change_bond st1 (st1.max_seen_particle - 1) [bond_vs, e.pp1, e.pp2]).bind fun st2 =>
    local_change_bond st2 st2.max_seen_particle [3, st2.max_seen_particle - 1]
  | _ => some st

/-- The function `get_mi_random_vector`: two random draws, numbered `rng` and `rng + 1`, give a
point on the unit sphere; the result is its cross product with `given_vector`. -/
def get_mi_random_vector (env : Env K) (rng : Nat) (given_vector : Vec3 K) : Vec3 K :=
  let z_rand := env.d_random rng * 2 - 1
  let alfa_rand := env.d_random (rng + 1) * env.M_PI
  let random_point : Vec3 K :=
    ⟨env.sqrt (1 - z_rand * z_rand) * env.cos alfa_rand,
     env.sqrt (1 - z_rand * z_rand) * env.sin alfa_rand, z_rand⟩
  vector_product given_vector random_point

/-- The `while` loop of `triangle_binding_calc_corners` (line 513): draw until the vector has
positive squared length and is not nearly parallel to the connecting vector. The body runs at
least once because `director_sqr` starts at -1. The result is the vector, its squared length
and the number of random draws consumed so far; `none` when `fuel` draws did not succeed. -/
def triangle_binding_draw (env : Env K) (connecting_vector : Vec3 K)
    (abs_connecting_vector : K) : Nat → Nat → Option (Vec3 K × K × Nat)
  | 0, _ => none
  | fuel + 1, rng =>
    let orthogonal_vector := get_mi_random_vector env rng connecting_vector
    let director_sqr := sqrlen orthogonal_vector
    if director_sqr ≤ 0
        ∨ scalar orthogonal_vector connecting_vector / abs_connecting_vector ≥ 99 / 100
    then triangle_binding_draw env connecting_vector abs_connecting_vector fuel (rng + 2)
    else some (orthogonal_vector, director_sqr, rng + 2)

/-- The function `triangle_binding_calc_corners` for the particles at addresses with records
`p1` and `p2`: the three corners and the number of random draws consumed. -/
def triangle_binding_calc_corners (env : Env K) (fuel rng : Nat) (p1 p2 : Particle K) :
    Option ((Vec3 K × Vec3 K × Vec3 K) × Nat) :=
  let connecting_vector := env.get_mi_vector p1.pos p2.pos
  let abs_connecting_vector := env.sqrt (sqrlen connecting_vector)
  let c_m := Vec3.sub p1.pos (Vec3.smul (1 / 2) connecting_vector)
  match triangle_binding_draw env connecting_vector abs_connecting_vector fuel rng with
  | none => none
  | some (orthogonal_vector, director_sqr, rng1) =>
    let abs_director1 := env.sqrt director_sqr
    let director1 : Vec3 K :=
      ⟨orthogonal_vector.x * (1 / 2) / abs_director1,
       orthogonal_vector.y * (1 / 2) / abs_director1,
       orthogonal_vector.z * (1 / 2) / abs_director1⟩
    let director2 := env.vec_rotate connecting_vector (2 * env.M_PI / 3) director1
    let director3 := env.vec_rotate connecting_vector (2 * env.M_PI / 3) director2
    some ((Vec3.add c_m director1, Vec3.add c_m director2, Vec3.add c_m director3), rng1)

/-- One iteration of the corner loop of `ellipsoid_collision`: two sites at `corner`, one
related to each particle of the entry, joined by a bond of type 3. -/
def ellipsoid_collision_corner (env : Env K) (e : collision_struct K) (st : State K)
    (corner : Vec3 K) : Option (State K) :=
  (place_vs_and_relate_to_particle env st corner e.pp1).bind fun st1 =>
  (place_vs_and_relate_to_particle env st1 corner e.pp2).bind fun st2 =>
  local_change_bond st2 st2.max_seen_particle [3, st2.max_seen_particle - 1]

/-- The function `ellipsoid_collision` on the queue entry `e`. -/
def ellipsoid_collision (env : Env K) (fuel : Nat) (st : State K) (e : collision_struct K) :
    Option (State K) :=
  match get_particle st e.pp1, get_particle st e.pp2 with
  | some p1, some p2 =>
    match triangle_binding_calc_corners env fuel st.rng p1 p2 with
    | some ((c1, c2, c3), rng1) =>
      (ellipsoid_collision_corner env e { st with rng := rng1 } c1).bind fun st1 =>
      (ellipsoid_collision_corner env e st1 c2).bind fun st2 =>
      ellipsoid_collision_corner env e st2 c3
    | none => none
  | _, _ => none

/-- The function `glue_to_surface_bind_vs_to_pp1` on the queue entry `e`. -/
def glue_to_surface_bind_vs_to_pp1 (st : State K) (e : collision_struct K) :
    Option (State K) :=
  (local_change_bond st e.pp1 [st.collision_params.bond_vs, st.max_seen_particle]).bind
    fun st1 =>
  modify_particle st1 e.pp1
    (fun r => { r with type := st1.collision_params.part_type_after_glueing })

/-! ## Reconciliation and three-particle binding -/

/-- The local queue of every rank, in rank order: this rank's own queue and the queues the
other ranks contribute to the collectives. -/
def rank_queues (env : Env K) (st : State K) : List (List (collision_struct K)) :=
  (List.range env.n_nodes).map
    (fun r => if r = env.this_node then st.collision_queue else env.rank_queue r)

/-- One byte of the object representation of a queue entry: the entry it belongs to and the
offset of the byte within the entry. -/
structure entry_byte (K : Type) where
  entry : collision_struct K
  offset : Nat
  deriving DecidableEq

/-- The `sz` bytes of the object representation of the queue entry `e`. -/
def object_bytes (sz : Nat) (e : collision_struct K) : List (entry_byte K) :=
  (List.range sz).map fun i => ⟨e, i⟩

/-- The bytes of a queue in memory: the object representations of its entries, in order. -/
def queue_bytes (sz : Nat) (q : List (collision_struct K)) : List (entry_byte K) :=
  q.flatMap (object_bytes sz)

/-- The array `displacements` after the loop of lines 597-602: `displacements[0] = 0` and
`displacements[k] = displacements[k-1] + counts[k-1] * sizeof(collision_struct)` for
`k = 1 .. n_nodes - 1`. -/
def gather_displacements (sz n_nodes : Nat) (counts : List Nat) : List Nat :=
  (List.range (n_nodes - 1)).foldl (fun d j => d ++ [d.getD j 0 + counts.getD j 0 * sz]) [0]

/-- The array `byte_counts` after the loop of lines 604-605. -/
def gather_byte_counts (sz : Nat) (counts : List Nat) : List Nat :=
  counts.map fun c => c * sz

/-- The bytes `block` stored into the buffer `buf` from the byte offset `off` on; bytes that
would fall behind the end of the buffer are not stored. -/
def write_bytes {β : Type} (buf : List (Option β)) (off : Nat) (block : List β) :
    List (Option β) :=
  buf.take off ++ (block.map some).take (buf.length - off) ++ buf.drop (off + block.length)

/-- Modelled from the spec: `MPI_Allgatherv` (collective variable-size gather) is not part of
the sources; on every rank it stores, for each rank `r` in turn, the first `recvcounts[r]`
bytes of the send buffer of rank `r` into the receive buffer at the byte offset `displs[r]`.
A byte of the receive buffer that no rank writes stays uninitialised (`none`). -/
def MPI_Allgatherv {β : Type} (sendbufs : List (List β)) (recvbuf : List (Option β))
    (recvcounts displs : List Nat) : List (Option β) :=
  (List.range sendbufs.length).foldl
    (fun buf r =>
      write_bytes buf (displs.getD r 0) ((sendbufs.getD r []).take (recvcounts.getD r 0)))
    recvbuf

/-- The queue entry read from the `sz` bytes `slot`: the entry whose object representation
the bytes are; uninitialised or mixed bytes give no entry. -/
def read_entry (sz : Nat) (slot : List (Option (entry_byte K))) : Option (collision_struct K) :=
  match slot with
  | some b :: _ => if slot = (object_bytes sz b.entry).map some then some b.entry else none
  | _ => none

/-- The receive buffer read as the array `gathered_queue[0 .. total)` of queue entries. -/
def gathered_view (sz total : Nat) (buf : List (Option (entry_byte K))) :
    List (collision_struct K) :=
  (List.range total).filterMap fun j => read_entry sz ((buf.drop (j * sz)).take sz)

/-- The function `gather_collision_queue`: the array `counts` and the state after the call.
`MPI_Allreduce` sums the per-rank counts into `total_collisions`; when the sum is zero the
function returns with the zeroed `counts`. Otherwise `MPI_Allgather` gives every rank all
counts, the displacements and byte counts are computed, the receive buffer of
`total_collisions * sizeof(collision_struct)` bytes is allocated and `MPI_Allgatherv` fills
it from the queues of all ranks. -/
def gather_collision_queue (env : Env K) (st : State K) : List Nat × State K :=
  let total := ((rank_queues env st).map List.length).sum
  if total = 0 then (List.replicate env.n_nodes 0, { st with total_collisions := 0 })
  else
    let counts := (rank_queues env st).map List.length
    let sz := env.sizeof_collision_struct
    let displacements := gather_displacements sz env.n_nodes counts
    let byte_counts := gather_byte_counts sz counts
    let buf := MPI_Allgatherv ((rank_queues env st).map (queue_bytes sz))
      (List.replicate (total * sz) none) byte_counts displacements
    (counts, { st with total_collisions := total, gathered_queue := gathered_view sz total buf })

/-- The bond loop of `coldet_do_three_particle_bond` (lines 348-372) over the flat bond list
`e` of the center, started at index `b`: an angular bond of the configured range with the
partners `id1` and `id2`, in any order, is found. The first argument bounds the number of
iterations; `e.length` is enough. -/
def three_particle_bond_exists_loop (env : Env K) (cp : Collision_parameters K) (e : List Int)
    (id1 id2 : Int) : Nat → Nat → Bool
  | 0, _ => false
  | fuel + 1, b =>
    if b < e.length then
      let size := env.bonded_ia_params (e.getD b 0)
      if size == 2
          && (decide (e.getD b 0 ≥ cp.bond_three_particles)
            && decide (e.getD b 0
              ≤ int_wrap (cp.bond_three_particles + cp.three_particle_angle_resolution)))
          && ((e[b + 1]? == some id1 && e[b + 2]? == some id2)
            || (e[b + 1]? == some id2 && e[b + 2]? == some id1))
      then true
      else three_particle_bond_exists_loop env cp e id1 id2 fuel (b + size + 1)
    else false

/-- The cosine of the angle at `p` between `p1` and `p2`, clamped to
`[-TINY_COS_VALUE, TINY_COS_VALUE]` (lines 378-402). When `p` coincides with `p1` or `p2` the
square root is zero, `1.0 / sqrt(dist2)` is inf, the normalised zero vector is NaN and so is
the scalar product, which both clamps leave as it is; `none` stands for NaN. -/
def three_particle_cosine (env : Env K) (p p1 p2 : Particle K) : Option K :=
  let vec1 := env.get_mi_vector p.pos p1.pos
  let vec2 := env.get_mi_vector p.pos p2.pos
  if env.sqrt (sqrlen vec1) = 0 ∨ env.sqrt (sqrlen vec2) = 0 then none
  else
    let d1i := 1 / env.sqrt (sqrlen vec1)
    let vec1 := Vec3.smul d1i vec1
    let d2i := 1 / env.sqrt (sqrlen vec2)
    let vec2 := Vec3.smul d2i vec2
    let cosine := scalar vec1 vec2
    let cosine := if cosine > env.TINY_COS_VALUE then env.TINY_COS_VALUE else cosine
    some (if cosine < -env.TINY_COS_VALUE then -env.TINY_COS_VALUE else cosine)

/-- The bond id of line 410 for the angle `phi`. -/
def three_particle_bond_id [FloorRing K] (env : Env K) (cp : Collision_parameters K) (phi : K) : Int :=
  Int.floor (phi / env.M_PI * ((cp.three_particle_angle_resolution - 1 : Int) : K) + 1 / 2)
    + cp.bond_three_particles

/-- The bond id of lines 405-410 for the clamped cosine: for a NaN cosine the arccosine, the
floor and the sum with the base id are NaN, and the conversion to `int` gives `int_of_nan`. -/
def three_particle_bond_id_of_cosine [FloorRing K] (env : Env K) (cp : Collision_parameters K)
    (cosine : Option K) : Int :=
  match cosine with
  | some c => three_particle_bond_id env cp (env.acos c)
  | none => env.int_of_nan

/-- The function `coldet_do_three_particle_bond` on the particles at the addresses `p`
(center), `p1` and `p2`. -/
def coldet_do_three_particle_bond [FloorRing K] (env : Env K) (st : State K) (p p1 p2 : Nat) :
    Option (State K) :=
  match st.mem[p]?, st.mem[p1]?, st.mem[p2]? with
  | some r, some r1, some r2 =>
    let cp := st.collision_params
    if env.sqrt (sqrlen (env.get_mi_vector r.pos r1.pos)) > cp.distance then some st
    else if env.sqrt (sqrlen (env.get_mi_vector r.pos r2.pos)) > cp.distance then some st
    else if three_particle_bond_exists_loop env cp r.bl r1.identity r2.identity r.bl.length 0
    then some st
    else
      let bond_id := three_particle_bond_id_of_cosine env cp (three_particle_cosine env r r1 r2)
      local_change_bond st r.identity [bond_id, r1.identity, r2.identity]
  | _, _, _ => none

/-- The body of the innermost loop of `three_particle_binding_full_search`: the local
particle at address `p` against the gathered entry `g`. -/
def full_search_entry [FloorRing K] (env : Env K) (p : Nat) (st : State K) (g : collision_struct K) :
    Option (State K) :=
  match st.local_particles g.pp1, st.local_particles g.pp2 with
  | some p1, some p2 =>
    match st.mem[p]?, st.mem[p1]?, st.mem[p2]? with
    | some r, some r1, some r2 =>
      if r.identity == r1.identity || r.identity == r2.identity then some st
      else
        (coldet_do_three_particle_bond env st p p1 p2).bind fun st1 =>
        (coldet_do_three_particle_bond env st1 p1 p p2).bind fun st2 =>
        coldet_do_three_particle_bond env st2 p2 p p1
    | _, _, _ => none
  | _, _ => none

/-- The entries `gathered_queue[0 .. total_collisions)`. -/
def gathered_entries (st : State K) : List (collision_struct K) :=
  st.gathered_queue.take st.total_collisions

/-- The function `three_particle_binding_full_search`: every particle of every local cell
against every gathered entry. -/
def three_particle_binding_full_search [FloorRing K] (env : Env K) (st : State K) : Option (State K) :=
  env.local_cells.foldlM
    (fun st1 c =>
      match st1.cells[c]? with
      | some cell =>
        cell.foldlM (fun st2 p => (gathered_entries st2).foldlM (full_search_entry env p) st2) st1
      | none => none)
    st

/-- The body of the particle loop of `three_particle_binding_domain_decomposition`
(lines 706-744): the candidate at address `cand` against the colliding particles at `p1` and
`p2`. -/
def domain_decomposition_candidate [FloorRing K] (env : Env K) (p1 p2 : Nat) (st : State K) (cand : Nat) :
    Option (State K) :=
  match st.mem[cand]?, st.mem[p1]?, st.mem[p2]? with
  | some r, some r1, some r2 =>
    if r.identity == r1.identity || r.identity == r2.identity then some st
    else if r.ghost then some st
    else
      (coldet_do_three_particle_bond env st cand p1 p2).bind fun st1 =>
      match st1.mem[p1]? with
      | some s1 =>
        if s1.ghost then some st1
        else
          (coldet_do_three_particle_bond env st1 p1 cand p2).bind fun st2 =>
          match st2.mem[p2]? with
          | some s2 =>
            if s2.ghost then some st2
            else coldet_do_three_particle_bond env st2 p2 cand p1
          | none => none
      | none => none
  | _, _, _ => none

/-- The cell index triples of the three nested loops of lines 698-700 around `c`, in loop
order. -/
def neighbour_indices (c : Int × Int × Int) : List (Int × Int × Int) :=
  [c.1 - 1, c.1, c.1 + 1].flatMap fun p =>
    [c.2.1 - 1, c.2.1, c.2.1 + 1].flatMap fun q =>
      [c.2.2 - 1, c.2.2, c.2.2 + 1].map fun r => (p, q, r)

/-- The scan of one cell `cells + ind2` (lines 701-746); an index outside the cell array is a
read outside it. -/
def domain_decomposition_cell [FloorRing K] (env : Env K) (p1 p2 : Nat) (st : State K)
    (pqr : Int × Int × Int) : Option (State K) :=
  let ind2 := env.get_linear_index pqr.1 pqr.2.1 pqr.2.2
  if ind2 < 0 then none
  else
    match st.cells[ind2.toNat]? with
    | some cell => cell.foldlM (domain_decomposition_candidate env p1 p2) st
    | none => none

/-- The body of the loop over the gathered queue in
`three_particle_binding_domain_decomposition` for the entry `g`. -/
def domain_decomposition_entry [FloorRing K] (env : Env K) (st : State K) (g : collision_struct K) :
    Option (State K) :=
  match st.local_particles g.pp1, st.local_particles g.pp2 with
  | some p1, some p2 =>
    match st.mem[p1]?, st.mem[p2]? with
    | some r1, some r2 =>
      let c0 := env.dd_position_to_cell_indices r1.pos
      let c1 := env.dd_position_to_cell_indices r2.pos
      let centers := if c0 = c1 then [c0] else [c0, c1]
      (centers.flatMap neighbour_indices).foldlM (domain_decomposition_cell env p1 p2) st
    | _, _ => none
  | _, _ => some st

/-- The function `three_particle_binding_domain_decomposition`. -/
def three_particle_binding_domain_decomposition [FloorRing K] (env : Env K) (st : State K) :
    Option (State K) :=
  (gathered_entries st).foldlM (domain_decomposition_entry env) st

/-! ## The binder: `handle_collisions` -/

/-- The body of the center bond loop of `handle_collisions` (lines 770-784). -/
def handle_collisions_bond (st : State K) (e : collision_struct K) : Option (State K) :=
  match get_particle st e.pp1 with
  | some r =>
    if r.ghost then local_change_bond st e.pp2 [st.collision_params.bond_centers, e.pp1]
    else local_change_bond st e.pp1 [st.collision_params.bond_centers, e.pp2]
  | none => none

/-- The body of the virtual site loop of `handle_collisions` (lines 792-821). -/
def handle_collisions_vs (env : Env K) (fuel : Nat) (st : State K) (e : collision_struct K) :
    Option (State K) :=
  let mode := st.collision_params.mode
  if flag_set mode env.COLLISION_MODE_TRIANGLE_BINDING then ellipsoid_collision env fuel st e
  else
    (if flag_set mode env.COLLISION_MODE_VS
      then place_vs_and_relate_to_particle env st e.point_of_collision e.pp1
      else some st).bind fun st1 =>
    (place_vs_and_relate_to_particle env st1 e.point_of_collision e.pp2).bind fun st2 =>
    (if flag_set mode env.COLLISION_MODE_VS
      then bind_at_poc_create_bond_between_vs env st2 e else some st2).bind fun st3 =>
    if flag_set mode env.COLLISION_MODE_GLUE_TO_SURF
    then glue_to_surface_bind_vs_to_pp1 st3 e else some st3

/-- The three-particle part of `handle_collisions` (lines 831-853). -/
def handle_collisions_three_particle [FloorRing K] (env : Env K) (st : State K) : Option (State K) :=
  let counts := (gather_collision_queue env st).1
  let st1 := (gather_collision_queue env st).2
  match counts[env.this_node]? with
  | none => none
  | some c =>
    (if c > 0 then
      if !env.domdec then three_particle_binding_full_search env st1
      else three_particle_binding_domain_decomposition env st1
     else some st1).bind fun st2 =>
    some { st2 with
      gathered_queue := if st2.total_collisions > 0 then [] else st2.gathered_queue
      total_collisions := 0 }

/-- The C value of `COLLISION_MODE_VS || COLLISION_MODE_GLUE_TO_SURF ||
COLLISION_MODE_TRIANGLE_BINDING` in line 857: a truth value, 1 or 0. -/
def resort_mask (env : Env K) : Nat :=
  if env.COLLISION_MODE_VS != 0 || env.COLLISION_MODE_GLUE_TO_SURF != 0
      || env.COLLISION_MODE_TRIANGLE_BINDING != 0 then 1 else 0

/-- Lines 855-872 of `handle_collisions`: the resort signal and the reset of the queue. -/
def handle_collisions_finish (env : Env K) (st : State K) : State K :=
  let st1 :=
    if flag_set st.collision_params.mode (resort_mask env) then
      if st.collision_queue.length > 0 then announce_resort_particles st else st
    else st
  { st1 with collision_queue := [] }

/-- Lines 762-765 of `handle_collisions`: the notices. -/
def handle_collisions_exceptions (env : Env K) (st : State K) : State K :=
  if flag_set st.collision_params.mode env.COLLISION_MODE_EXCEPTION
  then st.collision_queue.foldl (handle_exception_throwing_for_single_collision env) st
  else st

/-- Lines 768-785 of `handle_collisions`: the center bond loop. -/
def handle_collisions_bonds (env : Env K) (st : State K) : Option (State K) :=
  if flag_set st.collision_params.mode env.COLLISION_MODE_BOND
  then st.collision_queue.foldlM handle_collisions_bond st else some st

/-- Lines 788-827 of `handle_collisions`: the virtual site loop, compiled only with
`VIRTUAL_SITES_RELATIVE`. -/
def handle_collisions_virtual_sites (env : Env K) (fuel : Nat) (st : State K) :
    Option (State K) :=
  let mode := st.collision_params.mode
  if env.VIRTUAL_SITES_RELATIVE
      && (flag_set mode env.COLLISION_MODE_VS || flag_set mode env.COLLISION_MODE_GLUE_TO_SURF
        || flag_set mode env.COLLISION_MODE_TRIANGLE_BINDING)
  then st.collision_queue.foldlM (handle_collisions_vs env fuel) st
  else some st

/-- The function `handle_collisions`. The argument `fuel` bounds the random draws of one
corner search. -/
def handle_collisions [FloorRing K] (env : Env K) (fuel : Nat) (st : State K) :
    Option (State K) :=
  (handle_collisions_bonds env (handle_collisions_exceptions env st)).bind fun st2 =>
  (handle_collisions_virtual_sites env fuel st2).bind fun st3 =>
  (if flag_set st3.collision_params.mode env.COLLISION_MODE_BIND_THREE_PARTICLES
    then handle_collisions_three_particle env st3 else some st3).bind fun st4 =>
  some (handle_collisions_finish env st4)

/-! ## Declarative notions used to state the properties -/

/-- A bond record as the bond list stores it: the bond type id followed by as many partner
identities as the bonded interaction table gives for that type. -/
def well_formed_entry (env : Env K) (en : List Int) : Prop :=
  ∃ (t : Int) (partners : List Int), en = t :: partners ∧ partners.length = env.bonded_ia_params t

/-- The flat bond list `bl` contains an entry of type `bond_type` whose first partner is
`partner`: the list starts with complete bond records and continues with the type id and the
partner. -/
def has_bond_entry (env : Env K) (bl : List Int) (bond_type partner : Int) : Prop :=
  ∃ (pre : List (List Int)) (post : List Int),
    (∀ en ∈ pre, well_formed_entry env en) ∧ bl = pre.flatten ++ bond_type :: partner :: post

/-- The detector calls of one step: `detect_collision` on every presented pair of addresses,
in order. -/
def detect_collisions (env : Env K) (st : State K) (pairs : List (Nat × Nat)) :
    Option (State K) :=
  pairs.foldlM (fun s pr => detect_collision env s pr.1 pr.2) st

/-- Two pairs of identities are the same unordered pair. -/
def same_pair (a b : Int × Int) : Prop :=
  (a.1 = b.1 ∧ a.2 = b.2) ∨ (a.1 = b.2 ∧ a.2 = b.1)

/-- The identities of the two particles at the addresses of a presented pair. -/
def pair_identities (st : State K) (pr : Nat × Nat) : Option (Int × Int) :=
  match st.mem[pr.1]?, st.mem[pr.2]? with
  | some r1, some r2 => some (r1.identity, r2.identity)
  | _, _ => none

/-- The particle the center bond loop roots the bond of the entry `e` on, and the partner it
writes: `(primary, secondary)` of lines 772-777. -/
def center_bond_insertion (st : State K) (e : collision_struct K) : Int × Int :=
  match get_particle st e.pp1 with
  | some r => if r.ghost then (e.pp2, e.pp1) else (e.pp1, e.pp2)
  | none => (e.pp1, e.pp2)

/-- The ints appended to the bond list of the particle at address `a` by the insertions
`ins` of `(primary, secondary)` pairs: one record (bond type `bc`, secondary) for every
insertion whose primary `local_particles` resolves to `a`, in order. -/
def insertion_entries (bc : Int) (local_particles : Int → Option Nat) (ins : List (Int × Int))
    (a : Nat) : List Int :=
  (ins.filter (fun pr => decide (local_particles pr.1 = some a))).flatMap (fun pr => [bc, pr.2])

/-- The ints the center bond loop appends to the bond list of the particle at address `a`:
one record (center bond type, secondary) for every queue entry whose primary particle
`local_particles` resolves to `a`, in queue order. -/
def center_bond_entries (st : State K) (a : Nat) : List Int :=
  insertion_entries st.collision_params.bond_centers st.local_particles
    (st.collision_queue.map (center_bond_insertion st)) a

/-- The invariant of `max_seen_particle`: no identity known to `local_particles` is larger. -/
def ids_seen (st : State K) : Prop :=
  ∀ (id : Int) (a : Nat), st.local_particles id = some a → id ≤ st.max_seen_particle

/-- The state `s'` differs from `s` in the particle store only by ints appended to bond
lists: `local_particles`, `max_seen_particle`, the parameters and the queue are the same and
every record is the old record with `added a` appended to the bond list at address `a`. -/
def bonds_only (s s' : State K) : Prop :=
  s'.local_particles = s.local_particles ∧ s'.collision_params = s.collision_params
    ∧ s'.max_seen_particle = s.max_seen_particle ∧ s'.collision_queue = s.collision_queue
    ∧ ∃ added : Nat → List Int, ∀ a, s'.mem[a]?
        = (s.mem[a]?).map (fun (r : Particle K) => { r with bl := r.bl ++ added a })

/-- The number of virtual sites the virtual site loop creates per queue entry when triangle
binding is off: two with the virtual site pair flag, else one. -/
def sites_per_event (env : Env K) (cp : Collision_parameters K) : Int :=
  if flag_set cp.mode env.COLLISION_MODE_VS then 2 else 1

/-- The state `s'` is `s` after `k` new particles were placed, the last of them a virtual
site related to `relate_to`: the parameters are the same, `max_seen_particle` grew by `k`,
old identities resolve as before, new identities resolve to new addresses, old records are
unchanged up to the rotation flag, and the particle `max_seen_particle + k` is a virtual site
related to `relate_to`. -/
def sites_placed (s s' : State K) (k : Int) (relate_to : Int) : Prop :=
  s'.collision_params = s.collision_params
    ∧ s'.max_seen_particle = s.max_seen_particle + k
    ∧ (∀ (id : Int) (a : Nat), s.local_particles id = some a → s'.local_particles id = some a)
    ∧ (∀ (id : Int) (a : Nat), s'.local_particles id = some a →
        s.local_particles id = some a
          ∨ (s.max_seen_particle < id ∧ id ≤ s.max_seen_particle + k ∧ s.mem.length ≤ a))
    ∧ (∀ (a : Nat) (r : Particle K), s.mem[a]? = some r →
        ∃ r' : Particle K, s'.mem[a]? = some r' ∧ r' = { r with rotation := r'.rotation })
    ∧ (∃ (n : Nat) (sr : Particle K), s'.local_particles (s.max_seen_particle + k) = some n
        ∧ s.mem.length ≤ n ∧ s'.mem[n]? = some sr ∧ sr.isVirtual = true
        ∧ sr.vs_relative_to_particle_id = relate_to)

/-- The angle bucket of line 410: the bond id of the angle `phi` counted from the base id
`bond_three_particles`. -/
def angle_bucket [FloorRing K] (env : Env K) (cp : Collision_parameters K) (phi : K) : Int :=
  three_particle_bond_id env cp phi - cp.bond_three_particles

/-- The resort signal, the Local Queue and the parameters are the same in `s'` as in `s`. -/
def signals_kept (s s' : State K) : Prop :=
  s'.resort_particles = s.resort_particles ∧ s'.collision_queue = s.collision_queue
    ∧ s'.collision_params = s.collision_params

/-- Every particle record of `s` is still present in `s'` at the same address, with a bond
list that starts with the old one. -/
def bl_extended (s s' : State K) : Prop :=
  ∀ (a : Nat) (r : Particle K), s.mem[a]? = some r →
    ∃ r' : Particle K, s'.mem[a]? = some r' ∧ ∃ ext, r'.bl = r.bl ++ ext

/-! ## Concrete configurations used to run the definitions -/

/-- A square root on `ℚ` that is exact on the squares used in the examples. -/
def example_sqrt (x : ℚ) : ℚ :=
  if x = 0 then 0 else if x = 1 / 4 then 1 / 2 else if x = 1 then 1 else Rat.sqrt x

/-- An environment on `ℚ` with the mode flag values of collision.hpp in the upstream project
(exception 1, bond 2, virtual sites 4, glue to surface 8, three particles 16) and the next
free bit for triangle binding, one rank, virtual sites compiled in, queue entries of 32
bytes, and a bonded interaction table with the pair bonds 0 and 1 and the angular bonds 2 to
7. The sine and cosine are exact at 0 and take every other argument for a right angle, the
arccosine is constantly 0, the random stream is constant and a NaN converts to `INT_MIN`. -/
def example_env : Env ℚ where
  COLLISION_MODE_EXCEPTION := 1
  COLLISION_MODE_BOND := 2
  COLLISION_MODE_VS := 4
  COLLISION_MODE_GLUE_TO_SURF := 8
  COLLISION_MODE_BIND_THREE_PARTICLES := 16
  COLLISION_MODE_TRIANGLE_BINDING := 32
  VIRTUAL_SITES_RELATIVE := true
  ROTATION_PER_PARTICLE := false
  n_nodes := 1
  this_node := 0
  n_bonded_ia := 8
  bonded_ia_params := fun i => if i = 0 ∨ i = 1 then 1 else 2
  TINY_COS_VALUE := 9999999999 / 10000000000
  M_PI := 355 / 113
  int_of_nan := -2147483648
  sqrt := example_sqrt
  cos := fun x => if x = 0 then 1 else 0
  sin := fun x => if x = 0 then 0 else 1
  acos := fun _ => 0
  d_random := fun _ => 1 / 2
  vec_rotate := fun _ _ v => v
  get_mi_vector := fun a b => Vec3.sub a b
  gb_pair_energy := fun _ _ _ _ => 1
  rank_queue := fun _ => []
  sizeof_collision_struct := 32
  domdec := false
  local_cells := [0]
  position_to_cell := fun _ => 0
  dd_position_to_cell_indices := fun _ => (0, 0, 0)
  get_linear_index := fun _ _ _ => 0

/-- The parameters of the examples: threshold 1, center bond 0, vs bond 1, vs type 5,
to-be-glued type 1, attach-to type 2, post-glue type 3, glue distance 3/10, angular bonds
from id 2 with resolution 4. -/
def example_params (mode : Nat) : Collision_parameters ℚ where
  mode := mode
  distance := 1
  bond_centers := 0
  bond_vs := 1
  vs_particle_type := 5
  dist_glued_part_to_vs := 3 / 10
  part_type_to_be_glued := 1
  part_type_to_attach_vs_to := 2
  part_type_after_glueing := 3
  bond_three_particles := 2
  three_particle_angle_resolution := 4
  triangle_size := 1

/-- A particle record of the examples. -/
def example_particle (identity type : Int) (x : ℚ) (ghost isVirtual : Bool) : Particle ℚ where
  identity := identity
  type := type
  isVirtual := isVirtual
  rotation := 0
  vs_relative_to_particle_id := 0
  pos := ⟨x, 0, 0⟩
  ghost := ghost
  bl := []

/-- A state of the examples: the given parameters, queue and particle memory; the particle
with identity `i` lives at address `i`, for `i` below the number of particles. -/
def example_state (cp : Collision_parameters ℚ) (queue : List (collision_struct ℚ))
    (mem : List (Particle ℚ)) : State ℚ where
  collision_params := cp
  collision_queue := queue
  gathered_queue := []
  total_collisions := 0
  mem := mem
  local_particles := fun i => if 0 ≤ i ∧ i < mem.length then some i.toNat else none
  max_seen_particle := (mem.length : Int) - 1
  cells := [List.range mem.length]
  particle_types := []
  bcasts := []
  recalc_forces := 0
  resort_particles := false
  notices := []
  rng := 0

/-- Two particles of the examples: identity 0 of type 1 at the origin, identity 1 of type 2
at `x` on the first axis. -/
def example_pair (x : ℚ) : List (Particle ℚ) :=
  [example_particle 0 1 0 false false, example_particle 1 2 x false false]

/-- The pair at distance 1/2 where particle 0 already carries the center bond entry
`(0, 1)`. -/
def example_bonded_pair : List (Particle ℚ) :=
  [{ example_particle 0 1 0 false false with bl := [0, 1] },
   example_particle 1 2 (1 / 2) false false]

/-- The pair at distance 1/2 where particle 1 is a virtual site. -/
def example_virtual_pair : List (Particle ℚ) :=
  [example_particle 0 1 0 false false, example_particle 1 5 (1 / 2) false true]

/-- The example environment with an arccosine that is exact at 0 (the right angle
`M_PI / 2`), takes every cosine at or below `-TINY_COS_VALUE` for the straight angle `M_PI`
and every other cosine for the angle 0. -/
def example_env_angles : Env ℚ :=
  { example_env with
    acos := fun c =>
      if c = 0 then 355 / 226 else if c ≤ -(9999999999 / 10000000000) then 355 / 113 else 0 }

/-- Three particles of the examples, of type 1 and with the identities 0, 1 and 2, at the
given positions; particle 1 is a ghost when `ghost1` is set. -/
def example_triple (q0 q1 q2 : Vec3 ℚ) (ghost1 : Bool) : List (Particle ℚ) :=
  [{ example_particle 0 1 0 false false with pos := q0 },
   { example_particle 1 1 0 ghost1 false with pos := q1 },
   { example_particle 2 1 0 false false with pos := q2 }]

/-- The example parameters with the angular bonds from id 3 and resolution 0, as
`collision_detection_set_params` stores them for the mode 16 (three particle binding) and the
glue distance 0. -/
def example_params_zero_resolution : Collision_parameters ℚ :=
  { example_params 18 with
    dist_glued_part_to_vs := 0
    bond_three_particles := 3
    three_particle_angle_resolution := 0 }

/-- Particle 0 at the origin with particle 1 at (1/2, 0, 0) and particle 2 at (0, 1/2, 0):
particle 0 sees the other two under a right angle. -/
def example_right_triple : List (Particle ℚ) :=
  example_triple ⟨0, 0, 0⟩ ⟨1 / 2, 0, 0⟩ ⟨0, 1 / 2, 0⟩ false

/-- Particle 0 at the origin between particle 1 at (1/2, 0, 0) and particle 2 at
(-1/2, 0, 0): particle 0 sees the other two under a straight angle. -/
def example_straight_triple : List (Particle ℚ) :=
  example_triple ⟨0, 0, 0⟩ ⟨1 / 2, 0, 0⟩ ⟨-(1 / 2), 0, 0⟩ false

/-- Particle 1 at the position of particle 0, the origin, and particle 2 at (1/2, 0, 0). -/
def example_coincident_triple : List (Particle ℚ) :=
  example_triple ⟨0, 0, 0⟩ ⟨0, 0, 0⟩ ⟨1 / 2, 0, 0⟩ false

/-- The example parameters with the angular bonds from id `base` and the resolution `res`, as
`collision_detection_set_params` stores them for the mode 16 (three particle binding) and the
glue distance 0. -/
def example_params_angles (base res : Int) : Collision_parameters ℚ :=
  { example_params 18 with
    dist_glued_part_to_vs := 0
    bond_three_particles := base
    three_particle_angle_resolution := res }

/-- The example environment where the word in front of the bonded interaction table reads
as a bond with one partner: `bonded_ia_params[-1].num` is 1. -/
def example_env_before_table : Env ℚ :=
  { example_env with bonded_ia_params := fun i => if i = -1 ∨ i = 0 ∨ i = 1 then 1 else 2 }

/-- The example environment with a bonded interaction table whose last bond, id 7, has three
partners. -/
def example_env_dihedral : Env ℚ :=
  { example_env with
    bonded_ia_params := fun i => if i = 0 ∨ i = 1 then 1 else if i = 7 then 3 else 2 }

/-- The example environment with the arccosine of `example_env_angles` on two ranks, with or
without domain decomposition; the other rank contributes no event. -/
def example_env_two_ranks (domdec : Bool) : Env ℚ :=
  { example_env_angles with
    n_nodes := 2
    domdec := domdec }

/-- Three particles on a line within the threshold distance of each other: the local
particles 0 at 0 and 2 at 1 and, between them at 1/2, the ghost replica 1 of a particle of
the other rank. The local cell 0 holds the particles 0 and 2, the ghost cell 1 holds the
ghost, and the detector has queued the pair (1, 2). The mode is BOND and three particle
binding (18). The arguments are the gathered queue, its count and the bond lists of the
three particles. -/
def example_ghost_progress (gathered : List (collision_struct ℚ)) (total : Nat)
    (bl0 bl1 bl2 : List Int) : State ℚ :=
  { example_state (example_params 18) [⟨1, 2, ⟨3 / 4, 0, 0⟩⟩]
      [{ example_particle 0 1 0 false false with bl := bl0 },
       { example_particle 1 1 (1 / 2) true false with bl := bl1 },
       { example_particle 2 1 1 false false with bl := bl2 }] with
    gathered_queue := gathered
    total_collisions := total
    cells := [[0, 2], [1]] }

/-- The state `example_ghost_progress` before the binder runs: nothing gathered, no bonds. -/
def example_ghost_state : State ℚ :=
  example_ghost_progress [] 0 [] [] []

/-- The example environment built without `VIRTUAL_SITES_RELATIVE`. -/
def example_env_no_vs : Env ℚ :=
  { example_env with VIRTUAL_SITES_RELATIVE := false }

/-- Three particles of the examples: identity 0 of type 1 at the origin, identity 1 of type 2
at distance 1 and identity 2 of type `type2` at distance 1/2 on the first axis. -/
def example_glue_triple (type2 : Int) : List (Particle ℚ) :=
  [example_particle 0 1 0 false false, example_particle 1 2 1 false false,
   example_particle 2 type2 (1 / 2) false false]

/-- The example parameters as `collision_detection_set_params` stores them for the mode 8
(glue to surface), the glue distance 0 and the post-glue type `after`. -/
def example_params_retype (after : Int) : Collision_parameters ℚ :=
  { example_params 10 with
    dist_glued_part_to_vs := 0
    part_type_after_glueing := after }

/-- The particles of `example_glue_triple` after the event `(0, 1)` has been glued: particle 0
has the type `after` and carries the center bond and the vs bond, and the site 3 at the origin
is related to particle 1. -/
def example_glued_state (after type2 : Int) (queue : List (collision_struct ℚ)) : State ℚ :=
  { example_state (example_params_retype after) queue (example_glue_triple type2) with
    mem := [{ example_particle 0 after 0 false false with bl := [0, 1, 1, 3] },
            example_particle 1 2 1 false false,
            example_particle 2 type2 (1 / 2) false false,
            { example_particle 3 5 0 false true with vs_relative_to_particle_id := 1 }]
    local_particles := Function.update
      (example_state (example_params_retype after) queue (example_glue_triple type2)).local_particles
      3 (some 3)
    max_seen_particle := 3
    cells := [[0, 1, 2, 3]] }

/-- Two ghost particles of the examples at distance 1: identity 0 of type 1 and identity 1 of
type 2. -/
def example_ghost_pair : List (Particle ℚ) :=
  [example_particle 0 1 0 true false, example_particle 1 2 1 true false]

/-! ## Cluster geometry (src/core/cluster_analysis.cpp) -/

/-- What ends a run of the cluster geometry code without a value: a read through a null or
dangling `local_particles` entry, a read of `v[index]` on a vector of `size` elements with
`index ≥ size`, or the use of a variable that was never assigned. -/
inductive Fault where
  | null_pointer : Fault
  | out_of_bounds (index size : Nat) : Fault
  | uninitialised : Fault
  deriving DecidableEq

/-- The member of the class `Cluster` (declared in cluster_analysis.hpp) that the geometry
code reads: the ids of the particles of the cluster. -/
structure Cluster where
  particles : List Int
  deriving DecidableEq

/-- What the geometry code takes from the numerical libraries: `log` of math.h and the
residual sum of squares `sumsq` that `gsl_fit_linear` computes from the first `n = 5` elements
of its two arrays. -/
structure Numerics (K : Type) where
  log : K → K
  gsl_fit_linear : List K → List K → K

/-- The vectors and counters of the `while` loop of `Cluster::calculate_fractal_dimension`. -/
structure Fractal_state (K : Type) where
  rad : Nat
  k : Nat
  distances_smaller_than_rad : List K
  pcounts : List Nat
  diameters : List K
  log_pcounts : List K
  log_diameters : List K

/-- The body of the loop over the particles in `Cluster::calculate_cluster_center_of_mass`
for the particle `it`: the reference position is read through `local_particles[particles[0]]`,
the arguments of the `printf` read `local_particles[0]`, and the minimum image vector from the
reference to `local_particles[it]` is added to `sum_of_distances`. -/
def Cluster.center_of_mass_step (env : Env K) (st : State K) (c : Cluster)
    (sum_of_distances : Vec3 K) (it : Int) : Except Fault (Vec3 K) :=
  match c.particles.head? with
  | none => Except.error (Fault.out_of_bounds 0 0)
  | some first =>
    match get_particle st first, get_particle st 0, get_particle st it with
    | some reference_particle, some _, some p =>
      Except.ok (Vec3.add sum_of_distances (env.get_mi_vector reference_particle.pos p.pos))
    | _, _, _ => Except.error Fault.null_pointer

/-- The function `Cluster::calculate_cluster_center_of_mass`: the sum of the minimum image
vectors times `1.0 / particles.size()`. -/
def Cluster.calculate_cluster_center_of_mass (env : Env K) (st : State K) (c : Cluster) :
    Except Fault (Vec3 K) :=
  match c.particles.foldlM (Cluster.center_of_mass_step env st c) ⟨0, 0, 0⟩ with
  | Except.ok sum_of_distances =>
    Except.ok (Vec3.smul (1 / (c.particles.length : K)) sum_of_distances)
  | Except.error f => Except.error f

/-- The first loop of `Cluster::calculate_fractal_dimension` (lines 331-339): for every
`i < cluster_size` the squared length of the minimum image vector from the center of mass to
`local_particles[i]` is pushed onto `distances`. -/
def Cluster.fractal_distances (env : Env K) (st : State K) (com : Vec3 K) (cluster_size : Nat) :
    Except Fault (List K) :=
  (List.range cluster_size).foldlM
    (fun (distances : List K) (i : Nat) =>
      match get_particle st (i : Int) with
      | some p => Except.ok (distances ++ [sqrlen (env.get_mi_vector com p.pos)])
      | none => Except.error Fault.null_pointer)
    []

/-- The `while (k < particles.size())` loop of `Cluster::calculate_fractal_dimension` (lines
345-366) for `n = particles.size()`. Every iteration increments `rad` and reads
`distances[rad]`, so after at most `distances.size()` iterations the loop has ended or has
read past the end of `distances`; the first argument bounds the number of iterations and is
`distances.size()` in `Cluster.calculate_fractal_dimension`. -/
def Cluster.fractal_loop (lib : Numerics K) (n : Nat) (distances : List K) :
    Nat → Fractal_state K → Except Fault (Fractal_state K)
  | 0, s =>
    if s.k < n then Except.error (Fault.out_of_bounds (s.rad + 1) distances.length)
    else Except.ok s
  | fuel + 1, s =>
    if s.k < n then
      let rad := s.rad + 1
      match distances[rad]? with
      | none => Except.error (Fault.out_of_bounds rad distances.length)
      | some d =>
        if d < (rad : K) then
          let distances_smaller_than_rad := s.distances_smaller_than_rad ++ [d]
          let k := distances_smaller_than_rad.length
          if k > 0 then
            Cluster.fractal_loop lib n distances fuel
              { rad := rad
                k := k + 1
                distances_smaller_than_rad := distances_smaller_than_rad
                pcounts := s.pcounts ++ [k]
                diameters := s.diameters ++ [(rad : K) * 2]
                log_pcounts := s.log_pcounts ++ [lib.log (k : K)]
                log_diameters := s.log_diameters ++ [lib.log ((rad : K) * 2)] }
          else
            Cluster.fractal_loop lib n distances fuel
              { s with rad := rad, k := k + 1,
                       distances_smaller_than_rad := distances_smaller_than_rad }
        else Cluster.fractal_loop lib n distances fuel { s with rad := rad, k := s.k + 1 }
    else Except.ok s

/-- The function `Cluster::calculate_fractal_dimension`, compiled with GSL (without it
`sumsq` is not declared). `gsl_fit_linear` is called with `n = 5` and reads five elements of
`log_diameters` and of `log_pcounts`; when `diameters` has at most one element `sumsq` is
returned without having been assigned. -/
def Cluster.calculate_fractal_dimension (env : Env K) (lib : Numerics K) (st : State K)
    (c : Cluster) : Except Fault K :=
  match Cluster.calculate_cluster_center_of_mass env st c with
  | Except.error f => Except.error f
  | Except.ok com =>
    match Cluster.fractal_distances env st com c.particles.length with
    | Except.error f => Except.error f
    | Except.ok distances =>
      match Cluster.fractal_loop lib c.particles.length distances distances.length
          ⟨0, 0, [], [], [], [], []⟩ with
      | Except.error f => Except.error f
      | Except.ok s =>
        if s.diameters.length > 1 then
          if s.log_diameters.length < 5 then
            Except.error (Fault.out_of_bounds s.log_diameters.length s.log_diameters.length)
          else Except.ok (lib.gsl_fit_linear (s.log_diameters.take 5) (s.log_pcounts.take 5))
        else Except.error Fault.uninitialised

/-- Library functions for the examples: a constant logarithm and a constant fit. -/
def example_numerics : Numerics ℚ where
  log := fun _ => 0
  gsl_fit_linear := fun _ _ => 0

/-- The state `s'` has the `local_particles`, cells, Global Queue and its total of `s`, and at
every address a record with the identity of the record of `s` there. -/
def search_frame (s s' : State K) : Prop :=
  s'.local_particles = s.local_particles ∧ s'.cells = s.cells
    ∧ s'.gathered_queue = s.gathered_queue ∧ s'.total_collisions = s.total_collisions
    ∧ ∀ a : Nat, (s'.mem[a]?).map (fun (r : Particle K) => r.identity)
        = (s.mem[a]?).map (fun (r : Particle K) => r.identity)

/-- The placements the full sweep is specified to attempt for the particle at address `p` and
the Global Queue event `g`, as (center, partner, partner) triples of addresses: none if the
particle has the identity of a particle of the event, otherwise the three cyclic
assignments (center P; p1, p2), (center p1; P, p2), (center p2; P, p1). -/
def full_search_entry_placements (st : State K) (p : Nat) (g : collision_struct K) :
    List (Nat × Nat × Nat) :=
  match st.local_particles g.pp1, st.local_particles g.pp2 with
  | some p1, some p2 =>
    if (st.mem[p]?).map (fun (r : Particle K) => r.identity)
          = (st.mem[p1]?).map (fun (r : Particle K) => r.identity)
        ∨ (st.mem[p]?).map (fun (r : Particle K) => r.identity)
          = (st.mem[p2]?).map (fun (r : Particle K) => r.identity)
    then []
    else [(p, p1, p2), (p1, p, p2), (p2, p, p1)]
  | _, _ => []

/-- The placements the full sweep is specified to attempt on the state `st`: for every
particle stored in a local cell and every event of the Global Queue, in this order, the
placements of `full_search_entry_placements`. -/
def full_search_placements (env : Env K) (st : State K) : List (Nat × Nat × Nat) :=
  env.local_cells.flatMap fun c =>
    (st.cells.getD c []).flatMap fun p =>
      (gathered_entries st).flatMap fun g => full_search_entry_placements st p g

/-- The example environment without domain decomposition on two ranks where the other rank
has queued the pair (1, 2). -/
def example_env_remote_event : Env ℚ :=
  { example_env_two_ranks false with rank_queue := fun _ => [⟨1, 2, ⟨3 / 4, 0, 0⟩⟩] }

/-- The particles of `example_ghost_progress` on a rank whose own Local Queue is empty. The
arguments are the gathered queue, its count and the bond list of particle 0. -/
def example_remote_progress (gathered : List (collision_struct ℚ)) (total : Nat)
    (bl0 : List Int) : State ℚ :=
  { example_ghost_progress gathered total bl0 [] [] with collision_queue := [] }

/-- The example environment without domain decomposition seen from rank 1 of two ranks, where
rank 0 has queued the pair (5, 6) of two particles that rank 1 does not store. -/
def example_env_unknown_event : Env ℚ :=
  { example_env_two_ranks false with
    this_node := 1
    rank_queue := fun _ => [⟨5, 6, ⟨1, 0, 0⟩⟩] }

/-- The number of particles the virtual site loop of `handle_collisions` is specified to
create per queue entry in the mode `mode`: six with triangle binding, otherwise two with the
virtual site pair flag, otherwise one with the glue to surface flag, otherwise none. -/
def sites_per_mode (env : Env K) (mode : Nat) : Nat :=
  if flag_set mode env.COLLISION_MODE_TRIANGLE_BINDING then 6
  else if flag_set mode env.COLLISION_MODE_VS then 2
  else if flag_set mode env.COLLISION_MODE_GLUE_TO_SURF then 1
  else 0

/-- The state `s` is `s0` after exactly `k` particles were created: the parameters are the
same, the particle memory has `k` more records, `max_seen_particle` grew by `k`, the
identities up to the old `max_seen_particle` resolve as before, every old record is still at
its address with the same identity, virtual flag and position, every new record is flagged
virtual and has the configured vs particle type, and the `k` identities after the old
`max_seen_particle` resolve to the new records in order. -/
def sites_created (s0 s : State K) (k : Nat) : Prop :=
  s.collision_params = s0.collision_params
    ∧ s.mem.length = s0.mem.length + k
    ∧ s.max_seen_particle = s0.max_seen_particle + (k : Int)
    ∧ (∀ id : Int, id ≤ s0.max_seen_particle → s.local_particles id = s0.local_particles id)
    ∧ (∀ (a : Nat) (r : Particle K), s0.mem[a]? = some r →
        ∃ r' : Particle K, s.mem[a]? = some r' ∧ r'.identity = r.identity
          ∧ r'.isVirtual = r.isVirtual ∧ r'.pos = r.pos)
    ∧ (∀ a : Nat, s0.mem.length ≤ a → a < s.mem.length →
        ∃ sr : Particle K, s.mem[a]? = some sr ∧ sr.isVirtual = true
          ∧ sr.type = s0.collision_params.vs_particle_type)
    ∧ (∀ j : Nat, j < k →
        s.local_particles (s0.max_seen_particle + 1 + (j : Int)) = some (s0.mem.length + j))

/-- The number of particles one run of the body of the virtual site loop creates in the mode
`mode`: six in the triangle branch, otherwise one site for the second particle and, with the
virtual site pair flag, one for the first. -/
def sites_per_entry (env : Env K) (mode : Nat) : Nat :=
  if flag_set mode env.COLLISION_MODE_TRIANGLE_BINDING then 6
  else if flag_set mode env.COLLISION_MODE_VS then 2
  else 1

/-! ## Cluster structure (src/core/cluster_analysis.cpp) -/

/-- A `std::map<int, V>` of the C++ standard library is kept as the list of its entries in
iteration order (ascending keys); `map_find m k` is the value of `m.find(k)`, `none` for
`m.end()`. -/
def map_find {V : Type} : List (Int × V) → Int → Option V
  | [], _ => none
  | (k', v) :: rest, k => if k' = k then some v else map_find rest k

/-- The assignment `m[k] = v` on a `std::map<int, V>`: the value of an existing key is
replaced, a new key is inserted at its place in the key order. -/
def map_insert {V : Type} : List (Int × V) → Int → V → List (Int × V)
  | [], k, v => [(k, v)]
  | (k', v') :: rest, k, v =>
    if k < k' then (k, v) :: (k', v') :: rest
    else if k = k' then (k, v) :: rest
    else (k', v') :: map_insert rest k v

/-- Modelled from the spec: the class declaration of `ClusterStructure`
(cluster_analysis.hpp) is not part of the sources. The members are taken from their uses in
cluster_analysis.cpp: the cluster objects by cluster id, the cluster id of every particle that
has one, the map of cluster ids that were found to denote the same cluster, and the neighbour
criterion (`none` is the null pointer; `nc->are_neighbors` is a function of the two particles).
The three maps are taken to be `std::map`, as the local `to_be_changed` of `merge_clusters`
is declared, so that a loop over a map visits the keys in ascending order. The runtime error
messages are collected in `runtime_errors`. -/
structure ClusterStructure (K : Type) where
  clusters : List (Int × Cluster)
  cluster_id : List (Int × Int)
  cluster_identities : List (Int × Int)
  nc : Option (Particle K → Particle K → Bool)
  runtime_errors : List String

/-- The function `ClusterStructure::clear`. -/
def ClusterStructure.clear (cs : ClusterStructure K) : ClusterStructure K :=
  { cs with clusters := [], cluster_id := [], cluster_identities := [] }

/-- The function `ClusterStructure::part_of_cluster`. -/
def ClusterStructure.part_of_cluster (cs : ClusterStructure K) (p : Particle K) : Bool :=
  (map_find cs.cluster_id p.identity).isSome

/-- The `while` loop of `ClusterStructure::find_id_for`, started at `tmp`. Every iteration
follows one entry of `cluster_identities`; the first argument bounds the number of lookups
and `none` is returned when it is used up. -/
def find_id_for_loop (cluster_identities : List (Int × Int)) : Nat → Int → Option Int
  | 0, _ => none
  | fuel + 1, tmp =>
    match map_find cluster_identities tmp with
    | some next => find_id_for_loop cluster_identities fuel next
    | none => some tmp

/-- The function `ClusterStructure::find_id_for`. A run that has looked up more keys than
the map has entries has seen one key twice and goes on forever, so the loop is given one
lookup more than the map has entries; `none` stands for a run that does not end. -/
def ClusterStructure.find_id_for (cs : ClusterStructure K) (x : Int) : Option Int :=
  find_id_for_loop cs.cluster_identities (cs.cluster_identities.length + 1) x

/-- The function `ClusterStructure::get_next_free_cluster_id`: one more than the largest
cluster id stored in `cluster_id`, and 1 if there is none above 0. -/
def ClusterStructure.get_next_free_cluster_id (cs : ClusterStructure K) : Int :=
  cs.cluster_id.foldl
    (fun max_seen_cluster it => if max_seen_cluster < it.2 then it.2 else max_seen_cluster) 0 + 1

/-- The function `ClusterStructure::add_pair`. The lookups `cluster_id.at(...)` are made
only for particles that are part of a cluster; `none` is a run in which `find_id_for` does
not end. -/
def ClusterStructure.add_pair (cs : ClusterStructure K) (p1 p2 : Particle K) :
    Option (ClusterStructure K) :=
  match cs.nc with
  | none =>
    some { cs with runtime_errors := cs.runtime_errors ++ ["No cluster criterion defined"] }
  | some nc =>
    if nc p1 p2 then
      if !cs.part_of_cluster p1 && !cs.part_of_cluster p2 then
        let cid := cs.get_next_free_cluster_id
        some { cs with
          cluster_id := map_insert (map_insert cs.cluster_id p1.identity cid) p2.identity cid }
      else if cs.part_of_cluster p2 && !cs.part_of_cluster p1 then
        match map_find cs.cluster_id p2.identity with
        | some c2 =>
          (cs.find_id_for c2).map fun cid =>
            { cs with cluster_id := map_insert cs.cluster_id p1.identity cid }
        | none => none
      else if cs.part_of_cluster p1 && !cs.part_of_cluster p2 then
        match map_find cs.cluster_id p1.identity with
        | some c1 =>
          (cs.find_id_for c1).map fun cid =>
            { cs with cluster_id := map_insert cs.cluster_id p2.identity cid }
        | none => none
      else if cs.part_of_cluster p1 && cs.part_of_cluster p2
          && map_find cs.cluster_id p1.identity != map_find cs.cluster_id p2.identity then
        match map_find cs.cluster_id p1.identity, map_find cs.cluster_id p2.identity with
        | some c1, some c2 =>
          (cs.find_id_for c1).bind fun cid1 =>
          (cs.find_id_for c2).bind fun cid2 =>
            if cid1 > cid2 then
              some { cs with cluster_identities := map_insert cs.cluster_identities cid1 cid2 }
            else if cid1 < cid2 then
              some { cs with cluster_identities := map_insert cs.cluster_identities cid2 cid1 }
            else some cs
        | _, _ => none
      else some cs
    else some cs

/-- The statement `clusters[cid].particles.push_back(pid)`: `operator[]` inserts an empty
cluster object for a new key. -/
def push_particle (clusters : List (Int × Cluster)) (cid pid : Int) : List (Int × Cluster) :=
  map_insert clusters cid ⟨((map_find clusters cid).getD ⟨[]⟩).particles ++ [pid]⟩

/-- The first loop of `ClusterStructure::merge_clusters` (lines 134-145) on the entry `it` of
`cluster_id`: the final cluster id is noted in `to_be_changed` and an empty cluster object is
created for it if there is none. -/
def merge_clusters_note (cs : ClusterStructure K)
    (acc : List (Int × Int) × List (Int × Cluster)) (it : Int × Int) :
    Option (List (Int × Int) × List (Int × Cluster)) :=
  (cs.find_id_for it.2).map fun cid =>
    (map_insert acc.1 it.1 cid,
     if (map_find acc.2 cid).isNone then map_insert acc.2 cid ⟨[]⟩ else acc.2)

/-- The last loop of `ClusterStructure::merge_clusters` (lines 162-164): `for (auto c :
clusters)` sorts the particle ids of a copy `c` of every entry; the copy is dropped at the end
of the iteration. -/
def sort_cluster_copies (clusters : List (Int × Cluster)) : List (Int × Cluster) :=
  clusters.foldl
    (fun acc c =>
      (fun (_ : Cluster) => acc) ⟨List.insertionSort (fun a b => a ≤ b) c.2.particles⟩)
    clusters

/-- The function `ClusterStructure::merge_clusters`. -/
def ClusterStructure.merge_clusters (cs : ClusterStructure K) : Option (ClusterStructure K) :=
  (cs.cluster_id.foldlM (merge_clusters_note cs) ([], cs.clusters)).map fun noted =>
    let to_be_changed := noted.1
    let cluster_id := to_be_changed.foldl (fun m it => map_insert m it.1 it.2) cs.cluster_id
    let clusters := cluster_id.foldl (fun cl it => push_particle cl it.2 it.1) noted.2
    { cs with cluster_id := cluster_id, clusters := sort_cluster_copies clusters }

/-- A sequence of `add_pair` calls, in order. -/
def ClusterStructure.add_pairs (cs : ClusterStructure K)
    (calls : List (Particle K × Particle K)) : Option (ClusterStructure K) :=
  calls.foldlM (fun s c => s.add_pair c.1 c.2) cs

/-- The pairs of particle identities of the calls for which the neighbour criterion returned
true; none without a criterion. -/
def neighbour_pairs (nc : Option (Particle K → Particle K → Bool))
    (calls : List (Particle K × Particle K)) : List (Int × Int) :=
  match nc with
  | none => []
  | some f => (calls.filter fun c => f c.1 c.2).map fun c => (c.1.identity, c.2.identity)

/-- The particles `a` and `b` form one of the pairs of `pairs`, in either order. -/
def pair_edge (pairs : List (Int × Int)) (a b : Int) : Prop :=
  (a, b) ∈ pairs ∨ (b, a) ∈ pairs

/-- The particles `a` and `b` are connected by a chain of one or more pairs of `pairs`. -/
def chain_connected (pairs : List (Int × Int)) (a b : Int) : Prop :=
  Relation.TransGen (pair_edge pairs) a b

/-- Every entry of the map leads from a cluster id to a strictly smaller one. -/
def identities_decreasing (m : List (Int × Int)) : Prop :=
  ∀ k v : Int, map_find m k = some v → v < k

/-- The keys of the map are in strictly ascending order. -/
def keys_ascending {V : Type} (m : List (Int × V)) : Prop :=
  (m.map fun e => e.1).Pairwise (fun a b => a < b)

/-- The cluster a particle id currently belongs to: the entry of `cluster_id`, followed through
`cluster_identities` by `find_id_for`; `none` when the id has no entry. -/
def cluster_label (cs : ClusterStructure K) (a : Int) : Option Int :=
  (map_find cs.cluster_id a).bind cs.find_id_for

/-- A labelling `L` of ids agrees with a relation `R` of pairs: the two ends of a pair carry one
label, ids with one label are joined by a chain of pairs, and a labelled id is in a pair. -/
def labels_match_graph (L : Int → Option Int) (R : Int → Int → Prop) : Prop :=
  (∀ a b, R a b → ∃ c, L a = some c ∧ L b = some c) ∧
  (∀ a b c, L a = some c → L b = some c → Relation.ReflTransGen R a b) ∧
  (∀ a c, L a = some c → ∃ z, R a z)

/-- The state of a `ClusterStructure` between `clear()` and `merge_clusters()`, after the pairs
`pairs` have passed the neighbour criterion: every redirection of `cluster_identities` goes to a
smaller id, every redirected id is at most a cluster id in use, `cluster_id` is in key order, no
cluster object exists yet, and the labels agree with the pairs. -/
structure labelling_invariant (cs : ClusterStructure K) (pairs : List (Int × Int)) : Prop where
  decreasing : identities_decreasing cs.cluster_identities
  keys_bounded : ∀ k v, map_find cs.cluster_identities k = some v →
    ∃ pid c, map_find cs.cluster_id pid = some c ∧ k ≤ c
  ascending : keys_ascending cs.cluster_id
  no_clusters : cs.clusters = []
  labels : labels_match_graph (cluster_label cs) (pair_edge pairs)

/-- The change one `add_pair` call makes to `cluster_identities`, from `cs` to `cs'`: none, or
one assignment `cluster_identities[k] = v` in which `v < k`, the key `k` had no entry, and both
`k` and `v` are values `find_id_for` returned for the cluster ids of particles. -/
def identities_write (cs cs' : ClusterStructure K) : Prop :=
  cs'.cluster_identities = cs.cluster_identities ∨
  ∃ k v, cs'.cluster_identities = map_insert cs.cluster_identities k v ∧ v < k ∧
    map_find cs.cluster_identities k = none ∧
    (∃ pid c, map_find cs.cluster_id pid = some c ∧ cs.find_id_for c = some k) ∧
    (∃ pid c, map_find cs.cluster_id pid = some c ∧ cs.find_id_for c = some v)

/-- The particle ids whose entry in `cluster_id` is the cluster id `c`, in the iteration order
of the map. -/
def cluster_members (cluster_id : List (Int × Int)) (c : Int) : List Int :=
  (cluster_id.filter fun it => decide (it.2 = c)).map fun it => it.1

/-- A cluster structure of the examples: stale entries in all three maps, and a criterion that
holds for two particles of the same type. -/
def example_cluster_structure : ClusterStructure ℚ where
  clusters := [(9, ⟨[9]⟩)]
  cluster_id := [(9, 9)]
  cluster_identities := [(9, 8)]
  nc := some fun p q => p.type == q.type
  runtime_errors := []

/-- The `add_pair` calls of the examples, by particle id: 1-2, 3-4, 2-3, 5-4 and 7-8 between
particles of type 0, and 6-1 between particles of different types. -/
def example_cluster_calls : List (Particle ℚ × Particle ℚ) :=
  [(example_particle 1 0 0 false false, example_particle 2 0 0 false false),
   (example_particle 3 0 0 false false, example_particle 4 0 0 false false),
   (example_particle 2 0 0 false false, example_particle 3 0 0 false false),
   (example_particle 5 0 0 false false, example_particle 4 0 0 false false),
   (example_particle 6 1 0 false false, example_particle 1 0 0 false false),
   (example_particle 7 0 0 false false, example_particle 8 0 0 false false)]

/-! ## Theorems -/

/-! ### The bond list scan of `bond_exists` -/

theorem getElem?_append_cons_length {α : Type} (done rest : List α) (a : α) :
    (done ++ a :: rest)[done.length]? = some a := by
  rw [List.getElem?_append_right (le_refl _)]
  simp

theorem getElem?_append_cons_cons_length {α : Type} (done rest : List α) (a b : α) :
    (done ++ a :: b :: rest)[done.length + 1]? = some b := by
  rw [List.getElem?_append_right (Nat.le_succ _)]
  simp

theorem bond_exists_loop_past_end (env : Env K) (e : List Int) (partner bt : Int)
    (fuel i : Nat) (h : e.length ≤ i) : bond_exists_loop env e partner bt fuel i = false := by
  cases fuel with
  | zero => rfl
  | succ n =>
    unfold bond_exists_loop
    simp [Nat.not_lt.mpr h]

theorem bond_exists_loop_complete (env : Env K) (partner bt : Int) (post : List Int)
    (pre : List (List Int)) :
    ∀ (done : List Int) (fuel : Nat), (∀ en ∈ pre, well_formed_entry env en) →
      (done ++ (pre.flatten ++ bt :: partner :: post)).length ≤ fuel + done.length →
      bond_exists_loop env (done ++ (pre.flatten ++ bt :: partner :: post)) partner bt fuel
        done.length = true := by
  induction pre with
  | nil =>
    intro done fuel _ hlen
    cases fuel with
    | zero => simp at hlen
    | succ n =>
      unfold bond_exists_loop
      rw [if_pos (by simp), if_pos]
      simp only [List.flatten_nil, List.nil_append, getElem?_append_cons_length,
        getElem?_append_cons_cons_length, beq_self_eq_true, Bool.and_self]
  | cons en pre ih =>
    intro done fuel hwf hlen
    obtain ⟨t, ps, rfl, hps⟩ := hwf _ (List.mem_cons_self _ _)
    cases fuel with
    | zero => simp at hlen
    | succ n =>
      unfold bond_exists_loop
      have hlt : done.length < (done ++ (((t :: ps) :: pre).flatten ++ bt :: partner :: post)).length := by
        simp
      rw [if_pos hlt]
      split
      · rfl
      · have hget : (done ++ (((t :: ps) :: pre).flatten ++ bt :: partner :: post)).getD done.length 0 = t := by
          have hflat : ((t :: ps) :: pre).flatten ++ bt :: partner :: post
              = t :: (ps ++ (pre.flatten ++ bt :: partner :: post)) := by simp
          rw [List.getD_eq_getElem?_getD, hflat, getElem?_append_cons_length]
          rfl
        rw [hget]
        have hrew : done ++ (((t :: ps) :: pre).flatten ++ bt :: partner :: post)
            = (done ++ t :: ps) ++ (pre.flatten ++ bt :: partner :: post) := by simp
        have hidx : done.length + env.bonded_ia_params t + 1 = (done ++ t :: ps).length := by
          simp [hps]; omega
        rw [hidx, hrew]
        apply ih
        · intro en hen
          exact hwf en (List.mem_cons_of_mem _ hen)
        · rw [← hrew]
          simp at hlen ⊢
          omega

theorem bond_exists_loop_sound (env : Env K) (e : List Int) (partner bt : Int) :
    ∀ (fuel i : Nat) (pre : List (List Int)), (∀ en ∈ pre, well_formed_entry env en) →
      e.take i = pre.flatten → i ≤ e.length →
      bond_exists_loop env e partner bt fuel i = true → has_bond_entry env e bt partner := by
  intro fuel
  induction fuel with
  | zero => intro i pre _ _ _ h; simp [bond_exists_loop] at h
  | succ n ih =>
    intro i pre hwf htake hile h
    unfold bond_exists_loop at h
    by_cases hlt : i < e.length
    · rw [if_pos hlt] at h
      split at h
      · rename_i hc
        simp only [Bool.and_eq_true, beq_iff_eq] at hc
        obtain ⟨h0, h1⟩ := hc
        obtain ⟨hlt1, h1'⟩ := List.getElem?_eq_some.mp h1
        obtain ⟨_, h0'⟩ := List.getElem?_eq_some.mp h0
        refine ⟨pre, e.drop (i + 2), hwf, ?_⟩
        rw [← htake]
        conv_lhs => rw [← List.take_append_drop i e]
        rw [List.drop_eq_getElem_cons hlt, List.drop_eq_getElem_cons hlt1, h0', h1']
      · have hlt2 : i + env.bonded_ia_params (e.getD i 0) + 1 < e.length := by
          by_contra hge
          rw [bond_exists_loop_past_end env e partner bt n _ (Nat.not_lt.mp hge)] at h
          exact Bool.noConfusion h
        have hgetD : e.getD i 0 = e[i] := by
          simp [List.getD_eq_getElem?_getD, List.getElem?_eq_getElem hlt]
        apply ih (i + env.bonded_ia_params (e.getD i 0) + 1)
          (pre ++ [e[i] :: (e.drop (i + 1)).take (env.bonded_ia_params (e.getD i 0))])
        · intro en hen
          rcases List.mem_append.mp hen with hen | hen
          · exact hwf en hen
          · simp only [List.mem_singleton] at hen
            refine ⟨e[i], _, hen, ?_⟩
            rw [hgetD]
            simp [List.length_take]
            rw [hgetD] at hlt2
            omega
        · have hcons : List.take (env.bonded_ia_params (e.getD i 0) + 1) (List.drop i e)
              = e[i] :: List.take (env.bonded_ia_params (e.getD i 0)) (List.drop (i + 1) e) := by
            rw [List.drop_eq_getElem_cons hlt, List.take_succ_cons]
          rw [List.flatten_append, ← htake, Nat.add_assoc, List.take_add, hcons]
          simp
        · omega
        · exact h
    · rw [if_neg hlt] at h
      exact Bool.noConfusion h

theorem bond_exists_iff (env : Env K) (p partner : Particle K) (bond_type : Int) :
    bond_exists env p partner bond_type = true
      ↔ has_bond_entry env p.bl bond_type partner.identity := by
  constructor
  · intro h
    exact bond_exists_loop_sound env p.bl partner.identity bond_type p.bl.length 0 []
      (by simp) (by simp) (by simp) h
  · rintro ⟨pre, post, hwf, hbl⟩
    unfold bond_exists
    have := bond_exists_loop_complete env partner.identity bond_type post pre [] p.bl.length hwf
      (by simp [hbl])
    simpa [hbl] using this

/-! ### Configuration -/

/-- C1: whenever `collision_detection_set_params` returns a non-zero status, the state after
the call is the state before it: every field of `collision_params`, `recalc_forces` and the
registered particle types are untouched (and nothing was broadcast). -/
theorem set_params_error_keeps_state (env : Env K) (st : State K) (mode : Nat) (d : K)
    (bond_centers bond_vs t d2 tg tv ta bond_three_particles angle_resolution : Int)
    (triangle_size : K)
    (h : (collision_detection_set_params env st mode d bond_centers bond_vs t d2 tg tv ta
      bond_three_particles angle_resolution triangle_size).1 ≠ 0) :
    (collision_detection_set_params env st mode d bond_centers bond_vs t d2 tg tv ta
      bond_three_particles angle_resolution triangle_size).2 = st := by
  unfold collision_detection_set_params at h ⊢
  by_cases hs : validate_params env (expand_mode env mode) bond_centers bond_vs
      bond_three_particles angle_resolution = 0
  · simp [hs] at h
  · simp [hs]

/-- C1, run on a center bond id outside the table: status 3, state untouched. -/
theorem set_params_error_keeps_state_witness :
    (collision_detection_set_params example_env (example_state (example_params 0) [] [])
        2 1 9 1 5 0 1 2 3 2 4 1).1 ≠ 0
    ∧ (collision_detection_set_params example_env (example_state (example_params 0) [] [])
        2 1 9 1 5 0 1 2 3 2 4 1).2 = example_state (example_params 0) [] [] :=
  ⟨by decide, set_params_error_keeps_state example_env _ 2 1 9 1 5 0 1 2 3 2 4 1 (by decide)⟩


/-! ### The detector -/

theorem detect_collision_inv (env : Env K) (st st' : State K) (p1 p2 : Nat)
    (h : detect_collision env st p1 p2 = some st') :
    st' = st ∨ ∃ (r1 r2 q1 q2 : Particle K) (a1 a2 : Nat) (ev : collision_struct K),
      st.mem[p1]? = some r1 ∧ st.mem[p2]? = some r2
      ∧ st.local_particles r1.identity = some a1 ∧ st.local_particles r2.identity = some a2
      ∧ st.mem[a1]? = some q1 ∧ st.mem[a2]? = some q2
      ∧ a1 ≠ a2
      ∧ ¬ (q1.ghost = true ∧ q2.ghost = true)
      ∧ bond_exists env q1 q2 st.collision_params.bond_centers = false
      ∧ bond_exists env q2 q1 st.collision_params.bond_centers = false
      ∧ flag_set st.collision_params.mode env.COLLISION_MODE_BOND = true
      ∧ st' = { st with collision_queue := st.collision_queue ++ [ev] }
      ∧ ((flag_set st.collision_params.mode env.COLLISION_MODE_GLUE_TO_SURF = false
            ∧ ev = ⟨r1.identity, r2.identity,
                Vec3.sub q1.pos (Vec3.smul (1 / 2) (Vec3.sub r1.pos r2.pos))⟩)
          ∨ (flag_set st.collision_params.mode env.COLLISION_MODE_GLUE_TO_SURF = true
            ∧ q1.type = st.collision_params.part_type_to_be_glued
            ∧ q2.type = st.collision_params.part_type_to_attach_vs_to
            ∧ ev = ⟨r1.identity, r2.identity,
                Vec3.sub q1.pos (Vec3.smul (st.collision_params.dist_glued_part_to_vs
                  / env.sqrt (sqrlen (Vec3.sub r1.pos r2.pos))) (Vec3.sub r1.pos r2.pos))⟩)
          ∨ (flag_set st.collision_params.mode env.COLLISION_MODE_GLUE_TO_SURF = true
            ∧ q2.type = st.collision_params.part_type_to_be_glued
            ∧ q1.type = st.collision_params.part_type_to_attach_vs_to
            ∧ ev = ⟨r2.identity, r1.identity,
                Vec3.sub q1.pos (Vec3.smul (-st.collision_params.dist_glued_part_to_vs
                  / env.sqrt (sqrlen (Vec3.sub r1.pos r2.pos))) (Vec3.sub r1.pos r2.pos))⟩)) := by
  unfold detect_collision at h
  split at h
  · rename_i r1 r2 hr1 hr2
    simp only [distance2vec] at h
    split at h
    · left; exact (Option.some.inj h).symm
    split at h
    · left; exact (Option.some.inj h).symm
    split at h
    · left; exact (Option.some.inj h).symm
    unfold detect_collision_resolved at h
    split at h
    · split at h
      · exact Option.noConfusion h
      · left; exact (Option.some.inj h).symm
    · rename_i a1 a2 ha1 ha2
      split at h
      · rename_i q1 q2 hq1 hq2
        split at h
        · left; exact (Option.some.inj h).symm
        split at h
        · left; exact (Option.some.inj h).symm
        rename_i hne
        split at h
        · left; exact (Option.some.inj h).symm
        rename_i hb1
        split at h
        · left; exact (Option.some.inj h).symm
        rename_i hb2
        unfold detect_collision_queue_pair at h
        simp only at h
        split at h
        · rename_i hbond
          split at h
          · left; exact (Option.some.inj h).symm
          rename_i hghost
          right
          refine ⟨r1, r2, q1, q2, a1, a2, ?_⟩
          split at h
          · rename_i hg
            refine ⟨_, hr1, hr2, ha1, ha2, hq1, hq2, hne, by simpa using hghost,
              by simpa using hb1, by simpa using hb2, hbond, (Option.some.inj h).symm, ?_⟩
            left
            exact ⟨by simpa using hg, rfl⟩
          rename_i hg
          split at h
          · rename_i ht
            simp only [Bool.and_eq_true, beq_iff_eq] at ht
            refine ⟨_, hr1, hr2, ha1, ha2, hq1, hq2, hne, by simpa using hghost,
              by simpa using hb1, by simpa using hb2, hbond, (Option.some.inj h).symm, ?_⟩
            right; left
            exact ⟨by simpa using hg, ht.1, ht.2, rfl⟩
          split at h
          · rename_i ht
            simp only [Bool.and_eq_true, beq_iff_eq] at ht
            refine ⟨_, hr1, hr2, ha1, ha2, hq1, hq2, hne, by simpa using hghost,
              by simpa using hb1, by simpa using hb2, hbond, (Option.some.inj h).symm, ?_⟩
            right; right
            exact ⟨by simpa using hg, ht.1, ht.2, rfl⟩
          · exact Option.noConfusion h
        · left; exact (Option.some.inj h).symm
      · exact Option.noConfusion h
    · exact Option.noConfusion h
  · exact Option.noConfusion h
/-- C3: if the bond list of either resolved particle contains an entry (center bond type,
identity of the other resolved particle), `detect_collision` returns the state it was given:
the queue and its count are unchanged, for every distance, interaction magnitude and mode. -/
theorem detect_collision_bonded_pair_unchanged (env : Env K) (st : State K) (p1 p2 a1 a2 : Nat)
    (r1 r2 q1 q2 : Particle K)
    (hr1 : st.mem[p1]? = some r1) (hr2 : st.mem[p2]? = some r2)
    (ha1 : st.local_particles r1.identity = some a1)
    (ha2 : st.local_particles r2.identity = some a2)
    (hq1 : st.mem[a1]? = some q1) (hq2 : st.mem[a2]? = some q2)
    (hbond : has_bond_entry env q1.bl st.collision_params.bond_centers q2.identity
      ∨ has_bond_entry env q2.bl st.collision_params.bond_centers q1.identity) :
    detect_collision env st p1 p2 = some st := by
  unfold detect_collision
  simp only [hr1, hr2]
  split
  · rfl
  split
  · rfl
  split
  · rfl
  unfold detect_collision_resolved
  simp only [ha1, ha2, hq1, hq2]
  split
  · rfl
  split
  · rfl
  split
  · rfl
  rename_i hb1
  split
  · rfl
  rename_i hb2
  rcases hbond with hb | hb
  · exact absurd ((bond_exists_iff env q1 q2 _).mpr hb) hb1
  · exact absurd ((bond_exists_iff env q2 q1 _).mpr hb) hb2

theorem detect_collision_eq_queue_pair (env : Env K) (st : State K) (p1 p2 a1 a2 : Nat)
    (r1 r2 q1 q2 : Particle K)
    (hr1 : st.mem[p1]? = some r1) (hr2 : st.mem[p2]? = some r2)
    (ha1 : st.local_particles r1.identity = some a1)
    (ha2 : st.local_particles r2.identity = some a2)
    (hq1 : st.mem[a1]? = some q1) (hq2 : st.mem[a2]? = some q2)
    (hdist : env.sqrt (sqrlen (Vec3.sub r1.pos r2.pos)) ≤ st.collision_params.distance)
    (hen : env.gb_pair_energy r1 r2 (Vec3.sub r1.pos r2.pos)
          (env.sqrt (sqrlen (Vec3.sub r1.pos r2.pos))) < -(1 / 1000)
      ∨ 1 / 1000 < env.gb_pair_energy r1 r2 (Vec3.sub r1.pos r2.pos)
          (env.sqrt (sqrlen (Vec3.sub r1.pos r2.pos))))
    (hnb1 : ¬ has_bond_entry env q1.bl st.collision_params.bond_centers q2.identity)
    (hnb2 : ¬ has_bond_entry env q2.bl st.collision_params.bond_centers q1.identity)
    (hne : a1 ≠ a2)
    (hvirt : env.VIRTUAL_SITES_RELATIVE = true → q1.isVirtual = false ∧ q2.isVirtual = false)
    (hglue : flag_set st.collision_params.mode env.COLLISION_MODE_GLUE_TO_SURF = true →
      glue_types_match st.collision_params r1.type r2.type = true) :
    detect_collision env st p1 p2
      = detect_collision_queue_pair env st q1 q2 r1.identity r2.identity
          (Vec3.sub r1.pos r2.pos) (env.sqrt (sqrlen (Vec3.sub r1.pos r2.pos))) := by
  have hb1 : bond_exists env q1 q2 st.collision_params.bond_centers = false := by
    rw [← Bool.not_eq_true, bond_exists_iff]; exact hnb1
  have hb2 : bond_exists env q2 q1 st.collision_params.bond_centers = false := by
    rw [← Bool.not_eq_true, bond_exists_iff]; exact hnb2
  have hvirt2 : (env.VIRTUAL_SITES_RELATIVE && (q1.isVirtual || q2.isVirtual)) = false := by
    cases hv : env.VIRTUAL_SITES_RELATIVE
    · rfl
    · simp [(hvirt hv).1, (hvirt hv).2]
  have hen2 : ¬ (env.gb_pair_energy r1 r2 (Vec3.sub r1.pos r2.pos)
          (env.sqrt (sqrlen (Vec3.sub r1.pos r2.pos))) ≥ -(1 / 1000)
      ∧ env.gb_pair_energy r1 r2 (Vec3.sub r1.pos r2.pos)
          (env.sqrt (sqrlen (Vec3.sub r1.pos r2.pos))) ≤ 1 / 1000) := by
    rintro ⟨h1, h2⟩
    rcases hen with h | h
    · exact absurd h1 (not_le.mpr h)
    · exact absurd h2 (not_le.mpr h)
  have hfilter : (flag_set st.collision_params.mode env.COLLISION_MODE_GLUE_TO_SURF
      && !glue_types_match st.collision_params r1.type r2.type) = false := by
    cases hg : flag_set st.collision_params.mode env.COLLISION_MODE_GLUE_TO_SURF
    · rfl
    · simp [hglue hg]
  unfold detect_collision
  simp only [hr1, hr2, distance2vec]
  rw [if_neg (not_lt.mpr hdist), if_neg hen2]
  simp only [hfilter, Bool.false_eq_true, if_false]
  unfold detect_collision_resolved
  simp only [ha1, ha2, hq1, hq2, hvirt2, hb1, hb2, hne, Bool.false_eq_true, if_false]

/-- C2 (amended): a pair within the threshold distance, with an interaction magnitude
outside the band `[-0.001, 0.001]` and without a center bond entry in either direction is
queued exactly once, with the two input identities in input order or swapped by the glue to
surface reordering, provided the mode contains BOND, the two identities resolve to two
different records that are not virtual (when virtual sites are compiled in) and not both
ghosts, and, in the glue to surface mode, the types of the pair as passed and as resolved
are the to-be-glued and the attach-to type. -/
theorem detect_collision_queues_once (env : Env K) (st : State K) (p1 p2 a1 a2 : Nat)
    (r1 r2 q1 q2 : Particle K)
    (hr1 : st.mem[p1]? = some r1) (hr2 : st.mem[p2]? = some r2)
    (ha1 : st.local_particles r1.identity = some a1)
    (ha2 : st.local_particles r2.identity = some a2)
    (hq1 : st.mem[a1]? = some q1) (hq2 : st.mem[a2]? = some q2)
    (hdist : env.sqrt (sqrlen (Vec3.sub r1.pos r2.pos)) ≤ st.collision_params.distance)
    (hen : env.gb_pair_energy r1 r2 (Vec3.sub r1.pos r2.pos)
          (env.sqrt (sqrlen (Vec3.sub r1.pos r2.pos))) < -(1 / 1000)
      ∨ 1 / 1000 < env.gb_pair_energy r1 r2 (Vec3.sub r1.pos r2.pos)
          (env.sqrt (sqrlen (Vec3.sub r1.pos r2.pos))))
    (hnb1 : ¬ has_bond_entry env q1.bl st.collision_params.bond_centers q2.identity)
    (hnb2 : ¬ has_bond_entry env q2.bl st.collision_params.bond_centers q1.identity)
    (hmode : flag_set st.collision_params.mode env.COLLISION_MODE_BOND = true)
    (hne : a1 ≠ a2)
    (hvirt : env.VIRTUAL_SITES_RELATIVE = true → q1.isVirtual = false ∧ q2.isVirtual = false)
    (hghost : ¬ (q1.ghost = true ∧ q2.ghost = true))
    (hglue : flag_set st.collision_params.mode env.COLLISION_MODE_GLUE_TO_SURF = true →
      glue_types_match st.collision_params r1.type r2.type = true
        ∧ glue_types_match st.collision_params q1.type q2.type = true) :
    ∃ ev : collision_struct K,
      detect_collision env st p1 p2
          = some { st with collision_queue := st.collision_queue ++ [ev] }
        ∧ ((ev.pp1 = r1.identity ∧ ev.pp2 = r2.identity)
          ∨ (flag_set st.collision_params.mode env.COLLISION_MODE_GLUE_TO_SURF = true
              ∧ ev.pp1 = r2.identity ∧ ev.pp2 = r1.identity)) := by
  have hghost2 : (q1.ghost && q2.ghost) = false := by
    cases h1 : q1.ghost <;> cases h2 : q2.ghost <;> simp_all
  rw [detect_collision_eq_queue_pair env st p1 p2 a1 a2 r1 r2 q1 q2 hr1 hr2 ha1 ha2 hq1 hq2
    hdist hen hnb1 hnb2 hne hvirt (fun hg => (hglue hg).1)]
  unfold detect_collision_queue_pair
  cases hg : flag_set st.collision_params.mode env.COLLISION_MODE_GLUE_TO_SURF
  · simp only [hmode, hghost2, hg, if_true, Bool.false_eq_true, if_false, Bool.not_false]
    exact ⟨_, rfl, Or.inl ⟨rfl, rfl⟩⟩
  · obtain ⟨_, hgq⟩ := hglue hg
    simp only [hmode, hghost2, hg, if_true, Bool.false_eq_true, if_false, Bool.not_true]
    split
    · exact ⟨_, rfl, Or.inl ⟨rfl, rfl⟩⟩
    · rename_i hn1
      split
      · exact ⟨_, rfl, Or.inr ⟨by simp, rfl, rfl⟩⟩
      · rename_i hn2
        unfold glue_types_match at hgq
        simp only [Bool.or_eq_true] at hgq
        rcases hgq with h | h
        · exact absurd h hn1
        · exact absurd h hn2

/-- C3, run on the bonded pair of the examples in BOND mode. -/
theorem detect_collision_bonded_pair_unchanged_witness :
    detect_collision example_env (example_state (example_params 2) [] example_bonded_pair) 0 1
      = some (example_state (example_params 2) [] example_bonded_pair) :=
  detect_collision_bonded_pair_unchanged example_env
    (example_state (example_params 2) [] example_bonded_pair) 0 1 0 1
    { example_particle 0 1 0 false false with bl := [0, 1] }
    (example_particle 1 2 (1 / 2) false false)
    { example_particle 0 1 0 false false with bl := [0, 1] }
    (example_particle 1 2 (1 / 2) false false)
    rfl rfl rfl rfl rfl rfl (Or.inl ⟨[], [], by simp, rfl⟩)

/-- C2 as stated fails: a particle and a virtual site at distance 1/2 (threshold 1), with
interaction magnitude 1 and empty bond lists, are not queued. -/
theorem detect_collision_virtual_pair_not_queued :
    example_env.sqrt (sqrlen (Vec3.sub (example_particle 0 1 0 false false).pos
        (example_particle 1 5 (1 / 2) false true).pos)) ≤ (example_params 6).distance
    ∧ 1 / 1000 < example_env.gb_pair_energy (example_particle 0 1 0 false false)
        (example_particle 1 5 (1 / 2) false true)
        (Vec3.sub (example_particle 0 1 0 false false).pos
          (example_particle 1 5 (1 / 2) false true).pos)
        (example_env.sqrt (sqrlen (Vec3.sub (example_particle 0 1 0 false false).pos
          (example_particle 1 5 (1 / 2) false true).pos)))
    ∧ ¬ has_bond_entry example_env (example_particle 0 1 0 false false).bl
        (example_params 6).bond_centers 1
    ∧ ¬ has_bond_entry example_env (example_particle 1 5 (1 / 2) false true).bl
        (example_params 6).bond_centers 0
    ∧ detect_collision example_env (example_state (example_params 6) [] example_virtual_pair) 0 1
      = some (example_state (example_params 6) [] example_virtual_pair)
    ∧ (example_state (example_params 6) [] example_virtual_pair).collision_queue.length = 0 := by
  refine ⟨?_, ?_, ?_, ?_, ?_, rfl⟩
  · norm_num [example_env, example_sqrt, sqrlen, Vec3.sub, example_particle, example_params]
  · norm_num [example_env]
  · rintro ⟨pre, post, _, h⟩
    simp [example_particle] at h
  · rintro ⟨pre, post, _, h⟩
    simp [example_particle] at h
  · simp [detect_collision, example_state, example_virtual_pair, example_params,
      example_particle, example_env, distance2vec, sqrlen, Vec3.sub, example_sqrt, flag_set,
      detect_collision_resolved, glue_types_match]

/-- C2 (amended), run on the pair of the examples at distance 1/2 in BOND mode: the event
`(0, 1)` is appended. -/
theorem detect_collision_queues_once_witness :
    ∃ ev : collision_struct ℚ,
      detect_collision example_env (example_state (example_params 2) [] (example_pair (1 / 2))) 0 1
          = some { example_state (example_params 2) [] (example_pair (1 / 2)) with
              collision_queue := [] ++ [ev] }
        ∧ ((ev.pp1 = 0 ∧ ev.pp2 = 1)
          ∨ (flag_set 2 example_env.COLLISION_MODE_GLUE_TO_SURF = true ∧ ev.pp1 = 1 ∧ ev.pp2 = 0)) :=
  detect_collision_queues_once example_env
    (example_state (example_params 2) [] (example_pair (1 / 2))) 0 1 0 1
    (example_particle 0 1 0 false false) (example_particle 1 2 (1 / 2) false false)
    (example_particle 0 1 0 false false) (example_particle 1 2 (1 / 2) false false)
    rfl rfl rfl rfl rfl rfl
    (by norm_num [example_env, example_sqrt, sqrlen, Vec3.sub, example_particle, example_params,
      example_state])
    (Or.inr (by norm_num [example_env]))
    (by rintro ⟨pre, post, _, h⟩; simp [example_particle] at h)
    (by rintro ⟨pre, post, _, h⟩; simp [example_particle] at h)
    (by decide) (by decide) (fun _ => ⟨rfl, rfl⟩) (by decide) (by decide)

/-! ### Sequences of detector calls -/

theorem same_pair_symm {a b : Int × Int} (h : same_pair a b) : same_pair b a := by
  rcases h with ⟨h1, h2⟩ | ⟨h1, h2⟩
  · exact Or.inl ⟨h1.symm, h2.symm⟩
  · exact Or.inr ⟨h2.symm, h1.symm⟩

theorem same_pair_trans {a b c : Int × Int} (h : same_pair a b) (h' : same_pair b c) :
    same_pair a c := by
  rcases h with ⟨h1, h2⟩ | ⟨h1, h2⟩ <;> rcases h' with ⟨h3, h4⟩ | ⟨h3, h4⟩
  · exact Or.inl ⟨h1.trans h3, h2.trans h4⟩
  · exact Or.inr ⟨h1.trans h3, h2.trans h4⟩
  · exact Or.inr ⟨h1.trans h4, h2.trans h3⟩
  · exact Or.inl ⟨h1.trans h4, h2.trans h3⟩

theorem detect_collision_step (env : Env K) (st st' : State K) (p1 p2 : Nat)
    (h : detect_collision env st p1 p2 = some st') :
    st' = st ∨ ∃ (ev : collision_struct K) (ia : Int × Int),
      st' = { st with collision_queue := st.collision_queue ++ [ev] }
      ∧ pair_identities st (p1, p2) = some ia ∧ same_pair (ev.pp1, ev.pp2) ia := by
  rcases detect_collision_inv env st st' p1 p2 h with h | ⟨r1, r2, q1, q2, a1, a2, ev, hr1, hr2,
    _, _, _, _, _, _, _, _, _, hst, hev⟩
  · exact Or.inl h
  · right
    refine ⟨ev, (r1.identity, r2.identity), hst, ?_, ?_⟩
    · simp [pair_identities, hr1, hr2]
    · rcases hev with ⟨_, rfl⟩ | ⟨_, _, _, rfl⟩ | ⟨_, _, _, rfl⟩
      · exact Or.inl ⟨rfl, rfl⟩
      · exact Or.inl ⟨rfl, rfl⟩
      · exact Or.inr ⟨rfl, rfl⟩

theorem detect_collisions_appends (env : Env K) (pairs : List (Nat × Nat)) :
    ∀ (st0 st st' : State K), st.mem = st0.mem → detect_collisions env st pairs = some st' →
      pairs.Pairwise (fun a b => ∀ ia ib, pair_identities st0 a = some ia →
        pair_identities st0 b = some ib → ¬ same_pair ia ib) →
      st'.mem = st0.mem ∧ ∃ new : List (collision_struct K),
        st'.collision_queue = st.collision_queue ++ new
        ∧ new.Pairwise (fun e f => ¬ same_pair (e.pp1, e.pp2) (f.pp1, f.pp2))
        ∧ ∀ e ∈ new, ∃ pr ∈ pairs, ∃ ia, pair_identities st0 pr = some ia
            ∧ same_pair (e.pp1, e.pp2) ia := by
  induction pairs with
  | nil =>
    intro st0 st st' hmem hrun _
    simp only [detect_collisions, List.foldlM_nil] at hrun
    cases Option.some.inj hrun
    exact ⟨hmem, [], by simp, List.Pairwise.nil, by simp⟩
  | cons pr rest ih =>
    intro st0 st st' hmem hrun hpw
    simp only [detect_collisions, List.foldlM_cons] at hrun
    cases hfirst : detect_collision env st pr.1 pr.2 with
    | none => simp [hfirst] at hrun
    | some s1 =>
      rw [hfirst] at hrun
      have hrest : detect_collisions env s1 rest = some st' := hrun
      rw [List.pairwise_cons] at hpw
      rcases detect_collision_step env st s1 pr.1 pr.2 hfirst with rfl | ⟨ev, ia, rfl, hia, hsame⟩
      · obtain ⟨hm, new, hq, hnew, hcov⟩ := ih st0 s1 st' hmem hrest hpw.2
        refine ⟨hm, new, hq, hnew, ?_⟩
        intro e he
        obtain ⟨pr', hpr', hx⟩ := hcov e he
        exact ⟨pr', List.mem_cons_of_mem _ hpr', hx⟩
      · obtain ⟨hm, new, hq, hnew, hcov⟩ :=
          ih st0 { st with collision_queue := st.collision_queue ++ [ev] } st' hmem hrest hpw.2
        have hia0 : pair_identities st0 pr = some ia := by
          simpa [pair_identities, hmem] using hia
        refine ⟨hm, ev :: new, by simpa using hq, ?_, ?_⟩
        · rw [List.pairwise_cons]
          refine ⟨?_, hnew⟩
          intro f hf hsame'
          obtain ⟨pr', hpr', ib, hib, hfb⟩ := hcov f hf
          exact hpw.1 pr' hpr' ia ib hia0 hib
            (same_pair_trans (same_pair_trans (same_pair_symm hsame) hsame') hfb)
        · intro e he
          rcases List.mem_cons.mp he with rfl | he
          · exact ⟨pr, List.mem_cons_self _ _, ia, hia0, hsame⟩
          · obtain ⟨pr', hpr', hx⟩ := hcov e he
            exact ⟨pr', List.mem_cons_of_mem _ hpr', hx⟩
/-! ### Writes through `local_particles` -/

theorem modify_at_eq (st st' : State K) (a : Nat) (f : Particle K → Particle K)
    (h : modify_at st a f = some st') :
    ∃ r, st.mem[a]? = some r ∧ st' = { st with mem := st.mem.set a (f r) } := by
  unfold modify_at at h
  split at h
  · rename_i r hr
    exact ⟨r, hr, (Option.some.inj h).symm⟩
  · exact Option.noConfusion h

theorem modify_particle_eq (st st' : State K) (part : Int) (f : Particle K → Particle K)
    (h : modify_particle st part f = some st') :
    ∃ a r, st.local_particles part = some a ∧ st.mem[a]? = some r
      ∧ st' = { st with mem := st.mem.set a (f r) } := by
  unfold modify_particle at h
  split at h
  · rename_i a ha
    obtain ⟨r, hr, hst⟩ := modify_at_eq st st' a f h
    exact ⟨a, r, ha, hr, hst⟩
  · exact Option.noConfusion h

theorem modify_particle_of_resolved (st : State K) (part : Int) (f : Particle K → Particle K)
    (a : Nat) (r : Particle K) (ha : st.local_particles part = some a)
    (hr : st.mem[a]? = some r) :
    modify_particle st part f = some { st with mem := st.mem.set a (f r) } := by
  simp [modify_particle, modify_at, ha, hr]

theorem get_particle_eq_some (st : State K) (part : Int) (r : Particle K) :
    get_particle st part = some r
      ↔ ∃ a, st.local_particles part = some a ∧ st.mem[a]? = some r := by
  unfold get_particle
  cases h : st.local_particles part with
  | none => simp
  | some a => simp

theorem ghost_of_local_change_bond (st st' : State K) (part : Int) (bond : List Int)
    (h : local_change_bond st part bond = some st') :
    st'.collision_params = st.collision_params
      ∧ ∀ id, (get_particle st' id).map (fun r => r.ghost)
          = (get_particle st id).map (fun r => r.ghost) := by
  obtain ⟨a, r, ha, hr, rfl⟩ := modify_particle_eq st st' part _ h
  refine ⟨rfl, fun id => ?_⟩
  unfold get_particle
  simp only
  cases hid : st.local_particles id with
  | none => rfl
  | some b =>
    simp only [List.getElem?_set]
    by_cases hab : a = b
    · subst hab
      have hlt : a < st.mem.length := (List.getElem?_eq_some.mp hr).1
      simp [hlt, hr]
    · simp [hab]

theorem center_bond_insertion_congr (st st' : State K) (e : collision_struct K)
    (h : ∀ id, (get_particle st' id).map (fun r => r.ghost)
          = (get_particle st id).map (fun r => r.ghost)) :
    center_bond_insertion st' e = center_bond_insertion st e := by
  have h1 := h e.pp1
  unfold center_bond_insertion
  cases h' : get_particle st' e.pp1 <;> cases h0 : get_particle st e.pp1 <;>
    simp_all

theorem handle_collisions_bond_eq (st : State K) (e : collision_struct K) :
    handle_collisions_bond st e
      = local_change_bond st (center_bond_insertion st e).1
          [st.collision_params.bond_centers, (center_bond_insertion st e).2] := by
  unfold handle_collisions_bond center_bond_insertion
  cases h : get_particle st e.pp1 with
  | some r =>
    by_cases hg : r.ghost = true <;> simp [hg]
  | none =>
    simp only
    unfold local_change_bond modify_particle
    unfold get_particle at h
    cases ha : st.local_particles e.pp1 with
    | none => rfl
    | some a =>
      simp only [ha] at h
      simp [modify_at, h]

theorem bond_loop_eq (q : List (collision_struct K)) :
    ∀ (s st0 : State K),
      (∀ id, (get_particle s id).map (fun r => r.ghost)
          = (get_particle st0 id).map (fun r => r.ghost)) →
      s.collision_params = st0.collision_params →
      q.foldlM handle_collisions_bond s
        = (q.map (center_bond_insertion st0)).foldlM
            (fun t pr => local_change_bond t pr.1 [st0.collision_params.bond_centers, pr.2]) s := by
  induction q with
  | nil => intro s st0 _ _; rfl
  | cons e q ih =>
    intro s st0 hg hp
    simp only [List.map_cons, List.foldlM_cons]
    rw [handle_collisions_bond_eq, center_bond_insertion_congr st0 s e hg, hp]
    cases hstep : local_change_bond s (center_bond_insertion st0 e).1
        [st0.collision_params.bond_centers, (center_bond_insertion st0 e).2] with
    | none => rfl
    | some s1 =>
      obtain ⟨hp1, hg1⟩ := ghost_of_local_change_bond s s1 _ _ hstep
      exact ih s1 st0 (fun id => (hg1 id).trans (hg id)) (hp1.trans hp)
theorem handle_exception_single_frame (env : Env K) (s : State K) (e : collision_struct K) :
    ∃ n, handle_exception_throwing_for_single_collision env s e = { s with notices := n } := by
  unfold handle_exception_throwing_for_single_collision runtimeError
  split
  · split
    · exact ⟨_, rfl⟩
    · exact ⟨_, rfl⟩
  · exact ⟨s.notices, rfl⟩

theorem handle_collisions_exceptions_frame (env : Env K) (st : State K) :
    ∃ n, handle_collisions_exceptions env st = { st with notices := n } := by
  have hfold : ∀ (q : List (collision_struct K)) (s : State K),
      ∃ n, q.foldl (handle_exception_throwing_for_single_collision env) s
        = { s with notices := n } := by
    intro q
    induction q with
    | nil => intro s; exact ⟨s.notices, rfl⟩
    | cons e q ih =>
      intro s
      obtain ⟨n1, h1⟩ := handle_exception_single_frame env s e
      obtain ⟨n, h⟩ := ih { s with notices := n1 }
      exact ⟨n, by rw [List.foldl_cons, h1, h]⟩
  unfold handle_collisions_exceptions
  split
  · exact hfold _ _
  · exact ⟨st.notices, rfl⟩

/-- C4 (amended): within one step, if no unordered pair of identities is presented to the
detector twice, the Local Queue built from an empty queue holds no two events for the same
unordered pair; the center bond loop of `handle_collisions` performs exactly one insertion
per queued event, and no two of these insertions are for the same unordered pair. -/
theorem detect_collisions_no_duplicate_pair (env : Env K) (st st' : State K)
    (pairs : List (Nat × Nat))
    (hq : st.collision_queue = [])
    (hrun : detect_collisions env st pairs = some st')
    (hdistinct : pairs.Pairwise (fun a b => ∀ ia ib, pair_identities st a = some ia →
      pair_identities st b = some ib → ¬ same_pair ia ib)) :
    st'.collision_queue.Pairwise (fun e f => ¬ same_pair (e.pp1, e.pp2) (f.pp1, f.pp2))
    ∧ handle_collisions_bonds env (handle_collisions_exceptions env st')
        = (if flag_set st'.collision_params.mode env.COLLISION_MODE_BOND then
            (st'.collision_queue.map (center_bond_insertion st')).foldlM
              (fun t pr => local_change_bond t pr.1 [st'.collision_params.bond_centers, pr.2])
              (handle_collisions_exceptions env st')
          else some (handle_collisions_exceptions env st'))
    ∧ (st'.collision_queue.map (center_bond_insertion st')).Pairwise
        (fun a b => ¬ same_pair a b) := by
  obtain ⟨_, new, hnewq, hpw, _⟩ := detect_collisions_appends env pairs st st st' rfl hrun hdistinct
  rw [hq, List.nil_append] at hnewq
  have hqueue : st'.collision_queue.Pairwise
      (fun e f => ¬ same_pair (e.pp1, e.pp2) (f.pp1, f.pp2)) := by
    rw [hnewq]; exact hpw
  have hins : ∀ e : collision_struct K,
      same_pair (center_bond_insertion st' e) (e.pp1, e.pp2) := by
    intro e
    unfold center_bond_insertion
    split
    · split
      · exact Or.inr ⟨rfl, rfl⟩
      · exact Or.inl ⟨rfl, rfl⟩
    · exact Or.inl ⟨rfl, rfl⟩
  refine ⟨hqueue, ?_, ?_⟩
  · obtain ⟨n, hn⟩ := handle_collisions_exceptions_frame env st'
    unfold handle_collisions_bonds
    rw [hn]
    simp only
    split
    · exact bond_loop_eq _ _ st' (fun _ => rfl) rfl
    · rfl
  · rw [List.pairwise_map]
    refine hqueue.imp ?_
    intro e f hef hsame
    exact hef (same_pair_trans (same_pair_trans (same_pair_symm (hins e)) hsame) (hins f))

/-- C4 as stated fails: the pair of the examples presented twice in one step, once in each
argument order, leaves two events for the same unordered pair in the queue. -/
theorem detect_collisions_same_pair_twice :
    ∃ st2 : State ℚ,
      detect_collisions example_env (example_state (example_params 2) [] (example_pair (1 / 2)))
          [(0, 1), (1, 0)] = some st2
      ∧ st2.collision_queue.map (fun e => (e.pp1, e.pp2)) = [(0, 1), (1, 0)]
      ∧ same_pair ((0 : Int), (1 : Int)) (1, 0) := by
  have h1 := detect_collision_eq_queue_pair example_env
    (example_state (example_params 2) [] (example_pair (1 / 2))) 0 1 0 1
    (example_particle 0 1 0 false false) (example_particle 1 2 (1 / 2) false false)
    (example_particle 0 1 0 false false) (example_particle 1 2 (1 / 2) false false)
    rfl rfl rfl rfl rfl rfl
    (by norm_num [example_env, example_sqrt, sqrlen, Vec3.sub, example_particle, example_params,
      example_state])
    (Or.inr (by norm_num [example_env]))
    (by rintro ⟨pre, post, _, h⟩; simp [example_particle] at h)
    (by rintro ⟨pre, post, _, h⟩; simp [example_particle] at h)
    (by decide) (fun _ => ⟨rfl, rfl⟩) (by decide)
  have h1' : detect_collision example_env
      (example_state (example_params 2) [] (example_pair (1 / 2))) 0 1
      = some (example_state (example_params 2) [⟨0, 1, ⟨1 / 4, 0, 0⟩⟩] (example_pair (1 / 2))) := by
    rw [h1]
    simp [detect_collision_queue_pair, flag_set, (by decide : (2 : ℕ) &&& 8 = 0), example_state, example_params, example_env,
      example_particle, queue_collision, Vec3.sub, Vec3.smul, example_pair]
    norm_num
  have h2 := detect_collision_eq_queue_pair example_env
    (example_state (example_params 2) [⟨0, 1, ⟨1 / 4, 0, 0⟩⟩] (example_pair (1 / 2))) 1 0 1 0
    (example_particle 1 2 (1 / 2) false false) (example_particle 0 1 0 false false)
    (example_particle 1 2 (1 / 2) false false) (example_particle 0 1 0 false false)
    rfl rfl rfl rfl rfl rfl
    (by norm_num [example_env, example_sqrt, sqrlen, Vec3.sub, example_particle, example_params,
      example_state])
    (Or.inr (by norm_num [example_env]))
    (by rintro ⟨pre, post, _, h⟩; simp [example_particle] at h)
    (by rintro ⟨pre, post, _, h⟩; simp [example_particle] at h)
    (by decide) (fun _ => ⟨rfl, rfl⟩) (by decide)
  have h2' : detect_collision example_env
      (example_state (example_params 2) [⟨0, 1, ⟨1 / 4, 0, 0⟩⟩] (example_pair (1 / 2))) 1 0
      = some (example_state (example_params 2) [⟨0, 1, ⟨1 / 4, 0, 0⟩⟩, ⟨1, 0, ⟨1 / 4, 0, 0⟩⟩]
          (example_pair (1 / 2))) := by
    rw [h2]
    simp [detect_collision_queue_pair, flag_set, (by decide : (2 : ℕ) &&& 8 = 0), example_state, example_params, example_env,
      example_particle, queue_collision, Vec3.sub, Vec3.smul, example_pair]
    norm_num
  refine ⟨example_state (example_params 2) [⟨0, 1, ⟨1 / 4, 0, 0⟩⟩, ⟨1, 0, ⟨1 / 4, 0, 0⟩⟩]
    (example_pair (1 / 2)), ?_, ?_, Or.inr ⟨rfl, rfl⟩⟩
  · simp only [detect_collisions, List.foldlM_cons, List.foldlM_nil]
    rw [h1']
    simp only [Option.bind_eq_bind, Option.some_bind]
    rw [h2']
    rfl
  · rfl

theorem example_three_pairs_detect :
    detect_collisions example_env (example_state (example_params 2) [] (example_glue_triple 1))
        [(0, 1), (0, 2), (1, 2)]
      = some (example_state (example_params 2)
          [⟨0, 1, ⟨1 / 2, 0, 0⟩⟩, ⟨0, 2, ⟨1 / 4, 0, 0⟩⟩, ⟨1, 2, ⟨3 / 4, 0, 0⟩⟩]
          (example_glue_triple 1)) := by
  have hb : flag_set 2 2 = true := by decide
  have hg : flag_set 2 8 = false := by decide
  norm_num [detect_collisions, detect_collision, detect_collision_resolved,
    detect_collision_queue_pair, example_state, example_params, example_env, example_glue_triple,
    example_particle, example_sqrt, distance2vec, sqrlen, Vec3.sub, Vec3.smul, bond_exists,
    bond_exists_loop, queue_collision, hb, hg, (by decide : Int.toNat 2 = 2),
    (by decide : Int.toNat 1 = 1)]

theorem example_three_pairs_distinct :
    [((0 : Nat), (1 : Nat)), (0, 2), (1, 2)].Pairwise
      (fun a b => ∀ ia ib,
        pair_identities (example_state (example_params 2) [] (example_glue_triple 1)) a = some ia →
        pair_identities (example_state (example_params 2) [] (example_glue_triple 1)) b = some ib →
        ¬ same_pair ia ib) := by
  have h01 : pair_identities (example_state (example_params 2) [] (example_glue_triple 1)) (0, 1)
      = some (0, 1) := rfl
  have h02 : pair_identities (example_state (example_params 2) [] (example_glue_triple 1)) (0, 2)
      = some (0, 2) := rfl
  have h12 : pair_identities (example_state (example_params 2) [] (example_glue_triple 1)) (1, 2)
      = some (1, 2) := rfl
  simp only [List.pairwise_cons, List.mem_cons, List.mem_singleton, List.not_mem_nil,
    List.Pairwise.nil, and_true, forall_eq_or_imp, forall_eq, h01, h02, h12, Option.some.injEq,
    IsEmpty.forall_iff, implies_true]
  refine ⟨⟨?_, ?_⟩, ?_⟩ <;> intro ia ib ha hb <;> subst ha <;> subst hb <;>
    simp [same_pair]

/-- C4 (amended), run on three particles of which the three pairs are presented once each:
the Local Queue holds the three events, no two of them for the same unordered pair, and no two
insertions of the center bond loop are for the same unordered pair. -/
theorem detect_collisions_no_duplicate_pair_witness :
    ∃ st1 : State ℚ,
      detect_collisions example_env (example_state (example_params 2) [] (example_glue_triple 1))
          [(0, 1), (0, 2), (1, 2)] = some st1
      ∧ st1.collision_queue.map (fun e => (e.pp1, e.pp2)) = [(0, 1), (0, 2), (1, 2)]
      ∧ st1.collision_queue.Pairwise (fun e f => ¬ same_pair (e.pp1, e.pp2) (f.pp1, f.pp2))
      ∧ (st1.collision_queue.map (center_bond_insertion st1)).Pairwise
          (fun a b => ¬ same_pair a b) :=
  ⟨_, example_three_pairs_detect, rfl,
    (detect_collisions_no_duplicate_pair example_env _ _ [(0, 1), (0, 2), (1, 2)] rfl
      example_three_pairs_detect example_three_pairs_distinct).1,
    (detect_collisions_no_duplicate_pair example_env _ _ [(0, 1), (0, 2), (1, 2)] rfl
      example_three_pairs_detect example_three_pairs_distinct).2.2⟩


/-! ### The center bond loop -/

theorem insertions_fold (bc : Int) (ins : List (Int × Int)) :
    ∀ s : State K,
      (∀ pr ∈ ins, ∃ a r, s.local_particles pr.1 = some a ∧ s.mem[a]? = some r) →
      ∃ s' : State K,
        ins.foldlM (fun t pr => local_change_bond t pr.1 [bc, pr.2]) s = some s'
        ∧ s' = { s with mem := s'.mem }
        ∧ ∀ a, s'.mem[a]? = (s.mem[a]?).map (fun (r : Particle K) =>
            { r with bl := r.bl ++ insertion_entries bc s.local_particles ins a }) := by
  induction ins with
  | nil =>
    intro s _
    refine ⟨s, rfl, rfl, fun a => ?_⟩
    cases s.mem[a]? <;> simp [insertion_entries]
  | cons pr rest ih =>
    intro s hres
    obtain ⟨a0, r0, ha0, hr0⟩ := hres pr (List.mem_cons_self _ _)
    have hstep : local_change_bond s pr.1 [bc, pr.2]
        = some { s with mem := s.mem.set a0 { r0 with bl := r0.bl ++ [bc, pr.2] } } :=
      modify_particle_of_resolved s pr.1 _ a0 r0 ha0 hr0
    have hlt : a0 < s.mem.length := (List.getElem?_eq_some.mp hr0).1
    obtain ⟨s', hfold, hframe, hmem⟩ :=
      ih { s with mem := s.mem.set a0 { r0 with bl := r0.bl ++ [bc, pr.2] } } (by
        intro pr' hpr'
        obtain ⟨a, r, ha, hr⟩ := hres pr' (List.mem_cons_of_mem _ hpr')
        by_cases haa : a0 = a
        · subst haa
          exact ⟨a0, { r0 with bl := r0.bl ++ [bc, pr.2] }, ha, by simp [List.getElem?_set, hlt]⟩
        · exact ⟨a, r, ha, by simp [List.getElem?_set, haa, hr]⟩)
    refine ⟨s', ?_, ?_, ?_⟩
    · rw [List.foldlM_cons, hstep]
      exact hfold
    · rw [hframe]
    · intro a
      rw [hmem a]
      simp only [List.getElem?_set]
      by_cases haa : a0 = a
      · subst haa
        simp [hlt, hr0, ha0, List.filter_cons, insertion_entries]
      · have hne : ¬ s.local_particles pr.1 = some a := by
          rw [ha0]; intro h; exact haa (Option.some.inj h)
        simp [haa, hne, List.filter_cons, insertion_entries]

/-! ### The binder on an empty queue -/

theorem counts_this_node (env : Env K) (st : State K) (h : env.this_node < env.n_nodes) :
    ((rank_queues env st).map List.length)[env.this_node]? = some st.collision_queue.length := by
  unfold rank_queues
  simp [List.getElem?_map, List.getElem?_range h]

/-- C6: on an empty Local Queue `handle_collisions` returns, in every mode, a state that
differs from the given one at most in the discarded Global Queue and its running total: no
bond list, particle, particle type, notice or resort signal changes and the queue is still
empty; without the three particle flag the state is the given one. -/
theorem handle_collisions_empty_queue [FloorRing K] (env : Env K) (fuel : Nat) (st : State K)
    (hq : st.collision_queue = []) (hnode : env.this_node < env.n_nodes) :
    ∃ st' : State K,
      handle_collisions env fuel st = some st'
      ∧ st' = { st with gathered_queue := st'.gathered_queue
                        total_collisions := st'.total_collisions }
      ∧ st'.collision_queue = []
      ∧ (flag_set st.collision_params.mode env.COLLISION_MODE_BIND_THREE_PARTICLES = false →
          st' = st) := by
  have hexc : handle_collisions_exceptions env st = st := by
    unfold handle_collisions_exceptions
    split
    · rw [hq]; rfl
    · rfl
  have hbonds : handle_collisions_bonds env st = some st := by
    unfold handle_collisions_bonds
    split
    · rw [hq]; rfl
    · rfl
  have hvs : handle_collisions_virtual_sites env fuel st = some st := by
    unfold handle_collisions_virtual_sites
    simp only
    split
    · rw [hq]; rfl
    · rfl
  have hfin : ∀ s : State K, s.collision_queue = [] → handle_collisions_finish env s = s := by
    intro s hs
    unfold handle_collisions_finish
    simp only [hs, List.length_nil, Nat.lt_irrefl, if_false, ite_self]
    cases s
    simp_all
  unfold handle_collisions
  rw [hexc, hbonds]
  simp only [Option.some_bind, hvs]
  cases hthree : flag_set st.collision_params.mode env.COLLISION_MODE_BIND_THREE_PARTICLES
  · simp only [Bool.false_eq_true, if_false, Option.some_bind]
    rw [hfin st hq]
    refine ⟨st, rfl, rfl, hq, fun _ => rfl⟩
  · simp only [if_true]
    have hcount : (gather_collision_queue env st).1[env.this_node]? = some 0 := by
      unfold gather_collision_queue
      simp only
      split
      · simp [List.getElem?_replicate, hnode]
      · simp only
        rw [counts_this_node env st hnode, hq]
        rfl
    have hg : ∃ g t, (gather_collision_queue env st).2
        = { st with gathered_queue := g, total_collisions := t } := by
      unfold gather_collision_queue
      simp only
      split
      · exact ⟨_, _, rfl⟩
      · exact ⟨_, _, rfl⟩
    obtain ⟨g, t, hg⟩ := hg
    unfold handle_collisions_three_particle
    simp only [hcount, Nat.lt_irrefl, if_false, Option.some_bind, hg]
    rw [hfin]
    · exact ⟨_, rfl, rfl, hq, fun h => Bool.noConfusion h⟩
    · exact hq

/-- C6, run in BOND mode with three particle binding (mode 18) on an empty queue. -/
theorem handle_collisions_empty_queue_witness :
    ∃ st' : State ℚ,
      handle_collisions example_env 0 (example_state (example_params 18) [] (example_pair (1 / 2)))
        = some st'
      ∧ st'.mem = example_pair (1 / 2) ∧ st'.notices = [] ∧ st'.resort_particles = false
      ∧ st'.collision_queue = [] := by
  obtain ⟨st', hrun, hframe, hq', _⟩ := handle_collisions_empty_queue example_env 0
    (example_state (example_params 18) [] (example_pair (1 / 2))) rfl (by decide)
  refine ⟨st', hrun, ?_, ?_, ?_, hq'⟩
  · rw [hframe]; rfl
  · rw [hframe]; rfl
  · rw [hframe]; rfl

/-! ### The glue to surface mode of the detector -/

theorem example_glue_detect (mode : Nat)
    (hg : flag_set mode example_env.COLLISION_MODE_GLUE_TO_SURF = true)
    (hb : flag_set mode example_env.COLLISION_MODE_BOND = true) :
    detect_collision example_env (example_state (example_params mode) [] (example_pair 1)) 0 1
      = some (example_state (example_params mode) [⟨0, 1, ⟨3 / 10, 0, 0⟩⟩] (example_pair 1)) := by
  rw [detect_collision_eq_queue_pair example_env
    (example_state (example_params mode) [] (example_pair 1)) 0 1 0 1
    (example_particle 0 1 0 false false) (example_particle 1 2 1 false false)
    (example_particle 0 1 0 false false) (example_particle 1 2 1 false false)
    rfl rfl rfl rfl rfl rfl
    (by norm_num [example_env, example_sqrt, sqrlen, Vec3.sub, example_particle, example_params,
      example_state])
    (Or.inr (by norm_num [example_env]))
    (by rintro ⟨pre, post, _, h⟩; simp [example_particle] at h)
    (by rintro ⟨pre, post, _, h⟩; simp [example_particle] at h)
    (by decide) (fun _ => ⟨rfl, rfl⟩) (fun _ => rfl)]
  have hg' : flag_set (example_state (example_params mode) [] (example_pair 1)).collision_params.mode
      example_env.COLLISION_MODE_GLUE_TO_SURF = true := hg
  have hb' : flag_set (example_state (example_params mode) [] (example_pair 1)).collision_params.mode
      example_env.COLLISION_MODE_BOND = true := hb
  unfold detect_collision_queue_pair
  simp only [hg', hb', if_true, Bool.not_true, Bool.false_eq_true, if_false]
  simp [example_state, example_params, example_env,
    example_particle, queue_collision, Vec3.sub, Vec3.smul, example_pair, sqrlen, example_sqrt]

/-- C8 as stated fails: in the glue to surface mode the to-be-glued particle 0 (type 1) and
the attach-to particle 1 (type 2) are queued as `(0, 1)`: the first id of the event is the
to-be-glued particle, not the attach-to particle. -/
theorem detect_collision_glue_first_id_is_glued :
    detect_collision example_env (example_state (example_params 10) [] (example_pair 1)) 0 1
      = some (example_state (example_params 10) [⟨0, 1, ⟨3 / 10, 0, 0⟩⟩] (example_pair 1))
    ∧ (example_particle 0 1 0 false false).type = (example_params 10).part_type_to_be_glued
    ∧ (example_particle 1 2 1 false false).type = (example_params 10).part_type_to_attach_vs_to
    ∧ (0 : Int) ≠ (example_particle 1 2 1 false false).identity :=
  ⟨example_glue_detect 10 (by decide) (by decide), rfl, rfl, by decide⟩

/-- C8 (amended): in the glue to surface mode, the event queued for an accepted pair has as
`pp1` the identity of the to-be-glued particle and as `pp2` the identity of the attach-to
particle (the types are those of the records `local_particles` resolves the identities to),
and the two ids are the identities of the two arguments, whichever was passed first. -/
theorem detect_collision_glue_order (env : Env K) (st st' : State K) (p1 p2 : Nat)
    (ev : collision_struct K)
    (hglue : flag_set st.collision_params.mode env.COLLISION_MODE_GLUE_TO_SURF = true)
    (hrun : detect_collision env st p1 p2 = some st')
    (hacc : st'.collision_queue = st.collision_queue ++ [ev]) :
    ∃ g a r1 r2 : Particle K,
      get_particle st ev.pp1 = some g ∧ g.type = st.collision_params.part_type_to_be_glued
      ∧ get_particle st ev.pp2 = some a ∧ a.type = st.collision_params.part_type_to_attach_vs_to
      ∧ st.mem[p1]? = some r1 ∧ st.mem[p2]? = some r2
      ∧ same_pair (ev.pp1, ev.pp2) (r1.identity, r2.identity) := by
  rcases detect_collision_inv env st st' p1 p2 hrun with rfl | ⟨r1, r2, q1, q2, a1, a2, ev', hr1,
    hr2, ha1, ha2, hq1, hq2, _, _, _, _, _, hst, hev⟩
  · have := congrArg List.length hacc
    simp at this
  · subst hst
    have hev' : ev' = ev := by simpa using hacc
    subst hev'
    have hg1 : get_particle st r1.identity = some q1 :=
      (get_particle_eq_some st _ q1).mpr ⟨a1, ha1, hq1⟩
    have hg2 : get_particle st r2.identity = some q2 :=
      (get_particle_eq_some st _ q2).mpr ⟨a2, ha2, hq2⟩
    rcases hev with ⟨hng, _⟩ | ⟨_, ht1, ht2, rfl⟩ | ⟨_, ht2, ht1, rfl⟩
    · rw [hglue] at hng
      exact Bool.noConfusion hng
    · exact ⟨q1, q2, r1, r2, hg1, ht1, hg2, ht2, hr1, hr2, Or.inl ⟨rfl, rfl⟩⟩
    · exact ⟨q2, q1, r1, r2, hg2, ht2, hg1, ht1, hr1, hr2, Or.inr ⟨rfl, rfl⟩⟩

/-- C8 (amended), run on the glue to surface example. -/
theorem detect_collision_glue_order_witness :
    ∃ g a r1 r2 : Particle ℚ,
      get_particle (example_state (example_params 10) [] (example_pair 1)) 0 = some g
      ∧ g.type = 1
      ∧ get_particle (example_state (example_params 10) [] (example_pair 1)) 1 = some a
      ∧ a.type = 2
      ∧ (example_pair 1)[0]? = some r1 ∧ (example_pair 1)[1]? = some r2
      ∧ same_pair ((0 : Int), (1 : Int)) (r1.identity, r2.identity) :=
  detect_collision_glue_order example_env (example_state (example_params 10) [] (example_pair 1))
    (example_state (example_params 10) [⟨0, 1, ⟨3 / 10, 0, 0⟩⟩] (example_pair 1)) 0 1
    ⟨0, 1, ⟨3 / 10, 0, 0⟩⟩ (by decide) (example_glue_detect 10 (by decide) (by decide)) rfl

/-- C9 as stated fails: with glue distance 3/10 and pair distance 1 the queued point is
`(3/10, 0, 0)`; its squared distance from the attach-to particle at `(1, 0, 0)` is 49/100,
not 9/100: the point lies 3/10 from the to-be-glued particle. -/
theorem detect_collision_glue_point_not_near_attach :
    detect_collision example_env (example_state (example_params 10) [] (example_pair 1)) 0 1
      = some (example_state (example_params 10) [⟨0, 1, ⟨3 / 10, 0, 0⟩⟩] (example_pair 1))
    ∧ (example_particle 1 2 1 false false).type = (example_params 10).part_type_to_attach_vs_to
    ∧ sqrlen (Vec3.sub (⟨3 / 10, 0, 0⟩ : Vec3 ℚ) (example_particle 1 2 1 false false).pos)
        = 49 / 100
    ∧ (49 / 100 : ℚ) ≠ (example_params 10).dist_glued_part_to_vs
        * (example_params 10).dist_glued_part_to_vs := by
  refine ⟨example_glue_detect 10 (by decide) (by decide), rfl, ?_, ?_⟩
  · norm_num [sqrlen, Vec3.sub, example_particle]
  · norm_num [example_params]

/-- C9 (amended): in the glue to surface mode, for an accepted pair whose first argument is
the to-be-glued particle, with an exact positive pair distance and a glue distance between 0
and the pair distance, the queued point of collision lies on the segment that starts at the
to-be-glued particle and follows the pair vector to the attach-to particle, at distance
equal to the glue distance from the to-be-glued particle. -/
theorem detect_collision_glue_point (env : Env K) (st st' : State K) (p1 p2 : Nat)
    (ev : collision_struct K) (r1 r2 q1 : Particle K)
    (hglue : flag_set st.collision_params.mode env.COLLISION_MODE_GLUE_TO_SURF = true)
    (hrun : detect_collision env st p1 p2 = some st')
    (hacc : st'.collision_queue = st.collision_queue ++ [ev])
    (hr1 : st.mem[p1]? = some r1) (hr2 : st.mem[p2]? = some r2)
    (hq1 : get_particle st r1.identity = some q1)
    (hfirst : q1.type = st.collision_params.part_type_to_be_glued)
    (hne : st.collision_params.part_type_to_be_glued
      ≠ st.collision_params.part_type_to_attach_vs_to)
    (hexact : env.sqrt (sqrlen (Vec3.sub r1.pos r2.pos))
      * env.sqrt (sqrlen (Vec3.sub r1.pos r2.pos)) = sqrlen (Vec3.sub r1.pos r2.pos))
    (hpos : 0 < env.sqrt (sqrlen (Vec3.sub r1.pos r2.pos)))
    (hg0 : 0 ≤ st.collision_params.dist_glued_part_to_vs)
    (hgle : st.collision_params.dist_glued_part_to_vs
      ≤ env.sqrt (sqrlen (Vec3.sub r1.pos r2.pos))) :
    ∃ t : K, 0 ≤ t ∧ t ≤ 1
      ∧ ev.point_of_collision = Vec3.add q1.pos (Vec3.smul t (Vec3.sub r2.pos r1.pos))
      ∧ sqrlen (Vec3.sub ev.point_of_collision q1.pos)
          = st.collision_params.dist_glued_part_to_vs * st.collision_params.dist_glued_part_to_vs := by
  rcases detect_collision_inv env st st' p1 p2 hrun with rfl | ⟨s1, s2, q1', q2, a1, a2, ev', hs1,
    hs2, ha1, _, hq1', _, _, _, _, _, _, hst, hev⟩
  · have := congrArg List.length hacc
    simp at this
  · subst hst
    have hev' : ev' = ev := by simpa using hacc
    subst hev'
    have e1 : s1 = r1 := Option.some.inj (hs1.symm.trans hr1)
    have e2 : s2 = r2 := Option.some.inj (hs2.symm.trans hr2)
    subst e1 e2
    have hqq : q1' = q1 := by
      have := (get_particle_eq_some st _ q1').mpr ⟨a1, ha1, hq1'⟩
      exact Option.some.inj (this.symm.trans hq1)
    subst hqq
    rcases hev with ⟨hng, _⟩ | ⟨_, _, _, rfl⟩ | ⟨_, _, ht1, _⟩
    · rw [hglue] at hng
      exact Bool.noConfusion hng
    · have hd : env.sqrt (sqrlen (Vec3.sub s1.pos s2.pos)) ≠ 0 := ne_of_gt hpos
      refine ⟨st.collision_params.dist_glued_part_to_vs
        / env.sqrt (sqrlen (Vec3.sub s1.pos s2.pos)), div_nonneg hg0 (le_of_lt hpos),
        (div_le_one hpos).mpr hgle, ?_, ?_⟩
      · simp only [Vec3.sub, Vec3.add, Vec3.smul, Vec3.mk.injEq]
        refine ⟨?_, ?_, ?_⟩ <;> ring
      · generalize env.sqrt (sqrlen (Vec3.sub s1.pos s2.pos)) = d at hexact hd
        simp only [Vec3.sub, Vec3.smul, sqrlen] at hexact ⊢
        have hsq : ∀ g v w : K, (w - v * (g / d) - w) * (w - v * (g / d) - w)
            = g * g * (v * v) / (d * d) := by
          intro g v w
          field_simp
          ring
        rw [hsq, hsq, hsq, ← add_div, ← add_div, ← mul_add, ← mul_add, ← hexact]
        field_simp
    · exact absurd (hfirst.symm.trans ht1) hne

/-- C9 (amended), run on the glue to surface example: the point `(3/10, 0, 0)` is 3/10 from
the to-be-glued particle at the origin. -/
theorem detect_collision_glue_point_witness :
    ∃ t : ℚ, 0 ≤ t ∧ t ≤ 1
      ∧ (⟨3 / 10, 0, 0⟩ : Vec3 ℚ) = Vec3.add (example_particle 0 1 0 false false).pos
          (Vec3.smul t (Vec3.sub (example_particle 1 2 1 false false).pos
            (example_particle 0 1 0 false false).pos))
      ∧ sqrlen (Vec3.sub (⟨3 / 10, 0, 0⟩ : Vec3 ℚ) (example_particle 0 1 0 false false).pos)
          = 3 / 10 * (3 / 10) :=
  detect_collision_glue_point example_env (example_state (example_params 10) [] (example_pair 1))
    (example_state (example_params 10) [⟨0, 1, ⟨3 / 10, 0, 0⟩⟩] (example_pair 1)) 0 1
    ⟨0, 1, ⟨3 / 10, 0, 0⟩⟩ (example_particle 0 1 0 false false)
    (example_particle 1 2 1 false false) (example_particle 0 1 0 false false)
    (by decide) (example_glue_detect 10 (by decide) (by decide)) rfl rfl rfl rfl rfl (by decide)
    (by norm_num [example_env, example_sqrt, sqrlen, Vec3.sub, example_particle])
    (by norm_num [example_env, example_sqrt, sqrlen, Vec3.sub, example_particle])
    (by norm_num [example_state, example_params])
    (by norm_num [example_env, example_sqrt, sqrlen, Vec3.sub, example_particle, example_state,
      example_params])

/-! ### Frame of the three particle phase -/

theorem foldlM_rel {α : Type} (R : State K → State K → Prop) (hrefl : ∀ s, R s s)
    (htrans : ∀ a b c, R a b → R b c → R a c) (f : State K → α → Option (State K))
    (hf : ∀ s x s', f s x = some s' → R s s') :
    ∀ (l : List α) (s s' : State K), l.foldlM f s = some s' → R s s' := by
  intro l
  induction l with
  | nil =>
    intro s s' h
    simp only [List.foldlM_nil] at h
    cases Option.some.inj h
    exact hrefl s
  | cons x l ih =>
    intro s s' h
    rw [List.foldlM_cons] at h
    cases hx : f s x with
    | none => rw [hx] at h; exact Option.noConfusion h
    | some s1 =>
      rw [hx] at h
      exact htrans s s1 s' (hf s x s1 hx) (ih s1 s' h)

theorem bonds_only_refl (s : State K) : bonds_only s s := by
  refine ⟨rfl, rfl, rfl, rfl, fun _ => [], fun a => ?_⟩
  cases s.mem[a]? <;> simp

theorem bonds_only_trans (a b c : State K) (h1 : bonds_only a b) (h2 : bonds_only b c) :
    bonds_only a c := by
  obtain ⟨hl1, hc1, hm1, hq1, x1, hx1⟩ := h1
  obtain ⟨hl2, hc2, hm2, hq2, x2, hx2⟩ := h2
  refine ⟨hl2.trans hl1, hc2.trans hc1, hm2.trans hm1, hq2.trans hq1,
    fun i => x1 i ++ x2 i, fun i => ?_⟩
  rw [hx2 i, hx1 i]
  cases a.mem[i]? <;> simp

theorem bonds_only_of_local_change_bond (s s' : State K) (part : Int) (bond : List Int)
    (h : local_change_bond s part bond = some s') : bonds_only s s' := by
  obtain ⟨a, r, _, hr, rfl⟩ := modify_particle_eq s s' part _ h
  have hlt : a < s.mem.length := (List.getElem?_eq_some.mp hr).1
  refine ⟨rfl, rfl, rfl, rfl, fun i => if i = a then bond else [], fun i => ?_⟩
  simp only [List.getElem?_set]
  by_cases hia : a = i
  · subst hia
    simp [hlt, hr]
  · have hia' : ¬ i = a := fun h => hia h.symm
    simp only [hia, hia', if_false]
    cases s.mem[i]? <;> simp

theorem bonds_only_of_coldet [FloorRing K] (env : Env K) (s s' : State K) (p p1 p2 : Nat)
    (h : coldet_do_three_particle_bond env s p p1 p2 = some s') : bonds_only s s' := by
  unfold coldet_do_three_particle_bond at h
  split at h
  · simp only at h
    split at h
    · cases Option.some.inj h; exact bonds_only_refl s
    split at h
    · cases Option.some.inj h; exact bonds_only_refl s
    split at h
    · cases Option.some.inj h; exact bonds_only_refl s
    · exact bonds_only_of_local_change_bond s s' _ _ h
  · exact Option.noConfusion h

theorem bonds_only_of_bind (s s' : State K) (x : Option (State K))
    (f : State K → Option (State K)) (hx : ∀ m, x = some m → bonds_only s m)
    (hf : ∀ m m', f m = some m' → bonds_only m m') (h : x.bind f = some s') :
    bonds_only s s' := by
  cases hxm : x with
  | none => rw [hxm] at h; exact Option.noConfusion h
  | some m =>
    rw [hxm] at h
    exact bonds_only_trans s m s' (hx m hxm) (hf m s' h)

theorem bonds_only_of_full_search_entry [FloorRing K] (env : Env K) (p : Nat) (s : State K)
    (g : collision_struct K) (s' : State K) (h : full_search_entry env p s g = some s') :
    bonds_only s s' := by
  unfold full_search_entry at h
  split at h
  · rename_i p1 p2 _ _
    split at h
    · split at h
      · cases Option.some.inj h; exact bonds_only_refl s
      · refine bonds_only_of_bind s s' _ _ (fun m hm => bonds_only_of_coldet env s m _ _ _ hm) ?_ h
        intro m m' hm
        exact bonds_only_of_bind m m' _ _ (fun m2 hm2 => bonds_only_of_coldet env m m2 _ _ _ hm2)
          (fun m2 m3 hm3 => bonds_only_of_coldet env m2 m3 _ _ _ hm3) hm
    · exact Option.noConfusion h
  · exact Option.noConfusion h

theorem bonds_only_of_full_search [FloorRing K] (env : Env K) (s s' : State K)
    (h : three_particle_binding_full_search env s = some s') : bonds_only s s' := by
  unfold three_particle_binding_full_search at h
  refine foldlM_rel bonds_only bonds_only_refl bonds_only_trans _ ?_ _ s s' h
  intro s1 c s1' h1
  split at h1
  · rename_i cell _
    refine foldlM_rel bonds_only bonds_only_refl bonds_only_trans _ ?_ _ s1 s1' h1
    intro s2 p s2' h2
    exact foldlM_rel bonds_only bonds_only_refl bonds_only_trans _
      (fun a g b hg => bonds_only_of_full_search_entry env p a g b hg) _ s2 s2' h2
  · exact Option.noConfusion h1

theorem bonds_only_of_candidate [FloorRing K] (env : Env K) (p1 p2 : Nat) (s : State K)
    (cand : Nat) (s' : State K) (h : domain_decomposition_candidate env p1 p2 s cand = some s') :
    bonds_only s s' := by
  unfold domain_decomposition_candidate at h
  split at h
  · split at h
    · cases Option.some.inj h; exact bonds_only_refl s
    split at h
    · cases Option.some.inj h; exact bonds_only_refl s
    refine bonds_only_of_bind s s' _ _ (fun m hm => bonds_only_of_coldet env s m _ _ _ hm) ?_ h
    intro m m' hm
    split at hm
    · split at hm
      · cases Option.some.inj hm; exact bonds_only_refl m
      · refine bonds_only_of_bind m m' _ _
          (fun m2 hm2 => bonds_only_of_coldet env m m2 _ _ _ hm2) ?_ hm
        intro m2 m3 hm3
        split at hm3
        · split at hm3
          · cases Option.some.inj hm3; exact bonds_only_refl m2
          · exact bonds_only_of_coldet env m2 m3 _ _ _ hm3
        · exact Option.noConfusion hm3
    · exact Option.noConfusion hm
  · exact Option.noConfusion h

theorem bonds_only_of_domain_decomposition [FloorRing K] (env : Env K) (s s' : State K)
    (h : three_particle_binding_domain_decomposition env s = some s') : bonds_only s s' := by
  unfold three_particle_binding_domain_decomposition at h
  refine foldlM_rel bonds_only bonds_only_refl bonds_only_trans _ ?_ _ s s' h
  intro s1 g s1' h1
  unfold domain_decomposition_entry at h1
  split at h1
  · rename_i p1 p2 _ _
    split at h1
    · simp only at h1
      refine foldlM_rel bonds_only bonds_only_refl bonds_only_trans _ ?_ _ s1 s1' h1
      intro s2 pqr s2' h2
      unfold domain_decomposition_cell at h2
      simp only at h2
      split at h2
      · exact Option.noConfusion h2
      · split at h2
        · exact foldlM_rel bonds_only bonds_only_refl bonds_only_trans _
            (fun a c b hc => bonds_only_of_candidate env p1 p2 a c b hc) _ s2 s2' h2
        · exact Option.noConfusion h2
    · exact Option.noConfusion h1
  · cases Option.some.inj h1; exact bonds_only_refl s1

theorem bonds_only_of_three_particle [FloorRing K] (env : Env K) (s s' : State K)
    (h : handle_collisions_three_particle env s = some s') : bonds_only s s' := by
  unfold handle_collisions_three_particle at h
  simp only at h
  split at h
  · exact Option.noConfusion h
  · rename_i c _
    have hg : bonds_only s (gather_collision_queue env s).2 := by
      unfold gather_collision_queue
      simp only
      split
      · exact bonds_only_refl s
      · exact bonds_only_refl s
    cases hsearch : (if c > 0 then
        if (!env.domdec) = true then
          three_particle_binding_full_search env (gather_collision_queue env s).2
        else three_particle_binding_domain_decomposition env (gather_collision_queue env s).2
        else some (gather_collision_queue env s).2) with
    | none => rw [hsearch] at h; exact Option.noConfusion h
    | some m =>
      rw [hsearch] at h
      simp only [Option.some_bind] at h
      cases Option.some.inj h
      have hm : bonds_only (gather_collision_queue env s).2 m := by
        split at hsearch
        · split at hsearch
          · exact bonds_only_of_full_search env _ m hsearch
          · exact bonds_only_of_domain_decomposition env _ m hsearch
        · cases Option.some.inj hsearch; exact bonds_only_refl _
      exact bonds_only_trans _ _ _ hg (bonds_only_trans _ _ _ hm (bonds_only_refl m))

/-! ### The glue to surface binder -/

theorem place_vs_spec (env : Env K) (s : State K) (pos : Vec3 K) (relate_to : Int)
    (a2 : Nat) (r2 : Particle K) (hseen : ids_seen s)
    (ha2 : s.local_particles relate_to = some a2) (hr2 : s.mem[a2]? = some r2) :
    ∃ s' : State K,
      place_vs_and_relate_to_particle env s pos relate_to = some s'
      ∧ s'.collision_params = s.collision_params
      ∧ s'.max_seen_particle = s.max_seen_particle + 1
      ∧ s'.local_particles
          = Function.update s.local_particles (s.max_seen_particle + 1) (some s.mem.length)
      ∧ s'.mem.length = s.mem.length + 1
      ∧ (∀ (a : Nat) (r : Particle K), s.mem[a]? = some r →
          ∃ r' : Particle K, s'.mem[a]? = some r' ∧ r' = { r with rotation := r'.rotation })
      ∧ (∃ sr : Particle K, s'.mem[s.mem.length]? = some sr ∧ sr.isVirtual = true
          ∧ sr.vs_relative_to_particle_id = relate_to ∧ sr.bl = []) := by
  have hle : relate_to ≤ s.max_seen_particle := hseen relate_to a2 ha2
  have hne : relate_to ≠ s.max_seen_particle + 1 := by omega
  have hlt : a2 < s.mem.length := (List.getElem?_eq_some.mp hr2).1
  have hmax : max s.max_seen_particle (s.max_seen_particle + 1) = s.max_seen_particle + 1 := by
    omega
  have hne2 : ¬ a2 = s.mem.length := by omega
  have hne3 : ¬ s.mem.length = a2 := by omega
  unfold place_vs_and_relate_to_particle
  cases hrot : env.ROTATION_PER_PARTICLE
  · simp only [place_particle, vs_relate_to, get_particle, modify_particle, modify_at, hmax,
      Function.update_same, Function.update_noteq hne, ha2, List.getElem?_append_left hlt, hr2,
      List.getElem?_concat_length, Option.some_bind, List.length_append, List.length_singleton,
      List.getElem?_set, List.length_set, Nat.lt_succ_self, hne2, hne3, ↓reduceIte,
      Bool.false_eq_true]
    refine ⟨_, rfl, rfl, rfl, rfl, by simp, ?_, ?_⟩
    · intro a r hr
      have hlta : a < s.mem.length := (List.getElem?_eq_some.mp hr).1
      have hna : ¬ s.mem.length = a := by omega
      refine ⟨r, ?_, rfl⟩
      simp [List.getElem?_set, hna, List.getElem?_append_left hlta, hr]
    · exact ⟨Particle.mk (s.max_seen_particle + 1) s.collision_params.vs_particle_type true 0
        relate_to pos false [], by simp, rfl, rfl, rfl⟩
  · simp only [place_particle, vs_relate_to, get_particle, modify_particle, modify_at, hmax,
      Function.update_same, Function.update_noteq hne, ha2, List.getElem?_append_left hlt, hr2,
      List.getElem?_concat_length, Option.some_bind, List.length_append, List.length_singleton,
      List.getElem?_set, List.length_set, Nat.lt_succ_self, hne2, hne3, ↓reduceIte]
    refine ⟨_, rfl, rfl, rfl, rfl, by simp, ?_, ?_⟩
    · intro a r hr
      have hlta : a < s.mem.length := (List.getElem?_eq_some.mp hr).1
      have hna : ¬ s.mem.length = a := by omega
      by_cases haa : a2 = a
      · subst haa
        have : r = r2 := Option.some.inj (hr.symm.trans hr2)
        subst this
        exact ⟨{ r with rotation := 14 },
          by simp [List.getElem?_set, List.getElem?_append, hna, hlt], rfl⟩
      · exact ⟨r, by simp [List.getElem?_set, hna, haa, List.getElem?_append_left hlta, hr], rfl⟩
    · exact ⟨Particle.mk (s.max_seen_particle + 1) s.collision_params.vs_particle_type true 0
        relate_to pos false [], by simp [List.getElem?_set, hne2], rfl, rfl, rfl⟩
theorem local_change_bond_at (s : State K) (id : Int) (bond : List Int) (a : Nat)
    (r : Particle K) (ha : s.local_particles id = some a) (hr : s.mem[a]? = some r) :
    ∃ s' : State K, local_change_bond s id bond = some s'
      ∧ s'.local_particles = s.local_particles ∧ s'.collision_params = s.collision_params
      ∧ s'.max_seen_particle = s.max_seen_particle
      ∧ (∀ b, b ≠ a → s'.mem[b]? = s.mem[b]?)
      ∧ s'.mem[a]? = some { r with bl := r.bl ++ bond } := by
  have hlt : a < s.mem.length := (List.getElem?_eq_some.mp hr).1
  refine ⟨_, modify_particle_of_resolved s id _ a r ha hr, rfl, rfl, rfl, ?_, ?_⟩
  · intro b hb
    have : ¬ a = b := fun h => hb h.symm
    simp [List.getElem?_set, this]
  · simp [List.getElem?_set, hlt]

theorem bind_at_poc_spec (env : Env K) (s : State K) (e : collision_struct K) (nA nB : Nat)
    (rA rB : Particle K) (hAB : nA ≠ nB)
    (hlA : s.local_particles (s.max_seen_particle - 1) = some nA)
    (hlB : s.local_particles s.max_seen_particle = some nB)
    (hrA : s.mem[nA]? = some rA) (hrB : s.mem[nB]? = some rB) :
    ∃ s' : State K, bind_at_poc_create_bond_between_vs env s e = some s'
      ∧ s'.local_particles = s.local_particles ∧ s'.collision_params = s.collision_params
      ∧ s'.max_seen_particle = s.max_seen_particle
      ∧ (∀ b, b ≠ nA → b ≠ nB → s'.mem[b]? = s.mem[b]?)
      ∧ (∃ rB' : Particle K, s'.mem[nB]? = some rB' ∧ rB'.isVirtual = rB.isVirtual
          ∧ rB'.vs_relative_to_particle_id = rB.vs_relative_to_particle_id) := by
  unfold bind_at_poc_create_bond_between_vs
  simp only
  split
  · obtain ⟨s1, h1, hl1, hc1, hm1, ho1, hn1⟩ := local_change_bond_at s s.max_seen_particle
      [s.collision_params.bond_vs, s.max_seen_particle - 1] nB rB hlB hrB
    exact ⟨s1, h1, hl1, hc1, hm1, fun b _ hb => ho1 b hb, _, hn1, rfl, rfl⟩
  · obtain ⟨s1, h1, hl1, hc1, hm1, ho1, hn1⟩ := local_change_bond_at s s.max_seen_particle
      [s.collision_params.bond_vs, e.pp1, e.pp2] nB rB hlB hrB
    obtain ⟨s2, h2, hl2, hc2, hm2, ho2, hn2⟩ := local_change_bond_at s1
      (s1.max_seen_particle - 1) [s.collision_params.bond_vs, e.pp1, e.pp2] nA rA
      (by rw [hl1, hm1]; exact hlA) (by rw [ho1 nA hAB]; exact hrA)
    obtain ⟨s3, h3, hl3, hc3, hm3, ho3, hn3⟩ := local_change_bond_at s2
      s2.max_seen_particle [3, s2.max_seen_particle - 1] nB
      { rB with bl := rB.bl ++ [s.collision_params.bond_vs, e.pp1, e.pp2] }
      (by rw [hl2, hm2, hl1, hm1]; exact hlB) (by rw [ho2 nB (Ne.symm hAB)]; exact hn1)
    refine ⟨s3, ?_, by rw [hl3, hl2, hl1], by rw [hc3, hc2, hc1], by rw [hm3, hm2, hm1], ?_,
      _, hn3, rfl, rfl⟩
    · rw [h1]
      simp only [Option.some_bind]
      rw [h2]
      simp only [Option.some_bind]
      exact h3
    · intro b hbA hbB
      rw [ho3 b hbB, ho2 b hbA, ho1 b hbB]
  · exact ⟨s, rfl, rfl, rfl, rfl, fun _ _ _ => rfl, rB, hrB, rfl, rfl⟩
theorem sites_placed_of_place_vs (env : Env K) (s : State K) (pos : Vec3 K) (relate_to : Int)
    (a2 : Nat) (r2 : Particle K) (hseen : ids_seen s)
    (ha2 : s.local_particles relate_to = some a2) (hr2 : s.mem[a2]? = some r2) :
    ∃ s' : State K, place_vs_and_relate_to_particle env s pos relate_to = some s'
      ∧ sites_placed s s' 1 relate_to
      ∧ s'.local_particles (s.max_seen_particle + 1) = some s.mem.length
      ∧ s'.mem.length = s.mem.length + 1 := by
  obtain ⟨s', hplace, hcp, hms, hlp, hlen, hold, sr, hsr, hsv, hsrel, _⟩ :=
    place_vs_spec env s pos relate_to a2 r2 hseen ha2 hr2
  refine ⟨s', hplace, ⟨hcp, hms, ?_, ?_, hold, s.mem.length, sr, ?_, le_refl _, hsr, hsv,
    hsrel⟩, ?_, hlen⟩
  · intro id a h
    have hle := hseen id a h
    have hne : id ≠ s.max_seen_particle + 1 := by omega
    rw [hlp, Function.update_noteq hne]
    exact h
  · intro id a h
    by_cases hid : id = s.max_seen_particle + 1
    · right
      rw [hlp, hid, Function.update_same] at h
      have := Option.some.inj h
      subst hid
      omega
    · left
      rw [hlp, Function.update_noteq hid] at h
      exact h
  · rw [hlp, Function.update_same]
  · rw [hlp, Function.update_same]

theorem ids_seen_of_sites_placed (s s' : State K) (k rel : Int) (hseen : ids_seen s)
    (hk : 0 ≤ k) (h : sites_placed s s' k rel) : ids_seen s' := by
  obtain ⟨_, hms, _, hnew, _, _⟩ := h
  intro id a hid
  rw [hms]
  rcases hnew id a hid with h | ⟨_, h, _⟩
  · have := hseen id a h
    omega
  · exact h

theorem vs_sites_spec (env : Env K) (s : State K) (e : collision_struct K) (a1 a2 : Nat)
    (r1 r2 : Particle K) (hseen : ids_seen s)
    (ha1 : s.local_particles e.pp1 = some a1) (hr1 : s.mem[a1]? = some r1)
    (ha2 : s.local_particles e.pp2 = some a2) (hr2 : s.mem[a2]? = some r2) :
    ∃ sB : State K,
      ((if flag_set s.collision_params.mode env.COLLISION_MODE_VS
          then place_vs_and_relate_to_particle env s e.point_of_collision e.pp1
          else some s).bind fun st1 =>
        (place_vs_and_relate_to_particle env st1 e.point_of_collision e.pp2).bind fun st2 =>
          (if flag_set s.collision_params.mode env.COLLISION_MODE_VS
            then bind_at_poc_create_bond_between_vs env st2 e else some st2)) = some sB
      ∧ sites_placed s sB (sites_per_event env s.collision_params) e.pp2 := by
  unfold sites_per_event
  cases hvs : flag_set s.collision_params.mode env.COLLISION_MODE_VS
  · obtain ⟨sB, hplace, hsp, _, _⟩ :=
      sites_placed_of_place_vs env s e.point_of_collision e.pp2 a2 r2 hseen ha2 hr2
    refine ⟨sB, ?_, by simpa using hsp⟩
    simp only [Bool.false_eq_true, if_false, Option.some_bind, hplace]
  · simp only [if_true]
    obtain ⟨sA, hplaceA, hspA, hlA, hlenA⟩ :=
      sites_placed_of_place_vs env s e.point_of_collision e.pp1 a1 r1 hseen ha1 hr1
    have hseenA : ids_seen sA := ids_seen_of_sites_placed s sA 1 _ hseen (by omega) hspA
    obtain ⟨hcpA, hmsA, holdlA, hnewlA, holdA, nA, srA, hnA, _, hsrA, _, _⟩ := hspA
    have hnAeq : nA = s.mem.length := Option.some.inj (hnA.symm.trans hlA)
    subst hnAeq
    obtain ⟨r2A, hr2A, _⟩ := holdA a2 r2 hr2
    obtain ⟨sB, hplaceB, hspB, hlB, hlenB⟩ :=
      sites_placed_of_place_vs env sA e.point_of_collision e.pp2 a2 r2A hseenA
        (holdlA _ _ ha2) hr2A
    obtain ⟨hcpB, hmsB, holdlB, hnewlB, holdB, nB, srB, hnB, _, hsrB, hsvB, hsrelB⟩ := hspB
    have hnBeq : nB = sA.mem.length := Option.some.inj (hnB.symm.trans hlB)
    subst hnBeq
    obtain ⟨srA', hsrA', _⟩ := holdB s.mem.length srA hsrA
    have hAB : s.mem.length ≠ sA.mem.length := by omega
    obtain ⟨sC, hbind, hlC, hcC, hmC, holdC, rB', hrB', hvB', hrelB'⟩ :=
      bind_at_poc_spec env sB e s.mem.length sA.mem.length srA' srB hAB
        (by
          have : sB.max_seen_particle - 1 = s.max_seen_particle + 1 := by rw [hmsB, hmsA]; ring
          rw [this]
          exact holdlB _ _ hlA)
        (by rw [hmsB]; exact hlB) hsrA' hsrB
    refine ⟨sC, ?_, ?_, ?_, ?_, ?_, ?_, ?_⟩
    · rw [hplaceA]
      simp only [Option.some_bind]
      rw [hplaceB]
      simp only [Option.some_bind]
      exact hbind
    · rw [hcC, hcpB, hcpA]
    · rw [hmC, hmsB, hmsA]; ring
    · intro id a h
      rw [hlC]
      exact holdlB _ _ (holdlA _ _ h)
    · intro id a h
      rw [hlC] at h
      rcases hnewlB id a h with h | ⟨h1, h2, h3⟩
      · rcases hnewlA id a h with h | ⟨h1, h2, h3⟩
        · exact Or.inl h
        · right; omega
      · right; omega
    · intro a r hr
      have hlta : a < s.mem.length := (List.getElem?_eq_some.mp hr).1
      obtain ⟨r', hr', hreq'⟩ := holdA a r hr
      obtain ⟨r'', hr'', hreq''⟩ := holdB a r' hr'
      refine ⟨r'', ?_, ?_⟩
      · rw [holdC a (by omega) (by omega)]
        exact hr''
      · rw [hreq'', hreq']
    · refine ⟨sA.mem.length, rB', ?_, by omega, hrB', hvB'.trans hsvB, hrelB'.trans hsrelB⟩
      rw [hlC]
      have : s.max_seen_particle + 2 = sA.max_seen_particle + 1 := by rw [hmsA]; ring
      rw [this]
      exact hlB
theorem glue_step_spec (env : Env K) (fuel : Nat) (s : State K) (e : collision_struct K)
    (a1 a2 : Nat) (r1 r2 : Particle K) (hseen : ids_seen s)
    (hglue : flag_set s.collision_params.mode env.COLLISION_MODE_GLUE_TO_SURF = true)
    (htri : flag_set s.collision_params.mode env.COLLISION_MODE_TRIANGLE_BINDING = false)
    (ha1 : s.local_particles e.pp1 = some a1) (hr1 : s.mem[a1]? = some r1)
    (ha2 : s.local_particles e.pp2 = some a2) (hr2 : s.mem[a2]? = some r2) :
    ∃ s' : State K,
      handle_collisions_vs env fuel s e = some s'
      ∧ s'.collision_params = s.collision_params
      ∧ s'.max_seen_particle = s.max_seen_particle + sites_per_event env s.collision_params
      ∧ (∀ (id : Int) (a : Nat), s.local_particles id = some a → s'.local_particles id = some a)
      ∧ (∀ (id : Int) (a : Nat), s'.local_particles id = some a →
          s.local_particles id = some a ∨ (s.max_seen_particle < id
            ∧ id ≤ s.max_seen_particle + sites_per_event env s.collision_params
            ∧ s.mem.length ≤ a))
      ∧ (∀ (a : Nat) (r : Particle K), s.mem[a]? = some r →
          ∃ r' : Particle K, s'.mem[a]? = some r' ∧ r'.isVirtual = r.isVirtual
            ∧ r'.vs_relative_to_particle_id = r.vs_relative_to_particle_id
            ∧ (a ≠ a1 → r'.type = r.type ∧ r'.bl = r.bl)
            ∧ (a = a1 → r'.type = s.collision_params.part_type_after_glueing
                ∧ r'.bl = r.bl ++ [s.collision_params.bond_vs,
                    s.max_seen_particle + sites_per_event env s.collision_params]))
      ∧ (∃ (n : Nat) (sr : Particle K),
          s'.local_particles (s.max_seen_particle + sites_per_event env s.collision_params)
            = some n
          ∧ s'.mem[n]? = some sr ∧ sr.isVirtual = true
          ∧ sr.vs_relative_to_particle_id = e.pp2) := by
  obtain ⟨sB, hphase, hcp, hms, holdl, hnewl, hold, n, sr, hn, hnge, hsr, hsv, hsrel⟩ :=
    vs_sites_spec env s e a1 a2 r1 r2 hseen ha1 hr1 ha2 hr2
  have hsplit : handle_collisions_vs env fuel s e
      = ((if flag_set s.collision_params.mode env.COLLISION_MODE_VS
          then place_vs_and_relate_to_particle env s e.point_of_collision e.pp1
          else some s).bind fun st1 =>
        (place_vs_and_relate_to_particle env st1 e.point_of_collision e.pp2).bind fun st2 =>
          (if flag_set s.collision_params.mode env.COLLISION_MODE_VS
            then bind_at_poc_create_bond_between_vs env st2 e else some st2)).bind
        (fun st3 => glue_to_surface_bind_vs_to_pp1 st3 e) := by
    unfold handle_collisions_vs
    simp only [htri, hglue, Bool.false_eq_true, if_false, if_true, Option.bind_assoc]
  rw [hsplit, hphase]
  simp only [Option.some_bind]
  have hlt1 : a1 < s.mem.length := (List.getElem?_eq_some.mp hr1).1
  have ha1' : sB.local_particles e.pp1 = some a1 := holdl _ _ ha1
  obtain ⟨r1', hr1', hr1eq⟩ := hold a1 r1 hr1
  have hlt1' : a1 < sB.mem.length := (List.getElem?_eq_some.mp hr1').1
  unfold glue_to_surface_bind_vs_to_pp1 local_change_bond
  rw [modify_particle_of_resolved sB e.pp1 _ a1 r1' ha1' hr1']
  simp only [Option.some_bind]
  have step2 : ∀ (m : List (Particle K)) (r : Particle K) (f : Particle K → Particle K),
      m[a1]? = some r →
      modify_particle { sB with mem := m } e.pp1 f = some { sB with mem := m.set a1 (f r) } :=
    fun m r f h => modify_particle_of_resolved { sB with mem := m } e.pp1 f a1 r ha1' h
  rw [step2 _ { r1' with bl := r1'.bl ++ [sB.collision_params.bond_vs, sB.max_seen_particle] } _
    (by simp [List.getElem?_set, hlt1'])]
  refine ⟨_, rfl, hcp, hms, holdl, hnewl, ?_, ?_⟩
  · intro a r hr
    obtain ⟨r', hr', hreq⟩ := hold a r hr
    by_cases haa : a = a1
    · subst haa
      have e1 : r = r1 := Option.some.inj (hr.symm.trans hr1)
      have e2 : r' = r1' := Option.some.inj (hr'.symm.trans hr1')
      subst e1 e2
      refine ⟨Particle.mk r'.identity sB.collision_params.part_type_after_glueing r'.isVirtual
        r'.rotation r'.vs_relative_to_particle_id r'.pos r'.ghost
        (r'.bl ++ [sB.collision_params.bond_vs, sB.max_seen_particle]),
        by simp [List.getElem?_set, hlt1'], ?_, ?_, ?_, ?_⟩
      · show r'.isVirtual = r.isVirtual
        rw [hreq]
      · show r'.vs_relative_to_particle_id = r.vs_relative_to_particle_id
        rw [hreq]
      · intro h; exact absurd rfl h
      · intro _
        refine ⟨by rw [hcp], ?_⟩
        show r'.bl ++ [sB.collision_params.bond_vs, sB.max_seen_particle] = _
        rw [hcp, hms, hreq]
    · have hna : ¬ a1 = a := fun h => haa h.symm
      refine ⟨r', by simp [List.getElem?_set, hna, hr'], ?_, ?_, ?_, ?_⟩
      · rw [hreq]
      · rw [hreq]
      · intro _; rw [hreq]; exact ⟨rfl, rfl⟩
      · intro h; exact absurd h haa
  · have hna : ¬ a1 = n := by omega
    exact ⟨n, sr, hn, by simp [List.getElem?_set, hna, hsr], hsv, hsrel⟩
theorem sites_per_event_pos (env : Env K) (cp : Collision_parameters K) :
    1 ≤ sites_per_event env cp := by
  unfold sites_per_event
  split <;> omega

theorem glue_fold (env : Env K) (fuel : Nat) (q : List (collision_struct K)) :
    ∀ s : State K, ids_seen s →
      flag_set s.collision_params.mode env.COLLISION_MODE_GLUE_TO_SURF = true →
      flag_set s.collision_params.mode env.COLLISION_MODE_TRIANGLE_BINDING = false →
      (∀ e ∈ q, ∃ (a1 : Nat) (r1 : Particle K) (a2 : Nat) (r2 : Particle K),
        s.local_particles e.pp1 = some a1 ∧ s.mem[a1]? = some r1
        ∧ s.local_particles e.pp2 = some a2 ∧ s.mem[a2]? = some r2) →
      ∃ s' : State K,
        q.foldlM (handle_collisions_vs env fuel) s = some s'
        ∧ s'.collision_params = s.collision_params
        ∧ (∀ (id : Int) (a : Nat), s.local_particles id = some a → s'.local_particles id = some a)
        ∧ (∀ (a : Nat) (r : Particle K), s.mem[a]? = some r →
            ∃ r' : Particle K, s'.mem[a]? = some r' ∧ r'.isVirtual = r.isVirtual
              ∧ r'.vs_relative_to_particle_id = r.vs_relative_to_particle_id
              ∧ (∃ ext, r'.bl = r.bl ++ ext)
              ∧ (r'.type = r.type ∨ (r'.type = s.collision_params.part_type_after_glueing
                  ∧ ∃ e ∈ q, s.local_particles e.pp1 = some a)))
        ∧ (∀ (i : Nat) (e : collision_struct K), q[i]? = some e →
            (∃ (a1 : Nat) (r1 g' : Particle K), s.local_particles e.pp1 = some a1
              ∧ s.mem[a1]? = some r1 ∧ s'.mem[a1]? = some g'
              ∧ g'.type = s.collision_params.part_type_after_glueing
              ∧ ∃ pre post, g'.bl = r1.bl ++ pre
                  ++ [s.collision_params.bond_vs, s.max_seen_particle
                      + sites_per_event env s.collision_params * ((i : Int) + 1)] ++ post)
            ∧ (∃ (n : Nat) (sr : Particle K),
                s'.local_particles (s.max_seen_particle
                  + sites_per_event env s.collision_params * ((i : Int) + 1)) = some n
                ∧ s'.mem[n]? = some sr ∧ sr.isVirtual = true
                ∧ sr.vs_relative_to_particle_id = e.pp2)) := by
  induction q with
  | nil =>
    intro s _ _ _ _
    refine ⟨s, rfl, rfl, fun _ _ h => h, ?_, ?_⟩
    · intro a r hr
      exact ⟨r, hr, rfl, rfl, ⟨[], by simp⟩, Or.inl rfl⟩
    · intro i e h
      simp at h
  | cons e rest ih =>
    intro s hseen hglue htri hres
    obtain ⟨a1, r1, a2, r2, ha1, hr1, ha2, hr2⟩ := hres e (List.mem_cons_self _ _)
    obtain ⟨s1, hstep, hcp1, hms1, hlp_old, hlp_new, hmem1, ns, sr, hns, hsr, hsrv, hsrrel⟩ :=
      glue_step_spec env fuel s e a1 a2 r1 r2 hseen hglue htri ha1 hr1 ha2 hr2
    have hk := sites_per_event_pos env s.collision_params
    have hseen1 : ids_seen s1 := by
      intro id a h
      rw [hms1]
      rcases hlp_new id a h with h | ⟨_, h, _⟩
      · have := hseen id a h
        omega
      · exact h
    have hres1 : ∀ e' ∈ rest, ∃ (a1 : Nat) (r1 : Particle K) (a2 : Nat) (r2 : Particle K),
        s1.local_particles e'.pp1 = some a1 ∧ s1.mem[a1]? = some r1
        ∧ s1.local_particles e'.pp2 = some a2 ∧ s1.mem[a2]? = some r2 := by
      intro e' he'
      obtain ⟨b1, t1, b2, t2, hb1, ht1, hb2, ht2⟩ := hres e' (List.mem_cons_of_mem _ he')
      obtain ⟨t1', ht1', _⟩ := hmem1 b1 t1 ht1
      obtain ⟨t2', ht2', _⟩ := hmem1 b2 t2 ht2
      exact ⟨b1, t1', b2, t2', hlp_old _ _ hb1, ht1', hlp_old _ _ hb2, ht2'⟩
    obtain ⟨s', hfold, hcp', hlp', hmem', hidx'⟩ := ih s1 hseen1 (by rw [hcp1]; exact hglue)
      (by rw [hcp1]; exact htri) hres1
    have hext1 : ∀ (a : Nat) (r r' : Particle K), s.mem[a]? = some r → s1.mem[a]? = some r' →
        ∃ ext, r'.bl = r.bl ++ ext := by
      intro a r r' hr hr'
      obtain ⟨r'', hr'', _, _, hne, heq⟩ := hmem1 a r hr
      have : r'' = r' := Option.some.inj (hr''.symm.trans hr')
      subst this
      by_cases haa : a = a1
      · exact ⟨_, (heq haa).2⟩
      · exact ⟨[], by rw [(hne haa).2]; simp⟩
    refine ⟨s', ?_, hcp'.trans hcp1, fun id a h => hlp' id a (hlp_old id a h), ?_, ?_⟩
    · rw [List.foldlM_cons, hstep]
      exact hfold
    · intro a r hr
      obtain ⟨r1', hr1', hv1, hrel1, hne1, heq1⟩ := hmem1 a r hr
      obtain ⟨r'', hr'', hv2, hrel2, ⟨ext2, hext2⟩, hty2⟩ := hmem' a r1' hr1'
      obtain ⟨ext1, hext1'⟩ := hext1 a r r1' hr hr1'
      refine ⟨r'', hr'', hv2.trans hv1, hrel2.trans hrel1,
        ⟨ext1 ++ ext2, by rw [hext2, hext1', List.append_assoc]⟩, ?_⟩
      rw [hcp1] at hty2
      by_cases haa : a = a1
      · right
        refine ⟨?_, e, List.mem_cons_self _ _, by rw [haa]; exact ha1⟩
        rcases hty2 with h | ⟨h, _⟩
        · rw [h]; exact (heq1 haa).1
        · exact h
      · rcases hty2 with h | ⟨h, e', he', hlpe'⟩
        · left; rw [h]; exact (hne1 haa).1
        · right
          refine ⟨h, e', List.mem_cons_of_mem _ he', ?_⟩
          have hlta : a < s.mem.length := (List.getElem?_eq_some.mp hr).1
          rcases hlp_new _ _ hlpe' with h | ⟨_, _, h⟩
          · exact h
          · omega
    · intro i e0 hi
      cases i with
      | zero =>
        simp only [List.getElem?_cons_zero, Option.some.injEq] at hi
        subst hi
        have h0 : s.max_seen_particle
            + sites_per_event env s.collision_params * (((0 : Nat) : Int) + 1)
            = s.max_seen_particle + sites_per_event env s.collision_params := by
          push_cast; ring
        rw [h0]
        constructor
        · obtain ⟨r1', hr1', _, _, _, heq1⟩ := hmem1 a1 r1 hr1
          obtain ⟨g', hg', _, _, ⟨ext2, hext2⟩, hty2⟩ := hmem' a1 r1' hr1'
          refine ⟨a1, r1, g', ha1, hr1, hg', ?_, [], ext2, ?_⟩
          · rw [hcp1] at hty2
            rcases hty2 with h | ⟨h, _⟩
            · rw [h]; exact (heq1 rfl).1
            · exact h
          · rw [hext2, (heq1 rfl).2]
            simp
        · obtain ⟨sr', hsr', hv', hrel', _, _⟩ := hmem' ns sr hsr
          exact ⟨ns, sr', hlp' _ _ hns, hsr', hv'.trans hsrv, hrel'.trans hsrrel⟩
      | succ j =>
        simp only [List.getElem?_cons_succ] at hi
        obtain ⟨⟨b1, t1', g', hb1', ht1', hg', hgty, pre, post, hgbl⟩, n, sr', hn, hsr', hv', hrel'⟩ :=
          hidx' j e0 hi
        have hmem0 : e0 ∈ rest := List.getElem?_mem hi
        obtain ⟨c1, t1, _, _, hc1, ht1, _, _⟩ := hres e0 (List.mem_cons_of_mem _ hmem0)
        have hbc : c1 = b1 := Option.some.inj ((hlp_old _ _ hc1).symm.trans hb1')
        subst hbc
        obtain ⟨ext1, hext1'⟩ := hext1 c1 t1 t1' ht1 ht1'
        have hidx : s1.max_seen_particle
            + sites_per_event env s1.collision_params * ((j : Int) + 1)
            = s.max_seen_particle
              + sites_per_event env s.collision_params * (((j + 1 : Nat) : Int) + 1) := by
          rw [hms1, hcp1]; push_cast; ring
        constructor
        · refine ⟨c1, t1, g', hc1, ht1, hg', by rw [← hcp1]; exact hgty, ext1 ++ pre, post, ?_⟩
          rw [hgbl, hext1', hidx, hcp1]
          simp
        · exact ⟨n, sr', by rw [← hidx]; exact hn, hsr', hv', hrel'⟩
theorem detect_collisions_glue_events (env : Env K) (s0 : State K)
    (hglue : flag_set s0.collision_params.mode env.COLLISION_MODE_GLUE_TO_SURF = true)
    (pairs : List (Nat × Nat)) :
    ∀ s s' : State K, s.mem = s0.mem → s.local_particles = s0.local_particles →
      s.collision_params = s0.collision_params → s.max_seen_particle = s0.max_seen_particle →
      (∀ e ∈ s.collision_queue, ∃ (a1 a2 : Nat) (q1 q2 : Particle K),
        s0.local_particles e.pp1 = some a1 ∧ s0.mem[a1]? = some q1
        ∧ q1.type = s0.collision_params.part_type_to_be_glued
        ∧ s0.local_particles e.pp2 = some a2 ∧ s0.mem[a2]? = some q2
        ∧ q2.type = s0.collision_params.part_type_to_attach_vs_to) →
      detect_collisions env s pairs = some s' →
      s'.mem = s0.mem ∧ s'.local_particles = s0.local_particles
      ∧ s'.collision_params = s0.collision_params
      ∧ s'.max_seen_particle = s0.max_seen_particle
      ∧ (∀ e ∈ s'.collision_queue, ∃ (a1 a2 : Nat) (q1 q2 : Particle K),
        s0.local_particles e.pp1 = some a1 ∧ s0.mem[a1]? = some q1
        ∧ q1.type = s0.collision_params.part_type_to_be_glued
        ∧ s0.local_particles e.pp2 = some a2 ∧ s0.mem[a2]? = some q2
        ∧ q2.type = s0.collision_params.part_type_to_attach_vs_to) := by
  induction pairs with
  | nil =>
    intro s s' hm hl hc hx hq hrun
    simp only [detect_collisions, List.foldlM_nil] at hrun
    cases Option.some.inj hrun
    exact ⟨hm, hl, hc, hx, hq⟩
  | cons pr rest ih =>
    intro s s' hm hl hc hx hq hrun
    simp only [detect_collisions, List.foldlM_cons] at hrun
    cases hfirst : detect_collision env s pr.1 pr.2 with
    | none => simp [hfirst] at hrun
    | some s1 =>
      rw [hfirst] at hrun
      have hrest : detect_collisions env s1 rest = some s' := hrun
      rcases detect_collision_inv env s s1 pr.1 pr.2 hfirst with rfl | ⟨r1, r2, q1, q2, a1, a2, ev,
        _, _, ha1, ha2, hq1, hq2, _, _, _, _, _, rfl, hev⟩
      · exact ih s1 s' hm hl hc hx hq hrest
      · refine ih { s with collision_queue := s.collision_queue ++ [ev] } s' hm hl hc hx ?_ hrest
        intro e he
        have he' : e ∈ s.collision_queue ∨ e = ev := by
          simpa [List.mem_append, List.mem_singleton] using he
        rcases he' with he | rfl
        · exact hq e he
        · rw [hl] at ha1 ha2
          rw [hm] at hq1 hq2
          rw [hc] at hev
          rcases hev with ⟨hng, _⟩ | ⟨_, ht1, ht2, rfl⟩ | ⟨_, ht2, ht1, rfl⟩
          · rw [hglue] at hng
            exact Bool.noConfusion hng
          · exact ⟨a1, a2, q1, q2, ha1, hq1, ht1, ha2, hq2, ht2⟩
          · exact ⟨a2, a1, q2, q1, ha2, hq2, ht2, ha1, hq1, ht1⟩

theorem bonds_pass_spec (env : Env K) (s : State K)
    (hres : ∀ e ∈ s.collision_queue, ∃ (a1 a2 : Nat) (r1 r2 : Particle K),
      s.local_particles e.pp1 = some a1 ∧ s.mem[a1]? = some r1
      ∧ s.local_particles e.pp2 = some a2 ∧ s.mem[a2]? = some r2) :
    ∃ (s2 : State K) (added : Nat → List Int),
      handle_collisions_bonds env s = some s2 ∧ s2 = { s with mem := s2.mem }
      ∧ ∀ a, s2.mem[a]? = (s.mem[a]?).map (fun (r : Particle K) =>
          { r with bl := r.bl ++ added a }) := by
  unfold handle_collisions_bonds
  split
  · rw [bond_loop_eq s.collision_queue s s (fun _ => rfl) rfl]
    obtain ⟨s', hfold, hframe, hmem⟩ := insertions_fold s.collision_params.bond_centers
      (s.collision_queue.map (center_bond_insertion s)) s (by
        intro pr hpr
        obtain ⟨e, he, rfl⟩ := List.mem_map.mp hpr
        obtain ⟨a1, a2, r1, r2, ha1, hr1, ha2, hr2⟩ := hres e he
        unfold center_bond_insertion get_particle
        simp only [ha1, hr1]
        split
        · exact ⟨a2, r2, ha2, hr2⟩
        · exact ⟨a1, r1, ha1, hr1⟩)
    exact ⟨s', _, hfold, hframe, hmem⟩
  · refine ⟨s, fun _ => [], rfl, rfl, fun a => ?_⟩
    cases s.mem[a]? <;> simp
theorem handle_collisions_finish_store (env : Env K) (s : State K) :
    (handle_collisions_finish env s).mem = s.mem
      ∧ (handle_collisions_finish env s).local_particles = s.local_particles := by
  unfold handle_collisions_finish announce_resort_particles
  simp only
  split
  · split
    · exact ⟨rfl, rfl⟩
    · exact ⟨rfl, rfl⟩
  · exact ⟨rfl, rfl⟩

/-- C10 (amended): end to end in the glue to surface mode with triangle binding off (virtual
sites compiled in, to-be-glued type different from attach-to type, `max_seen_particle` an
upper bound of the known identities): on a queue the detector built, `handle_collisions`
returns when the three particle flag is off, and whenever it returns, for the event at
position `i` the first particle, which had the to-be-glued type, has the post-glue type and
a bond list extended by, among others, the record (vs bond id, id of the site created for
this event); the second particle, which has the attach-to type, keeps its type; the site is
a new virtual particle related to the second particle. -/
theorem glue_to_surface_end_to_end [FloorRing K] (env : Env K) (fuel : Nat) (st0 st : State K)
    (pairs : List (Nat × Nat))
    (hvsr : env.VIRTUAL_SITES_RELATIVE = true)
    (hglue : flag_set st0.collision_params.mode env.COLLISION_MODE_GLUE_TO_SURF = true)
    (htri : flag_set st0.collision_params.mode env.COLLISION_MODE_TRIANGLE_BINDING = false)
    (hne : st0.collision_params.part_type_to_be_glued
      ≠ st0.collision_params.part_type_to_attach_vs_to)
    (hseen : ids_seen st0)
    (hq0 : st0.collision_queue = [])
    (hdet : detect_collisions env st0 pairs = some st) :
    (flag_set st.collision_params.mode env.COLLISION_MODE_BIND_THREE_PARTICLES = false →
      ∃ st' : State K, handle_collisions env fuel st = some st')
    ∧ ∀ st' : State K, handle_collisions env fuel st = some st' →
      ∀ (i : Nat) (e : collision_struct K), st.collision_queue[i]? = some e →
        ∃ g g' a a' sr : Particle K,
          get_particle st e.pp1 = some g
          ∧ g.type = st.collision_params.part_type_to_be_glued
          ∧ get_particle st' e.pp1 = some g'
          ∧ g'.type = st.collision_params.part_type_after_glueing
          ∧ (∃ pre post, g'.bl = g.bl ++ pre
              ++ [st.collision_params.bond_vs, st.max_seen_particle
                  + sites_per_event env st.collision_params * ((i : Int) + 1)] ++ post)
          ∧ get_particle st e.pp2 = some a
          ∧ a.type = st.collision_params.part_type_to_attach_vs_to
          ∧ get_particle st' e.pp2 = some a' ∧ a'.type = a.type
          ∧ get_particle st (st.max_seen_particle
              + sites_per_event env st.collision_params * ((i : Int) + 1)) = none
          ∧ get_particle st' (st.max_seen_particle
              + sites_per_event env st.collision_params * ((i : Int) + 1)) = some sr
          ∧ sr.isVirtual = true ∧ sr.vs_relative_to_particle_id = e.pp2 := by
  obtain ⟨hm, hl, hc, hx, hev0⟩ := detect_collisions_glue_events env st0 hglue pairs st0 st
    rfl rfl rfl rfl (by rw [hq0]; intro e he; simp at he) hdet
  rw [← hc] at hglue htri hne
  have hev : ∀ e ∈ st.collision_queue, ∃ (a1 a2 : Nat) (q1 q2 : Particle K),
      st.local_particles e.pp1 = some a1 ∧ st.mem[a1]? = some q1
      ∧ q1.type = st.collision_params.part_type_to_be_glued
      ∧ st.local_particles e.pp2 = some a2 ∧ st.mem[a2]? = some q2
      ∧ q2.type = st.collision_params.part_type_to_attach_vs_to := by
    rw [hm, hl, hc]; exact hev0
  have hseen_st : ids_seen st := by
    intro id a h
    rw [hl] at h
    rw [hx]
    exact hseen id a h
  obtain ⟨n, hn⟩ := handle_collisions_exceptions_frame env st
  obtain ⟨s2, added, hbonds, hframe2, hmem2⟩ := bonds_pass_spec env { st with notices := n } (by
    intro e he
    obtain ⟨a1, a2, q1, q2, h1, h2, _, h3, h4, _⟩ := hev e he
    exact ⟨a1, a2, q1, q2, h1, h2, h3, h4⟩)
  have hlp2 : s2.local_particles = st.local_particles := by rw [hframe2]
  have hcp2 : s2.collision_params = st.collision_params := by rw [hframe2]
  have hms2 : s2.max_seen_particle = st.max_seen_particle := by rw [hframe2]
  have hq2 : s2.collision_queue = st.collision_queue := by rw [hframe2]
  have hmem2' : ∀ (a : Nat) (r : Particle K), st.mem[a]? = some r →
      s2.mem[a]? = some { r with bl := r.bl ++ added a } := by
    intro a r hr
    rw [hmem2 a]
    simp only
    rw [hr]
    rfl
  have hseen2 : ids_seen s2 := by
    intro id a h
    rw [hlp2] at h
    rw [hms2]
    exact hseen_st id a h
  obtain ⟨s3, hfold, hcp3, hlp3, hmem3, hidx3⟩ := glue_fold env fuel st.collision_queue s2 hseen2
    (by rw [hcp2]; exact hglue) (by rw [hcp2]; exact htri) (by
      intro e he
      obtain ⟨a1, a2, q1, q2, h1, h2, _, h3, h4, _⟩ := hev e he
      exact ⟨a1, _, a2, _, by rw [hlp2]; exact h1, hmem2' a1 q1 h2, by rw [hlp2]; exact h3,
        hmem2' a2 q2 h4⟩)
  have hvsp : handle_collisions_virtual_sites env fuel s2 = some s3 := by
    unfold handle_collisions_virtual_sites
    simp only [hvsr, hcp2, hglue, Bool.true_and, Bool.or_true, Bool.true_or, if_true, hq2]
    exact hfold
  have hrun : handle_collisions env fuel st
      = (if flag_set st.collision_params.mode env.COLLISION_MODE_BIND_THREE_PARTICLES
          then handle_collisions_three_particle env s3 else some s3).bind
        (fun st4 => some (handle_collisions_finish env st4)) := by
    unfold handle_collisions
    rw [hn, hbonds]
    simp only [Option.some_bind]
    rw [hvsp]
    simp only [Option.some_bind, hcp3, hcp2]
  constructor
  · intro hthree
    rw [hrun]
    simp only [hthree, Bool.false_eq_true, if_false, Option.some_bind]
    exact ⟨_, rfl⟩
  intro st' hst' i e hi
  rw [hrun] at hst'
  have hs4 : ∃ s4 : State K, bonds_only s3 s4 ∧ st' = handle_collisions_finish env s4 := by
    split at hst'
    · cases h3p : handle_collisions_three_particle env s3 with
      | none => rw [h3p] at hst'; exact Option.noConfusion hst'
      | some s4 =>
        rw [h3p] at hst'
        exact ⟨s4, bonds_only_of_three_particle env s3 s4 h3p, (Option.some.inj hst').symm⟩
    · exact ⟨s3, bonds_only_refl s3, (Option.some.inj hst').symm⟩
  obtain ⟨s4, ⟨hlp4, _, _, _, added4, hmem4⟩, rfl⟩ := hs4
  obtain ⟨hfm, hfl⟩ := handle_collisions_finish_store env s4
  have hget : ∀ (id : Int) (b : Nat) (r : Particle K), s3.local_particles id = some b →
      s3.mem[b]? = some r →
      get_particle (handle_collisions_finish env s4) id
        = some { r with bl := r.bl ++ added4 b } := by
    intro id b r hb hr
    refine (get_particle_eq_some _ _ _).mpr ⟨b, ?_, ?_⟩
    · rw [hfl, hlp4]; exact hb
    · rw [hfm, hmem4 b, hr]; rfl
  have he : e ∈ st.collision_queue := List.getElem?_mem hi
  obtain ⟨a1, a2, q1, q2, h1, h2, ht1, h3, h4, ht2⟩ := hev e he
  obtain ⟨⟨b1, r1, g', hb1, hr1, hg', hgty, pre, post, hgbl⟩, ns, sr, hns, hsr, hsv, hsrel⟩ :=
    hidx3 i e hi
  rw [hlp2] at hb1
  have hb : b1 = a1 := Option.some.inj (hb1.symm.trans h1)
  subst hb
  have hr1' : r1 = { q1 with bl := q1.bl ++ added b1 } :=
    Option.some.inj (hr1.symm.trans (hmem2' b1 q1 h2))
  obtain ⟨a', ha', _, _, _, haty⟩ := hmem3 a2 _ (hmem2' a2 q2 h4)
  refine ⟨q1, { g' with bl := g'.bl ++ added4 b1 }, q2, { a' with bl := a'.bl ++ added4 a2 },
    { sr with bl := sr.bl ++ added4 ns }, ?_, ht1, ?_, ?_, ?_, ?_, ht2, ?_, ?_, ?_, ?_, hsv,
    hsrel⟩
  · exact (get_particle_eq_some st _ q1).mpr ⟨b1, h1, h2⟩
  · exact hget _ _ _ (hlp3 _ _ (by rw [hlp2]; exact h1)) hg'
  · show g'.type = _
    rw [hgty, hcp2]
  · refine ⟨added b1 ++ pre, post ++ added4 b1, ?_⟩
    show g'.bl ++ added4 b1 = _
    rw [hgbl, hr1', hcp2, hms2]
    simp
  · exact (get_particle_eq_some st _ q2).mpr ⟨a2, h3, h4⟩
  · exact hget _ _ _ (hlp3 _ _ (by rw [hlp2]; exact h3)) ha'
  · show a'.type = q2.type
    rcases haty with h | ⟨_, e', he', hlpe'⟩
    · exact h
    · exfalso
      obtain ⟨c1, _, p1, _, hc1, hp1, hpt1, _, _, _⟩ := hev e' he'
      rw [hlp2] at hlpe'
      have hca : c1 = a2 := Option.some.inj (hc1.symm.trans hlpe')
      subst hca
      have hpq : p1 = q2 := Option.some.inj (hp1.symm.trans h4)
      subst hpq
      exact hne (hpt1.symm.trans ht2)
  · unfold get_particle
    cases hsite : st.local_particles (st.max_seen_particle
        + sites_per_event env st.collision_params * ((i : Int) + 1)) with
    | none => rfl
    | some x =>
      have := hseen_st _ x hsite
      have hk := sites_per_event_pos env st.collision_params
      have hi0 : (0 : Int) ≤ (i : Int) := Int.natCast_nonneg i
      nlinarith
  · rw [← hms2, ← hcp2]
    exact hget _ _ _ hns hsr
/-! ### Triangle binding takes precedence over glue to surface -/

theorem ellipsoid_corner_spec (env : Env K) (s : State K) (e : collision_struct K)
    (corner : Vec3 K) (a1 a2 : Nat) (r1 r2 : Particle K) (hseen : ids_seen s)
    (ha1 : s.local_particles e.pp1 = some a1) (hr1 : s.mem[a1]? = some r1)
    (ha2 : s.local_particles e.pp2 = some a2) (hr2 : s.mem[a2]? = some r2) :
    ∃ s' : State K, ellipsoid_collision_corner env e s corner = some s'
      ∧ ids_seen s' ∧ s'.collision_params = s.collision_params
      ∧ (∀ (id : Int) (a : Nat), s.local_particles id = some a → s'.local_particles id = some a)
      ∧ (∀ (a : Nat) (r : Particle K), s.mem[a]? = some r →
          ∃ r' : Particle K, s'.mem[a]? = some r' ∧ r' = { r with rotation := r'.rotation }) := by
  obtain ⟨sA, hplaceA, hspA, hlA, hlenA⟩ :=
    sites_placed_of_place_vs env s corner e.pp1 a1 r1 hseen ha1 hr1
  have hseenA : ids_seen sA := ids_seen_of_sites_placed s sA 1 _ hseen (by omega) hspA
  obtain ⟨hcpA, hmsA, holdlA, _, holdA, _⟩ := hspA
  obtain ⟨r2A, hr2A, _⟩ := holdA a2 r2 hr2
  obtain ⟨sB, hplaceB, hspB, hlB, hlenB⟩ :=
    sites_placed_of_place_vs env sA corner e.pp2 a2 r2A hseenA (holdlA _ _ ha2) hr2A
  have hseenB : ids_seen sB := ids_seen_of_sites_placed sA sB 1 _ hseenA (by omega) hspB
  obtain ⟨hcpB, hmsB, holdlB, _, holdB, nB, srB, hnB, _, hsrB, _, _⟩ := hspB
  have hnBeq : nB = sA.mem.length := Option.some.inj (hnB.symm.trans hlB)
  subst hnBeq
  obtain ⟨sC, hbond, hlC, hcC, hmC, holdC, _⟩ := local_change_bond_at sB sB.max_seen_particle
    [3, sB.max_seen_particle - 1] sA.mem.length srB (by rw [hmsB]; exact hlB) hsrB
  refine ⟨sC, ?_, ?_, by rw [hcC, hcpB, hcpA], ?_, ?_⟩
  · unfold ellipsoid_collision_corner
    rw [hplaceA]
    simp only [Option.some_bind]
    rw [hplaceB]
    simp only [Option.some_bind]
    exact hbond
  · intro id a h
    rw [hlC] at h
    rw [hmC]
    exact hseenB id a h
  · intro id a h
    rw [hlC]
    exact holdlB _ _ (holdlA _ _ h)
  · intro a r hr
    have hlta : a < s.mem.length := (List.getElem?_eq_some.mp hr).1
    obtain ⟨r', hr', hreq'⟩ := holdA a r hr
    obtain ⟨r'', hr'', hreq''⟩ := holdB a r' hr'
    refine ⟨r'', ?_, ?_⟩
    · rw [holdC a (by omega)]
      exact hr''
    · rw [hreq'', hreq']

theorem ellipsoid_collision_spec (env : Env K) (fuel : Nat) (s : State K)
    (e : collision_struct K) (a1 a2 : Nat) (r1 r2 : Particle K)
    (corners : Vec3 K × Vec3 K × Vec3 K) (rng1 : Nat) (hseen : ids_seen s)
    (ha1 : s.local_particles e.pp1 = some a1) (hr1 : s.mem[a1]? = some r1)
    (ha2 : s.local_particles e.pp2 = some a2) (hr2 : s.mem[a2]? = some r2)
    (hcorners : triangle_binding_calc_corners env fuel s.rng r1 r2 = some (corners, rng1)) :
    ∃ s' : State K, ellipsoid_collision env fuel s e = some s'
      ∧ ids_seen s' ∧ s'.collision_params = s.collision_params
      ∧ (∀ (id : Int) (a : Nat), s.local_particles id = some a → s'.local_particles id = some a)
      ∧ (∀ (a : Nat) (r : Particle K), s.mem[a]? = some r →
          ∃ r' : Particle K, s'.mem[a]? = some r' ∧ r' = { r with rotation := r'.rotation }) := by
  obtain ⟨c1, c2, c3⟩ := corners
  obtain ⟨sA, hA, hseenA, hcpA, hlA, hmA⟩ := ellipsoid_corner_spec env { s with rng := rng1 } e
    c1 a1 a2 r1 r2 hseen ha1 hr1 ha2 hr2
  obtain ⟨r1A, hr1A, _⟩ := hmA a1 r1 hr1
  obtain ⟨r2A, hr2A, _⟩ := hmA a2 r2 hr2
  obtain ⟨sB, hB, hseenB, hcpB, hlB, hmB⟩ := ellipsoid_corner_spec env sA e c2 a1 a2 r1A r2A
    hseenA (hlA _ _ ha1) hr1A (hlA _ _ ha2) hr2A
  obtain ⟨r1B, hr1B, _⟩ := hmB a1 r1A hr1A
  obtain ⟨r2B, hr2B, _⟩ := hmB a2 r2A hr2A
  obtain ⟨sC, hC, hseenC, hcpC, hlC, hmC⟩ := ellipsoid_corner_spec env sB e c3 a1 a2 r1B r2B
    hseenB (hlB _ _ (hlA _ _ ha1)) hr1B (hlB _ _ (hlA _ _ ha2)) hr2B
  refine ⟨sC, ?_, hseenC, by rw [hcpC, hcpB, hcpA], fun id a h => hlC _ _ (hlB _ _ (hlA _ _ h)),
    ?_⟩
  · unfold ellipsoid_collision
    have hg1 : get_particle s e.pp1 = some r1 := (get_particle_eq_some s _ r1).mpr ⟨a1, ha1, hr1⟩
    have hg2 : get_particle s e.pp2 = some r2 := (get_particle_eq_some s _ r2).mpr ⟨a2, ha2, hr2⟩
    simp only [hg1, hg2, hcorners]
    rw [hA]
    simp only [Option.some_bind]
    rw [hB]
    simp only [Option.some_bind]
    exact hC
  · intro a r hr
    obtain ⟨rA, hrA, hreqA⟩ := hmA a r hr
    obtain ⟨rB, hrB, hreqB⟩ := hmB a rA hrA
    obtain ⟨rC, hrC, hreqC⟩ := hmC a rB hrB
    exact ⟨rC, hrC, by rw [hreqC, hreqB, hreqA]⟩

theorem example_triangle_corners (p1 p2 : Particle ℚ) (h1 : p1.pos = ⟨0, 0, 0⟩)
    (h2 : p2.pos = ⟨1, 0, 0⟩) :
    triangle_binding_calc_corners example_env 1 0 p1 p2
      = some ((⟨1 / 2, 0, -(1 / 2)⟩, ⟨1 / 2, 0, -(1 / 2)⟩, ⟨1 / 2, 0, -(1 / 2)⟩), 2) := by
  simp [triangle_binding_calc_corners, triangle_binding_draw, get_mi_random_vector,
    example_env, example_sqrt, vector_product, sqrlen, scalar, Vec3.sub,
    Vec3.smul, Vec3.add, h1, h2]
  norm_num

/-- C10 as stated fails: in mode BOND + GLUE_TO_SURF + TRIANGLE (42) the detector queues the
glue to surface event `(0, 1)`, and `handle_collisions` returns with particle 0 still of the
to-be-glued type 1, not the post-glue type 3: the triangle branch of the virtual site loop
skips the glue to surface step. -/
theorem glue_with_triangle_not_glued :
    detect_collisions example_env (example_state (example_params 42) [] (example_pair 1))
        [(0, 1)]
      = some (example_state (example_params 42) [⟨0, 1, ⟨3 / 10, 0, 0⟩⟩] (example_pair 1))
    ∧ flag_set (example_params 42).mode example_env.COLLISION_MODE_GLUE_TO_SURF = true
    ∧ ∃ (st' : State ℚ) (g' : Particle ℚ),
        handle_collisions example_env 1
          (example_state (example_params 42) [⟨0, 1, ⟨3 / 10, 0, 0⟩⟩] (example_pair 1)) = some st'
        ∧ get_particle st' 0 = some g'
        ∧ g'.type = (example_params 42).part_type_to_be_glued
        ∧ g'.type ≠ (example_params 42).part_type_after_glueing := by
  refine ⟨?_, by decide, ?_⟩
  · simp only [detect_collisions, List.foldlM_cons, List.foldlM_nil]
    rw [example_glue_detect 42 (by decide) (by decide)]
    rfl
  have hseen : ids_seen (example_state (example_params 42) [⟨0, 1, ⟨3 / 10, 0, 0⟩⟩]
      (example_pair 1)) := by
    intro id a h
    have hlt : 0 ≤ id ∧ id < 2 := by
      by_contra hn
      simp [example_state, example_pair, hn] at h
    show id ≤ ((example_pair 1).length : Int) - 1
    simp only [example_pair, List.length_cons, List.length_nil]
    omega
  obtain ⟨n, hn⟩ := handle_collisions_exceptions_frame example_env
    (example_state (example_params 42) [⟨0, 1, ⟨3 / 10, 0, 0⟩⟩] (example_pair 1))
  obtain ⟨s2, added, hbonds, hframe2, hmem2⟩ := bonds_pass_spec example_env
    { example_state (example_params 42) [⟨0, 1, ⟨3 / 10, 0, 0⟩⟩] (example_pair 1) with
      notices := n } (by
    intro e he
    exact ⟨0, 1, example_particle 0 1 0 false false, example_particle 1 2 1 false false,
      by rw [List.mem_singleton.mp he]; rfl, rfl, by rw [List.mem_singleton.mp he]; rfl, rfl⟩)
  have hlp2 : s2.local_particles = (example_state (example_params 42)
      [⟨0, 1, ⟨3 / 10, 0, 0⟩⟩] (example_pair 1)).local_particles := by rw [hframe2]
  have hcp2 : s2.collision_params = example_params 42 := by rw [hframe2]; rfl
  have hms2 : s2.max_seen_particle = (example_state (example_params 42)
      [⟨0, 1, ⟨3 / 10, 0, 0⟩⟩] (example_pair 1)).max_seen_particle := by rw [hframe2]
  have hq2 : s2.collision_queue = [⟨0, 1, ⟨3 / 10, 0, 0⟩⟩] := by rw [hframe2]; rfl
  have hrng2 : s2.rng = 0 := by rw [hframe2]; rfl
  have hseen2 : ids_seen s2 := by
    intro id a h
    rw [hlp2] at h
    rw [hms2]
    exact hseen id a h
  have h0 : s2.mem[0]? = some { example_particle 0 1 0 false false with
      bl := (example_particle 0 1 0 false false).bl ++ added 0 } := by rw [hmem2 0]; rfl
  have h1 : s2.mem[1]? = some { example_particle 1 2 1 false false with
      bl := (example_particle 1 2 1 false false).bl ++ added 1 } := by rw [hmem2 1]; rfl
  have hl0 : s2.local_particles (0 : Int) = some 0 := by rw [hlp2]; rfl
  have hl1 : s2.local_particles (1 : Int) = some 1 := by rw [hlp2]; rfl
  obtain ⟨s3, hell, _, hcp3, hlp3, hmem3⟩ := ellipsoid_collision_spec example_env 1 s2
    ⟨0, 1, ⟨3 / 10, 0, 0⟩⟩ 0 1 _ _ _ 2 hseen2 hl0 h0 hl1 h1
    (by rw [hrng2]; exact example_triangle_corners _ _ rfl rfl)
  obtain ⟨g', hg', hgeq⟩ := hmem3 0 _ h0
  obtain ⟨hfm, hfl⟩ := handle_collisions_finish_store example_env s3
  refine ⟨handle_collisions_finish example_env s3, g', ?_, ?_, ?_, ?_⟩
  · unfold handle_collisions
    rw [hn, hbonds]
    simp only [Option.some_bind]
    have hvsp : handle_collisions_virtual_sites example_env 1 s2 = some s3 := by
      unfold handle_collisions_virtual_sites
      simp only [hcp2, hq2, List.foldlM_cons, List.foldlM_nil]
      rw [if_pos (by decide)]
      unfold handle_collisions_vs
      simp only [hcp2]
      rw [if_pos (by decide), hell]
      rfl
    rw [hvsp]
    simp only [Option.some_bind, hcp3, hcp2]
    rw [if_neg (by decide)]
    rfl
  · exact (get_particle_eq_some _ _ g').mpr ⟨0, by rw [hfl]; exact hlp3 _ _ hl0,
      by rw [hfm]; exact hg'⟩
  · rw [hgeq]; rfl
  · have htype : g'.type = 1 := by rw [hgeq]; rfl
    rw [htype]
    decide
/-- C10 (amended), run on the glue to surface example (mode BOND + GLUE_TO_SURF): after
detection and `handle_collisions` the glued particle 0 has the post-glue type 3 and the bond
record `(1, 2)`, the attach-to particle 1 keeps type 2, and the new particle 2 is a virtual
site related to particle 1. -/
theorem glue_to_surface_end_to_end_witness :
    ∃ (st' : State ℚ) (g' a' sr : Particle ℚ),
      handle_collisions example_env 0
          (example_state (example_params 10) [⟨0, 1, ⟨3 / 10, 0, 0⟩⟩] (example_pair 1)) = some st'
      ∧ get_particle st' 0 = some g' ∧ g'.type = 3
      ∧ (∃ pre post, g'.bl = [] ++ pre ++ [1, 2] ++ post)
      ∧ get_particle st' 1 = some a' ∧ a'.type = 2
      ∧ get_particle st' 2 = some sr ∧ sr.isVirtual = true
      ∧ sr.vs_relative_to_particle_id = 1 := by
  obtain ⟨hret, hall⟩ := glue_to_surface_end_to_end example_env 0
    (example_state (example_params 10) [] (example_pair 1))
    (example_state (example_params 10) [⟨0, 1, ⟨3 / 10, 0, 0⟩⟩] (example_pair 1)) [(0, 1)]
    rfl (by decide) (by decide) (by decide)
    (by
      intro id a h
      have hlt : 0 ≤ id ∧ id < 2 := by
        by_contra hn
        simp [example_state, example_pair, hn] at h
      show id ≤ ((example_pair 1).length : Int) - 1
      simp only [example_pair, List.length_cons, List.length_nil]
      omega)
    rfl
    (by
      simp only [detect_collisions, List.foldlM_cons, List.foldlM_nil]
      rw [example_glue_detect 10 (by decide) (by decide)]
      rfl)
  obtain ⟨st', hrun⟩ := hret (by decide)
  obtain ⟨g, g', a, a', sr, hg, _, hg', hgty, hgbl, ha, _, ha', haty, _, hsr, hsv, hsrel⟩ :=
    hall st' hrun 0 ⟨0, 1, ⟨3 / 10, 0, 0⟩⟩ rfl
  have hg0 : g = example_particle 0 1 0 false false := Option.some.inj (hg.symm.trans rfl)
  have ha0 : a = example_particle 1 2 1 false false := Option.some.inj (ha.symm.trans rfl)
  subst hg0 ha0
  exact ⟨st', g', a', sr, hrun, hg', hgty, hgbl, ha', haty, hsr, hsv, hsrel⟩

/-! ### Later passes only append to bond lists -/

theorem bl_extended_refl (s : State K) : bl_extended s s :=
  fun _ r hr => ⟨r, hr, [], by simp⟩

theorem bl_extended_trans (a b c : State K) (h1 : bl_extended a b) (h2 : bl_extended b c) :
    bl_extended a c := by
  intro i r hr
  obtain ⟨r', hr', e1, he1⟩ := h1 i r hr
  obtain ⟨r'', hr'', e2, he2⟩ := h2 i r' hr'
  exact ⟨r'', hr'', e1 ++ e2, by rw [he2, he1, List.append_assoc]⟩

theorem bl_extended_of_bonds_only (s s' : State K) (h : bonds_only s s') : bl_extended s s' := by
  obtain ⟨_, _, _, _, added, hmem⟩ := h
  intro a r hr
  exact ⟨{ r with bl := r.bl ++ added a }, by rw [hmem a, hr]; rfl, added a, rfl⟩

theorem bl_extended_of_modify_particle (s s' : State K) (id : Int)
    (f : Particle K → Particle K) (hf : ∀ r, ∃ ext, (f r).bl = r.bl ++ ext)
    (h : modify_particle s id f = some s') : bl_extended s s' := by
  obtain ⟨a, r, _, hr, rfl⟩ := modify_particle_eq s s' id f h
  have hlt : a < s.mem.length := (List.getElem?_eq_some.mp hr).1
  intro b t ht
  by_cases hab : a = b
  · subst hab
    have : t = r := Option.some.inj (ht.symm.trans hr)
    subst this
    exact ⟨f t, by simp [List.getElem?_set, hlt], hf t⟩
  · exact ⟨t, by simp [List.getElem?_set, hab, ht], [], by simp⟩

theorem bl_extended_place_particle (env : Env K) (s : State K) (id : Int) (pos : Vec3 K) :
    bl_extended s (place_particle env s id pos) := by
  intro a r hr
  have hlt : a < s.mem.length := (List.getElem?_eq_some.mp hr).1
  exact ⟨r, by simp [place_particle, List.getElem?_append_left hlt, hr], [], by simp⟩

theorem bl_extended_of_bind (s s' : State K) (x : Option (State K))
    (f : State K → Option (State K)) (hx : ∀ m, x = some m → bl_extended s m)
    (hf : ∀ m m', f m = some m' → bl_extended m m') (h : x.bind f = some s') :
    bl_extended s s' := by
  cases hxm : x with
  | none => rw [hxm] at h; exact Option.noConfusion h
  | some m =>
    rw [hxm] at h
    exact bl_extended_trans s m s' (hx m hxm) (hf m s' h)

theorem bl_extended_of_local_change_bond (s s' : State K) (id : Int) (bond : List Int)
    (h : local_change_bond s id bond = some s') : bl_extended s s' :=
  bl_extended_of_modify_particle s s' id _ (fun _ => ⟨bond, rfl⟩) h

theorem bl_extended_of_place_vs (env : Env K) (s s' : State K) (pos : Vec3 K)
    (relate_to : Int) (h : place_vs_and_relate_to_particle env s pos relate_to = some s') :
    bl_extended s s' := by
  unfold place_vs_and_relate_to_particle at h
  simp only at h
  refine bl_extended_trans s (place_particle env s (s.max_seen_particle + 1) pos) s'
    (bl_extended_place_particle env s (s.max_seen_particle + 1) pos) ?_
  refine bl_extended_of_bind _ s' _ _ ?_ ?_ h
  · intro m hm
    unfold vs_relate_to at hm
    split at hm
    · exact bl_extended_of_modify_particle _ m _ _ (fun _ => ⟨[], by simp⟩) hm
    · exact Option.noConfusion hm
  · intro m m' hm
    refine bl_extended_of_bind m m' _ _ ?_ ?_ hm
    · intro m2 hm2
      exact bl_extended_of_modify_particle _ m2 _ _ (fun _ => ⟨[], by simp⟩) hm2
    · intro m2 m3 hm3
      refine bl_extended_of_bind m2 m3 _ _ ?_ ?_ hm3
      · intro m4 hm4
        split at hm4
        · exact bl_extended_of_modify_particle _ m4 _ _ (fun _ => ⟨[], by simp⟩) hm4
        · cases Option.some.inj hm4; exact bl_extended_refl m2
      · intro m4 m5 hm5
        exact bl_extended_of_modify_particle _ m5 _ _ (fun _ => ⟨[], by simp⟩) hm5

theorem bl_extended_of_bind_at_poc (env : Env K) (s s' : State K) (e : collision_struct K)
    (h : bind_at_poc_create_bond_between_vs env s e = some s') : bl_extended s s' := by
  unfold bind_at_poc_create_bond_between_vs at h
  simp only at h
  split at h
  · exact bl_extended_of_local_change_bond s s' _ _ h
  · refine bl_extended_of_bind s s' _ _
      (fun m hm => bl_extended_of_local_change_bond s m _ _ hm) ?_ h
    intro m m' hm
    exact bl_extended_of_bind m m' _ _
      (fun m2 hm2 => bl_extended_of_local_change_bond m m2 _ _ hm2)
      (fun m2 m3 hm3 => bl_extended_of_local_change_bond m2 m3 _ _ hm3) hm
  · cases Option.some.inj h; exact bl_extended_refl s

theorem bl_extended_of_corner (env : Env K) (e : collision_struct K) (s : State K)
    (corner : Vec3 K) (s' : State K) (h : ellipsoid_collision_corner env e s corner = some s') :
    bl_extended s s' := by
  unfold ellipsoid_collision_corner at h
  refine bl_extended_of_bind s s' _ _ (fun m hm => bl_extended_of_place_vs env s m _ _ hm) ?_ h
  intro m m' hm
  exact bl_extended_of_bind m m' _ _ (fun m2 hm2 => bl_extended_of_place_vs env m m2 _ _ hm2)
    (fun m2 m3 hm3 => bl_extended_of_local_change_bond m2 m3 _ _ hm3) hm

theorem bl_extended_of_ellipsoid (env : Env K) (fuel : Nat) (s : State K)
    (e : collision_struct K) (s' : State K) (h : ellipsoid_collision env fuel s e = some s') :
    bl_extended s s' := by
  unfold ellipsoid_collision at h
  split at h
  · split at h
    · rename_i c1 c2 c3 rng1 _
      have h0 : bl_extended s { s with rng := rng1 } := fun a r hr => ⟨r, hr, [], by simp⟩
      refine bl_extended_trans _ _ _ h0 ?_
      refine bl_extended_of_bind _ s' _ _ (fun m hm => bl_extended_of_corner env e _ _ m hm) ?_ h
      intro m m' hm
      exact bl_extended_of_bind m m' _ _ (fun m2 hm2 => bl_extended_of_corner env e _ _ m2 hm2)
        (fun m2 m3 hm3 => bl_extended_of_corner env e _ _ m3 hm3) hm
    · exact Option.noConfusion h
  · exact Option.noConfusion h

theorem bl_extended_of_glue (s s' : State K) (e : collision_struct K)
    (h : glue_to_surface_bind_vs_to_pp1 s e = some s') : bl_extended s s' := by
  unfold glue_to_surface_bind_vs_to_pp1 at h
  refine bl_extended_of_bind s s' _ _
    (fun m hm => bl_extended_of_local_change_bond s m _ _ hm) ?_ h
  intro m m' hm
  exact bl_extended_of_modify_particle m m' _ _ (fun _ => ⟨[], by simp⟩) hm

theorem bl_extended_of_handle_collisions_vs (env : Env K) (fuel : Nat) (s : State K)
    (e : collision_struct K) (s' : State K) (h : handle_collisions_vs env fuel s e = some s') :
    bl_extended s s' := by
  unfold handle_collisions_vs at h
  simp only at h
  split at h
  · exact bl_extended_of_ellipsoid env fuel s e s' h
  · refine bl_extended_of_bind s s' _ _ ?_ ?_ h
    · intro m hm
      split at hm
      · exact bl_extended_of_place_vs env s m _ _ hm
      · cases Option.some.inj hm; exact bl_extended_refl s
    · intro m m' hm
      refine bl_extended_of_bind m m' _ _
        (fun m2 hm2 => bl_extended_of_place_vs env m m2 _ _ hm2) ?_ hm
      intro m2 m3 hm3
      refine bl_extended_of_bind m2 m3 _ _ ?_ ?_ hm3
      · intro m4 hm4
        split at hm4
        · exact bl_extended_of_bind_at_poc env m2 m4 e hm4
        · cases Option.some.inj hm4; exact bl_extended_refl m2
      · intro m4 m5 hm5
        split at hm5
        · exact bl_extended_of_glue m4 m5 e hm5
        · cases Option.some.inj hm5; exact bl_extended_refl m4

theorem bl_extended_of_virtual_sites (env : Env K) (fuel : Nat) (s s' : State K)
    (h : handle_collisions_virtual_sites env fuel s = some s') : bl_extended s s' := by
  unfold handle_collisions_virtual_sites at h
  simp only at h
  split at h
  · exact foldlM_rel bl_extended bl_extended_refl bl_extended_trans _
      (fun a e b he => bl_extended_of_handle_collisions_vs env fuel a e b he) _ s s' h
  · cases Option.some.inj h; exact bl_extended_refl s

theorem bl_extended_after_bonds [FloorRing K] (env : Env K) (fuel : Nat) (st st2 st' : State K)
    (hbonds : handle_collisions_bonds env (handle_collisions_exceptions env st) = some st2)
    (h : handle_collisions env fuel st = some st') : bl_extended st2 st' := by
  unfold handle_collisions at h
  rw [hbonds] at h
  simp only [Option.some_bind] at h
  cases hvs : handle_collisions_virtual_sites env fuel st2 with
  | none => rw [hvs] at h; exact Option.noConfusion h
  | some s3 =>
    rw [hvs] at h
    simp only [Option.some_bind] at h
    have h3 := bl_extended_of_virtual_sites env fuel st2 s3 hvs
    cases h3p : (if flag_set s3.collision_params.mode env.COLLISION_MODE_BIND_THREE_PARTICLES
        then handle_collisions_three_particle env s3 else some s3) with
    | none => rw [h3p] at h; exact Option.noConfusion h
    | some s4 =>
      rw [h3p] at h
      simp only [Option.some_bind] at h
      cases Option.some.inj h
      have h4 : bl_extended s3 s4 := by
        split at h3p
        · exact bl_extended_of_bonds_only s3 s4 (bonds_only_of_three_particle env s3 s4 h3p)
        · cases Option.some.inj h3p; exact bl_extended_refl s3
      have h5 : bl_extended s4 (handle_collisions_finish env s4) := by
        intro a r hr
        exact ⟨r, by rw [(handle_collisions_finish_store env s4).1]; exact hr, [], by simp⟩
      exact bl_extended_trans _ _ _ h3 (bl_extended_trans _ _ _ h4 h5)

/-! ### The center bond loop inside `handle_collisions` -/

/-- C5: with BOND set and every queued event resolving to two records that are not both
ghosts, the center bond loop of `handle_collisions` succeeds and changes nothing but bond
lists: the particle at each address gets, appended to its bond list, exactly one record
(center bond type, partner) for every queued event it is the primary of; the primary is the
first particle of the event unless that is a ghost, then the second, and it is never a ghost.
When no virtual site or three particle flag is set, this is the whole effect of
`handle_collisions` up to the final resort signal and queue reset; in every mode, whenever
`handle_collisions` returns, each particle is still at its address and its bond list starts
with the list the center bond loop left. -/
theorem handle_collisions_center_bonds [FloorRing K] (env : Env K) (fuel : Nat) (st : State K)
    (hmode : flag_set st.collision_params.mode env.COLLISION_MODE_BOND = true)
    (hq : ∀ e ∈ st.collision_queue, ∃ r1 r2, get_particle st e.pp1 = some r1
      ∧ get_particle st e.pp2 = some r2 ∧ ¬ (r1.ghost = true ∧ r2.ghost = true)) :
    ∃ st2 : State K,
      handle_collisions_bonds env (handle_collisions_exceptions env st) = some st2
      ∧ st2 = { handle_collisions_exceptions env st with mem := st2.mem }
      ∧ (∀ a, st2.mem[a]?
          = (st.mem[a]?).map
              (fun (r : Particle K) => { r with bl := r.bl ++ center_bond_entries st a }))
      ∧ (∀ e ∈ st.collision_queue, ∃ r1 rp, get_particle st e.pp1 = some r1
          ∧ center_bond_insertion st e = (if r1.ghost then (e.pp2, e.pp1) else (e.pp1, e.pp2))
          ∧ get_particle st (center_bond_insertion st e).1 = some rp ∧ rp.ghost = false)
      ∧ (flag_set st.collision_params.mode env.COLLISION_MODE_VS = false →
          flag_set st.collision_params.mode env.COLLISION_MODE_GLUE_TO_SURF = false →
          flag_set st.collision_params.mode env.COLLISION_MODE_TRIANGLE_BINDING = false →
          flag_set st.collision_params.mode env.COLLISION_MODE_BIND_THREE_PARTICLES = false →
          handle_collisions env fuel st = some (handle_collisions_finish env st2))
      ∧ (∀ st' : State K, handle_collisions env fuel st = some st' → bl_extended st2 st') := by
  obtain ⟨n, hn⟩ := handle_collisions_exceptions_frame env st
  have hprim : ∀ e ∈ st.collision_queue, ∃ r1 rp, get_particle st e.pp1 = some r1
      ∧ center_bond_insertion st e = (if r1.ghost then (e.pp2, e.pp1) else (e.pp1, e.pp2))
      ∧ get_particle st (center_bond_insertion st e).1 = some rp ∧ rp.ghost = false := by
    intro e he
    obtain ⟨r1, r2, h1, h2, hg⟩ := hq e he
    unfold center_bond_insertion
    rw [h1]
    by_cases hg1 : r1.ghost = true
    · refine ⟨r1, r2, rfl, rfl, ?_, ?_⟩
      · simp [hg1, h2]
      · cases hg2 : r2.ghost
        · rfl
        · exact absurd ⟨hg1, hg2⟩ hg
    · refine ⟨r1, r1, rfl, rfl, ?_, ?_⟩
      · simp [hg1, h1]
      · simpa using hg1
  obtain ⟨s', hfold, hframe, hmem⟩ := insertions_fold st.collision_params.bond_centers
    (st.collision_queue.map (center_bond_insertion st)) { st with notices := n } (by
      intro pr hpr
      obtain ⟨e, he, rfl⟩ := List.mem_map.mp hpr
      obtain ⟨_, rp, _, _, hrp, _⟩ := hprim e he
      obtain ⟨a, ha, hr⟩ := (get_particle_eq_some st _ rp).mp hrp
      exact ⟨a, rp, ha, hr⟩)
  have hbonds : handle_collisions_bonds env (handle_collisions_exceptions env st) = some s' := by
    unfold handle_collisions_bonds
    rw [hn]
    simp only [hmode, if_true]
    rw [bond_loop_eq st.collision_queue { st with notices := n } st (fun _ => rfl) rfl]
    exact hfold
  refine ⟨s', hbonds, ?_, ?_, hprim, ?_,
    fun st' h => bl_extended_after_bonds env fuel st s' st' hbonds h⟩
  · rw [hn]; exact hframe
  · intro a
    rw [hmem a]
    rfl
  · intro hvs hglue htri hthree
    unfold handle_collisions
    rw [hbonds]
    have hcp : s'.collision_params = st.collision_params := by rw [hframe]
    simp [handle_collisions_virtual_sites, hcp, hvs, hglue, htri, hthree]

/-- C5, run on scenario A: particles 0 and 1 at distance 1/2, BOND mode, one queued event;
after `handle_collisions` particle 0 carries the bond record `(0, 1)`. -/
theorem handle_collisions_center_bonds_witness :
    ∃ st2 : State ℚ,
      handle_collisions example_env 0
          (example_state (example_params 2) [⟨0, 1, ⟨1 / 4, 0, 0⟩⟩] (example_pair (1 / 2)))
        = some (handle_collisions_finish example_env st2)
      ∧ st2.mem[0]? = some { example_particle 0 1 0 false false with bl := [0, 1] } := by
  obtain ⟨st2, _, _, hmem, _, hfull, _⟩ := handle_collisions_center_bonds example_env 0
    (example_state (example_params 2) [⟨0, 1, ⟨1 / 4, 0, 0⟩⟩] (example_pair (1 / 2)))
    (by decide)
    (by
      intro e he
      rw [show (example_state (example_params 2) [⟨0, 1, ⟨1 / 4, 0, 0⟩⟩]
        (example_pair (1 / 2))).collision_queue = [⟨0, 1, ⟨1 / 4, 0, 0⟩⟩] from rfl,
        List.mem_singleton] at he
      subst he
      exact ⟨example_particle 0 1 0 false false, example_particle 1 2 (1 / 2) false false,
        rfl, rfl, by decide⟩)
  refine ⟨st2, hfull (by decide) (by decide) (by decide) (by decide), ?_⟩
  rw [hmem 0]
  rfl

/-! ### The resort signal, the queue and the parameters through the passes -/

theorem signals_kept_refl (s : State K) : signals_kept s s := ⟨rfl, rfl, rfl⟩

theorem signals_kept_trans (a b c : State K) (h1 : signals_kept a b) (h2 : signals_kept b c) :
    signals_kept a c :=
  ⟨h2.1.trans h1.1, h2.2.1.trans h1.2.1, h2.2.2.trans h1.2.2⟩

theorem signals_kept_of_modify_particle (s s' : State K) (id : Int)
    (f : Particle K → Particle K) (h : modify_particle s id f = some s') :
    signals_kept s s' := by
  obtain ⟨a, r, _, _, rfl⟩ := modify_particle_eq s s' id f h
  exact ⟨rfl, rfl, rfl⟩

theorem signals_kept_of_bind (s s' : State K) (x : Option (State K))
    (f : State K → Option (State K)) (hx : ∀ m, x = some m → signals_kept s m)
    (hf : ∀ m m', f m = some m' → signals_kept m m') (h : x.bind f = some s') :
    signals_kept s s' := by
  cases hxm : x with
  | none => rw [hxm] at h; exact Option.noConfusion h
  | some m =>
    rw [hxm] at h
    exact signals_kept_trans s m s' (hx m hxm) (hf m s' h)

theorem signals_kept_of_local_change_bond (s s' : State K) (id : Int) (bond : List Int)
    (h : local_change_bond s id bond = some s') : signals_kept s s' :=
  signals_kept_of_modify_particle s s' id _ h

theorem signals_kept_of_place_vs (env : Env K) (s s' : State K) (pos : Vec3 K)
    (relate_to : Int) (h : place_vs_and_relate_to_particle env s pos relate_to = some s') :
    signals_kept s s' := by
  unfold place_vs_and_relate_to_particle at h
  simp only at h
  refine signals_kept_trans s (place_particle env s (s.max_seen_particle + 1) pos) s'
    ⟨rfl, rfl, rfl⟩ ?_
  refine signals_kept_of_bind _ s' _ _ ?_ ?_ h
  · intro m hm
    unfold vs_relate_to at hm
    split at hm
    · exact signals_kept_of_modify_particle _ m _ _ hm
    · exact Option.noConfusion hm
  · intro m m' hm
    refine signals_kept_of_bind m m' _ _ ?_ ?_ hm
    · intro m2 hm2
      exact signals_kept_of_modify_particle _ m2 _ _ hm2
    · intro m2 m3 hm3
      refine signals_kept_of_bind m2 m3 _ _ ?_ ?_ hm3
      · intro m4 hm4
        split at hm4
        · exact signals_kept_of_modify_particle _ m4 _ _ hm4
        · cases Option.some.inj hm4; exact signals_kept_refl m2
      · intro m4 m5 hm5
        exact signals_kept_of_modify_particle _ m5 _ _ hm5

theorem signals_kept_of_bind_at_poc (env : Env K) (s s' : State K) (e : collision_struct K)
    (h : bind_at_poc_create_bond_between_vs env s e = some s') : signals_kept s s' := by
  unfold bind_at_poc_create_bond_between_vs at h
  simp only at h
  split at h
  · exact signals_kept_of_local_change_bond s s' _ _ h
  · refine signals_kept_of_bind s s' _ _
      (fun m hm => signals_kept_of_local_change_bond s m _ _ hm) ?_ h
    intro m m' hm
    exact signals_kept_of_bind m m' _ _
      (fun m2 hm2 => signals_kept_of_local_change_bond m m2 _ _ hm2)
      (fun m2 m3 hm3 => signals_kept_of_local_change_bond m2 m3 _ _ hm3) hm
  · cases Option.some.inj h; exact signals_kept_refl s

theorem signals_kept_of_corner (env : Env K) (e : collision_struct K) (s : State K)
    (corner : Vec3 K) (s' : State K) (h : ellipsoid_collision_corner env e s corner = some s') :
    signals_kept s s' := by
  unfold ellipsoid_collision_corner at h
  refine signals_kept_of_bind s s' _ _ (fun m hm => signals_kept_of_place_vs env s m _ _ hm) ?_ h
  intro m m' hm
  exact signals_kept_of_bind m m' _ _ (fun m2 hm2 => signals_kept_of_place_vs env m m2 _ _ hm2)
    (fun m2 m3 hm3 => signals_kept_of_local_change_bond m2 m3 _ _ hm3) hm

theorem signals_kept_of_ellipsoid (env : Env K) (fuel : Nat) (s : State K)
    (e : collision_struct K) (s' : State K) (h : ellipsoid_collision env fuel s e = some s') :
    signals_kept s s' := by
  unfold ellipsoid_collision at h
  split at h
  · split at h
    · rename_i c1 c2 c3 rng1 _
      have h0 : signals_kept s { s with rng := rng1 } := ⟨rfl, rfl, rfl⟩
      refine signals_kept_trans _ _ _ h0 ?_
      refine signals_kept_of_bind _ s' _ _ (fun m hm => signals_kept_of_corner env e _ _ m hm) ?_ h
      intro m m' hm
      exact signals_kept_of_bind m m' _ _ (fun m2 hm2 => signals_kept_of_corner env e _ _ m2 hm2)
        (fun m2 m3 hm3 => signals_kept_of_corner env e _ _ m3 hm3) hm
    · exact Option.noConfusion h
  · exact Option.noConfusion h

theorem signals_kept_of_glue (s s' : State K) (e : collision_struct K)
    (h : glue_to_surface_bind_vs_to_pp1 s e = some s') : signals_kept s s' := by
  unfold glue_to_surface_bind_vs_to_pp1 at h
  refine signals_kept_of_bind s s' _ _
    (fun m hm => signals_kept_of_local_change_bond s m _ _ hm) ?_ h
  intro m m' hm
  exact signals_kept_of_modify_particle m m' _ _ hm

theorem signals_kept_of_handle_collisions_vs (env : Env K) (fuel : Nat) (s : State K)
    (e : collision_struct K) (s' : State K) (h : handle_collisions_vs env fuel s e = some s') :
    signals_kept s s' := by
  unfold handle_collisions_vs at h
  simp only at h
  split at h
  · exact signals_kept_of_ellipsoid env fuel s e s' h
  · refine signals_kept_of_bind s s' _ _ ?_ ?_ h
    · intro m hm
      split at hm
      · exact signals_kept_of_place_vs env s m _ _ hm
      · cases Option.some.inj hm; exact signals_kept_refl s
    · intro m m' hm
      refine signals_kept_of_bind m m' _ _
        (fun m2 hm2 => signals_kept_of_place_vs env m m2 _ _ hm2) ?_ hm
      intro m2 m3 hm3
      refine signals_kept_of_bind m2 m3 _ _ ?_ ?_ hm3
      · intro m4 hm4
        split at hm4
        · exact signals_kept_of_bind_at_poc env m2 m4 e hm4
        · cases Option.some.inj hm4; exact signals_kept_refl m2
      · intro m4 m5 hm5
        split at hm5
        · exact signals_kept_of_glue m4 m5 e hm5
        · cases Option.some.inj hm5; exact signals_kept_refl m4

theorem signals_kept_of_virtual_sites (env : Env K) (fuel : Nat) (s s' : State K)
    (h : handle_collisions_virtual_sites env fuel s = some s') : signals_kept s s' := by
  unfold handle_collisions_virtual_sites at h
  simp only at h
  split at h
  · exact foldlM_rel signals_kept signals_kept_refl signals_kept_trans _
      (fun a e b he => signals_kept_of_handle_collisions_vs env fuel a e b he) _ s s' h
  · cases Option.some.inj h; exact signals_kept_refl s

theorem signals_kept_of_coldet [FloorRing K] (env : Env K) (s s' : State K) (p p1 p2 : Nat)
    (h : coldet_do_three_particle_bond env s p p1 p2 = some s') : signals_kept s s' := by
  unfold coldet_do_three_particle_bond at h
  split at h
  · simp only at h
    split at h
    · cases Option.some.inj h; exact signals_kept_refl s
    split at h
    · cases Option.some.inj h; exact signals_kept_refl s
    split at h
    · cases Option.some.inj h; exact signals_kept_refl s
    · exact signals_kept_of_local_change_bond s s' _ _ h
  · exact Option.noConfusion h

theorem signals_kept_of_full_search_entry [FloorRing K] (env : Env K) (p : Nat) (s : State K)
    (g : collision_struct K) (s' : State K) (h : full_search_entry env p s g = some s') :
    signals_kept s s' := by
  unfold full_search_entry at h
  split at h
  · rename_i p1 p2 _ _
    split at h
    · split at h
      · cases Option.some.inj h; exact signals_kept_refl s
      · refine signals_kept_of_bind s s' _ _ (fun m hm => signals_kept_of_coldet env s m _ _ _ hm) ?_ h
        intro m m' hm
        exact signals_kept_of_bind m m' _ _ (fun m2 hm2 => signals_kept_of_coldet env m m2 _ _ _ hm2)
          (fun m2 m3 hm3 => signals_kept_of_coldet env m2 m3 _ _ _ hm3) hm
    · exact Option.noConfusion h
  · exact Option.noConfusion h

theorem signals_kept_of_full_search [FloorRing K] (env : Env K) (s s' : State K)
    (h : three_particle_binding_full_search env s = some s') : signals_kept s s' := by
  unfold three_particle_binding_full_search at h
  refine foldlM_rel signals_kept signals_kept_refl signals_kept_trans _ ?_ _ s s' h
  intro s1 c s1' h1
  split at h1
  · rename_i cell _
    refine foldlM_rel signals_kept signals_kept_refl signals_kept_trans _ ?_ _ s1 s1' h1
    intro s2 p s2' h2
    exact foldlM_rel signals_kept signals_kept_refl signals_kept_trans _
      (fun a g b hg => signals_kept_of_full_search_entry env p a g b hg) _ s2 s2' h2
  · exact Option.noConfusion h1

theorem signals_kept_of_candidate [FloorRing K] (env : Env K) (p1 p2 : Nat) (s : State K)
    (cand : Nat) (s' : State K) (h : domain_decomposition_candidate env p1 p2 s cand = some s') :
    signals_kept s s' := by
  unfold domain_decomposition_candidate at h
  split at h
  · split at h
    · cases Option.some.inj h; exact signals_kept_refl s
    split at h
    · cases Option.some.inj h; exact signals_kept_refl s
    refine signals_kept_of_bind s s' _ _ (fun m hm => signals_kept_of_coldet env s m _ _ _ hm) ?_ h
    intro m m' hm
    split at hm
    · split at hm
      · cases Option.some.inj hm; exact signals_kept_refl m
      · refine signals_kept_of_bind m m' _ _
          (fun m2 hm2 => signals_kept_of_coldet env m m2 _ _ _ hm2) ?_ hm
        intro m2 m3 hm3
        split at hm3
        · split at hm3
          · cases Option.some.inj hm3; exact signals_kept_refl m2
          · exact signals_kept_of_coldet env m2 m3 _ _ _ hm3
        · exact Option.noConfusion hm3
    · exact Option.noConfusion hm
  · exact Option.noConfusion h

theorem signals_kept_of_domain_decomposition [FloorRing K] (env : Env K) (s s' : State K)
    (h : three_particle_binding_domain_decomposition env s = some s') : signals_kept s s' := by
  unfold three_particle_binding_domain_decomposition at h
  refine foldlM_rel signals_kept signals_kept_refl signals_kept_trans _ ?_ _ s s' h
  intro s1 g s1' h1
  unfold domain_decomposition_entry at h1
  split at h1
  · rename_i p1 p2 _ _
    split at h1
    · simp only at h1
      refine foldlM_rel signals_kept signals_kept_refl signals_kept_trans _ ?_ _ s1 s1' h1
      intro s2 pqr s2' h2
      unfold domain_decomposition_cell at h2
      simp only at h2
      split at h2
      · exact Option.noConfusion h2
      · split at h2
        · exact foldlM_rel signals_kept signals_kept_refl signals_kept_trans _
            (fun a c b hc => signals_kept_of_candidate env p1 p2 a c b hc) _ s2 s2' h2
        · exact Option.noConfusion h2
    · exact Option.noConfusion h1
  · cases Option.some.inj h1; exact signals_kept_refl s1

theorem signals_kept_of_three_particle [FloorRing K] (env : Env K) (s s' : State K)
    (h : handle_collisions_three_particle env s = some s') : signals_kept s s' := by
  unfold handle_collisions_three_particle at h
  simp only at h
  split at h
  · exact Option.noConfusion h
  · rename_i c _
    have hg : signals_kept s (gather_collision_queue env s).2 := by
      unfold gather_collision_queue
      simp only
      split
      · exact ⟨rfl, rfl, rfl⟩
      · exact ⟨rfl, rfl, rfl⟩
    cases hsearch : (if c > 0 then
        if (!env.domdec) = true then
          three_particle_binding_full_search env (gather_collision_queue env s).2
        else three_particle_binding_domain_decomposition env (gather_collision_queue env s).2
        else some (gather_collision_queue env s).2) with
    | none => rw [hsearch] at h; exact Option.noConfusion h
    | some m =>
      rw [hsearch] at h
      simp only [Option.some_bind] at h
      cases Option.some.inj h
      have hm : signals_kept (gather_collision_queue env s).2 m := by
        split at hsearch
        · split at hsearch
          · exact signals_kept_of_full_search env _ m hsearch
          · exact signals_kept_of_domain_decomposition env _ m hsearch
        · cases Option.some.inj hsearch; exact signals_kept_refl _
      exact signals_kept_trans _ _ _ hg (signals_kept_trans _ _ _ hm ⟨rfl, rfl, rfl⟩)

theorem signals_kept_of_bonds (env : Env K) (s s' : State K)
    (h : handle_collisions_bonds env s = some s') : signals_kept s s' := by
  unfold handle_collisions_bonds at h
  split at h
  · refine foldlM_rel signals_kept signals_kept_refl signals_kept_trans _ ?_ _ s s' h
    intro a e b he
    unfold handle_collisions_bond at he
    split at he
    · split at he
      · exact signals_kept_of_local_change_bond a b _ _ he
      · exact signals_kept_of_local_change_bond a b _ _ he
    · exact Option.noConfusion he
  · cases Option.some.inj h; exact signals_kept_refl s

theorem signals_kept_before_finish [FloorRing K] (env : Env K) (fuel : Nat) (st st' : State K)
    (h : handle_collisions env fuel st = some st') :
    ∃ s4 : State K, signals_kept st s4 ∧ st' = handle_collisions_finish env s4 := by
  obtain ⟨n, hn⟩ := handle_collisions_exceptions_frame env st
  have h0 : signals_kept st (handle_collisions_exceptions env st) := by
    rw [hn]; exact ⟨rfl, rfl, rfl⟩
  unfold handle_collisions at h
  cases hb : handle_collisions_bonds env (handle_collisions_exceptions env st) with
  | none => rw [hb] at h; exact Option.noConfusion h
  | some s2 =>
    rw [hb] at h
    simp only [Option.some_bind] at h
    have h2 := signals_kept_of_bonds env _ s2 hb
    cases hvs : handle_collisions_virtual_sites env fuel s2 with
    | none => rw [hvs] at h; exact Option.noConfusion h
    | some s3 =>
      rw [hvs] at h
      simp only [Option.some_bind] at h
      have h3 := signals_kept_of_virtual_sites env fuel s2 s3 hvs
      cases h3p : (if flag_set s3.collision_params.mode env.COLLISION_MODE_BIND_THREE_PARTICLES
          then handle_collisions_three_particle env s3 else some s3) with
      | none => rw [h3p] at h; exact Option.noConfusion h
      | some s4 =>
        rw [h3p] at h
        simp only [Option.some_bind] at h
        have h4 : signals_kept s3 s4 := by
          split at h3p
          · exact signals_kept_of_three_particle env s3 s4 h3p
          · cases Option.some.inj h3p; exact signals_kept_refl s3
        exact ⟨s4, signals_kept_trans _ _ _ h0 (signals_kept_trans _ _ _ h2
          (signals_kept_trans _ _ _ h3 h4)), (Option.some.inj h).symm⟩

/-- C7: what `handle_collisions` does to the resort signal. Whenever it returns, and for all
flag values of which one of VS_PAIR, GLUE_TO_SURF, TRIANGLE is not zero, the mask of line 857
is 1 and the resort signal is raised exactly when it was raised before or the Local Queue is
not empty and bit 0 of the mode is set; the flags VS_PAIR, GLUE_TO_SURF and TRIANGLE
themselves are not consulted. -/
theorem handle_collisions_resort_signal [FloorRing K] (env : Env K) (fuel : Nat)
    (st st' : State K)
    (hflags : env.COLLISION_MODE_VS ≠ 0 ∨ env.COLLISION_MODE_GLUE_TO_SURF ≠ 0
      ∨ env.COLLISION_MODE_TRIANGLE_BINDING ≠ 0)
    (h : handle_collisions env fuel st = some st') :
    resort_mask env = 1
    ∧ st'.resort_particles
        = (st.resort_particles
            || (flag_set st.collision_params.mode 1 && decide (0 < st.collision_queue.length)))
    ∧ st'.collision_queue = [] := by
  have hmask : resort_mask env = 1 := by
    unfold resort_mask
    rcases hflags with h1 | h1 | h1 <;> simp [h1]
  obtain ⟨s4, ⟨hr, hq, hp⟩, rfl⟩ := signals_kept_before_finish env fuel st st' h
  refine ⟨hmask, ?_, rfl⟩
  unfold handle_collisions_finish announce_resort_particles
  rw [hmask, hp, hq, ← hr]
  cases hbit : flag_set st.collision_params.mode 1
  · simp
  · by_cases hlen : 0 < st.collision_queue.length
    · simp [hlen]
    · simp [hlen]

/-- C7 at a failing input: with the flag values exception 1, bond 2, glue to surface 8, in
mode BOND + GLUE_TO_SURF (10) and with one queued event, `handle_collisions` returns, has
created a virtual site (a third particle, of type 5) and re-typed the glued particle (type 3),
the mode contains GLUE_TO_SURF and the queue was not empty, but `resort_particles` is not
raised. -/
theorem handle_collisions_resort_signal_witness :
    ∃ st' : State ℚ,
      handle_collisions example_env 0
          (example_state (example_params 10) [⟨0, 1, ⟨3 / 10, 0, 0⟩⟩] (example_pair 1))
        = some st'
      ∧ st'.resort_particles = false ∧ st'.mem.map (fun r => r.type) = [3, 2, 5]
      ∧ flag_set (example_params 10).mode example_env.COLLISION_MODE_GLUE_TO_SURF = true := by
  have hsome : (handle_collisions example_env 0
      (example_state (example_params 10) [⟨0, 1, ⟨3 / 10, 0, 0⟩⟩] (example_pair 1))).map
        (fun s => s.mem.map (fun r => r.type)) = some [3, 2, 5] := by decide
  obtain ⟨st', hst', hlen⟩ := Option.map_eq_some'.mp hsome
  refine ⟨st', hst', ?_, hlen, by decide⟩
  rw [(handle_collisions_resort_signal example_env 0 _ st' (Or.inl (by decide)) hst').2.1]
  decide

/-! ### The angle bucket -/

theorem angle_bucket_eq [FloorRing K] (env : Env K) (cp : Collision_parameters K) (phi : K) :
    angle_bucket env cp phi
      = Int.floor (phi / env.M_PI * ((cp.three_particle_angle_resolution - 1 : Int) : K) + 1 / 2) := by
  unfold angle_bucket three_particle_bond_id
  ring

theorem angle_scaled_bounds (pi phi : K) (n : Int) (hpi : 0 < pi) (hn : 1 ≤ n)
    (h0 : 0 ≤ phi) (h1 : phi ≤ pi) :
    0 ≤ phi / pi * ((n - 1 : Int) : K) ∧ phi / pi * ((n - 1 : Int) : K) ≤ ((n - 1 : Int) : K) := by
  have hn0 : (0 : K) ≤ ((n - 1 : Int) : K) := by exact_mod_cast (by omega : (0 : Int) ≤ n - 1)
  have hq0 : 0 ≤ phi / pi := div_nonneg h0 hpi.le
  have hq1 : phi / pi ≤ 1 := (div_le_one hpi).mpr h1
  exact ⟨mul_nonneg hq0 hn0, by simpa using mul_le_mul_of_nonneg_right hq1 hn0⟩

theorem floor_int_add_half [FloorRing K] (b : Int) : Int.floor ((b : K) + 1 / 2) = b := by
  rw [Int.floor_eq_iff]
  constructor
  · linarith [(by norm_num : (0 : K) ≤ 1 / 2)]
  · linarith [(by norm_num : (1 : K) / 2 < 1)]

theorem angle_bucket_bounds [FloorRing K] (env : Env K) (cp : Collision_parameters K)
    (hpi : 0 < env.M_PI) (hres : 1 ≤ cp.three_particle_angle_resolution) (phi : K)
    (h0 : 0 ≤ phi) (h1 : phi ≤ env.M_PI) :
    0 ≤ angle_bucket env cp phi
      ∧ angle_bucket env cp phi ≤ cp.three_particle_angle_resolution - 1 := by
  obtain ⟨hx0, hx1⟩ := angle_scaled_bounds env.M_PI phi _ hpi hres h0 h1
  rw [angle_bucket_eq]
  constructor
  · exact Int.floor_nonneg.mpr (by linarith [(by norm_num : (0 : K) ≤ 1 / 2)])
  · have hlt : Int.floor (phi / env.M_PI
        * ((cp.three_particle_angle_resolution - 1 : Int) : K) + 1 / 2)
        < cp.three_particle_angle_resolution - 1 + 1 := by
      rw [Int.floor_lt]
      push_cast
      push_cast at hx1
      linarith [(by norm_num : (1 : K) / 2 < 1)]
    omega

/-- C14: for every resolution of at least 1 and a positive `M_PI`, the bucket of every angle
in `[0, M_PI]` lies in `0 .. resolution - 1`; the angle 0 gives bucket 0, the angle `M_PI`
gives bucket `resolution - 1`, the buckets attained by angles in `[0, M_PI]` are exactly the
integers `0 .. resolution - 1`, and there are `resolution` of them. -/
theorem angle_bucket_range [FloorRing K] (env : Env K) (cp : Collision_parameters K)
    (hpi : 0 < env.M_PI) (hres : 1 ≤ cp.three_particle_angle_resolution) :
    (∀ phi : K, 0 ≤ phi → phi ≤ env.M_PI →
        0 ≤ angle_bucket env cp phi
          ∧ angle_bucket env cp phi ≤ cp.three_particle_angle_resolution - 1)
    ∧ angle_bucket env cp 0 = 0
    ∧ angle_bucket env cp env.M_PI = cp.three_particle_angle_resolution - 1
    ∧ (∀ b : Int, (∃ phi : K, 0 ≤ phi ∧ phi ≤ env.M_PI ∧ angle_bucket env cp phi = b)
        ↔ (0 ≤ b ∧ b ≤ cp.three_particle_angle_resolution - 1))
    ∧ ((Finset.Icc (0 : Int) (cp.three_particle_angle_resolution - 1)).card : Int)
        = cp.three_particle_angle_resolution := by
  have hrange : ∀ phi : K, 0 ≤ phi → phi ≤ env.M_PI →
      0 ≤ angle_bucket env cp phi
        ∧ angle_bucket env cp phi ≤ cp.three_particle_angle_resolution - 1 :=
    angle_bucket_bounds env cp hpi hres
  have hne : env.M_PI ≠ 0 := ne_of_gt hpi
  have hzero : angle_bucket env cp 0 = 0 := by
    rw [angle_bucket_eq, zero_div, zero_mul, zero_add]
    have := floor_int_add_half (K := K) 0
    simpa using this
  have hpi_bucket : angle_bucket env cp env.M_PI = cp.three_particle_angle_resolution - 1 := by
    rw [angle_bucket_eq, div_self hne, one_mul]
    exact floor_int_add_half _
  refine ⟨hrange, hzero, hpi_bucket, ?_, ?_⟩
  · intro b
    constructor
    · rintro ⟨phi, h0, h1, rfl⟩
      exact hrange phi h0 h1
    · rintro ⟨hb0, hb1⟩
      by_cases hone : cp.three_particle_angle_resolution = 1
      · refine ⟨0, le_refl _, hpi.le, ?_⟩
        rw [hzero]; omega
      · have hpos : (0 : K) < ((cp.three_particle_angle_resolution - 1 : Int) : K) := by
          exact_mod_cast (by omega : (0 : Int) < cp.three_particle_angle_resolution - 1)
        have hb0' : (0 : K) ≤ (b : K) := by exact_mod_cast hb0
        have hb1' : (b : K) ≤ ((cp.three_particle_angle_resolution - 1 : Int) : K) := by
          exact_mod_cast hb1
        refine ⟨(b : K) / ((cp.three_particle_angle_resolution - 1 : Int) : K) * env.M_PI,
          mul_nonneg (div_nonneg hb0' hpos.le) hpi.le, ?_, ?_⟩
        · have : (b : K) / ((cp.three_particle_angle_resolution - 1 : Int) : K) ≤ 1 :=
            (div_le_one hpos).mpr hb1'
          simpa using mul_le_mul_of_nonneg_right this hpi.le
        · rw [angle_bucket_eq]
          have hx : ∀ n : K, 0 < n → (b : K) / n * env.M_PI / env.M_PI * n = (b : K) := by
            intro n hn
            have hn0 : n ≠ 0 := ne_of_gt hn
            field_simp
            ring
          rw [hx _ hpos]
          exact floor_int_add_half b
  · rw [Int.card_Icc]
    omega

/-- C14, run on the example parameters (resolution 4, `M_PI` 355/113): the angle `M_PI / 2`
falls into a bucket between 0 and 3 and the angle `M_PI` into bucket 3. -/
theorem angle_bucket_range_witness :
    (0 ≤ angle_bucket example_env (example_params 18) (355 / 226)
      ∧ angle_bucket example_env (example_params 18) (355 / 226) ≤ 3)
    ∧ angle_bucket example_env (example_params 18) (355 / 113) = 3 :=
  ⟨(angle_bucket_range example_env (example_params 18) (by norm_num [example_env])
      (by decide)).1 (355 / 226) (by norm_num) (by norm_num [example_env]),
   (angle_bucket_range example_env (example_params 18) (by norm_num [example_env])
      (by decide)).2.2.1⟩

theorem getElem?_append_add {α : Type} (done rest : List α) (k : Nat) :
    (done ++ rest)[done.length + k]? = rest[k]? := by
  rw [List.getElem?_append_right (Nat.le_add_right _ _), Nat.add_sub_cancel_left]

theorem three_particle_loop_comm (env : Env K) (cp : Collision_parameters K) (e : List Int)
    (id1 id2 : Int) : ∀ (fuel b : Nat),
      three_particle_bond_exists_loop env cp e id1 id2 fuel b
        = three_particle_bond_exists_loop env cp e id2 id1 fuel b := by
  intro fuel
  induction fuel with
  | zero => intro b; rfl
  | succ n ih =>
    intro b
    unfold three_particle_bond_exists_loop
    simp only [ih]
    rw [Bool.or_comm (e[b + 1]? == some id1 && e[b + 2]? == some id2)]

theorem three_particle_loop_complete (env : Env K) (cp : Collision_parameters K)
    (id1 id2 bt : Int) (post : List Int) (hsize : env.bonded_ia_params bt = 2)
    (hlo : cp.bond_three_particles ≤ bt)
    (hhi : bt ≤ int_wrap (cp.bond_three_particles + cp.three_particle_angle_resolution))
    (pre : List (List Int)) :
    ∀ (done : List Int) (fuel : Nat), (∀ en ∈ pre, well_formed_entry env en) →
      (done ++ (pre.flatten ++ bt :: id1 :: id2 :: post)).length ≤ fuel + done.length →
      three_particle_bond_exists_loop env cp
        (done ++ (pre.flatten ++ bt :: id1 :: id2 :: post)) id1 id2 fuel done.length
        = true := by
  induction pre with
  | nil =>
    intro done fuel _ hlen
    cases fuel with
    | zero => simp at hlen
    | succ n =>
      unfold three_particle_bond_exists_loop
      simp only [List.flatten_nil, List.nil_append]
      have hget : (done ++ bt :: id1 :: id2 :: post).getD done.length 0 = bt := by
        rw [List.getD_eq_getElem?_getD, getElem?_append_cons_length]
        rfl
      have h1 : (done ++ bt :: id1 :: id2 :: post)[done.length + 1]? = some id1 := by
        rw [getElem?_append_add]; rfl
      have h2 : (done ++ bt :: id1 :: id2 :: post)[done.length + 2]? = some id2 := by
        rw [getElem?_append_add]; simp
      rw [if_pos (by simp)]
      simp only [hget, h1, h2, hsize, hlo, hhi, beq_self_eq_true, decide_True, Bool.and_self,
        Bool.true_or, if_true, ge_iff_le]
  | cons en pre ih =>
    intro done fuel hwf hlen
    obtain ⟨t, ps, rfl, hps⟩ := hwf _ (List.mem_cons_self _ _)
    cases fuel with
    | zero => simp at hlen
    | succ n =>
      unfold three_particle_bond_exists_loop
      have hlt : done.length
          < (done ++ (((t :: ps) :: pre).flatten ++ bt :: id1 :: id2 :: post)).length := by
        simp
      have hget : (done ++ (((t :: ps) :: pre).flatten
          ++ bt :: id1 :: id2 :: post)).getD done.length 0 = t := by
        have hflat : ((t :: ps) :: pre).flatten ++ bt :: id1 :: id2 :: post
            = t :: (ps ++ (pre.flatten ++ bt :: id1 :: id2 :: post)) := by simp
        rw [List.getD_eq_getElem?_getD, hflat, getElem?_append_cons_length]
        rfl
      rw [if_pos hlt]
      simp only [hget]
      split
      · rfl
      · have hrew : done ++ (((t :: ps) :: pre).flatten ++ bt :: id1 :: id2 :: post)
            = (done ++ t :: ps) ++ (pre.flatten ++ bt :: id1 :: id2 :: post) := by simp
        have hidx : done.length + env.bonded_ia_params t + 1 = (done ++ t :: ps).length := by
          simp [hps]; omega
        rw [hidx, hrew]
        apply ih
        · intro en hen
          exact hwf en (List.mem_cons_of_mem _ hen)
        · rw [← hrew]
          simp at hlen ⊢
          omega

theorem three_particle_range_good (env : Env K) (base res : Int)
    (h : three_particle_range_bad env base res = false) (i : Int) (hlo : base ≤ i)
    (hhi : i ≤ int_wrap (base + res)) : env.bonded_ia_params i = 2 := by
  unfold three_particle_range_bad at h
  rw [List.any_eq_false] at h
  have hk := h (i - base).toNat (List.mem_range.mpr (by omega))
  have hi : base + ((i - base).toNat : Int) = i := by omega
  rw [hi] at hk
  simpa using hk

theorem set_keeps_identity_pos (mem : List (Particle K)) (p : Nat) (r r' : Particle K)
    (hr : mem[p]? = some r) (hid : r'.identity = r.identity) (hpos : r'.pos = r.pos)
    (a : Nat) (x : Particle K) (hx : mem[a]? = some x) :
    ∃ x' : Particle K, (mem.set p r')[a]? = some x' ∧ x'.identity = x.identity
      ∧ x'.pos = x.pos := by
  have hlt : p < mem.length := (List.getElem?_eq_some.mp hr).1
  by_cases hpa : p = a
  · subst hpa
    have hxr : x = r := Option.some.inj (hx.symm.trans hr)
    subst hxr
    exact ⟨r', by simp [List.getElem?_set, hlt], hid, hpos⟩
  · exact ⟨x, by simp [List.getElem?_set, hpa, hx], rfl, rfl⟩

theorem coldet_distance_swap [FloorRing K] (env : Env K) (st : State K) (p p1 p2 : Nat)
    (r r1 r2 : Particle K) (hr : st.mem[p]? = some r) (hr1 : st.mem[p1]? = some r1)
    (hr2 : st.mem[p2]? = some r2)
    (h : env.sqrt (sqrlen (env.get_mi_vector r.pos r1.pos)) > st.collision_params.distance
      ∨ env.sqrt (sqrlen (env.get_mi_vector r.pos r2.pos)) > st.collision_params.distance) :
    coldet_do_three_particle_bond env st p p1 p2 = some st
      ∧ coldet_do_three_particle_bond env st p p2 p1 = some st := by
  unfold coldet_do_three_particle_bond
  rw [hr, hr1, hr2]
  simp only
  constructor
  · rcases h with h | h
    · rw [if_pos h]
    · split
      · rfl
      · rfl
  · rcases h with h | h
    · split
      · rfl
      · rfl
    · rw [if_pos h]

theorem coldet_found [FloorRing K] (env : Env K) (st : State K) (p p1 p2 : Nat)
    (r r1 r2 : Particle K) (hr : st.mem[p]? = some r) (hr1 : st.mem[p1]? = some r1)
    (hr2 : st.mem[p2]? = some r2)
    (h : three_particle_bond_exists_loop env st.collision_params r.bl r1.identity r2.identity
      r.bl.length 0 = true) :
    coldet_do_three_particle_bond env st p p1 p2 = some st
      ∧ coldet_do_three_particle_bond env st p p2 p1 = some st := by
  have h' := h
  rw [three_particle_loop_comm] at h'
  unfold coldet_do_three_particle_bond
  rw [hr, hr1, hr2]
  simp only [h, h', if_true, ite_self]
  exact ⟨trivial, trivial⟩
theorem three_particle_cosine_some (env : Env K) (r r1 r2 : Particle K)
    (hpos1 : env.sqrt (sqrlen (env.get_mi_vector r.pos r1.pos)) ≠ 0)
    (hpos2 : env.sqrt (sqrlen (env.get_mi_vector r.pos r2.pos)) ≠ 0) :
    ∃ c, three_particle_cosine env r r1 r2 = some c := by
  unfold three_particle_cosine
  simp only
  rw [if_neg (by tauto)]
  exact ⟨_, rfl⟩

/-- C11 (amended): with an angle resolution of at least 1, an `int` sum base + resolution
that does not overflow, a center at a non-zero distance from both partners, a positive
`M_PI`, an arccosine value in `[0, M_PI]`, angular bonds `base .. base + resolution` of arity
2 (the range loop of the validation passes), a center that `local_particles` resolves to
itself and a bond list made of complete bond records, `coldet_do_three_particle_bond` returns
and the state it returns is a fixed point: a further call with the same center and the same
two partners, in either partner order, returns the same state, so the bond list of the center
does not change. -/
theorem coldet_idempotent [FloorRing K] (env : Env K) (st : State K) (p p1 p2 : Nat)
    (r r1 r2 : Particle K) (pre : List (List Int))
    (hr : st.mem[p]? = some r) (hr1 : st.mem[p1]? = some r1) (hr2 : st.mem[p2]? = some r2)
    (hloc : st.local_particles r.identity = some p)
    (hwf : ∀ en ∈ pre, well_formed_entry env en) (hbl : r.bl = pre.flatten)
    (hres : 1 ≤ st.collision_params.three_particle_angle_resolution)
    (hsum : int_wrap (st.collision_params.bond_three_particles
        + st.collision_params.three_particle_angle_resolution)
      = st.collision_params.bond_three_particles
        + st.collision_params.three_particle_angle_resolution)
    (hpos1 : env.sqrt (sqrlen (env.get_mi_vector r.pos r1.pos)) ≠ 0)
    (hpos2 : env.sqrt (sqrlen (env.get_mi_vector r.pos r2.pos)) ≠ 0)
    (hpi : 0 < env.M_PI)
    (hacos : ∀ c, three_particle_cosine env r r1 r2 = some c →
      0 ≤ env.acos c ∧ env.acos c ≤ env.M_PI)
    (harity : three_particle_range_bad env st.collision_params.bond_three_particles
      st.collision_params.three_particle_angle_resolution = false) :
    ∃ st1, coldet_do_three_particle_bond env st p p1 p2 = some st1
      ∧ coldet_do_three_particle_bond env st1 p p1 p2 = some st1
      ∧ coldet_do_three_particle_bond env st1 p p2 p1 = some st1 := by
  by_cases hd : env.sqrt (sqrlen (env.get_mi_vector r.pos r1.pos)) > st.collision_params.distance
      ∨ env.sqrt (sqrlen (env.get_mi_vector r.pos r2.pos)) > st.collision_params.distance
  · have h := coldet_distance_swap env st p p1 p2 r r1 r2 hr hr1 hr2 hd
    exact ⟨st, h.1, h.1, h.2⟩
  · have hd1 : ¬ env.sqrt (sqrlen (env.get_mi_vector r.pos r1.pos))
        > st.collision_params.distance := fun h => hd (Or.inl h)
    have hd2 : ¬ env.sqrt (sqrlen (env.get_mi_vector r.pos r2.pos))
        > st.collision_params.distance := fun h => hd (Or.inr h)
    cases hloop : three_particle_bond_exists_loop env st.collision_params r.bl r1.identity
        r2.identity r.bl.length 0 with
    | true =>
      have h := coldet_found env st p p1 p2 r r1 r2 hr hr1 hr2 hloop
      exact ⟨st, h.1, h.1, h.2⟩
    | false =>
      obtain ⟨c, hc⟩ := three_particle_cosine_some env r r1 r2 hpos1 hpos2
      have hlt : p < st.mem.length := (List.getElem?_eq_some.mp hr).1
      have h1 : coldet_do_three_particle_bond env st p p1 p2
          = some { st with mem := (st.mem.set p
              { r with bl := r.bl ++ [three_particle_bond_id env st.collision_params
                (env.acos c), r1.identity, r2.identity] }) } := by
        unfold coldet_do_three_particle_bond
        rw [hr, hr1, hr2]
        simp only [hd1, hd2, hloop, if_false, Bool.false_eq_true, hc,
          three_particle_bond_id_of_cosine, local_change_bond, modify_particle, hloc,
          modify_at, hr]
      refine ⟨_, h1, ?_⟩
      obtain ⟨hb0, hb1⟩ := angle_bucket_bounds env st.collision_params hpi hres _
        (hacos c hc).1 (hacos c hc).2
      unfold angle_bucket at hb0 hb1
      have hsize := three_particle_range_good env _ _ harity
        (three_particle_bond_id env st.collision_params (env.acos c)) (by omega)
        (by rw [hsum]; omega)
      obtain ⟨x1, hx1, hid1, hpos1'⟩ := set_keeps_identity_pos st.mem p r
        { r with bl := r.bl ++ [three_particle_bond_id env st.collision_params
          (env.acos c), r1.identity, r2.identity] }
        hr rfl rfl p1 r1 hr1
      obtain ⟨x2, hx2, hid2, hpos2'⟩ := set_keeps_identity_pos st.mem p r
        { r with bl := r.bl ++ [three_particle_bond_id env st.collision_params
          (env.acos c), r1.identity, r2.identity] }
        hr rfl rfl p2 r2 hr2
      have hfound := three_particle_loop_complete env st.collision_params r1.identity
        r2.identity _ [] hsize (by omega) (by rw [hsum]; omega) pre []
        (pre.flatten ++ [three_particle_bond_id env st.collision_params
            (env.acos c), r1.identity, r2.identity]).length
        hwf (by simp)
      apply coldet_found env _ p p1 p2 _ x1 x2 (by simp [List.getElem?_set, hlt]; rfl) hx1 hx2
      simp only [hid1, hid2, hbl]
      simpa using hfound

theorem example_right_angle_insert :
    coldet_do_three_particle_bond example_env_angles
        (example_state (example_params 18) [] example_right_triple) 0 1 2
      = some (example_state (example_params 18) []
          [{ example_particle 0 1 0 false false with bl := [4, 1, 2] },
           { example_particle 1 1 0 false false with pos := ⟨1 / 2, 0, 0⟩ },
           { example_particle 2 1 0 false false with pos := ⟨0, 1 / 2, 0⟩ }]) := by
  norm_num [coldet_do_three_particle_bond, example_state, example_triple, example_params,
    example_right_triple, example_env_angles, example_env, example_particle, example_sqrt,
    sqrlen, Vec3.sub, three_particle_bond_exists_loop, three_particle_cosine,
    three_particle_bond_id_of_cosine, three_particle_bond_id, local_change_bond,
    modify_particle, modify_at, Vec3.smul, scalar]

theorem example_accept_angles (mem : List (Particle ℚ)) (base res : Int)
    (hval : validate_params example_env_angles 18 0 1 base res = 0) :
    collision_detection_set_params example_env_angles
        (example_state (example_params 0) [] mem) 16 1 0 1 5 0 1 2 3 base res 1
      = (0, { example_state (example_params_angles base res) [] mem with
              particle_types := [5]
              bcasts := [example_params_angles base res]
              recalc_forces := 1 }) := by
  have hexp : expand_mode example_env_angles 16 = 18 := by decide
  have hvs : flag_set 18 example_env_angles.COLLISION_MODE_VS = false := by decide
  have hglue : flag_set 18 example_env_angles.COLLISION_MODE_GLUE_TO_SURF = false := by decide
  have htri : (example_env_angles.COLLISION_MODE_TRIANGLE_BINDING != 0) = true := by decide
  simp [collision_detection_set_params, hexp, hval, hvs, hglue, htri, make_particle_type_exist,
    mpi_bcast_collision_params, example_state, example_params, example_params_angles]

theorem example_accept_resolution_zero :
    collision_detection_set_params example_env_angles
        (example_state (example_params 0) [] example_straight_triple)
        16 1 0 1 5 0 1 2 3 3 0 1
      = (0, { example_state example_params_zero_resolution [] example_straight_triple with
              particle_types := [5]
              bcasts := [example_params_zero_resolution]
              recalc_forces := 1 }) :=
  example_accept_angles example_straight_triple 3 0 (by decide)

/-- The resolution 0 is accepted (status 0; the validated range is the bond 3 alone, of arity
2), the bond list of particle 0 is empty, and for the straight angle at particle 0 the first
call of `coldet_do_three_particle_bond` inserts the record (2, 1, 2), whose bond id lies below
the configured range, so the second call with the same center and partners does not recognise
it and inserts the same record again. -/
theorem example_resolution_zero_inserts_twice :
    (collision_detection_set_params example_env_angles
        (example_state (example_params 0) [] example_straight_triple)
        16 1 0 1 5 0 1 2 3 3 0 1).1 = 0
    ∧ three_particle_range_bad example_env_angles 3 0 = false
    ∧ ((coldet_do_three_particle_bond example_env_angles
          (collision_detection_set_params example_env_angles
            (example_state (example_params 0) [] example_straight_triple)
            16 1 0 1 5 0 1 2 3 3 0 1).2 0 1 2).map
        fun s => s.mem.map fun r => r.bl) = some [[2, 1, 2], [], []]
    ∧ (((coldet_do_three_particle_bond example_env_angles
          (collision_detection_set_params example_env_angles
            (example_state (example_params 0) [] example_straight_triple)
            16 1 0 1 5 0 1 2 3 3 0 1).2 0 1 2).bind
          fun s => coldet_do_three_particle_bond example_env_angles s 0 1 2).map
        fun s => s.mem.map fun r => r.bl) = some [[2, 1, 2, 2, 1, 2], [], []] := by
  rw [example_accept_resolution_zero]
  refine ⟨rfl, by decide, ?_, ?_⟩
  · norm_num [coldet_do_three_particle_bond, example_state, example_triple,
      example_straight_triple, example_params, example_params_zero_resolution,
      example_env_angles, example_env, example_particle, example_sqrt, sqrlen, Vec3.sub,
      three_particle_cosine, three_particle_bond_id_of_cosine, three_particle_bond_id,
      three_particle_bond_exists_loop, int_wrap,
      local_change_bond, modify_particle, modify_at, Vec3.smul, scalar]
  · norm_num [coldet_do_three_particle_bond, example_state, example_triple,
      example_straight_triple, example_params, example_params_zero_resolution,
      example_env_angles, example_env, example_particle, example_sqrt, sqrlen, Vec3.sub,
      three_particle_cosine, three_particle_bond_id_of_cosine, three_particle_bond_id,
      three_particle_bond_exists_loop, int_wrap,
      local_change_bond, modify_particle, modify_at, Vec3.smul, scalar]

/-- The base 2 with resolution 4 is accepted; particle 1 lies on the center, particle 0, so
the normalisation divides by zero, the cosine is NaN and the first call of
`coldet_do_three_particle_bond` inserts the record with the bond id a NaN converts to, which
lies outside the configured range; the second call with the same center and partners does not
recognise it and inserts the same record again. -/
theorem example_coincident_inserts_twice :
    (collision_detection_set_params example_env_angles
        (example_state (example_params 0) [] example_coincident_triple)
        16 1 0 1 5 0 1 2 3 2 4 1).1 = 0
    ∧ three_particle_range_bad example_env_angles 2 4 = false
    ∧ ((coldet_do_three_particle_bond example_env_angles
          (collision_detection_set_params example_env_angles
            (example_state (example_params 0) [] example_coincident_triple)
            16 1 0 1 5 0 1 2 3 2 4 1).2 0 1 2).map
        fun s => s.mem.map fun r => r.bl) = some [[-2147483648, 1, 2], [], []]
    ∧ (((coldet_do_three_particle_bond example_env_angles
          (collision_detection_set_params example_env_angles
            (example_state (example_params 0) [] example_coincident_triple)
            16 1 0 1 5 0 1 2 3 2 4 1).2 0 1 2).bind
          fun s => coldet_do_three_particle_bond example_env_angles s 0 1 2).map
        fun s => s.mem.map fun r => r.bl)
      = some [[-2147483648, 1, 2, -2147483648, 1, 2], [], []] := by
  rw [example_accept_angles example_coincident_triple 2 4 (by decide)]
  refine ⟨rfl, by decide, ?_, ?_⟩
  · norm_num [coldet_do_three_particle_bond, example_state, example_triple,
      example_coincident_triple, example_params, example_params_angles,
      example_env_angles, example_env, example_particle, example_sqrt, sqrlen, Vec3.sub,
      three_particle_cosine, three_particle_bond_id_of_cosine, three_particle_bond_id,
      three_particle_bond_exists_loop, int_wrap,
      local_change_bond, modify_particle, modify_at, Vec3.smul, scalar]
  · norm_num [coldet_do_three_particle_bond, example_state, example_triple,
      example_coincident_triple, example_params, example_params_angles,
      example_env_angles, example_env, example_particle, example_sqrt, sqrlen, Vec3.sub,
      three_particle_cosine, three_particle_bond_id_of_cosine, three_particle_bond_id,
      three_particle_bond_exists_loop, int_wrap,
      local_change_bond, modify_particle, modify_at, Vec3.smul, scalar]

/-- The base `INT_MAX` with resolution 1 is accepted: the `int` sum wraps to `INT_MIN`, which
is below `n_bonded_ia`, and the range loop does not run. For the right angle at particle 0 the
first call of `coldet_do_three_particle_bond` inserts the record with the bond id `INT_MAX`;
the scan of the second call compares the id with the wrapped upper end of the range, does not
recognise the record and inserts it again. -/
theorem example_overflow_inserts_twice :
    (collision_detection_set_params example_env_angles
        (example_state (example_params 0) [] example_right_triple)
        16 1 0 1 5 0 1 2 3 2147483647 1 1).1 = 0
    ∧ three_particle_range_bad example_env_angles 2147483647 1 = false
    ∧ ((coldet_do_three_particle_bond example_env_angles
          (collision_detection_set_params example_env_angles
            (example_state (example_params 0) [] example_right_triple)
            16 1 0 1 5 0 1 2 3 2147483647 1 1).2 0 1 2).map
        fun s => s.mem.map fun r => r.bl) = some [[2147483647, 1, 2], [], []]
    ∧ (((coldet_do_three_particle_bond example_env_angles
          (collision_detection_set_params example_env_angles
            (example_state (example_params 0) [] example_right_triple)
            16 1 0 1 5 0 1 2 3 2147483647 1 1).2 0 1 2).bind
          fun s => coldet_do_three_particle_bond example_env_angles s 0 1 2).map
        fun s => s.mem.map fun r => r.bl)
      = some [[2147483647, 1, 2, 2147483647, 1, 2], [], []] := by
  rw [example_accept_angles example_right_triple 2147483647 1 (by decide)]
  refine ⟨rfl, by decide, ?_, ?_⟩
  · norm_num [coldet_do_three_particle_bond, example_state, example_triple,
      example_right_triple, example_params, example_params_angles,
      example_env_angles, example_env, example_particle, example_sqrt, sqrlen, Vec3.sub,
      three_particle_cosine, three_particle_bond_id_of_cosine, three_particle_bond_id,
      three_particle_bond_exists_loop, int_wrap,
      local_change_bond, modify_particle, modify_at, Vec3.smul, scalar]
  · norm_num [coldet_do_three_particle_bond, example_state, example_triple,
      example_right_triple, example_params, example_params_angles,
      example_env_angles, example_env, example_particle, example_sqrt, sqrlen, Vec3.sub,
      three_particle_cosine, three_particle_bond_id_of_cosine, three_particle_bond_id,
      three_particle_bond_exists_loop, int_wrap,
      local_change_bond, modify_particle, modify_at, Vec3.smul, scalar]

/-- C11 is false as stated, in three ways. Each configuration is accepted (status 0, the
range loop passes) and the bond list of the center is empty, yet two calls of
`coldet_do_three_particle_bond` with the same center and partners insert the same record
twice: with resolution 0 the straight angle gets the bond id 2 below the range 3..3; with a
partner on the center the cosine is NaN and the bond id is the `int` a NaN converts to; with
the base `INT_MAX` and resolution 1 the `int` sum base + resolution overflows and the scan
compares the inserted id `INT_MAX` with the wrapped upper end. The scan of the second call
reads the arity of the inserted id from `bonded_ia_params`; in the second and third case that
id is outside the table, and the example table gives 2 for it. -/
theorem coldet_not_idempotent :
    ((collision_detection_set_params example_env_angles
        (example_state (example_params 0) [] example_straight_triple)
        16 1 0 1 5 0 1 2 3 3 0 1).1 = 0
      ∧ three_particle_range_bad example_env_angles 3 0 = false
      ∧ ((coldet_do_three_particle_bond example_env_angles
            (collision_detection_set_params example_env_angles
              (example_state (example_params 0) [] example_straight_triple)
              16 1 0 1 5 0 1 2 3 3 0 1).2 0 1 2).map
          fun s => s.mem.map fun r => r.bl) = some [[2, 1, 2], [], []]
      ∧ (((coldet_do_three_particle_bond example_env_angles
            (collision_detection_set_params example_env_angles
              (example_state (example_params 0) [] example_straight_triple)
              16 1 0 1 5 0 1 2 3 3 0 1).2 0 1 2).bind
            fun s => coldet_do_three_particle_bond example_env_angles s 0 1 2).map
          fun s => s.mem.map fun r => r.bl) = some [[2, 1, 2, 2, 1, 2], [], []])
    ∧ ((collision_detection_set_params example_env_angles
        (example_state (example_params 0) [] example_coincident_triple)
        16 1 0 1 5 0 1 2 3 2 4 1).1 = 0
      ∧ three_particle_range_bad example_env_angles 2 4 = false
      ∧ ((coldet_do_three_particle_bond example_env_angles
            (collision_detection_set_params example_env_angles
              (example_state (example_params 0) [] example_coincident_triple)
              16 1 0 1 5 0 1 2 3 2 4 1).2 0 1 2).map
          fun s => s.mem.map fun r => r.bl) = some [[-2147483648, 1, 2], [], []]
      ∧ (((coldet_do_three_particle_bond example_env_angles
            (collision_detection_set_params example_env_angles
              (example_state (example_params 0) [] example_coincident_triple)
              16 1 0 1 5 0 1 2 3 2 4 1).2 0 1 2).bind
            fun s => coldet_do_three_particle_bond example_env_angles s 0 1 2).map
          fun s => s.mem.map fun r => r.bl)
        = some [[-2147483648, 1, 2, -2147483648, 1, 2], [], []])
    ∧ ((collision_detection_set_params example_env_angles
        (example_state (example_params 0) [] example_right_triple)
        16 1 0 1 5 0 1 2 3 2147483647 1 1).1 = 0
      ∧ three_particle_range_bad example_env_angles 2147483647 1 = false
      ∧ ((coldet_do_three_particle_bond example_env_angles
            (collision_detection_set_params example_env_angles
              (example_state (example_params 0) [] example_right_triple)
              16 1 0 1 5 0 1 2 3 2147483647 1 1).2 0 1 2).map
          fun s => s.mem.map fun r => r.bl) = some [[2147483647, 1, 2], [], []]
      ∧ (((coldet_do_three_particle_bond example_env_angles
            (collision_detection_set_params example_env_angles
              (example_state (example_params 0) [] example_right_triple)
              16 1 0 1 5 0 1 2 3 2147483647 1 1).2 0 1 2).bind
            fun s => coldet_do_three_particle_bond example_env_angles s 0 1 2).map
          fun s => s.mem.map fun r => r.bl)
        = some [[2147483647, 1, 2, 2147483647, 1, 2], [], []]) :=
  ⟨example_resolution_zero_inserts_twice, example_coincident_inserts_twice,
    example_overflow_inserts_twice⟩

theorem example_acos_range (c : ℚ) :
    0 ≤ example_env_angles.acos c ∧ example_env_angles.acos c ≤ example_env_angles.M_PI := by
  simp only [example_env_angles, example_env]
  split_ifs <;> norm_num

/-- C11, run on the right angle example with resolution 4: the first call returns a state,
and the two further calls on that state, in either partner order, return the same state. -/
theorem coldet_idempotent_witness :
    ∃ st1, coldet_do_three_particle_bond example_env_angles
          (example_state (example_params 18) [] example_right_triple) 0 1 2 = some st1
      ∧ coldet_do_three_particle_bond example_env_angles st1 0 1 2 = some st1
      ∧ coldet_do_three_particle_bond example_env_angles st1 0 2 1 = some st1 :=
  coldet_idempotent example_env_angles
    (example_state (example_params 18) [] example_right_triple) 0 1 2
    (example_particle 0 1 0 false false)
    { example_particle 1 1 0 false false with pos := ⟨1 / 2, 0, 0⟩ }
    { example_particle 2 1 0 false false with pos := ⟨0, 1 / 2, 0⟩ } []
    rfl rfl rfl rfl (by simp) rfl (by decide) (by decide)
    (by norm_num [example_env_angles, example_env, example_particle, example_sqrt, sqrlen,
      Vec3.sub])
    (by norm_num [example_env_angles, example_env, example_particle, example_sqrt, sqrlen,
      Vec3.sub])
    (by norm_num [example_env_angles, example_env])
    (fun c _ => example_acos_range c)
    (by decide)

theorem set_params_status (env : Env K) (st : State K) (mode : Nat) (d : K)
    (bond_centers bond_vs t d2 tg tv ta bond_three_particles angle_resolution : Int)
    (triangle_size : K) :
    (collision_detection_set_params env st mode d bond_centers bond_vs t d2 tg tv ta
      bond_three_particles angle_resolution triangle_size).1
      = validate_params env (expand_mode env mode) bond_centers bond_vs bond_three_particles
          angle_resolution := by
  unfold collision_detection_set_params
  by_cases hs : validate_params env (expand_mode env mode) bond_centers bond_vs
      bond_three_particles angle_resolution = 0
  · simp [hs]
  · simp [hs]

theorem set_params_stored (env : Env K) (st : State K) (mode : Nat) (d : K)
    (bond_centers bond_vs t d2 tg tv ta bond_three_particles angle_resolution : Int)
    (triangle_size : K)
    (h : (collision_detection_set_params env st mode d bond_centers bond_vs t d2 tg tv ta
      bond_three_particles angle_resolution triangle_size).1 = 0) :
    (collision_detection_set_params env st mode d bond_centers bond_vs t d2 tg tv ta
      bond_three_particles angle_resolution triangle_size).2.collision_params
      = { mode := expand_mode env mode
          distance := d
          bond_centers := bond_centers
          bond_vs := bond_vs
          vs_particle_type := t
          dist_glued_part_to_vs := (d2 : K)
          part_type_to_be_glued := tg
          part_type_to_attach_vs_to := tv
          part_type_after_glueing := ta
          bond_three_particles := bond_three_particles
          three_particle_angle_resolution := angle_resolution
          triangle_size := triangle_size } := by
  rw [set_params_status] at h
  unfold collision_detection_set_params
  simp only [h, bne_self_eq_false, Bool.false_eq_true, if_false]
  cases (flag_set (expand_mode env mode) env.COLLISION_MODE_VS
      || env.COLLISION_MODE_TRIANGLE_BINDING != 0 || env.COLLISION_MODE_TRIANGLE_BINDING != 0)
    <;> cases flag_set (expand_mode env mode) env.COLLISION_MODE_GLUE_TO_SURF <;> rfl

theorem validate_params_accept (env : Env K) (mode : Nat)
    (bond_centers bond_vs bond_three_particles angle_resolution : Int)
    (h : validate_params env mode bond_centers bond_vs bond_three_particles angle_resolution = 0) :
    (!env.VIRTUAL_SITES_RELATIVE && (flag_set mode env.COLLISION_MODE_VS
        || flag_set mode env.COLLISION_MODE_GLUE_TO_SURF
        || flag_set mode env.COLLISION_MODE_TRIANGLE_BINDING)) = false
    ∧ ((flag_set mode env.COLLISION_MODE_VS || flag_set mode env.COLLISION_MODE_GLUE_TO_SURF
        || flag_set mode env.COLLISION_MODE_TRIANGLE_BINDING) && env.n_nodes != 1) = false
    ∧ (flag_set mode env.COLLISION_MODE_BOND && decide (bond_centers ≥ env.n_bonded_ia)) = false
    ∧ (flag_set mode env.COLLISION_MODE_VS && decide (bond_vs ≥ env.n_bonded_ia)) = false
    ∧ (flag_set mode env.COLLISION_MODE_BOND && env.bonded_ia_params bond_centers != 1) = false
    ∧ (flag_set mode env.COLLISION_MODE_VS
        && !(env.bonded_ia_params bond_vs == 1 || env.bonded_ia_params bond_vs == 2)) = false
    ∧ (flag_set mode env.COLLISION_MODE_BIND_THREE_PARTICLES
        && decide (int_wrap (bond_three_particles + angle_resolution) ≥ env.n_bonded_ia)) = false
    ∧ (flag_set mode env.COLLISION_MODE_BIND_THREE_PARTICLES
        && three_particle_range_bad env bond_three_particles angle_resolution) = false := by
  unfold validate_params at h
  simp only at h
  by_cases h1 : (!env.VIRTUAL_SITES_RELATIVE && (flag_set mode env.COLLISION_MODE_VS
      || flag_set mode env.COLLISION_MODE_GLUE_TO_SURF
      || flag_set mode env.COLLISION_MODE_TRIANGLE_BINDING)) = true
  · rw [if_pos h1] at h; exact absurd h (by decide)
  rw [if_neg h1] at h
  by_cases h2 : ((flag_set mode env.COLLISION_MODE_VS
      || flag_set mode env.COLLISION_MODE_GLUE_TO_SURF
      || flag_set mode env.COLLISION_MODE_TRIANGLE_BINDING) && env.n_nodes != 1) = true
  · rw [if_pos h2] at h; exact absurd h (by decide)
  rw [if_neg h2] at h
  by_cases h3 : (flag_set mode env.COLLISION_MODE_BOND
      && decide (bond_centers ≥ env.n_bonded_ia)) = true
  · rw [if_pos h3] at h; exact absurd h (by decide)
  rw [if_neg h3] at h
  by_cases h4 : (flag_set mode env.COLLISION_MODE_VS
      && decide (bond_vs ≥ env.n_bonded_ia)) = true
  · rw [if_pos h4] at h; exact absurd h (by decide)
  rw [if_neg h4] at h
  by_cases h5 : (flag_set mode env.COLLISION_MODE_BOND
      && env.bonded_ia_params bond_centers != 1) = true
  · rw [if_pos h5] at h; exact absurd h (by decide)
  rw [if_neg h5] at h
  by_cases h6 : (flag_set mode env.COLLISION_MODE_VS
      && !(env.bonded_ia_params bond_vs == 1 || env.bonded_ia_params bond_vs == 2)) = true
  · rw [if_pos h6] at h; exact absurd h (by decide)
  rw [if_neg h6] at h
  by_cases h7 : (flag_set mode env.COLLISION_MODE_BIND_THREE_PARTICLES
      && decide (int_wrap (bond_three_particles + angle_resolution) ≥ env.n_bonded_ia)) = true
  · rw [if_pos h7] at h; exact absurd h (by decide)
  rw [if_neg h7] at h
  by_cases h8 : (flag_set mode env.COLLISION_MODE_BIND_THREE_PARTICLES
      && three_particle_range_bad env bond_three_particles angle_resolution) = true
  · rw [if_pos h8] at h; exact absurd h (by decide)
  exact ⟨Bool.eq_false_iff.mpr h1, Bool.eq_false_iff.mpr h2, Bool.eq_false_iff.mpr h3,
    Bool.eq_false_iff.mpr h4, Bool.eq_false_iff.mpr h5, Bool.eq_false_iff.mpr h6,
    Bool.eq_false_iff.mpr h7, Bool.eq_false_iff.mpr h8⟩

/-- C17 at a failing input: with the word in front of the bonded interaction table reading
as a one-partner bond, `collision_detection_set_params` called in the mode BOND with the
center bond id -1 reads `bonded_ia_params[-1]`, returns status 0 and stores -1 as the center
bond id, which is not an index of the table; with the same arguments and a table that differs
only in that word the status is 4, so the status depends on a read outside the table. -/
theorem set_params_accepts_negative_center_bond :
    (collision_detection_set_params example_env_before_table
        (example_state (example_params 0) [] []) 2 1 (-1) 1 5 0 1 2 3 2 4 1).1 = 0
    ∧ (collision_detection_set_params example_env_before_table
        (example_state (example_params 0) [] [])
        2 1 (-1) 1 5 0 1 2 3 2 4 1).2.collision_params.bond_centers = -1
    ∧ flag_set (collision_detection_set_params example_env_before_table
        (example_state (example_params 0) [] [])
        2 1 (-1) 1 5 0 1 2 3 2 4 1).2.collision_params.mode
        example_env_before_table.COLLISION_MODE_BOND = true
    ∧ (collision_detection_set_params example_env
        (example_state (example_params 0) [] []) 2 1 (-1) 1 5 0 1 2 3 2 4 1).1 = 4 := by
  rw [set_params_stored example_env_before_table _ 2 1 (-1) 1 5 0 1 2 3 2 4 1 (by decide)]
  exact ⟨by decide, rfl, by decide, by decide⟩

/-! ### Round trip of the configuration -/

theorem or_eq_left_of_and_eq (a b : Nat) (h : a &&& b = b) : a ||| b = a := by
  apply Nat.eq_of_testBit_eq
  intro i
  have hi := congrArg (fun n => n.testBit i) h
  simp only [Nat.testBit_and, Nat.testBit_or] at hi ⊢
  cases ha : a.testBit i <;> cases hb : b.testBit i <;> simp_all

theorem expand_mode_cases (env : Env K) (mode : Nat) :
    expand_mode env mode = mode ∨ expand_mode env mode = mode ||| env.COLLISION_MODE_BOND := by
  unfold expand_mode
  simp only
  split
  · split
    · right; rw [Nat.or_assoc, Nat.or_self]
    · right; rfl
  · split
    · right; rfl
    · left; rfl

/-- C18 (amended): for every argument tuple that `collision_detection_set_params` accepts, the
stored mode is the mode after the expansion of lines 62-66, which is the passed mode or the
passed mode with the BOND flag added, and is the passed mode whenever that contains the BOND
flag; every other field of `collision_params` equals the value passed in (the glue distance
is passed as an `int`). -/
theorem set_params_round_trip (env : Env K) (st : State K) (mode : Nat) (d : K)
    (bond_centers bond_vs t d2 tg tv ta bond_three_particles angle_resolution : Int)
    (triangle_size : K)
    (hacc : (collision_detection_set_params env st mode d bond_centers bond_vs t d2 tg tv ta
      bond_three_particles angle_resolution triangle_size).1 = 0) :
    (collision_detection_set_params env st mode d bond_centers bond_vs t d2 tg tv ta
      bond_three_particles angle_resolution triangle_size).2.collision_params
      = { mode := expand_mode env mode
          distance := d
          bond_centers := bond_centers
          bond_vs := bond_vs
          vs_particle_type := t
          dist_glued_part_to_vs := (d2 : K)
          part_type_to_be_glued := tg
          part_type_to_attach_vs_to := tv
          part_type_after_glueing := ta
          bond_three_particles := bond_three_particles
          three_particle_angle_resolution := angle_resolution
          triangle_size := triangle_size }
    ∧ (expand_mode env mode = mode ∨ expand_mode env mode = mode ||| env.COLLISION_MODE_BOND)
    ∧ (mode &&& env.COLLISION_MODE_BOND = env.COLLISION_MODE_BOND →
        expand_mode env mode = mode) := by
  refine ⟨set_params_stored env st mode d bond_centers bond_vs t d2 tg tv ta
    bond_three_particles angle_resolution triangle_size hacc, expand_mode_cases env mode, ?_⟩
  intro hb
  rcases expand_mode_cases env mode with h | h
  · exact h
  · rw [h, or_eq_left_of_and_eq _ _ hb]

/-- C18 is false as stated: the call with the mode 4 (virtual sites) is accepted and the mode
read back is 6, not the value 4 passed in. -/
theorem set_params_mode_not_read_back :
    (collision_detection_set_params example_env (example_state (example_params 0) [] [])
        4 1 0 1 5 0 1 2 3 2 4 1).1 = 0
    ∧ (collision_detection_set_params example_env (example_state (example_params 0) [] [])
        4 1 0 1 5 0 1 2 3 2 4 1).2.collision_params.mode = 6
    ∧ (collision_detection_set_params example_env (example_state (example_params 0) [] [])
        4 1 0 1 5 0 1 2 3 2 4 1).2.collision_params.mode ≠ 4 := by
  rw [set_params_stored example_env _ 4 1 0 1 5 0 1 2 3 2 4 1 (by decide)]
  exact ⟨by decide, by decide, by decide⟩

/-- C18, run on the mode 6 (BOND and virtual sites): accepted, and every field reads back as
passed, the mode included. -/
theorem set_params_round_trip_witness :
    (collision_detection_set_params example_env (example_state (example_params 0) [] [])
        6 1 0 1 5 0 1 2 3 2 4 1).2.collision_params
      = { mode := 6
          distance := 1
          bond_centers := 0
          bond_vs := 1
          vs_particle_type := 5
          dist_glued_part_to_vs := 0
          part_type_to_be_glued := 1
          part_type_to_attach_vs_to := 2
          part_type_after_glueing := 3
          bond_three_particles := 2
          three_particle_angle_resolution := 4
          triangle_size := 1 } := by
  have h := set_params_round_trip example_env (example_state (example_params 0) [] [])
    6 1 0 1 5 0 1 2 3 2 4 1 (by decide)
  rw [h.1, h.2.2 (by decide)]
  simp
/-! ### The status codes -/

theorem validate_params_range (env : Env K) (mode : Nat)
    (bond_centers bond_vs bond_three_particles angle_resolution : Int) :
    0 ≤ validate_params env mode bond_centers bond_vs bond_three_particles angle_resolution
      ∧ validate_params env mode bond_centers bond_vs bond_three_particles angle_resolution
        ≤ 7 := by
  unfold validate_params
  simp only
  repeat' split
  all_goals omega

theorem three_particle_range_bad_iff (env : Env K) (base res : Int) :
    three_particle_range_bad env base res = true
      ↔ ∃ i : Int, base ≤ i ∧ i ≤ int_wrap (base + res) ∧ env.bonded_ia_params i ≠ 2 := by
  unfold three_particle_range_bad
  rw [List.any_eq_true]
  constructor
  · rintro ⟨k, hk, hne⟩
    rw [List.mem_range] at hk
    exact ⟨base + (k : Int), by omega, by omega, by simpa using hne⟩
  · rintro ⟨i, hlo, hhi, hne⟩
    refine ⟨(i - base).toNat, List.mem_range.mpr (by omega), ?_⟩
    have hi : base + ((i - base).toNat : Int) = i := by omega
    rw [hi]
    simpa using hne

theorem validate_params_codes (env : Env K) (m : Nat)
    (bond_centers bond_vs bond_three_particles angle_resolution : Int) (status : Int)
    (hstatus : validate_params env m bond_centers bond_vs bond_three_particles
      angle_resolution = status) :
    (status = 1 ↔ env.VIRTUAL_SITES_RELATIVE = false
        ∧ (flag_set m env.COLLISION_MODE_VS = true
          ∨ flag_set m env.COLLISION_MODE_GLUE_TO_SURF = true
          ∨ flag_set m env.COLLISION_MODE_TRIANGLE_BINDING = true))
    ∧ (status = 2 ↔ env.VIRTUAL_SITES_RELATIVE = true
        ∧ (flag_set m env.COLLISION_MODE_VS = true
          ∨ flag_set m env.COLLISION_MODE_GLUE_TO_SURF = true
          ∨ flag_set m env.COLLISION_MODE_TRIANGLE_BINDING = true)
        ∧ env.n_nodes ≠ 1)
    ∧ (status = 3 ↔ status ≠ 1 ∧ status ≠ 2
        ∧ ((flag_set m env.COLLISION_MODE_BOND = true ∧ bond_centers ≥ env.n_bonded_ia)
          ∨ (flag_set m env.COLLISION_MODE_VS = true ∧ bond_vs ≥ env.n_bonded_ia)))
    ∧ (status = 4 ↔ status ≠ 1 ∧ status ≠ 2 ∧ status ≠ 3
        ∧ flag_set m env.COLLISION_MODE_BOND = true ∧ env.bonded_ia_params bond_centers ≠ 1)
    ∧ (status = 5 ↔ status ≠ 1 ∧ status ≠ 2 ∧ status ≠ 3 ∧ status ≠ 4
        ∧ flag_set m env.COLLISION_MODE_VS = true
        ∧ env.bonded_ia_params bond_vs ≠ 1 ∧ env.bonded_ia_params bond_vs ≠ 2)
    ∧ (status = 6 ↔ status ≠ 1 ∧ status ≠ 2 ∧ status ≠ 3 ∧ status ≠ 4 ∧ status ≠ 5
        ∧ flag_set m env.COLLISION_MODE_BIND_THREE_PARTICLES = true
        ∧ int_wrap (bond_three_particles + angle_resolution) ≥ env.n_bonded_ia)
    ∧ (status = 7 ↔ status ≠ 1 ∧ status ≠ 2 ∧ status ≠ 3 ∧ status ≠ 4 ∧ status ≠ 5
        ∧ status ≠ 6
        ∧ flag_set m env.COLLISION_MODE_BIND_THREE_PARTICLES = true
        ∧ ∃ i : Int, bond_three_particles ≤ i
          ∧ i ≤ int_wrap (bond_three_particles + angle_resolution)
          ∧ env.bonded_ia_params i ≠ 2) := by
  subst hstatus
  have hbad := three_particle_range_bad_iff env bond_three_particles angle_resolution
  unfold validate_params
  simp only
  by_cases h1 : (!env.VIRTUAL_SITES_RELATIVE && (flag_set m env.COLLISION_MODE_VS
      || flag_set m env.COLLISION_MODE_GLUE_TO_SURF
      || flag_set m env.COLLISION_MODE_TRIANGLE_BINDING)) = true
  · rw [if_pos h1]
    simp only [Bool.and_eq_true, Bool.or_eq_true, Bool.not_eq_true'] at h1
    simp [h1.1, h1.2]
    tauto
  rw [if_neg h1]
  by_cases h2 : ((flag_set m env.COLLISION_MODE_VS
      || flag_set m env.COLLISION_MODE_GLUE_TO_SURF
      || flag_set m env.COLLISION_MODE_TRIANGLE_BINDING) && env.n_nodes != 1) = true
  · rw [if_pos h2]
    simp only [Bool.and_eq_true, Bool.or_eq_true, Bool.not_eq_true', bne_iff_ne, ne_eq] at h1 h2
    have hvs : env.VIRTUAL_SITES_RELATIVE = true := by
      cases hv : env.VIRTUAL_SITES_RELATIVE
      · exact absurd ⟨hv, h2.1⟩ h1
      · rfl
    simp [hvs, h2.1, h2.2]
    tauto
  rw [if_neg h2]
  have h12 : ¬ (env.VIRTUAL_SITES_RELATIVE = false
        ∧ (flag_set m env.COLLISION_MODE_VS = true
          ∨ flag_set m env.COLLISION_MODE_GLUE_TO_SURF = true
          ∨ flag_set m env.COLLISION_MODE_TRIANGLE_BINDING = true))
      ∧ ¬ (env.VIRTUAL_SITES_RELATIVE = true
        ∧ (flag_set m env.COLLISION_MODE_VS = true
          ∨ flag_set m env.COLLISION_MODE_GLUE_TO_SURF = true
          ∨ flag_set m env.COLLISION_MODE_TRIANGLE_BINDING = true)
        ∧ env.n_nodes ≠ 1) := by
    simp only [Bool.and_eq_true, Bool.or_eq_true, Bool.not_eq_true', bne_iff_ne, ne_eq] at h1 h2
    tauto
  by_cases h3 : (flag_set m env.COLLISION_MODE_BOND
      && decide (bond_centers ≥ env.n_bonded_ia)) = true
  · rw [if_pos h3]
    simp only [Bool.and_eq_true, decide_eq_true_eq] at h3
    refine ⟨?_, ?_, ?_, ?_, ?_, ?_, ?_⟩
    · exact ⟨fun h => absurd h (by decide), fun h => absurd h h12.1⟩
    · exact ⟨fun h => absurd h (by decide), fun h => absurd h h12.2⟩
    · exact ⟨fun _ => ⟨by decide, by decide, Or.inl h3⟩, fun _ => rfl⟩
    all_goals exact ⟨fun h => absurd h (by decide), fun h => absurd rfl (by tauto)⟩
  rw [if_neg h3]
  by_cases h4 : (flag_set m env.COLLISION_MODE_VS
      && decide (bond_vs ≥ env.n_bonded_ia)) = true
  · rw [if_pos h4]
    simp only [Bool.and_eq_true, decide_eq_true_eq] at h4
    refine ⟨?_, ?_, ?_, ?_, ?_, ?_, ?_⟩
    · exact ⟨fun h => absurd h (by decide), fun h => absurd h h12.1⟩
    · exact ⟨fun h => absurd h (by decide), fun h => absurd h h12.2⟩
    · exact ⟨fun _ => ⟨by decide, by decide, Or.inr h4⟩, fun _ => rfl⟩
    all_goals exact ⟨fun h => absurd h (by decide), fun h => absurd rfl (by tauto)⟩
  rw [if_neg h4]
  have h34 : ¬ ((flag_set m env.COLLISION_MODE_BOND = true ∧ bond_centers ≥ env.n_bonded_ia)
      ∨ (flag_set m env.COLLISION_MODE_VS = true ∧ bond_vs ≥ env.n_bonded_ia)) := by
    simp only [Bool.and_eq_true, decide_eq_true_eq] at h3 h4
    tauto
  by_cases h5 : (flag_set m env.COLLISION_MODE_BOND
      && env.bonded_ia_params bond_centers != 1) = true
  · rw [if_pos h5]
    simp only [Bool.and_eq_true, bne_iff_ne, ne_eq] at h5
    refine ⟨?_, ?_, ?_, ?_, ?_, ?_, ?_⟩
    · exact ⟨fun h => absurd h (by decide), fun h => absurd h h12.1⟩
    · exact ⟨fun h => absurd h (by decide), fun h => absurd h h12.2⟩
    · exact ⟨fun h => absurd h (by decide), fun h => absurd h.2.2 h34⟩
    · exact ⟨fun _ => ⟨by decide, by decide, by decide, h5⟩, fun _ => rfl⟩
    all_goals exact ⟨fun h => absurd h (by decide), fun h => absurd rfl (by tauto)⟩
  rw [if_neg h5]
  have h5' : ¬ (flag_set m env.COLLISION_MODE_BOND = true
      ∧ env.bonded_ia_params bond_centers ≠ 1) := by
    simp only [Bool.and_eq_true, bne_iff_ne, ne_eq] at h5
    exact h5
  by_cases h6 : (flag_set m env.COLLISION_MODE_VS
      && !(env.bonded_ia_params bond_vs == 1 || env.bonded_ia_params bond_vs == 2)) = true
  · rw [if_pos h6]
    simp only [Bool.and_eq_true, Bool.not_eq_true', Bool.or_eq_false_iff, beq_eq_false_iff_ne,
      ne_eq] at h6
    refine ⟨?_, ?_, ?_, ?_, ?_, ?_, ?_⟩
    · exact ⟨fun h => absurd h (by decide), fun h => absurd h h12.1⟩
    · exact ⟨fun h => absurd h (by decide), fun h => absurd h h12.2⟩
    · exact ⟨fun h => absurd h (by decide), fun h => absurd h.2.2 h34⟩
    · exact ⟨fun h => absurd h (by decide), fun h => absurd h.2.2.2 h5'⟩
    · exact ⟨fun _ => ⟨by decide, by decide, by decide, by decide, h6.1, h6.2.1, h6.2.2⟩,
        fun _ => rfl⟩
    all_goals exact ⟨fun h => absurd h (by decide), fun h => absurd rfl (by tauto)⟩
  rw [if_neg h6]
  have h6' : ¬ (flag_set m env.COLLISION_MODE_VS = true
      ∧ env.bonded_ia_params bond_vs ≠ 1 ∧ env.bonded_ia_params bond_vs ≠ 2) := by
    simp only [Bool.and_eq_true, Bool.not_eq_true', Bool.or_eq_false_iff, beq_eq_false_iff_ne,
      ne_eq] at h6
    exact h6
  by_cases h7 : (flag_set m env.COLLISION_MODE_BIND_THREE_PARTICLES
      && decide (int_wrap (bond_three_particles + angle_resolution) ≥ env.n_bonded_ia)) = true
  · rw [if_pos h7]
    simp only [Bool.and_eq_true, decide_eq_true_eq] at h7
    refine ⟨?_, ?_, ?_, ?_, ?_, ?_, ?_⟩
    · exact ⟨fun h => absurd h (by decide), fun h => absurd h h12.1⟩
    · exact ⟨fun h => absurd h (by decide), fun h => absurd h h12.2⟩
    · exact ⟨fun h => absurd h (by decide), fun h => absurd h.2.2 h34⟩
    · exact ⟨fun h => absurd h (by decide), fun h => absurd h.2.2.2 h5'⟩
    · exact ⟨fun h => absurd h (by decide), fun h => absurd h.2.2.2.2 h6'⟩
    · exact ⟨fun _ => ⟨by decide, by decide, by decide, by decide, by decide, h7⟩,
        fun _ => rfl⟩
    · exact ⟨fun h => absurd h (by decide), fun h => absurd rfl (by tauto)⟩
  rw [if_neg h7]
  have h7' : ¬ (flag_set m env.COLLISION_MODE_BIND_THREE_PARTICLES = true
      ∧ int_wrap (bond_three_particles + angle_resolution) ≥ env.n_bonded_ia) := by
    simp only [Bool.and_eq_true, decide_eq_true_eq] at h7
    exact h7
  by_cases h8 : (flag_set m env.COLLISION_MODE_BIND_THREE_PARTICLES
      && three_particle_range_bad env bond_three_particles angle_resolution) = true
  · rw [if_pos h8]
    simp only [Bool.and_eq_true] at h8
    refine ⟨?_, ?_, ?_, ?_, ?_, ?_, ?_⟩
    · exact ⟨fun h => absurd h (by decide), fun h => absurd h h12.1⟩
    · exact ⟨fun h => absurd h (by decide), fun h => absurd h h12.2⟩
    · exact ⟨fun h => absurd h (by decide), fun h => absurd h.2.2 h34⟩
    · exact ⟨fun h => absurd h (by decide), fun h => absurd h.2.2.2 h5'⟩
    · exact ⟨fun h => absurd h (by decide), fun h => absurd h.2.2.2.2 h6'⟩
    · exact ⟨fun h => absurd h (by decide), fun h => absurd h.2.2.2.2.2 h7'⟩
    · exact ⟨fun _ => ⟨by decide, by decide, by decide, by decide, by decide, by decide,
        h8.1, hbad.mp h8.2⟩, fun _ => rfl⟩
  rw [if_neg h8]
  have h8' : ¬ (flag_set m env.COLLISION_MODE_BIND_THREE_PARTICLES = true
      ∧ ∃ i : Int, bond_three_particles ≤ i
        ∧ i ≤ int_wrap (bond_three_particles + angle_resolution)
        ∧ env.bonded_ia_params i ≠ 2) := by
    simp only [Bool.and_eq_true] at h8
    rintro ⟨hf, hex⟩
    exact h8 ⟨hf, hbad.mpr hex⟩
  refine ⟨?_, ?_, ?_, ?_, ?_, ?_, ?_⟩
  · exact ⟨fun h => absurd h (by decide), fun h => absurd h h12.1⟩
  · exact ⟨fun h => absurd h (by decide), fun h => absurd h h12.2⟩
  · exact ⟨fun h => absurd h (by decide), fun h => absurd h.2.2 h34⟩
  · exact ⟨fun h => absurd h (by decide), fun h => absurd h.2.2.2 h5'⟩
  · exact ⟨fun h => absurd h (by decide), fun h => absurd h.2.2.2.2 h6'⟩
  · exact ⟨fun h => absurd h (by decide), fun h => absurd h.2.2.2.2.2 h7'⟩
  · exact ⟨fun h => absurd h (by decide), fun h => absurd h.2.2.2.2.2.2 h8'⟩

/-- C19 (amended): the status of `collision_detection_set_params` lies in `0 .. 7`, and each
status `k` from 1 to 7 is returned exactly when check `k` fails on the expanded mode and no
smaller status is returned: 1 a vs-based mode without virtual site support, 2 a vs-based mode
on more than one rank, 3 a center or virtual site bond id not below `n_bonded_ia`, 4 a center
bond not of arity 1, 5 a virtual site bond of arity neither 1 nor 2, 6 an `int` sum base +
resolution not below `n_bonded_ia`, 7 a bond of the three particle range not of arity 2.
Without virtual site support the statuses 2 and 5 are never returned, with it on one rank 1
and 2 are not, with it on several ranks 1 and 5 are not; in each of the three cases the five
other statuses are returned for some input of an example table. -/
theorem set_params_status_codes (env : Env K) (st : State K) (mode : Nat) (d : K)
    (bond_centers bond_vs t d2 tg tv ta bond_three_particles angle_resolution : Int)
    (triangle_size : K) (status : Int)
    (hstatus : (collision_detection_set_params env st mode d bond_centers bond_vs t d2 tg tv ta
        bond_three_particles angle_resolution triangle_size).1 = status) :
    (0 ≤ status ∧ status ≤ 7)
    ∧ (status = 1 ↔ env.VIRTUAL_SITES_RELATIVE = false
        ∧ (flag_set (expand_mode env mode) env.COLLISION_MODE_VS = true
          ∨ flag_set (expand_mode env mode) env.COLLISION_MODE_GLUE_TO_SURF = true
          ∨ flag_set (expand_mode env mode) env.COLLISION_MODE_TRIANGLE_BINDING = true))
    ∧ (status = 2 ↔ env.VIRTUAL_SITES_RELATIVE = true
        ∧ (flag_set (expand_mode env mode) env.COLLISION_MODE_VS = true
          ∨ flag_set (expand_mode env mode) env.COLLISION_MODE_GLUE_TO_SURF = true
          ∨ flag_set (expand_mode env mode) env.COLLISION_MODE_TRIANGLE_BINDING = true)
        ∧ env.n_nodes ≠ 1)
    ∧ (status = 3 ↔ status ≠ 1 ∧ status ≠ 2
        ∧ ((flag_set (expand_mode env mode) env.COLLISION_MODE_BOND = true
            ∧ bond_centers ≥ env.n_bonded_ia)
          ∨ (flag_set (expand_mode env mode) env.COLLISION_MODE_VS = true
            ∧ bond_vs ≥ env.n_bonded_ia)))
    ∧ (status = 4 ↔ status ≠ 1 ∧ status ≠ 2 ∧ status ≠ 3
        ∧ flag_set (expand_mode env mode) env.COLLISION_MODE_BOND = true
        ∧ env.bonded_ia_params bond_centers ≠ 1)
    ∧ (status = 5 ↔ status ≠ 1 ∧ status ≠ 2 ∧ status ≠ 3 ∧ status ≠ 4
        ∧ flag_set (expand_mode env mode) env.COLLISION_MODE_VS = true
        ∧ env.bonded_ia_params bond_vs ≠ 1 ∧ env.bonded_ia_params bond_vs ≠ 2)
    ∧ (status = 6 ↔ status ≠ 1 ∧ status ≠ 2 ∧ status ≠ 3 ∧ status ≠ 4 ∧ status ≠ 5
        ∧ flag_set (expand_mode env mode) env.COLLISION_MODE_BIND_THREE_PARTICLES = true
        ∧ int_wrap (bond_three_particles + angle_resolution) ≥ env.n_bonded_ia)
    ∧ (status = 7 ↔ status ≠ 1 ∧ status ≠ 2 ∧ status ≠ 3 ∧ status ≠ 4 ∧ status ≠ 5
        ∧ status ≠ 6
        ∧ flag_set (expand_mode env mode) env.COLLISION_MODE_BIND_THREE_PARTICLES = true
        ∧ ∃ i : Int, bond_three_particles ≤ i
          ∧ i ≤ int_wrap (bond_three_particles + angle_resolution)
          ∧ env.bonded_ia_params i ≠ 2)
    ∧ (env.VIRTUAL_SITES_RELATIVE = false → status ≠ 2 ∧ status ≠ 5)
    ∧ (env.VIRTUAL_SITES_RELATIVE = true → env.n_nodes = 1 → status ≠ 1 ∧ status ≠ 2)
    ∧ (env.VIRTUAL_SITES_RELATIVE = true → env.n_nodes ≠ 1 → status ≠ 1 ∧ status ≠ 5)
    ∧ ((collision_detection_set_params { example_env_dihedral with VIRTUAL_SITES_RELATIVE := false }
          (example_state (example_params 0) [] []) 4 1 0 1 5 0 1 2 3 2 4 1).1 = 1
      ∧ (collision_detection_set_params { example_env_dihedral with VIRTUAL_SITES_RELATIVE := false }
          (example_state (example_params 0) [] []) 2 1 9 1 5 0 1 2 3 2 4 1).1 = 3
      ∧ (collision_detection_set_params { example_env_dihedral with VIRTUAL_SITES_RELATIVE := false }
          (example_state (example_params 0) [] []) 2 1 2 1 5 0 1 2 3 2 4 1).1 = 4
      ∧ (collision_detection_set_params { example_env_dihedral with VIRTUAL_SITES_RELATIVE := false }
          (example_state (example_params 0) [] []) 16 1 0 1 5 0 1 2 3 6 4 1).1 = 6
      ∧ (collision_detection_set_params { example_env_dihedral with VIRTUAL_SITES_RELATIVE := false }
          (example_state (example_params 0) [] []) 16 1 0 1 5 0 1 2 3 5 2 1).1 = 7)
    ∧ ((collision_detection_set_params example_env_dihedral
          (example_state (example_params 0) [] []) 2 1 9 1 5 0 1 2 3 2 4 1).1 = 3
      ∧ (collision_detection_set_params example_env_dihedral
          (example_state (example_params 0) [] []) 2 1 2 1 5 0 1 2 3 2 4 1).1 = 4
      ∧ (collision_detection_set_params example_env_dihedral
          (example_state (example_params 0) [] []) 4 1 0 7 5 0 1 2 3 2 4 1).1 = 5
      ∧ (collision_detection_set_params example_env_dihedral
          (example_state (example_params 0) [] []) 16 1 0 1 5 0 1 2 3 6 4 1).1 = 6
      ∧ (collision_detection_set_params example_env_dihedral
          (example_state (example_params 0) [] []) 16 1 0 1 5 0 1 2 3 5 2 1).1 = 7)
    ∧ ((collision_detection_set_params { example_env_dihedral with n_nodes := 2 }
          (example_state (example_params 0) [] []) 4 1 0 1 5 0 1 2 3 2 4 1).1 = 2
      ∧ (collision_detection_set_params { example_env_dihedral with n_nodes := 2 }
          (example_state (example_params 0) [] []) 2 1 9 1 5 0 1 2 3 2 4 1).1 = 3
      ∧ (collision_detection_set_params { example_env_dihedral with n_nodes := 2 }
          (example_state (example_params 0) [] []) 2 1 2 1 5 0 1 2 3 2 4 1).1 = 4
      ∧ (collision_detection_set_params { example_env_dihedral with n_nodes := 2 }
          (example_state (example_params 0) [] []) 16 1 0 1 5 0 1 2 3 6 4 1).1 = 6
      ∧ (collision_detection_set_params { example_env_dihedral with n_nodes := 2 }
          (example_state (example_params 0) [] []) 16 1 0 1 5 0 1 2 3 5 2 1).1 = 7) := by
  rw [set_params_status] at hstatus
  obtain ⟨c1, c2, c3, c4, c5, c6, c7⟩ := validate_params_codes env (expand_mode env mode)
    bond_centers bond_vs bond_three_particles angle_resolution status hstatus
  have hrange := validate_params_range env (expand_mode env mode) bond_centers bond_vs
    bond_three_particles angle_resolution
  rw [hstatus] at hrange
  refine ⟨hrange, c1, c2, c3, c4, c5, c6, c7, ?_, ?_, ?_,
    ⟨by decide, by decide, by decide, by decide, by decide⟩,
    ⟨by decide, by decide, by decide, by decide, by decide⟩,
    ⟨by decide, by decide, by decide, by decide, by decide⟩⟩
  · intro hv
    refine ⟨fun h => ?_, fun h => ?_⟩
    · have := (c2.mp h).1
      rw [hv] at this
      cases this
    · have h5 := c5.mp h
      exact h5.1 (c1.mpr ⟨hv, Or.inl h5.2.2.2.2.1⟩)
  · intro hv hn
    refine ⟨fun h => ?_, fun h => ?_⟩
    · have := (c1.mp h).1
      rw [hv] at this
      cases this
    · exact (c2.mp h).2.2 hn
  · intro hv hn
    refine ⟨fun h => ?_, fun h => ?_⟩
    · have := (c1.mp h).1
      rw [hv] at this
      cases this
    · have h5 := c5.mp h
      exact h5.2.1 (c2.mpr ⟨hv, Or.inl h5.2.2.2.2.1, hn⟩)

/-- C19 is false as stated: in one build on one rank the three wrong arity rejections return
three different codes (4 for the center bond, 5 for the virtual site bond, 7 for a bond of
the three particle range), next to 3 for a center bond id that is not below `n_bonded_ia` and
6 for a three particle range that is not below it. -/
theorem set_params_arity_codes_differ :
    ((collision_detection_set_params example_env_dihedral
          (example_state (example_params 0) [] []) 2 1 2 1 5 0 1 2 3 2 4 1).1 = 4
      ∧ example_env_dihedral.bonded_ia_params 2 ≠ 1)
    ∧ ((collision_detection_set_params example_env_dihedral
          (example_state (example_params 0) [] []) 4 1 0 7 5 0 1 2 3 2 4 1).1 = 5
      ∧ example_env_dihedral.bonded_ia_params 7 ≠ 1
      ∧ example_env_dihedral.bonded_ia_params 7 ≠ 2)
    ∧ ((collision_detection_set_params example_env_dihedral
          (example_state (example_params 0) [] []) 16 1 0 1 5 0 1 2 3 5 2 1).1 = 7
      ∧ example_env_dihedral.bonded_ia_params 7 ≠ 2)
    ∧ ((collision_detection_set_params example_env_dihedral
          (example_state (example_params 0) [] []) 2 1 9 1 5 0 1 2 3 2 4 1).1 = 3
      ∧ (9 : Int) ≥ example_env_dihedral.n_bonded_ia)
    ∧ ((collision_detection_set_params example_env_dihedral
          (example_state (example_params 0) [] []) 16 1 0 1 5 0 1 2 3 6 4 1).1 = 6
      ∧ int_wrap (6 + 4) ≥ example_env_dihedral.n_bonded_ia) := by
  decide

/-- C19, run on a center bond with two partners: the status is 4, and 4 is returned because
the statuses 1, 2 and 3 are not, the expanded mode has the BOND flag and the center bond id
does not have one partner. -/
theorem set_params_status_codes_witness :
    (collision_detection_set_params example_env_dihedral
        (example_state (example_params 0) [] []) 2 1 2 1 5 0 1 2 3 2 4 1).1 = 4
    ∧ ((4 : Int) ≠ 1 ∧ (4 : Int) ≠ 2 ∧ (4 : Int) ≠ 3
      ∧ flag_set (expand_mode example_env_dihedral 2) example_env_dihedral.COLLISION_MODE_BOND
        = true
      ∧ example_env_dihedral.bonded_ia_params 2 ≠ 1) :=
  ⟨by decide, (set_params_status_codes example_env_dihedral
    (example_state (example_params 0) [] []) 2 1 2 1 5 0 1 2 3 2 4 1 4
    (by decide)).2.2.2.2.1.mp rfl⟩

/-! ### The implied BOND flag -/

theorem flag_set_bond_or (m b : Nat) (hb : b ≠ 0) : flag_set (m ||| b) b = true := by
  unfold flag_set
  simp only [bne_iff_ne, ne_eq]
  intro h0
  apply hb
  apply Nat.eq_of_testBit_eq
  intro i
  have hi := congrArg (fun n => n.testBit i) h0
  simp only [Nat.testBit_and, Nat.testBit_or, Nat.zero_testBit] at hi ⊢
  cases hm : m.testBit i <;> cases hf : b.testBit i <;> simp_all

theorem expand_mode_bond (env : Env K) (mode : Nat) (hbond : env.COLLISION_MODE_BOND ≠ 0)
    (h : flag_set (expand_mode env mode) env.COLLISION_MODE_VS = true
      ∨ flag_set (expand_mode env mode) env.COLLISION_MODE_GLUE_TO_SURF = true
      ∨ flag_set (expand_mode env mode) env.COLLISION_MODE_TRIANGLE_BINDING = true
      ∨ flag_set (expand_mode env mode) env.COLLISION_MODE_BIND_THREE_PARTICLES = true) :
    flag_set (expand_mode env mode) env.COLLISION_MODE_BOND = true := by
  unfold expand_mode at h ⊢
  simp only at h ⊢
  by_cases c1 : (flag_set mode env.COLLISION_MODE_VS
      || flag_set mode env.COLLISION_MODE_GLUE_TO_SURF
      || env.COLLISION_MODE_TRIANGLE_BINDING != 0) = true
  · rw [if_pos c1]
    split
    · exact flag_set_bond_or _ _ hbond
    · exact flag_set_bond_or _ _ hbond
  · rw [if_neg c1] at h ⊢
    by_cases c2 : flag_set mode env.COLLISION_MODE_BIND_THREE_PARTICLES = true
    · rw [if_pos c2]
      exact flag_set_bond_or _ _ hbond
    · rw [if_neg c2] at h
      simp only [Bool.or_eq_true, bne_iff_ne, ne_eq, not_or, not_not] at c1
      obtain ⟨⟨hvs, hglue⟩, htri⟩ := c1
      rcases h with h | h | h | h
      · exact absurd h hvs
      · exact absurd h hglue
      · rw [htri] at h
        simp [flag_set] at h
      · exact absurd h c2

/-- C20: after every accepted call of `collision_detection_set_params`, with a BOND flag
constant that is not zero, the stored mode contains BOND whenever it contains one of VS_PAIR,
GLUE_TO_SURF and TRIANGLE, and whenever it contains THREE_PARTICLE. -/
theorem set_params_mode_invariants (env : Env K) (st : State K) (mode : Nat) (d : K)
    (bond_centers bond_vs t d2 tg tv ta bond_three_particles angle_resolution : Int)
    (triangle_size : K)
    (hacc : (collision_detection_set_params env st mode d bond_centers bond_vs t d2 tg tv ta
      bond_three_particles angle_resolution triangle_size).1 = 0)
    (hbond : env.COLLISION_MODE_BOND ≠ 0) :
    ((flag_set (collision_detection_set_params env st mode d bond_centers bond_vs t d2 tg tv
          ta bond_three_particles angle_resolution triangle_size).2.collision_params.mode
          env.COLLISION_MODE_VS = true
        ∨ flag_set (collision_detection_set_params env st mode d bond_centers bond_vs t d2 tg
          tv ta bond_three_particles angle_resolution triangle_size).2.collision_params.mode
          env.COLLISION_MODE_GLUE_TO_SURF = true
        ∨ flag_set (collision_detection_set_params env st mode d bond_centers bond_vs t d2 tg
          tv ta bond_three_particles angle_resolution triangle_size).2.collision_params.mode
          env.COLLISION_MODE_TRIANGLE_BINDING = true) →
      flag_set (collision_detection_set_params env st mode d bond_centers bond_vs t d2 tg tv
        ta bond_three_particles angle_resolution triangle_size).2.collision_params.mode
        env.COLLISION_MODE_BOND = true)
    ∧ (flag_set (collision_detection_set_params env st mode d bond_centers bond_vs t d2 tg tv
          ta bond_three_particles angle_resolution triangle_size).2.collision_params.mode
          env.COLLISION_MODE_BIND_THREE_PARTICLES = true →
      flag_set (collision_detection_set_params env st mode d bond_centers bond_vs t d2 tg tv
        ta bond_three_particles angle_resolution triangle_size).2.collision_params.mode
        env.COLLISION_MODE_BOND = true) := by
  rw [set_params_stored env st mode d bond_centers bond_vs t d2 tg tv ta bond_three_particles
    angle_resolution triangle_size hacc]
  simp only
  constructor
  · intro h
    apply expand_mode_bond env mode hbond
    rcases h with h | h | h
    · exact Or.inl h
    · exact Or.inr (Or.inl h)
    · exact Or.inr (Or.inr (Or.inl h))
  · intro h
    exact expand_mode_bond env mode hbond (Or.inr (Or.inr (Or.inr h)))

/-- C20, run on the modes 8 (glue to surface) and 16 (three particle binding): both calls are
accepted and both stored modes contain BOND. -/
theorem set_params_mode_invariants_witness :
    flag_set (collision_detection_set_params example_env
        (example_state (example_params 0) [] [])
        8 1 0 1 5 0 1 2 3 2 4 1).2.collision_params.mode example_env.COLLISION_MODE_BOND = true
    ∧ flag_set (collision_detection_set_params example_env
        (example_state (example_params 0) [] [])
        16 1 0 1 5 0 1 2 3 2 4 1).2.collision_params.mode example_env.COLLISION_MODE_BOND
      = true :=
  ⟨(set_params_mode_invariants example_env (example_state (example_params 0) [] [])
      8 1 0 1 5 0 1 2 3 2 4 1 (by decide) (by decide)).1
      (Or.inr (Or.inl (by
        rw [set_params_stored example_env _ 8 1 0 1 5 0 1 2 3 2 4 1 (by decide)]
        decide))),
   (set_params_mode_invariants example_env (example_state (example_params 0) [] [])
      16 1 0 1 5 0 1 2 3 2 4 1 (by decide) (by decide)).2
      (by
        rw [set_params_stored example_env _ 16 1 0 1 5 0 1 2 3 2 4 1 (by decide)]
        decide)⟩

/-! ### Reconciliation: `gather_collision_queue` -/

theorem length_object_bytes (sz : Nat) (e : collision_struct K) :
    (object_bytes sz e).length = sz := by
  simp [object_bytes]

theorem queue_bytes_append (sz : Nat) (q1 q2 : List (collision_struct K)) :
    queue_bytes sz (q1 ++ q2) = queue_bytes sz q1 ++ queue_bytes sz q2 := by
  simp [queue_bytes, List.flatMap_append]

theorem length_queue_bytes (sz : Nat) (q : List (collision_struct K)) :
    (queue_bytes sz q).length = q.length * sz := by
  induction q with
  | nil => simp [queue_bytes]
  | cons e q ih =>
    have h : queue_bytes sz (e :: q) = object_bytes sz e ++ queue_bytes sz q := by
      simp [queue_bytes, List.flatMap_cons]
    rw [h, List.length_append, ih, length_object_bytes, List.length_cons]
    ring

theorem sum_take_succ_getD (l : List Nat) (k : Nat) :
    (l.take (k + 1)).sum = (l.take k).sum + l.getD k 0 := by
  induction l generalizing k with
  | nil => simp
  | cons a l ih =>
    cases k with
    | zero => simp
    | succ k =>
      rw [List.take_succ_cons, List.take_succ_cons, List.sum_cons, List.sum_cons, ih k]
      simp [List.getD_cons_succ, Nat.add_assoc]

theorem gather_displacements_loop (sz : Nat) (counts : List Nat) (m : Nat) :
    ((List.range m).foldl (fun d j => d ++ [d.getD j 0 + counts.getD j 0 * sz]) [0]).length
        = m + 1
      ∧ ∀ k, k ≤ m →
        ((List.range m).foldl (fun d j => d ++ [d.getD j 0 + counts.getD j 0 * sz]) [0]).getD
          k 0 = (counts.take k).sum * sz := by
  induction m with
  | zero =>
    refine ⟨rfl, ?_⟩
    intro k hk
    have hk0 : k = 0 := by omega
    subst hk0
    simp
  | succ m ih =>
    obtain ⟨hlen, hval⟩ := ih
    rw [List.range_succ, List.foldl_append]
    simp only [List.foldl_cons, List.foldl_nil]
    refine ⟨by rw [List.length_append, hlen]; rfl, ?_⟩
    intro k hk
    by_cases hkm : k ≤ m
    · rw [List.getD_append _ _ _ _ (by omega)]
      exact hval k hkm
    · have hk1 : k = m + 1 := by omega
      subst hk1
      rw [List.getD_append_right _ _ _ _ (by omega), hlen, Nat.sub_self]
      simp only [List.getD_cons_zero]
      rw [hval m (le_refl m), sum_take_succ_getD]
      ring

theorem gather_displacements_spec (sz n_nodes : Nat) (counts : List Nat) (k : Nat)
    (hk : k < n_nodes) :
    (gather_displacements sz n_nodes counts).getD k 0 = (counts.take k).sum * sz := by
  unfold gather_displacements
  exact (gather_displacements_loop sz counts (n_nodes - 1)).2 k (by omega)

theorem write_bytes_next {β : Type} (done block : List β) (m : Nat) (h : block.length ≤ m) :
    write_bytes (done.map some ++ List.replicate m none) done.length block
      = (done ++ block).map some ++ List.replicate (m - block.length) none := by
  unfold write_bytes
  have h1 : (done.map some ++ List.replicate m (none : Option β)).take done.length
      = done.map some := by
    rw [List.take_append_of_le_length (by simp)]
    simp
  have h2 : (done.map some ++ List.replicate m (none : Option β)).length - done.length = m := by
    simp
  have h3 : (done.map some ++ List.replicate m (none : Option β)).drop
      (done.length + block.length) = List.replicate (m - block.length) none := by
    have hlen : (done.map some).length = done.length := by simp
    rw [← hlen, List.drop_append, List.drop_replicate]
  rw [h1, h2, h3, List.take_of_length_le (by simpa using h), List.map_append]

theorem take_succ_flatten {α : Type} (queues : List (List α)) (k : Nat)
    (hk : k < queues.length) :
    (queues.take (k + 1)).flatten = (queues.take k).flatten ++ queues.getD k [] := by
  rw [List.take_succ, List.flatten_append]
  simp [List.getElem?_eq_getElem hk, List.getD_eq_getElem?_getD]

theorem sum_lengths_take {α : Type} (queues : List (List α)) (k : Nat) :
    ((queues.map List.length).take k).sum = ((queues.take k).flatten).length := by
  rw [← List.map_take, List.length_flatten]

theorem sum_take_le (l : List Nat) (k : Nat) : (l.take k).sum ≤ l.sum := by
  conv_rhs => rw [← List.take_append_drop k l, List.sum_append]
  exact Nat.le_add_right _ _

theorem allgatherv_prefix (sz : Nat) (queues : List (List (collision_struct K)))
    (displs : List Nat)
    (hd : ∀ r, r < queues.length →
      displs.getD r 0 = ((queues.map List.length).take r).sum * sz) :
    ∀ k, k ≤ queues.length →
      (List.range k).foldl
          (fun buf r =>
            write_bytes buf (displs.getD r 0)
              (((queues.map (queue_bytes sz)).getD r []).take
                ((gather_byte_counts sz (queues.map List.length)).getD r 0)))
          (List.replicate ((queues.map List.length).sum * sz) none)
        = (queue_bytes sz (queues.take k).flatten).map some
          ++ List.replicate (((queues.map List.length).sum
              - ((queues.map List.length).take k).sum) * sz) none := by
  intro k
  induction k with
  | zero => intro _; simp [queue_bytes]
  | succ k ih =>
    intro hk
    have hk' : k < queues.length := by omega
    rw [List.range_succ, List.foldl_append, ih (by omega)]
    simp only [List.foldl_cons, List.foldl_nil]
    have hsend : (queues.map (queue_bytes sz)).getD k [] = queue_bytes sz (queues.getD k []) := by
      simp [List.getD_eq_getElem?_getD, List.getElem?_eq_getElem hk']
    have hcount : (gather_byte_counts sz (queues.map List.length)).getD k 0
        = (queues.getD k []).length * sz := by
      simp [gather_byte_counts, List.getD_eq_getElem?_getD, List.getElem?_eq_getElem hk']
    have hoff : displs.getD k 0 = (queue_bytes sz (queues.take k).flatten).length := by
      rw [hd k hk', length_queue_bytes, sum_lengths_take]
    have hsucc : ((queues.map List.length).take (k + 1)).sum
        = ((queues.map List.length).take k).sum + (queues.getD k []).length := by
      rw [sum_take_succ_getD]
      simp [List.getD_eq_getElem?_getD, List.getElem?_eq_getElem hk']
    have hle := sum_take_le (queues.map List.length) (k + 1)
    rw [hsend, hcount, ← length_queue_bytes, List.take_length, hoff,
      write_bytes_next _ _ _ (by
        rw [length_queue_bytes]
        apply Nat.mul_le_mul_right
        omega),
      take_succ_flatten queues k hk', queue_bytes_append, length_queue_bytes, hsucc,
      ← Nat.sub_mul]
    congr 2
    congr 1
    omega

theorem allgatherv_spec (sz n_nodes : Nat) (queues : List (List (collision_struct K)))
    (hn : queues.length = n_nodes) :
    MPI_Allgatherv (queues.map (queue_bytes sz))
        (List.replicate ((queues.map List.length).sum * sz) none)
        (gather_byte_counts sz (queues.map List.length))
        (gather_displacements sz n_nodes (queues.map List.length))
      = (queue_bytes sz queues.flatten).map some := by
  unfold MPI_Allgatherv
  rw [List.length_map,
    allgatherv_prefix sz queues _ (fun r hr => gather_displacements_spec sz n_nodes _ r
      (by omega)) queues.length (le_refl _)]
  have hfull : List.take queues.length (List.map List.length queues)
      = List.map List.length queues := List.take_of_length_le (by simp)
  simp [hfull]

theorem queue_bytes_drop (sz : Nat) (q : List (collision_struct K)) :
    ∀ j, (queue_bytes sz q).drop (j * sz) = queue_bytes sz (q.drop j) := by
  induction q with
  | nil => intro j; simp [queue_bytes]
  | cons e q ih =>
    intro j
    cases j with
    | zero => simp
    | succ j =>
      have h : queue_bytes sz (e :: q) = object_bytes sz e ++ queue_bytes sz q := by
        simp [queue_bytes, List.flatMap_cons]
      have hidx : (j + 1) * sz = (object_bytes sz e).length + j * sz := by
        rw [length_object_bytes]; ring
      rw [h, hidx, List.drop_append, ih j, List.drop_succ_cons]

theorem queue_bytes_slot (sz : Nat) (q : List (collision_struct K)) (j : Nat)
    (e : collision_struct K) (he : q[j]? = some e) :
    (((queue_bytes sz q).map some).drop (j * sz)).take sz = (object_bytes sz e).map some := by
  have hlt : j < q.length := (List.getElem?_eq_some.mp he).1
  have hq : q.drop j = e :: q.drop (j + 1) := by
    rw [List.drop_eq_getElem_cons hlt]
    congr 1
    exact (List.getElem?_eq_some.mp he).2
  have h : queue_bytes sz (e :: q.drop (j + 1))
      = object_bytes sz e ++ queue_bytes sz (q.drop (j + 1)) := by
    simp [queue_bytes, List.flatMap_cons]
  rw [← List.map_drop, ← List.map_take, queue_bytes_drop, hq, h,
    List.take_append_of_le_length (by rw [length_object_bytes]),
    List.take_of_length_le (by rw [length_object_bytes])]

theorem read_entry_object_bytes (sz : Nat) (hsz : 0 < sz) (e : collision_struct K) :
    read_entry sz ((object_bytes sz e).map some) = some e := by
  obtain ⟨n, rfl⟩ : ∃ n, sz = n + 1 := ⟨sz - 1, by omega⟩
  have h : (object_bytes (n + 1) e).map some
      = some ⟨e, 0⟩ :: ((List.range n).map fun i => some ⟨e, i + 1⟩) := by
    simp [object_bytes, List.range_succ_eq_map]
  rw [h]
  unfold read_entry
  simp only
  rw [← h, if_pos rfl]

theorem filterMap_range_getElem? {α : Type} (l : List α) :
    (List.range l.length).filterMap (fun j => l[j]?) = l := by
  induction l using List.reverseRecOn with
  | nil => rfl
  | append_singleton l a ih =>
    rw [List.length_append, List.length_singleton, List.range_succ, List.filterMap_append]
    have h1 : (List.range l.length).filterMap (fun j => (l ++ [a])[j]?)
        = (List.range l.length).filterMap (fun j => l[j]?) := by
      apply List.filterMap_congr
      intro j hj
      rw [List.getElem?_append_left (List.mem_range.mp hj)]
    rw [h1, ih]
    simp

theorem gathered_view_queue_bytes (sz : Nat) (hsz : 0 < sz) (q : List (collision_struct K)) :
    gathered_view sz q.length ((queue_bytes sz q).map some) = q := by
  unfold gathered_view
  have h : (List.range q.length).filterMap
        (fun j => read_entry sz ((((queue_bytes sz q).map some).drop (j * sz)).take sz))
      = (List.range q.length).filterMap (fun j => q[j]?) := by
    apply List.filterMap_congr
    intro j hj
    have hlt : j < q.length := List.mem_range.mp hj
    rw [queue_bytes_slot sz q j q[j] (List.getElem?_eq_getElem hlt),
      read_entry_object_bytes sz hsz, List.getElem?_eq_getElem hlt]
  rw [h, filterMap_range_getElem?]

theorem length_rank_queues (env : Env K) (st : State K) :
    (rank_queues env st).length = env.n_nodes := by
  simp [rank_queues]

theorem gather_collision_queue_eq (env : Env K) (st : State K)
    (hsz : 0 < env.sizeof_collision_struct)
    (hpos : ((rank_queues env st).map List.length).sum ≠ 0) :
    gather_collision_queue env st
      = ((rank_queues env st).map List.length,
         { st with total_collisions := ((rank_queues env st).map List.length).sum
                   gathered_queue := (rank_queues env st).flatten }) := by
  unfold gather_collision_queue
  simp only [if_neg hpos]
  rw [allgatherv_spec env.sizeof_collision_struct env.n_nodes (rank_queues env st)
    (length_rank_queues env st)]
  have hlen : ((rank_queues env st).map List.length).sum = (rank_queues env st).flatten.length := by
    rw [List.length_flatten]
  rw [hlen, gathered_view_queue_bytes _ hsz]

/-! ### The full search and ghost centers -/

theorem example_ghost_coldet_first (dd : Bool) :
    coldet_do_three_particle_bond (example_env_two_ranks dd)
        (example_ghost_progress [⟨1, 2, ⟨3 / 4, 0, 0⟩⟩] 1 [] [] [0, 1]) 0 1 2
      = some (example_ghost_progress [⟨1, 2, ⟨3 / 4, 0, 0⟩⟩] 1 [2, 1, 2] [] [0, 1]) := by
  norm_num [coldet_do_three_particle_bond, example_ghost_progress, example_env_two_ranks,
    example_state, example_params, example_env_angles, example_env, example_particle,
    example_sqrt, sqrlen, Vec3.sub, three_particle_bond_exists_loop, three_particle_cosine, int_wrap,
    three_particle_bond_id_of_cosine,
    three_particle_bond_id, local_change_bond, modify_particle, modify_at, Vec3.smul, scalar,
    (by decide : Int.toNat 2 = 2)]

theorem example_ghost_coldet_second (dd : Bool) :
    coldet_do_three_particle_bond (example_env_two_ranks dd)
        (example_ghost_progress [⟨1, 2, ⟨3 / 4, 0, 0⟩⟩] 1 [2, 1, 2] [] [0, 1]) 1 0 2
      = some (example_ghost_progress [⟨1, 2, ⟨3 / 4, 0, 0⟩⟩] 1 [2, 1, 2] [5, 0, 2] [0, 1]) := by
  norm_num [coldet_do_three_particle_bond, example_ghost_progress, example_env_two_ranks,
    example_state, example_params, example_env_angles, example_env, example_particle,
    example_sqrt, sqrlen, Vec3.sub, three_particle_bond_exists_loop, three_particle_cosine, int_wrap,
    three_particle_bond_id_of_cosine,
    three_particle_bond_id, local_change_bond, modify_particle, modify_at, Vec3.smul, scalar,
    (by decide : Int.toNat 2 = 2)]

theorem example_ghost_coldet_third (dd : Bool) :
    coldet_do_three_particle_bond (example_env_two_ranks dd)
        (example_ghost_progress [⟨1, 2, ⟨3 / 4, 0, 0⟩⟩] 1 [2, 1, 2] [5, 0, 2] [0, 1]) 2 0 1
      = some (example_ghost_progress [⟨1, 2, ⟨3 / 4, 0, 0⟩⟩] 1 [2, 1, 2] [5, 0, 2]
          [0, 1, 2, 0, 1]) := by
  norm_num [coldet_do_three_particle_bond, example_ghost_progress, example_env_two_ranks,
    example_state, example_params, example_env_angles, example_env, example_particle,
    example_sqrt, sqrlen, Vec3.sub, three_particle_bond_exists_loop, three_particle_cosine, int_wrap,
    three_particle_bond_id_of_cosine,
    three_particle_bond_id, local_change_bond, modify_particle, modify_at, Vec3.smul, scalar,
    (by decide : Int.toNat 2 = 2)]

theorem example_ghost_full_search_entry :
    full_search_entry (example_env_two_ranks false) 0
        (example_ghost_progress [⟨1, 2, ⟨3 / 4, 0, 0⟩⟩] 1 [] [] [0, 1]) ⟨1, 2, ⟨3 / 4, 0, 0⟩⟩
      = some (example_ghost_progress [⟨1, 2, ⟨3 / 4, 0, 0⟩⟩] 1 [2, 1, 2] [5, 0, 2]
          [0, 1, 2, 0, 1]) := by
  have h : full_search_entry (example_env_two_ranks false) 0
      (example_ghost_progress [⟨1, 2, ⟨3 / 4, 0, 0⟩⟩] 1 [] [] [0, 1]) ⟨1, 2, ⟨3 / 4, 0, 0⟩⟩
      = (coldet_do_three_particle_bond (example_env_two_ranks false)
          (example_ghost_progress [⟨1, 2, ⟨3 / 4, 0, 0⟩⟩] 1 [] [] [0, 1]) 0 1 2).bind fun st1 =>
        (coldet_do_three_particle_bond (example_env_two_ranks false) st1 1 0 2).bind fun st2 =>
        coldet_do_three_particle_bond (example_env_two_ranks false) st2 2 0 1 := rfl
  rw [h, example_ghost_coldet_first false, Option.some_bind, example_ghost_coldet_second false,
    Option.some_bind, example_ghost_coldet_third false]

theorem example_ghost_full_search :
    three_particle_binding_full_search (example_env_two_ranks false)
        (example_ghost_progress [⟨1, 2, ⟨3 / 4, 0, 0⟩⟩] 1 [] [] [0, 1])
      = some (example_ghost_progress [⟨1, 2, ⟨3 / 4, 0, 0⟩⟩] 1 [2, 1, 2] [5, 0, 2]
          [0, 1, 2, 0, 1]) := by
  have hskip : full_search_entry (example_env_two_ranks false) 2
      (example_ghost_progress [⟨1, 2, ⟨3 / 4, 0, 0⟩⟩] 1 [2, 1, 2] [5, 0, 2] [0, 1, 2, 0, 1])
      ⟨1, 2, ⟨3 / 4, 0, 0⟩⟩
      = some (example_ghost_progress [⟨1, 2, ⟨3 / 4, 0, 0⟩⟩] 1 [2, 1, 2] [5, 0, 2]
          [0, 1, 2, 0, 1]) := rfl
  unfold three_particle_binding_full_search
  rw [show (example_env_two_ranks false).local_cells = [0] from rfl]
  simp only [List.foldlM_cons, List.foldlM_nil]
  rw [show (example_ghost_progress [⟨1, 2, ⟨3 / 4, 0, 0⟩⟩] 1 [] [] [0, 1]).cells[0]?
    = some [0, 2] from rfl]
  simp only [List.foldlM_cons, List.foldlM_nil]
  rw [show gathered_entries (example_ghost_progress [⟨1, 2, ⟨3 / 4, 0, 0⟩⟩] 1 [] [] [0, 1])
    = [⟨1, 2, ⟨3 / 4, 0, 0⟩⟩] from rfl]
  simp only [List.foldlM_cons, List.foldlM_nil, example_ghost_full_search_entry,
    Option.bind_eq_bind, Option.pure_def, Option.some_bind, Option.bind_some]
  rw [show gathered_entries (example_ghost_progress [⟨1, 2, ⟨3 / 4, 0, 0⟩⟩] 1 [2, 1, 2]
      [5, 0, 2] [0, 1, 2, 0, 1]) = [⟨1, 2, ⟨3 / 4, 0, 0⟩⟩] from rfl]
  simp only [List.foldlM_cons, List.foldlM_nil, hskip,
    Option.bind_eq_bind, Option.pure_def, Option.some_bind, Option.bind_some]

theorem example_ghost_coldet_found (dd : Bool) :
    coldet_do_three_particle_bond (example_env_two_ranks dd)
        (example_ghost_progress [⟨1, 2, ⟨3 / 4, 0, 0⟩⟩] 1 [2, 1, 2] [] [0, 1]) 0 1 2
      = some (example_ghost_progress [⟨1, 2, ⟨3 / 4, 0, 0⟩⟩] 1 [2, 1, 2] [] [0, 1]) := by
  norm_num [coldet_do_three_particle_bond, example_ghost_progress, example_env_two_ranks,
    example_state, example_params, example_env_angles, example_env, example_particle,
    example_sqrt, sqrlen, Vec3.sub, three_particle_bond_exists_loop, int_wrap]

theorem foldlM_fixed {α : Type} (f : State K → α → Option (State K)) (s : State K)
    (h : ∀ x, f s x = some s) : ∀ l : List α, l.foldlM f s = some s := by
  intro l
  induction l with
  | nil => rfl
  | cons x l ih => rw [List.foldlM_cons, h x]; exact ih

theorem example_ghost_cell_first (pqr : Int × Int × Int) :
    domain_decomposition_cell (example_env_two_ranks true) 1 2
        (example_ghost_progress [⟨1, 2, ⟨3 / 4, 0, 0⟩⟩] 1 [] [] [0, 1]) pqr
      = some (example_ghost_progress [⟨1, 2, ⟨3 / 4, 0, 0⟩⟩] 1 [2, 1, 2] [] [0, 1]) := by
  have h0 : domain_decomposition_candidate (example_env_two_ranks true) 1 2
      (example_ghost_progress [⟨1, 2, ⟨3 / 4, 0, 0⟩⟩] 1 [] [] [0, 1]) 0
      = some (example_ghost_progress [⟨1, 2, ⟨3 / 4, 0, 0⟩⟩] 1 [2, 1, 2] [] [0, 1]) := by
    unfold domain_decomposition_candidate
    rw [show (example_ghost_progress [⟨1, 2, ⟨3 / 4, 0, 0⟩⟩] 1 [] [] [0, 1]).mem[0]?
        = some { example_particle 0 1 0 false false with bl := [] } from rfl,
      show (example_ghost_progress [⟨1, 2, ⟨3 / 4, 0, 0⟩⟩] 1 [] [] [0, 1]).mem[1]?
        = some (example_particle 1 1 (1 / 2) true false) from rfl,
      show (example_ghost_progress [⟨1, 2, ⟨3 / 4, 0, 0⟩⟩] 1 [] [] [0, 1]).mem[2]?
        = some { example_particle 2 1 1 false false with bl := [0, 1] } from rfl]
    simp only
    rw [if_neg (by decide), if_neg (by decide), example_ghost_coldet_first true, Option.some_bind,
      show (example_ghost_progress [⟨1, 2, ⟨3 / 4, 0, 0⟩⟩] 1 [2, 1, 2] [] [0, 1]).mem[1]?
        = some (example_particle 1 1 (1 / 2) true false) from rfl]
    rfl
  have h2 : domain_decomposition_candidate (example_env_two_ranks true) 1 2
      (example_ghost_progress [⟨1, 2, ⟨3 / 4, 0, 0⟩⟩] 1 [2, 1, 2] [] [0, 1]) 2
      = some (example_ghost_progress [⟨1, 2, ⟨3 / 4, 0, 0⟩⟩] 1 [2, 1, 2] [] [0, 1]) := rfl
  have hcell : domain_decomposition_cell (example_env_two_ranks true) 1 2
      (example_ghost_progress [⟨1, 2, ⟨3 / 4, 0, 0⟩⟩] 1 [] [] [0, 1]) pqr
      = [0, 2].foldlM (domain_decomposition_candidate (example_env_two_ranks true) 1 2)
          (example_ghost_progress [⟨1, 2, ⟨3 / 4, 0, 0⟩⟩] 1 [] [] [0, 1]) := rfl
  rw [hcell, List.foldlM_cons, h0]
  simp only [List.foldlM_cons, List.foldlM_nil, Option.bind_eq_bind, Option.pure_def,
    Option.some_bind, h2]

theorem example_ghost_cell_later (pqr : Int × Int × Int) :
    domain_decomposition_cell (example_env_two_ranks true) 1 2
        (example_ghost_progress [⟨1, 2, ⟨3 / 4, 0, 0⟩⟩] 1 [2, 1, 2] [] [0, 1]) pqr
      = some (example_ghost_progress [⟨1, 2, ⟨3 / 4, 0, 0⟩⟩] 1 [2, 1, 2] [] [0, 1]) := by
  have h0 : domain_decomposition_candidate (example_env_two_ranks true) 1 2
      (example_ghost_progress [⟨1, 2, ⟨3 / 4, 0, 0⟩⟩] 1 [2, 1, 2] [] [0, 1]) 0
      = some (example_ghost_progress [⟨1, 2, ⟨3 / 4, 0, 0⟩⟩] 1 [2, 1, 2] [] [0, 1]) := by
    unfold domain_decomposition_candidate
    rw [show (example_ghost_progress [⟨1, 2, ⟨3 / 4, 0, 0⟩⟩] 1 [2, 1, 2] [] [0, 1]).mem[0]?
        = some { example_particle 0 1 0 false false with bl := [2, 1, 2] } from rfl,
      show (example_ghost_progress [⟨1, 2, ⟨3 / 4, 0, 0⟩⟩] 1 [2, 1, 2] [] [0, 1]).mem[1]?
        = some (example_particle 1 1 (1 / 2) true false) from rfl,
      show (example_ghost_progress [⟨1, 2, ⟨3 / 4, 0, 0⟩⟩] 1 [2, 1, 2] [] [0, 1]).mem[2]?
        = some { example_particle 2 1 1 false false with bl := [0, 1] } from rfl]
    simp only
    rw [if_neg (by decide), if_neg (by decide), example_ghost_coldet_found true, Option.some_bind,
      show (example_ghost_progress [⟨1, 2, ⟨3 / 4, 0, 0⟩⟩] 1 [2, 1, 2] [] [0, 1]).mem[1]?
        = some (example_particle 1 1 (1 / 2) true false) from rfl]
    rfl
  have h2 : domain_decomposition_candidate (example_env_two_ranks true) 1 2
      (example_ghost_progress [⟨1, 2, ⟨3 / 4, 0, 0⟩⟩] 1 [2, 1, 2] [] [0, 1]) 2
      = some (example_ghost_progress [⟨1, 2, ⟨3 / 4, 0, 0⟩⟩] 1 [2, 1, 2] [] [0, 1]) := rfl
  have hcell : domain_decomposition_cell (example_env_two_ranks true) 1 2
      (example_ghost_progress [⟨1, 2, ⟨3 / 4, 0, 0⟩⟩] 1 [2, 1, 2] [] [0, 1]) pqr
      = [0, 2].foldlM (domain_decomposition_candidate (example_env_two_ranks true) 1 2)
          (example_ghost_progress [⟨1, 2, ⟨3 / 4, 0, 0⟩⟩] 1 [2, 1, 2] [] [0, 1]) := rfl
  rw [hcell, List.foldlM_cons, h0]
  simp only [List.foldlM_cons, List.foldlM_nil, Option.bind_eq_bind, Option.pure_def,
    Option.some_bind, h2]

theorem foldlM_first_then_fixed {α : Type} (f : State K → α → Option (State K))
    (s s' : State K) (h1 : ∀ x, f s x = some s') (h2 : ∀ x, f s' x = some s') :
    ∀ l : List α, l ≠ [] → l.foldlM f s = some s' := by
  intro l hl
  cases l with
  | nil => exact absurd rfl hl
  | cons x l =>
    rw [List.foldlM_cons, h1 x]
    exact foldlM_fixed f s' h2 l

theorem example_ghost_domain_decomposition :
    three_particle_binding_domain_decomposition (example_env_two_ranks true)
        (example_ghost_progress [⟨1, 2, ⟨3 / 4, 0, 0⟩⟩] 1 [] [] [0, 1])
      = some (example_ghost_progress [⟨1, 2, ⟨3 / 4, 0, 0⟩⟩] 1 [2, 1, 2] [] [0, 1]) := by
  unfold three_particle_binding_domain_decomposition
  rw [show gathered_entries (example_ghost_progress [⟨1, 2, ⟨3 / 4, 0, 0⟩⟩] 1 [] [] [0, 1])
    = [⟨1, 2, ⟨3 / 4, 0, 0⟩⟩] from rfl]
  simp only [List.foldlM_cons, List.foldlM_nil, Option.bind_eq_bind, Option.pure_def,
    Option.bind_some]
  unfold domain_decomposition_entry
  rw [show (example_ghost_progress [⟨1, 2, ⟨3 / 4, 0, 0⟩⟩] 1 [] [] [0, 1]).local_particles 1
      = some 1 from rfl,
    show (example_ghost_progress [⟨1, 2, ⟨3 / 4, 0, 0⟩⟩] 1 [] [] [0, 1]).local_particles 2
      = some 2 from rfl]
  simp only
  rw [show (example_ghost_progress [⟨1, 2, ⟨3 / 4, 0, 0⟩⟩] 1 [] [] [0, 1]).mem[1]?
      = some (example_particle 1 1 (1 / 2) true false) from rfl,
    show (example_ghost_progress [⟨1, 2, ⟨3 / 4, 0, 0⟩⟩] 1 [] [] [0, 1]).mem[2]?
      = some { example_particle 2 1 1 false false with bl := [0, 1] } from rfl]
  simp only
  apply foldlM_first_then_fixed _ _ _ example_ghost_cell_first example_ghost_cell_later
  simp [example_env_two_ranks, example_env_angles, example_env, neighbour_indices]

/-- C12 at a failing input: on two ranks without domain decomposition, in the mode BOND and
three particle binding, with the local particles 0 and 2 and the ghost 1 between them and the
queued pair (1, 2), `handle_collisions` runs the full search, which calls
`coldet_do_three_particle_bond` with the ghost as center and inserts the angular bond
(5, 0, 2) on the ghost; on the same input the domain decomposition search leaves the bond
list of the ghost empty. -/
theorem full_search_bonds_ghost :
    handle_collisions (example_env_two_ranks false) 0 example_ghost_state
      = some { example_ghost_progress [] 0 [2, 1, 2] [5, 0, 2] [0, 1, 2, 0, 1] with
               collision_queue := [] }
    ∧ handle_collisions (example_env_two_ranks true) 0 example_ghost_state
      = some { example_ghost_progress [] 0 [2, 1, 2] [] [0, 1] with collision_queue := [] }
    ∧ (example_ghost_state.mem.map fun (r : Particle ℚ) => (r.identity, r.ghost, r.bl))
      = [(0, false, []), (1, true, []), (2, false, [])]
    ∧ ((example_ghost_progress [] 0 [2, 1, 2] [5, 0, 2] [0, 1, 2, 0, 1]).mem.map
        fun (r : Particle ℚ) => (r.identity, r.ghost, r.bl))
      = [(0, false, [2, 1, 2]), (1, true, [5, 0, 2]), (2, false, [0, 1, 2, 0, 1])] := by
  have hb : ∀ dd : Bool, handle_collisions_bonds (example_env_two_ranks dd)
      (handle_collisions_exceptions (example_env_two_ranks dd) example_ghost_state)
      = some (example_ghost_progress [] 0 [] [] [0, 1]) := fun dd => by cases dd <;> rfl
  have hv : ∀ dd : Bool, handle_collisions_virtual_sites (example_env_two_ranks dd) 0
      (example_ghost_progress [] 0 [] [] [0, 1])
      = some (example_ghost_progress [] 0 [] [] [0, 1]) := fun dd => by cases dd <;> rfl
  have hflag : ∀ dd : Bool,
      flag_set (example_ghost_progress [] 0 [] [] [0, 1]).collision_params.mode
        (example_env_two_ranks dd).COLLISION_MODE_BIND_THREE_PARTICLES = true := fun dd => by cases dd <;> rfl
  have hg : ∀ dd : Bool, gather_collision_queue (example_env_two_ranks dd)
      (example_ghost_progress [] 0 [] [] [0, 1])
      = ([1, 0], example_ghost_progress [⟨1, 2, ⟨3 / 4, 0, 0⟩⟩] 1 [] [] [0, 1]) := by
    intro dd
    rw [gather_collision_queue_eq _ _ (by cases dd <;> decide) (by cases dd <;> decide)]
    cases dd <;> rfl
  have hfull : handle_collisions_three_particle (example_env_two_ranks false)
      (example_ghost_progress [] 0 [] [] [0, 1])
      = (three_particle_binding_full_search (example_env_two_ranks false)
          (example_ghost_progress [⟨1, 2, ⟨3 / 4, 0, 0⟩⟩] 1 [] [] [0, 1])).bind fun st2 =>
        some { st2 with
          gathered_queue := if st2.total_collisions > 0 then [] else st2.gathered_queue
          total_collisions := 0 } := by
    unfold handle_collisions_three_particle
    rw [hg false]
    rfl
  have hdd : handle_collisions_three_particle (example_env_two_ranks true)
      (example_ghost_progress [] 0 [] [] [0, 1])
      = (three_particle_binding_domain_decomposition (example_env_two_ranks true)
          (example_ghost_progress [⟨1, 2, ⟨3 / 4, 0, 0⟩⟩] 1 [] [] [0, 1])).bind fun st2 =>
        some { st2 with
          gathered_queue := if st2.total_collisions > 0 then [] else st2.gathered_queue
          total_collisions := 0 } := by
    unfold handle_collisions_three_particle
    rw [hg true]
    rfl
  refine ⟨?_, ?_, rfl, rfl⟩
  · unfold handle_collisions
    rw [hb, Option.some_bind, hv, Option.some_bind, if_pos (hflag false), hfull,
      example_ghost_full_search, Option.some_bind, Option.some_bind]
    rfl
  · unfold handle_collisions
    rw [hb, Option.some_bind, hv, Option.some_bind, if_pos (hflag true), hdd,
      example_ghost_domain_decomposition, Option.some_bind, Option.some_bind]
    rfl

theorem mem_make_particle_type_exist (s : State K) (t : Int) :
    t ∈ (make_particle_type_exist s t).particle_types := by
  unfold make_particle_type_exist
  by_cases h : t ∈ s.particle_types
  · simp [h]
  · simp [h]

theorem mem_make_particle_type_exist_of_mem (s : State K) (t x : Int)
    (h : t ∈ s.particle_types) : t ∈ (make_particle_type_exist s x).particle_types := by
  unfold make_particle_type_exist
  by_cases hx : x ∈ s.particle_types
  · simp [hx, h]
  · simp [hx, h]

theorem expand_mode_always_bond (env : Env K) (mode : Nat)
    (htri : env.COLLISION_MODE_TRIANGLE_BINDING ≠ 0) (hbond : env.COLLISION_MODE_BOND ≠ 0) :
    flag_set (expand_mode env mode) env.COLLISION_MODE_BOND = true := by
  unfold expand_mode
  have hc : (flag_set mode env.COLLISION_MODE_VS
      || flag_set mode env.COLLISION_MODE_GLUE_TO_SURF
      || env.COLLISION_MODE_TRIANGLE_BINDING != 0) = true := by
    simp [htri]
  simp only [hc, if_true]
  split
  · exact flag_set_bond_or _ _ hbond
  · exact flag_set_bond_or _ _ hbond

/-- C26: with a TRIANGLE flag constant and a BOND flag constant that are not zero, the mode
after the expansion of lines 62-66 contains BOND for every requested mode; so every accepted
call stores a mode with BOND, has passed the center bond checks (center bond id below
`n_bonded_ia`, one partner) and has registered the vs particle type, and every call with a
center bond id not below `n_bonded_ia` or with a center bond of another arity is rejected. -/
theorem set_params_always_bond (env : Env K) (st : State K) (mode : Nat) (d : K)
    (bond_centers bond_vs t d2 tg tv ta bond_three_particles angle_resolution : Int)
    (triangle_size : K)
    (htri : env.COLLISION_MODE_TRIANGLE_BINDING ≠ 0) (hbond : env.COLLISION_MODE_BOND ≠ 0) :
    flag_set (expand_mode env mode) env.COLLISION_MODE_BOND = true
    ∧ ((collision_detection_set_params env st mode d bond_centers bond_vs t d2 tg tv ta
          bond_three_particles angle_resolution triangle_size).1 = 0 →
        flag_set (collision_detection_set_params env st mode d bond_centers bond_vs t d2 tg tv
            ta bond_three_particles angle_resolution triangle_size).2.collision_params.mode
            env.COLLISION_MODE_BOND = true
          ∧ bond_centers < env.n_bonded_ia
          ∧ env.bonded_ia_params bond_centers = 1
          ∧ t ∈ (collision_detection_set_params env st mode d bond_centers bond_vs t d2 tg tv
              ta bond_three_particles angle_resolution triangle_size).2.particle_types)
    ∧ (bond_centers ≥ env.n_bonded_ia →
        (collision_detection_set_params env st mode d bond_centers bond_vs t d2 tg tv ta
          bond_three_particles angle_resolution triangle_size).1 ≠ 0)
    ∧ (env.bonded_ia_params bond_centers ≠ 1 →
        (collision_detection_set_params env st mode d bond_centers bond_vs t d2 tg tv ta
          bond_three_particles angle_resolution triangle_size).1 ≠ 0) := by
  have hexp := expand_mode_always_bond env mode htri hbond
  have hchecks : validate_params env (expand_mode env mode) bond_centers bond_vs
      bond_three_particles angle_resolution = 0 →
      bond_centers < env.n_bonded_ia ∧ env.bonded_ia_params bond_centers = 1 := by
    intro h0
    obtain ⟨_, _, h3, _, h5, _, _, _⟩ := validate_params_accept env _ _ _ _ _ h0
    rw [hexp, Bool.true_and] at h3 h5
    exact ⟨by simpa using h3, by simpa using h5⟩
  refine ⟨hexp, ?_, ?_, ?_⟩
  · intro hacc
    have hacc' := hacc
    rw [set_params_status] at hacc'
    refine ⟨?_, (hchecks hacc').1, (hchecks hacc').2, ?_⟩
    · rw [set_params_stored env st mode d bond_centers bond_vs t d2 tg tv ta
        bond_three_particles angle_resolution triangle_size hacc]
      exact hexp
    · unfold collision_detection_set_params
      have hreg : (flag_set (expand_mode env mode) env.COLLISION_MODE_VS
          || env.COLLISION_MODE_TRIANGLE_BINDING != 0
          || env.COLLISION_MODE_TRIANGLE_BINDING != 0) = true := by
        simp [htri]
      simp only [hacc', bne_self_eq_false, Bool.false_eq_true, if_false, hreg, if_true]
      unfold mpi_bcast_collision_params
      simp only
      split
      · exact mem_make_particle_type_exist_of_mem _ _ _
          (mem_make_particle_type_exist_of_mem _ _ _
            (mem_make_particle_type_exist_of_mem _ _ _
              (mem_make_particle_type_exist_of_mem _ _ _
                (mem_make_particle_type_exist _ _))))
      · exact mem_make_particle_type_exist _ _
  · intro hge h0
    rw [set_params_status] at h0
    have := (hchecks h0).1
    omega
  · intro hne h0
    rw [set_params_status] at h0
    exact hne (hchecks h0).2

/-- C26, run on the requested modes 0 and 1 (EXCEPTION alone): both calls are accepted, the
stored modes 2 and 3 contain BOND and the vs particle type 5 is registered. -/
theorem set_params_always_bond_witness :
    (flag_set (collision_detection_set_params example_env
        (example_state (example_params 0) [] [])
        0 1 0 1 5 0 1 2 3 2 4 1).2.collision_params.mode example_env.COLLISION_MODE_BOND = true
      ∧ (5 : Int) ∈ (collision_detection_set_params example_env
        (example_state (example_params 0) [] []) 0 1 0 1 5 0 1 2 3 2 4 1).2.particle_types)
    ∧ (flag_set (collision_detection_set_params example_env
        (example_state (example_params 0) [] [])
        1 1 0 1 5 0 1 2 3 2 4 1).2.collision_params.mode example_env.COLLISION_MODE_BOND = true
      ∧ (5 : Int) ∈ (collision_detection_set_params example_env
        (example_state (example_params 0) [] []) 1 1 0 1 5 0 1 2 3 2 4 1).2.particle_types) :=
  ⟨⟨((set_params_always_bond example_env (example_state (example_params 0) [] [])
        0 1 0 1 5 0 1 2 3 2 4 1 (by decide) (by decide)).2.1 (by decide)).1,
    ((set_params_always_bond example_env (example_state (example_params 0) [] [])
        0 1 0 1 5 0 1 2 3 2 4 1 (by decide) (by decide)).2.1 (by decide)).2.2.2⟩,
   ⟨((set_params_always_bond example_env (example_state (example_params 0) [] [])
        1 1 0 1 5 0 1 2 3 2 4 1 (by decide) (by decide)).2.1 (by decide)).1,
    ((set_params_always_bond example_env (example_state (example_params 0) [] [])
        1 1 0 1 5 0 1 2 3 2 4 1 (by decide) (by decide)).2.1 (by decide)).2.2.2⟩⟩

/-! ### The rejections of the detector -/

/-- C29 as stated fails: built without `VIRTUAL_SITES_RELATIVE`, the detector queues the pair
of particle 0 and the virtual particle 1 (distance 1/2, threshold 1): the virtual check of
lines 241-245 is compiled only with virtual sites. -/
theorem detect_collision_virtual_queued_without_vs :
    (example_state (example_params 2) [] example_virtual_pair).mem[1]?
        = some (example_particle 1 5 (1 / 2) false true)
    ∧ (example_particle 1 5 (1 / 2) false true).isVirtual = true
    ∧ detect_collision example_env_no_vs
        (example_state (example_params 2) [] example_virtual_pair) 0 1
      = some (example_state (example_params 2) [⟨0, 1, ⟨1 / 4, 0, 0⟩⟩] example_virtual_pair)
    ∧ (example_state (example_params 2) [⟨0, 1, ⟨1 / 4, 0, 0⟩⟩]
        example_virtual_pair).collision_queue.length
      ≠ (example_state (example_params 2) [] example_virtual_pair).collision_queue.length := by
  refine ⟨rfl, rfl, ?_, by decide⟩
  rw [detect_collision_eq_queue_pair example_env_no_vs
    (example_state (example_params 2) [] example_virtual_pair) 0 1 0 1
    (example_particle 0 1 0 false false) (example_particle 1 5 (1 / 2) false true)
    (example_particle 0 1 0 false false) (example_particle 1 5 (1 / 2) false true)
    rfl rfl rfl rfl rfl rfl
    (by norm_num [example_env_no_vs, example_env, example_sqrt, sqrlen, Vec3.sub,
      example_particle, example_params, example_state])
    (Or.inr (by norm_num [example_env_no_vs, example_env]))
    (by rintro ⟨pre, post, _, h⟩; simp [example_particle] at h)
    (by rintro ⟨pre, post, _, h⟩; simp [example_particle] at h)
    (by decide) (fun h => absurd h (by decide)) (fun h => absurd h (by decide))]
  unfold detect_collision_queue_pair
  rw [if_pos (by decide), if_neg (by decide), if_pos (by decide)]
  simp [example_state, example_params, example_particle, queue_collision, Vec3.sub, Vec3.smul,
    example_virtual_pair]
  norm_num

/-- C29 (amended): `detect_collision` returns the state it was given (same queue, same queue
length, same particles) whenever the pair distance is greater than the threshold, or the
interaction magnitude lies in `[-0.001, 0.001]`, or the glue to surface mode is active and the
types of the pair are not the to-be-glued and the attach-to type, or the two identities
resolve and, with virtual sites compiled in, one resolved particle is virtual, or both resolve
to the same record, or both resolved particles are ghosts. -/
theorem detect_collision_rejections (env : Env K) (st : State K) (p1 p2 : Nat)
    (r1 r2 : Particle K)
    (hr1 : st.mem[p1]? = some r1) (hr2 : st.mem[p2]? = some r2)
    (hrej : env.sqrt (sqrlen (Vec3.sub r1.pos r2.pos)) > st.collision_params.distance
      ∨ (-(1 / 1000) ≤ env.gb_pair_energy r1 r2 (Vec3.sub r1.pos r2.pos)
            (env.sqrt (sqrlen (Vec3.sub r1.pos r2.pos)))
          ∧ env.gb_pair_energy r1 r2 (Vec3.sub r1.pos r2.pos)
            (env.sqrt (sqrlen (Vec3.sub r1.pos r2.pos))) ≤ 1 / 1000)
      ∨ (flag_set st.collision_params.mode env.COLLISION_MODE_GLUE_TO_SURF = true
          ∧ ¬ ((r1.type = st.collision_params.part_type_to_be_glued
                ∧ r2.type = st.collision_params.part_type_to_attach_vs_to)
              ∨ (r2.type = st.collision_params.part_type_to_be_glued
                ∧ r1.type = st.collision_params.part_type_to_attach_vs_to)))
      ∨ ∃ (a1 a2 : Nat) (q1 q2 : Particle K),
          st.local_particles r1.identity = some a1 ∧ st.local_particles r2.identity = some a2
          ∧ st.mem[a1]? = some q1 ∧ st.mem[a2]? = some q2
          ∧ ((env.VIRTUAL_SITES_RELATIVE = true ∧ (q1.isVirtual = true ∨ q2.isVirtual = true))
            ∨ a1 = a2
            ∨ (q1.ghost = true ∧ q2.ghost = true))) :
    detect_collision env st p1 p2 = some st
    ∧ ∀ st' : State K, detect_collision env st p1 p2 = some st' →
        st'.collision_queue = st.collision_queue
        ∧ st'.collision_queue.length = st.collision_queue.length
        ∧ st'.mem = st.mem := by
  have key : detect_collision env st p1 p2 = some st := by
    unfold detect_collision
    simp only [hr1, hr2, distance2vec]
    by_cases hd : env.sqrt (sqrlen (Vec3.sub r1.pos r2.pos)) > st.collision_params.distance
    · rw [if_pos hd]
    rw [if_neg hd]
    by_cases hg : env.gb_pair_energy r1 r2 (Vec3.sub r1.pos r2.pos)
          (env.sqrt (sqrlen (Vec3.sub r1.pos r2.pos))) ≥ -(1 / 1000)
        ∧ env.gb_pair_energy r1 r2 (Vec3.sub r1.pos r2.pos)
          (env.sqrt (sqrlen (Vec3.sub r1.pos r2.pos))) ≤ 1 / 1000
    · rw [if_pos hg]
    rw [if_neg hg]
    by_cases hf : (flag_set st.collision_params.mode env.COLLISION_MODE_GLUE_TO_SURF
        && !glue_types_match st.collision_params r1.type r2.type) = true
    · rw [if_pos hf]
    rw [if_neg hf]
    rcases hrej with h | h | h | ⟨a1, a2, q1, q2, ha1, ha2, hq1, hq2, h⟩
    · exact absurd h hd
    · exact absurd h hg
    · exfalso
      apply hf
      obtain ⟨hgl, hnm⟩ := h
      have : glue_types_match st.collision_params r1.type r2.type = false := by
        rw [← Bool.not_eq_true]
        intro hm
        apply hnm
        unfold glue_types_match at hm
        simpa using hm
      rw [hgl, this]
      rfl
    · unfold detect_collision_resolved
      simp only [ha1, ha2, hq1, hq2]
      by_cases hv : (env.VIRTUAL_SITES_RELATIVE && (q1.isVirtual || q2.isVirtual)) = true
      · rw [if_pos hv]
      rw [if_neg hv]
      by_cases hs : a1 = a2
      · rw [if_pos hs]
      rw [if_neg hs]
      rcases h with ⟨hvsr, hvi⟩ | h | ⟨hg1, hg2⟩
      · exfalso
        apply hv
        rw [hvsr]
        rcases hvi with hvi | hvi
        · rw [hvi]; rfl
        · rw [hvi]; simp
      · exact absurd h hs
      · split
        · rfl
        split
        · rfl
        unfold detect_collision_queue_pair
        simp only [hg1, hg2, Bool.and_self, if_true]
        split <;> rfl
  refine ⟨key, ?_⟩
  intro st' h
  rw [key] at h
  cases h
  exact ⟨rfl, rfl, rfl⟩

/-- C29 (amended), run with virtual sites compiled in on the pair of particle 0 and the
virtual particle 1: the detector returns the state unchanged. -/
theorem detect_collision_rejections_witness :
    detect_collision example_env (example_state (example_params 2) [] example_virtual_pair) 0 1
      = some (example_state (example_params 2) [] example_virtual_pair) :=
  (detect_collision_rejections example_env
    (example_state (example_params 2) [] example_virtual_pair) 0 1
    (example_particle 0 1 0 false false) (example_particle 1 5 (1 / 2) false true) rfl rfl
    (Or.inr (Or.inr (Or.inr ⟨0, 1, example_particle 0 1 0 false false,
      example_particle 1 5 (1 / 2) false true, rfl, rfl, rfl, rfl,
      Or.inl ⟨rfl, Or.inr rfl⟩⟩)))).1
/-! ### Retyping by the glue to surface step and the type filter -/

theorem example_retype_accepted (after : Int) :
    (collision_detection_set_params example_env (example_state (example_params 0) [] [])
        8 1 0 1 5 0 1 2 after 2 4 1).1 = 0
    ∧ (collision_detection_set_params example_env (example_state (example_params 0) [] [])
        8 1 0 1 5 0 1 2 after 2 4 1).2.collision_params = example_params_retype after := by
  have h0 : (collision_detection_set_params example_env (example_state (example_params 0) [] [])
      8 1 0 1 5 0 1 2 after 2 4 1).1 = 0 := by
    rw [set_params_status]; decide
  refine ⟨h0, ?_⟩
  rw [set_params_stored _ _ _ _ _ _ _ _ _ _ _ _ _ _ h0]
  simp [example_params_retype, example_params]
  decide

theorem example_retype_detect (after type2 : Int) :
    detect_collision example_env
        (example_state (example_params_retype after) [] (example_glue_triple type2)) 0 1
      = some (example_state (example_params_retype after) [⟨0, 1, ⟨0, 0, 0⟩⟩]
          (example_glue_triple type2)) := by
  rw [detect_collision_eq_queue_pair example_env
    (example_state (example_params_retype after) [] (example_glue_triple type2)) 0 1 0 1
    (example_particle 0 1 0 false false) (example_particle 1 2 1 false false)
    (example_particle 0 1 0 false false) (example_particle 1 2 1 false false)
    rfl rfl rfl rfl rfl rfl
    (by norm_num [example_env, example_sqrt, sqrlen, Vec3.sub, example_particle, example_params,
      example_params_retype, example_state])
    (Or.inr (by norm_num [example_env]))
    (by rintro ⟨pre, post, _, h⟩; simp [example_particle] at h)
    (by rintro ⟨pre, post, _, h⟩; simp [example_particle] at h)
    (by decide) (fun _ => ⟨rfl, rfl⟩) (fun _ => rfl)]
  have hb : flag_set (example_state (example_params_retype after) []
      (example_glue_triple type2)).collision_params.mode example_env.COLLISION_MODE_BOND = true :=
    (by decide : flag_set 10 2 = true)
  have hg : flag_set (example_state (example_params_retype after) []
      (example_glue_triple type2)).collision_params.mode example_env.COLLISION_MODE_GLUE_TO_SURF
      = true :=
    (by decide : flag_set 10 8 = true)
  unfold detect_collision_queue_pair
  simp only [hg, hb, if_true, Bool.not_true, Bool.false_eq_true, if_false]
  simp [example_state, example_params, example_params_retype, example_env,
    example_particle, queue_collision, Vec3.sub, Vec3.smul, example_glue_triple]

theorem example_retype_detect_again (after type2 : Int)
    (h : (after = 2 ∧ type2 = 1) ∨ (after = 1 ∧ type2 = 2)) :
    detect_collision example_env (example_glued_state after type2 []) 0 2
      = some (example_glued_state after type2
          [if after = 2 then ⟨2, 0, ⟨0, 0, 0⟩⟩ else ⟨0, 2, ⟨0, 0, 0⟩⟩]) := by
  rw [detect_collision_eq_queue_pair example_env (example_glued_state after type2 []) 0 2 0 2
    { example_particle 0 after 0 false false with bl := [0, 1, 1, 3] }
    (example_particle 2 type2 (1 / 2) false false)
    { example_particle 0 after 0 false false with bl := [0, 1, 1, 3] }
    (example_particle 2 type2 (1 / 2) false false)
    rfl rfl rfl rfl rfl rfl
    (by norm_num [example_env, example_sqrt, sqrlen, Vec3.sub, example_particle, example_params,
      example_params_retype, example_state, example_glued_state])
    (Or.inr (by norm_num [example_env]))
    (by
      rw [← bond_exists_iff]
      rcases h with ⟨h1, h2⟩ | ⟨h1, h2⟩ <;> subst h1 h2 <;> decide)
    (by rintro ⟨pre, post, _, h⟩; simp [example_particle] at h)
    (by decide) (fun _ => ⟨rfl, rfl⟩)
    (fun _ => by rcases h with ⟨h1, h2⟩ | ⟨h1, h2⟩ <;> subst h1 h2 <;> rfl)]
  have hb : flag_set (example_glued_state after type2 []).collision_params.mode
      example_env.COLLISION_MODE_BOND = true :=
    (by decide : flag_set 10 2 = true)
  have hg : flag_set (example_glued_state after type2 []).collision_params.mode
      example_env.COLLISION_MODE_GLUE_TO_SURF = true :=
    (by decide : flag_set 10 8 = true)
  unfold detect_collision_queue_pair
  simp only [hg, hb, if_true, Bool.not_true, Bool.false_eq_true, if_false]
  rcases h with ⟨h1, h2⟩ | ⟨h1, h2⟩ <;> subst h1 h2 <;>
  simp [example_state, example_params, example_params_retype, example_env,
    example_particle, queue_collision, Vec3.sub, Vec3.smul, example_glue_triple,
    example_glued_state]

/-- C28 as stated fails: the glue distance 0 together with a post-glue type equal to the
attach-to type 2, or equal to the to-be-glued type 1, is accepted; the event `(0, 1)` is
queued and `handle_collisions` glues particle 0, which then has the post-glue type, and the
next `detect_collision` on the particles 0 and 2 queues an event that contains particle 0. -/
theorem detect_collision_glued_particle_queued_again :
    ((collision_detection_set_params example_env (example_state (example_params 0) [] [])
        8 1 0 1 5 0 1 2 2 2 4 1).1 = 0
      ∧ (collision_detection_set_params example_env (example_state (example_params 0) [] [])
        8 1 0 1 5 0 1 2 2 2 4 1).2.collision_params = example_params_retype 2
      ∧ detect_collision example_env
          (example_state (example_params_retype 2) [] (example_glue_triple 1)) 0 1
        = some (example_state (example_params_retype 2) [⟨0, 1, ⟨0, 0, 0⟩⟩]
            (example_glue_triple 1))
      ∧ handle_collisions example_env 0
          (example_state (example_params_retype 2) [⟨0, 1, ⟨0, 0, 0⟩⟩] (example_glue_triple 1))
        = some (example_glued_state 2 1 [])
      ∧ (get_particle (example_glued_state 2 1 []) 0).map (fun r => r.type)
        = some (example_params_retype 2).part_type_after_glueing
      ∧ detect_collision example_env (example_glued_state 2 1 []) 0 2
        = some (example_glued_state 2 1 [⟨2, 0, ⟨0, 0, 0⟩⟩]))
    ∧ ((collision_detection_set_params example_env (example_state (example_params 0) [] [])
        8 1 0 1 5 0 1 2 1 2 4 1).1 = 0
      ∧ (collision_detection_set_params example_env (example_state (example_params 0) [] [])
        8 1 0 1 5 0 1 2 1 2 4 1).2.collision_params = example_params_retype 1
      ∧ detect_collision example_env
          (example_state (example_params_retype 1) [] (example_glue_triple 2)) 0 1
        = some (example_state (example_params_retype 1) [⟨0, 1, ⟨0, 0, 0⟩⟩]
            (example_glue_triple 2))
      ∧ handle_collisions example_env 0
          (example_state (example_params_retype 1) [⟨0, 1, ⟨0, 0, 0⟩⟩] (example_glue_triple 2))
        = some (example_glued_state 1 2 [])
      ∧ (get_particle (example_glued_state 1 2 []) 0).map (fun r => r.type)
        = some (example_params_retype 1).part_type_after_glueing
      ∧ detect_collision example_env (example_glued_state 1 2 []) 0 2
        = some (example_glued_state 1 2 [⟨0, 2, ⟨0, 0, 0⟩⟩])) :=
  ⟨⟨(example_retype_accepted 2).1, (example_retype_accepted 2).2, example_retype_detect 2 1,
      rfl, rfl, example_retype_detect_again 2 1 (Or.inl ⟨rfl, rfl⟩)⟩,
    ⟨(example_retype_accepted 1).1, (example_retype_accepted 1).2, example_retype_detect 1 2,
      rfl, rfl, example_retype_detect_again 1 2 (Or.inr ⟨rfl, rfl⟩)⟩⟩

/-- C28 (amended): in the glue to surface mode, when the post-glue type differs from the
to-be-glued type and from the attach-to type, `detect_collision` on a pair with a particle of
the post-glue type returns the state it was given: no event is queued. -/
theorem detect_collision_glued_not_queued (env : Env K) (st : State K) (p1 p2 : Nat)
    (r1 r2 : Particle K)
    (hglue : flag_set st.collision_params.mode env.COLLISION_MODE_GLUE_TO_SURF = true)
    (hne1 : st.collision_params.part_type_after_glueing
      ≠ st.collision_params.part_type_to_be_glued)
    (hne2 : st.collision_params.part_type_after_glueing
      ≠ st.collision_params.part_type_to_attach_vs_to)
    (hr1 : st.mem[p1]? = some r1) (hr2 : st.mem[p2]? = some r2)
    (hty : r1.type = st.collision_params.part_type_after_glueing
      ∨ r2.type = st.collision_params.part_type_after_glueing) :
    detect_collision env st p1 p2 = some st := by
  have hm : glue_types_match st.collision_params r1.type r2.type = false := by
    rw [← Bool.not_eq_true]
    intro hm
    unfold glue_types_match at hm
    simp only [Bool.or_eq_true, Bool.and_eq_true, beq_iff_eq] at hm
    rcases hty with h | h
    · rcases hm with ⟨h1, _⟩ | ⟨_, h2⟩
      · exact hne1 (h.symm.trans h1)
      · exact hne2 (h.symm.trans h2)
    · rcases hm with ⟨_, h2⟩ | ⟨h1, _⟩
      · exact hne2 (h.symm.trans h2)
      · exact hne1 (h.symm.trans h1)
  unfold detect_collision
  simp only [hr1, hr2]
  split
  · rfl
  split
  · rfl
  rw [if_pos (by rw [hglue, hm]; rfl)]

/-- C28 (amended), run on the example parameters (to-be-glued type 1, attach-to type 2,
post-glue type 3): the pair of the glued particle 0 of type 3 and particle 1 is not queued. -/
theorem detect_collision_glued_not_queued_witness :
    detect_collision example_env (example_state (example_params 10) []
        [example_particle 0 3 0 false false, example_particle 1 2 (1 / 2) false false]) 0 1
      = some (example_state (example_params 10) []
        [example_particle 0 3 0 false false, example_particle 1 2 (1 / 2) false false]) :=
  detect_collision_glued_not_queued example_env _ 0 1 (example_particle 0 3 0 false false)
    (example_particle 1 2 (1 / 2) false false) (by decide) (by decide) (by decide) rfl rfl
    (Or.inl rfl)

/-! ### The vs bond of the glue to surface mode is not validated -/

/-- C27 at a failing input: called in the mode GLUE_TO_SURF (8) with the vs bond id 99 and a
bonded interaction table of 8 entries, `collision_detection_set_params` returns 0 and stores
the mode BOND + GLUE_TO_SURF with the vs bond id 99; `handle_collisions` then writes the
record `(99, 2)` into the bond list of the glued particle 0. With the same arguments in the
mode VS (4) the status is 3. In the mode VS + GLUE_TO_SURF (12) the vs bond id 2, a bond with
two partners, is accepted as well. -/
theorem set_params_accepts_unchecked_vs_bond :
    (collision_detection_set_params example_env (example_state (example_params 0) [] [])
        8 1 0 99 5 0 1 2 3 2 4 1).1 = 0
    ∧ flag_set (collision_detection_set_params example_env
        (example_state (example_params 0) [] [])
        8 1 0 99 5 0 1 2 3 2 4 1).2.collision_params.mode
        example_env.COLLISION_MODE_GLUE_TO_SURF = true
    ∧ (collision_detection_set_params example_env (example_state (example_params 0) [] [])
        8 1 0 99 5 0 1 2 3 2 4 1).2.collision_params.bond_vs = 99
    ∧ ¬ ((99 : Int) < example_env.n_bonded_ia)
    ∧ ((handle_collisions example_env 0
          (example_state { example_params_retype 3 with bond_vs := 99 }
            [⟨0, 1, ⟨0, 0, 0⟩⟩] (example_pair 1))).bind
        (fun s => get_particle s 0)).map (fun r => r.bl) = some [0, 1, 99, 2]
    ∧ (collision_detection_set_params example_env (example_state (example_params 0) [] [])
        4 1 0 99 5 0 1 2 3 2 4 1).1 = 3
    ∧ (collision_detection_set_params example_env (example_state (example_params 0) [] [])
        12 1 0 2 5 0 1 2 3 2 4 1).1 = 0
    ∧ (collision_detection_set_params example_env (example_state (example_params 0) [] [])
        12 1 0 2 5 0 1 2 3 2 4 1).2.collision_params.bond_vs = 2
    ∧ example_env.bonded_ia_params 2 = 2 := by
  rw [set_params_stored example_env _ 8 1 0 99 5 0 1 2 3 2 4 1 (by decide),
    set_params_stored example_env _ 12 1 0 2 5 0 1 2 3 2 4 1 (by decide)]
  exact ⟨by decide, by decide, rfl, by decide, rfl, by decide, by decide, rfl, by decide⟩

/-! ### The exception flag and the resort signal -/

/-- C22 at a failing input: with the flag values exception 1, bond 2, vs 4, on the queue
`[(0, 1)]` the runs of `handle_collisions` in the mode BOND + VS_PAIR (6) and in the mode
BOND + VS_PAIR + EXCEPTION (7) return the same bond lists, particle types, virtual flags and
`max_seen_particle`, and the second run emits the one notice `(0, 1)`; but the first run leaves
`resort_particles` false and the second raises it. -/
theorem handle_collisions_exception_changes_resort :
    6 ||| example_env.COLLISION_MODE_EXCEPTION = 7
    ∧ (handle_collisions example_env 0
        (example_state (example_params 6) [⟨0, 1, ⟨1 / 2, 0, 0⟩⟩] (example_pair 1))).map
        (fun s => (s.mem.map (fun r => (r.identity, r.type, r.isVirtual, r.bl)),
          s.max_seen_particle, s.collision_queue.length, s.notices, s.resort_particles))
      = some ([(0, 1, false, [0, 1]), (1, 2, false, []), (2, 5, true, []),
          (3, 5, true, [1, 2])], 3, 0, [], false)
    ∧ (handle_collisions example_env 0
        (example_state (example_params 7) [⟨0, 1, ⟨1 / 2, 0, 0⟩⟩] (example_pair 1))).map
        (fun s => (s.mem.map (fun r => (r.identity, r.type, r.isVirtual, r.bl)),
          s.max_seen_particle, s.collision_queue.length, s.notices, s.resort_particles))
      = some ([(0, 1, false, [0, 1]), (1, 2, false, []), (2, 5, true, []),
          (3, 5, true, [1, 2])], 3, 0, [(0, 1)], true) := by
  exact ⟨by decide, rfl, rfl⟩

/-! ### Events of two ghosts -/

/-- The center bond loop has no test of its own for an event of two ghosts: handed a queue
with the event `(0, 1)` of the two ghosts 0 and 1, which no run of the detector builds,
`handle_collisions` in the mode BOND appends the center bond record `(0, 0)` to the bond list of
the ghost 1. -/
theorem handle_collisions_bonds_ghost_pair :
    flag_set (example_params 2).mode example_env.COLLISION_MODE_BOND = true
    ∧ (get_particle (example_state (example_params 2) [⟨0, 1, ⟨1 / 2, 0, 0⟩⟩]
        example_ghost_pair) 0).map (fun r => (r.ghost, r.bl)) = some (true, [])
    ∧ (get_particle (example_state (example_params 2) [⟨0, 1, ⟨1 / 2, 0, 0⟩⟩]
        example_ghost_pair) 1).map (fun r => (r.ghost, r.bl)) = some (true, [])
    ∧ (handle_collisions example_env 0
        (example_state (example_params 2) [⟨0, 1, ⟨1 / 2, 0, 0⟩⟩] example_ghost_pair)).map
        (fun s => s.mem.map (fun r => (r.identity, r.ghost, r.bl)))
      = some [(0, true, []), (1, true, [0, 0])] :=
  ⟨by decide, rfl, rfl, rfl⟩

theorem example_ghost_coldet_skipped (dd : Bool) :
    coldet_do_three_particle_bond (example_env_two_ranks dd)
        (example_ghost_progress [⟨1, 2, ⟨3 / 4, 0, 0⟩⟩] 1 [2, 1, 2] [] [0, 1]) 2 0 1
      = some (example_ghost_progress [⟨1, 2, ⟨3 / 4, 0, 0⟩⟩] 1 [2, 1, 2] []
          [0, 1, 2, 0, 1]) := by
  norm_num [coldet_do_three_particle_bond, example_ghost_progress, example_env_two_ranks,
    example_state, example_params, example_env_angles, example_env, example_particle,
    example_sqrt, sqrlen, Vec3.sub, three_particle_bond_exists_loop, three_particle_cosine, int_wrap,
    three_particle_bond_id_of_cosine,
    three_particle_bond_id, local_change_bond, modify_particle, modify_at, Vec3.smul, scalar,
    (by decide : Int.toNat 2 = 2)]

theorem example_ghost_handle_domain_decomposition :
    handle_collisions (example_env_two_ranks true) 0 example_ghost_state
      = some { example_ghost_progress [] 0 [2, 1, 2] [] [0, 1] with collision_queue := [] } := by
  have hb : handle_collisions_bonds (example_env_two_ranks true)
      (handle_collisions_exceptions (example_env_two_ranks true) example_ghost_state)
      = some (example_ghost_progress [] 0 [] [] [0, 1]) := rfl
  have hv : handle_collisions_virtual_sites (example_env_two_ranks true) 0
      (example_ghost_progress [] 0 [] [] [0, 1])
      = some (example_ghost_progress [] 0 [] [] [0, 1]) := rfl
  have hflag : flag_set (example_ghost_progress [] 0 [] [] [0, 1]).collision_params.mode
      (example_env_two_ranks true).COLLISION_MODE_BIND_THREE_PARTICLES = true := rfl
  have hg : gather_collision_queue (example_env_two_ranks true)
      (example_ghost_progress [] 0 [] [] [0, 1])
      = ([1, 0], example_ghost_progress [⟨1, 2, ⟨3 / 4, 0, 0⟩⟩] 1 [] [] [0, 1]) := by
    rw [gather_collision_queue_eq _ _ (by decide) (by decide)]
    rfl
  have hdd : handle_collisions_three_particle (example_env_two_ranks true)
      (example_ghost_progress [] 0 [] [] [0, 1])
      = (three_particle_binding_domain_decomposition (example_env_two_ranks true)
          (example_ghost_progress [⟨1, 2, ⟨3 / 4, 0, 0⟩⟩] 1 [] [] [0, 1])).bind fun st2 =>
        some { st2 with
          gathered_queue := if st2.total_collisions > 0 then [] else st2.gathered_queue
          total_collisions := 0 } := by
    unfold handle_collisions_three_particle
    rw [hg]
    rfl
  unfold handle_collisions
  rw [hb, Option.some_bind, hv, Option.some_bind, if_pos hflag, hdd,
    example_ghost_domain_decomposition, Option.some_bind, Option.some_bind]
  rfl

/-- C25 at a failing input: on two ranks with domain decomposition, in the mode BOND and three
particle binding, with the local particles 0 and 2, the ghost 1 between them and the queued
pair (1, 2), the particle P = 0 found in the neighbourhood is not a ghost and differs from
both particles of the event, and the second particle 2 of the event is not a ghost; the search
places the bond centered on P, and `handle_collisions` returns with no angular bond on particle
2, although the placement centered on particle 2 with the partners 0 and 1, run on the state
the search has reached, inserts the bond `(2, 0, 1)`: the placement is not attempted because
the first particle 1 of the event is a ghost. -/
theorem domain_decomposition_skips_second_center :
    (example_ghost_state.mem.map fun (r : Particle ℚ) => (r.identity, r.ghost, r.bl))
      = [(0, false, []), (1, true, []), (2, false, [])]
    ∧ example_ghost_state.collision_queue = [⟨1, 2, ⟨3 / 4, 0, 0⟩⟩]
    ∧ (example_env_two_ranks true).domdec = true
    ∧ handle_collisions (example_env_two_ranks true) 0 example_ghost_state
      = some { example_ghost_progress [] 0 [2, 1, 2] [] [0, 1] with collision_queue := [] }
    ∧ (({ example_ghost_progress [] 0 [2, 1, 2] [] [0, 1] with
          collision_queue := [] } : State ℚ).mem.map
        fun (r : Particle ℚ) => (r.identity, r.ghost, r.bl))
      = [(0, false, [2, 1, 2]), (1, true, []), (2, false, [0, 1])]
    ∧ three_particle_binding_domain_decomposition (example_env_two_ranks true)
        (example_ghost_progress [⟨1, 2, ⟨3 / 4, 0, 0⟩⟩] 1 [] [] [0, 1])
      = some (example_ghost_progress [⟨1, 2, ⟨3 / 4, 0, 0⟩⟩] 1 [2, 1, 2] [] [0, 1])
    ∧ coldet_do_three_particle_bond (example_env_two_ranks true)
        (example_ghost_progress [⟨1, 2, ⟨3 / 4, 0, 0⟩⟩] 1 [2, 1, 2] [] [0, 1]) 2 0 1
      = some (example_ghost_progress [⟨1, 2, ⟨3 / 4, 0, 0⟩⟩] 1 [2, 1, 2] []
          [0, 1, 2, 0, 1]) :=
  ⟨rfl, rfl, rfl, example_ghost_handle_domain_decomposition, rfl,
    example_ghost_domain_decomposition, example_ghost_coldet_skipped true⟩

/-! ### The distances array of the fractal dimension -/

/-- C30: for every cluster of exactly one particle, when the particle of the cluster and
particle 0 are stored locally (so that the center of mass and the distances are computed),
`distances` has one element, one per particle of the cluster, and the first iteration of the
loop of `Cluster::calculate_fractal_dimension` reads `distances[1]`: `rad = 1` is not below
the length 1 of `distances`. -/
theorem calculate_fractal_dimension_reads_past_end (env : Env K) (lib : Numerics K)
    (st : State K) (pid : Int) (r r0 : Particle K)
    (hpid : get_particle st pid = some r) (h0 : get_particle st 0 = some r0) :
    ∃ (com : Vec3 K) (distances : List K),
      Cluster.calculate_cluster_center_of_mass env st ⟨[pid]⟩ = Except.ok com
      ∧ Cluster.fractal_distances env st com (Cluster.mk [pid]).particles.length
          = Except.ok distances
      ∧ distances.length = (Cluster.mk [pid]).particles.length
      ∧ distances.length = 1
      ∧ distances[1]? = none
      ∧ Cluster.fractal_loop lib 1 distances distances.length ⟨0, 0, [], [], [], [], []⟩
          = Except.error (Fault.out_of_bounds 1 distances.length)
      ∧ Cluster.calculate_fractal_dimension env lib st ⟨[pid]⟩
          = Except.error (Fault.out_of_bounds 1 1) := by
  have hcom : Cluster.calculate_cluster_center_of_mass env st ⟨[pid]⟩
      = Except.ok (Vec3.smul (1 / ((1 : Nat) : K))
          (Vec3.add ⟨0, 0, 0⟩ (env.get_mi_vector r.pos r.pos))) := by
    simp [Cluster.calculate_cluster_center_of_mass, Cluster.center_of_mass_step, hpid, h0,
      List.foldlM_cons, List.foldlM_nil, pure, Except.pure, bind, Except.bind]
  have hdist : ∀ com : Vec3 K, Cluster.fractal_distances env st com 1
      = Except.ok [sqrlen (env.get_mi_vector com r0.pos)] := by
    intro com
    simp [Cluster.fractal_distances, List.range_succ, List.foldlM_cons, List.foldlM_nil, h0,
      pure, Except.pure, bind, Except.bind]
  refine ⟨_, _, hcom, hdist _, rfl, rfl, rfl, ?_, ?_⟩
  · simp [Cluster.fractal_loop]
  · unfold Cluster.calculate_fractal_dimension
    rw [hcom]
    simp only [List.length_singleton]
    rw [hdist]
    simp [Cluster.fractal_loop]

/-- C30, run on the cluster of the single particle 0: the call ends with the read of index 1
of the one-element array `distances`. -/
theorem calculate_fractal_dimension_reads_past_end_witness :
    ∃ (com : Vec3 ℚ) (distances : List ℚ),
      Cluster.calculate_cluster_center_of_mass example_env
          (example_state (example_params 2) [] [example_particle 0 1 0 false false]) ⟨[0]⟩
        = Except.ok com
      ∧ Cluster.fractal_distances example_env
          (example_state (example_params 2) [] [example_particle 0 1 0 false false]) com
          (Cluster.mk [0]).particles.length = Except.ok distances
      ∧ distances.length = (Cluster.mk [0]).particles.length
      ∧ distances.length = 1
      ∧ distances[1]? = none
      ∧ Cluster.fractal_loop example_numerics 1 distances distances.length
          ⟨0, 0, [], [], [], [], []⟩
        = Except.error (Fault.out_of_bounds 1 distances.length)
      ∧ Cluster.calculate_fractal_dimension example_env example_numerics
          (example_state (example_params 2) [] [example_particle 0 1 0 false false]) ⟨[0]⟩
        = Except.error (Fault.out_of_bounds 1 1) :=
  calculate_fractal_dimension_reads_past_end example_env example_numerics
    (example_state (example_params 2) [] [example_particle 0 1 0 false false]) 0
    (example_particle 0 1 0 false false) (example_particle 0 1 0 false false) rfl rfl

/-! ### The full search as a list of placements -/

theorem search_frame_refl (s : State K) : search_frame s s :=
  ⟨rfl, rfl, rfl, rfl, fun _ => rfl⟩

theorem search_frame_trans (a b c : State K) (h1 : search_frame a b) (h2 : search_frame b c) :
    search_frame a c := by
  obtain ⟨l1, c1, g1, t1, m1⟩ := h1
  obtain ⟨l2, c2, g2, t2, m2⟩ := h2
  exact ⟨l2.trans l1, c2.trans c1, g2.trans g1, t2.trans t1, fun a => (m2 a).trans (m1 a)⟩

theorem search_frame_of_coldet [FloorRing K] (env : Env K) (s s' : State K) (p p1 p2 : Nat)
    (h : coldet_do_three_particle_bond env s p p1 p2 = some s') : search_frame s s' := by
  unfold coldet_do_three_particle_bond at h
  split at h
  · simp only at h
    split at h
    · cases Option.some.inj h; exact search_frame_refl s
    split at h
    · cases Option.some.inj h; exact search_frame_refl s
    split at h
    · cases Option.some.inj h; exact search_frame_refl s
    · unfold local_change_bond at h
      obtain ⟨a, r, _, hr, rfl⟩ := modify_particle_eq s s' _ _ h
      refine ⟨rfl, rfl, rfl, rfl, ?_⟩
      intro b
      show ((s.mem.set a _)[b]?).map _ = _
      rw [List.getElem?_set]
      by_cases hab : a = b
      · subst hab
        have hlt : a < s.mem.length := (List.getElem?_eq_some.mp hr).1
        simp [hlt, hr]
      · simp [hab]
  · exact Option.noConfusion h

theorem search_frame_of_placements [FloorRing K] (env : Env K) (l : List (Nat × Nat × Nat))
    (s s' : State K)
    (h : l.foldlM (fun st t => coldet_do_three_particle_bond env st t.1 t.2.1 t.2.2) s = some s') :
    search_frame s s' :=
  foldlM_rel search_frame search_frame_refl search_frame_trans _
    (fun a t b ht => search_frame_of_coldet env a b t.1 t.2.1 t.2.2 ht) l s s' h

theorem foldlM_flatMap_option {α β σ : Type} (h : α → List β) (f : σ → β → Option σ) :
    ∀ (l : List α) (s : σ),
      (l.flatMap h).foldlM f s = l.foldlM (fun s x => (h x).foldlM f s) s := by
  intro l
  induction l with
  | nil => intro s; rfl
  | cons x l ih =>
    intro s
    rw [List.flatMap_cons, List.foldlM_append, List.foldlM_cons]
    cases hx : (h x).foldlM f s with
    | none => rfl
    | some s1 => exact ih s1

theorem foldlM_congr_frame {α : Type} (R : State K → Prop)
    (f g : State K → α → Option (State K)) (l : List α)
    (hfg : ∀ s, R s → ∀ x ∈ l, f s x = g s x)
    (hR : ∀ s x s', R s → g s x = some s' → R s') :
    ∀ s, R s → l.foldlM f s = l.foldlM g s := by
  induction l with
  | nil => intro s _; rfl
  | cons x l ih =>
    intro s hs
    rw [List.foldlM_cons, List.foldlM_cons, hfg s hs x (List.mem_cons_self _ _)]
    cases hx : g s x with
    | none => rfl
    | some s1 =>
      exact ih (fun s' hs' y hy => hfg s' hs' y (List.mem_cons_of_mem _ hy)) s1 (hR s x s1 hs hx)

theorem flatMap_segment {α β : Type} (f : α → List β) {a : α} {l : List α} (h : a ∈ l) :
    ∃ pre post, l.flatMap f = pre ++ f a ++ post := by
  obtain ⟨s, t, rfl⟩ := List.append_of_mem h
  exact ⟨s.flatMap f, t.flatMap f, by simp [List.flatMap_append]⟩

theorem segment_trans {β : Type} (l m n : List β) (h1 : ∃ pre post, m = pre ++ l ++ post)
    (h2 : ∃ pre post, n = pre ++ m ++ post) : ∃ pre post, n = pre ++ l ++ post := by
  obtain ⟨a, b, rfl⟩ := h1
  obtain ⟨c, d, rfl⟩ := h2
  exact ⟨c ++ a, b ++ d, by simp [List.append_assoc]⟩

theorem full_search_entry_eq [FloorRing K] (env : Env K) (s0 s : State K) (p : Nat)
    (g : collision_struct K) (hframe : search_frame s0 s) (hp : p < s0.mem.length)
    (hg : ∃ p1 p2, s0.local_particles g.pp1 = some p1 ∧ s0.local_particles g.pp2 = some p2
      ∧ p1 < s0.mem.length ∧ p2 < s0.mem.length) :
    full_search_entry env p s g
      = (full_search_entry_placements s0 p g).foldlM
          (fun st t => coldet_do_three_particle_bond env st t.1 t.2.1 t.2.2) s := by
  obtain ⟨hl, _, _, _, hm⟩ := hframe
  obtain ⟨p1, p2, h1, h2, hp1, hp2⟩ := hg
  have hex : ∀ a, a < s0.mem.length → ∃ r0 r : Particle K, s0.mem[a]? = some r0
      ∧ s.mem[a]? = some r ∧ r.identity = r0.identity := by
    intro a ha
    have h0 : s0.mem[a]? = some s0.mem[a] := List.getElem?_eq_getElem ha
    have hma := hm a
    rw [h0] at hma
    cases hs : s.mem[a]? with
    | none => rw [hs] at hma; exact Option.noConfusion hma
    | some r =>
      rw [hs] at hma
      exact ⟨s0.mem[a], r, h0, rfl, Option.some.inj hma⟩
  obtain ⟨r0, r, hr0, hr, hid⟩ := hex p hp
  obtain ⟨r10, r1, hr10, hr1, hid1⟩ := hex p1 hp1
  obtain ⟨r20, r2, hr20, hr2, hid2⟩ := hex p2 hp2
  unfold full_search_entry full_search_entry_placements
  rw [hl, h1, h2]
  simp only [hr, hr1, hr2, hr0, hr10, hr20, Option.map_some', Option.some.injEq, hid, hid1, hid2]
  by_cases hsame : r0.identity = r10.identity ∨ r0.identity = r20.identity
  · rw [if_pos hsame, if_pos (by simpa using hsame)]
    rfl
  · rw [if_neg hsame, if_neg (by simpa using hsame)]
    simp only [List.foldlM_cons, List.foldlM_nil]
    cases coldet_do_three_particle_bond env s p p1 p2 with
    | none => rfl
    | some sa =>
      simp only [Option.some_bind, Option.bind_eq_bind]
      cases coldet_do_three_particle_bond env sa p1 p p2 with
      | none => rfl
      | some sb =>
        simp only [Option.some_bind]
        cases coldet_do_three_particle_bond env sb p2 p p1 with
        | none => rfl
        | some sc => rfl
theorem gathered_entries_of_frame (s0 s : State K) (h : search_frame s0 s) :
    gathered_entries s = gathered_entries s0 := by
  obtain ⟨_, _, hg, ht, _⟩ := h
  unfold gathered_entries
  rw [hg, ht]

theorem frame_of_placements_from [FloorRing K] (env : Env K) (s0 : State K) {α : Type}
    (H : α → List (Nat × Nat × Nat)) (s : State K) (x : α) (s' : State K)
    (hs : search_frame s0 s)
    (h : (H x).foldlM (fun st t => coldet_do_three_particle_bond env st t.1 t.2.1 t.2.2) s
      = some s') :
    search_frame s0 s' :=
  search_frame_trans _ _ _ hs (search_frame_of_placements env (H x) s s' h)

theorem full_search_eq_placements [FloorRing K] (env : Env K) (s0 : State K)
    (hcells : ∀ c ∈ env.local_cells, ∃ cell, s0.cells[c]? = some cell
      ∧ ∀ p ∈ cell, p < s0.mem.length)
    (hev : ∀ g ∈ gathered_entries s0, ∃ p1 p2, s0.local_particles g.pp1 = some p1
      ∧ s0.local_particles g.pp2 = some p2 ∧ p1 < s0.mem.length ∧ p2 < s0.mem.length) :
    three_particle_binding_full_search env s0
      = (full_search_placements env s0).foldlM
          (fun st t => coldet_do_three_particle_bond env st t.1 t.2.1 t.2.2) s0 := by
  have h3 : ∀ (p : Nat), p < s0.mem.length → ∀ s, search_frame s0 s →
      (gathered_entries s).foldlM (full_search_entry env p) s
        = ((gathered_entries s0).flatMap fun g => full_search_entry_placements s0 p g).foldlM
            (fun st t => coldet_do_three_particle_bond env st t.1 t.2.1 t.2.2) s := by
    intro p hp s hs
    rw [gathered_entries_of_frame s0 s hs, foldlM_flatMap_option]
    exact foldlM_congr_frame (search_frame s0) _ _ _
      (fun s' hs' g hg => full_search_entry_eq env s0 s' p g hs' hp (hev g hg))
      (fun s' g s'' hs' h => frame_of_placements_from env s0
        (fun g => full_search_entry_placements s0 p g) s' g s'' hs' h) s hs
  have h2 : ∀ (cell : List Nat), (∀ p ∈ cell, p < s0.mem.length) → ∀ s, search_frame s0 s →
      cell.foldlM (fun st2 p => (gathered_entries st2).foldlM (full_search_entry env p) st2) s
        = (cell.flatMap fun p =>
            (gathered_entries s0).flatMap fun g => full_search_entry_placements s0 p g).foldlM
            (fun st t => coldet_do_three_particle_bond env st t.1 t.2.1 t.2.2) s := by
    intro cell hcell s hs
    rw [foldlM_flatMap_option]
    exact foldlM_congr_frame (search_frame s0) _ _ _
      (fun s' hs' p hp => h3 p (hcell p hp) s' hs')
      (fun s' p s'' hs' h => frame_of_placements_from env s0
        (fun p => (gathered_entries s0).flatMap fun g => full_search_entry_placements s0 p g)
        s' p s'' hs' h) s hs
  unfold three_particle_binding_full_search full_search_placements
  rw [foldlM_flatMap_option]
  refine foldlM_congr_frame (search_frame s0) _ _ _ ?_
    (fun s' c s'' hs' h => frame_of_placements_from env s0
      (fun c => (s0.cells.getD c []).flatMap fun p =>
        (gathered_entries s0).flatMap fun g => full_search_entry_placements s0 p g)
      s' c s'' hs' h) s0
    (search_frame_refl s0)
  intro s hs c hc
  obtain ⟨cell, hcell, hlt⟩ := hcells c hc
  have hsc : s.cells[c]? = some cell := by rw [hs.2.1]; exact hcell
  have hgetD : s0.cells.getD c [] = cell := by
    rw [List.getD_eq_getElem?_getD, hcell]
    rfl
  simp only [hsc, hgetD]
  exact h2 cell hlt s hs
theorem gather_of_nonempty_queue (env : Env K) (st : State K)
    (hq : st.collision_queue ≠ []) (hnode : env.this_node < env.n_nodes)
    (hsz : 0 < env.sizeof_collision_struct) :
    gather_collision_queue env st
      = ((rank_queues env st).map List.length,
         { st with total_collisions := ((rank_queues env st).map List.length).sum
                   gathered_queue := (rank_queues env st).flatten })
    ∧ gathered_entries (gather_collision_queue env st).2 = (rank_queues env st).flatten
    ∧ 0 < ((rank_queues env st).map List.length).sum := by
  have hmem : st.collision_queue ∈ rank_queues env st := by
    unfold rank_queues
    exact List.mem_map.mpr ⟨env.this_node, List.mem_range.mpr hnode, by simp⟩
  have hlen : ((rank_queues env st).map List.length).sum = (rank_queues env st).flatten.length := by
    rw [List.length_flatten]
  have hpos : 0 < ((rank_queues env st).map List.length).sum := by
    rw [hlen]
    cases hq' : st.collision_queue with
    | nil => exact absurd hq' hq
    | cons e rest =>
      have he : e ∈ (rank_queues env st).flatten :=
        List.mem_flatten.mpr ⟨st.collision_queue, hmem, by rw [hq']; exact List.mem_cons_self _ _⟩
      exact List.length_pos_of_mem he
  have hg := gather_collision_queue_eq env st hsz (by omega)
  refine ⟨hg, ?_, hpos⟩
  rw [hg]
  unfold gathered_entries
  simp only
  rw [hlen, List.take_length]

theorem handle_collisions_three_particle_empty_queue [FloorRing K] (env : Env K) (fuel : Nat)
    (st : State K) (hq : st.collision_queue = []) (hnode : env.this_node < env.n_nodes)
    (hthree : flag_set st.collision_params.mode env.COLLISION_MODE_BIND_THREE_PARTICLES = true) :
    handle_collisions env fuel st
      = some { st with
          gathered_queue :=
            (if 0 < ((rank_queues env st).map List.length).sum then [] else st.gathered_queue)
          total_collisions := 0 } := by
  have hexc : handle_collisions_exceptions env st = st := by
    unfold handle_collisions_exceptions
    split
    · rw [hq]; rfl
    · rfl
  have hbonds : handle_collisions_bonds env st = some st := by
    unfold handle_collisions_bonds
    split
    · rw [hq]; rfl
    · rfl
  have hvs : handle_collisions_virtual_sites env fuel st = some st := by
    unfold handle_collisions_virtual_sites
    simp only
    split
    · rw [hq]; rfl
    · rfl
  have hfin : ∀ s : State K, s.collision_queue = [] → handle_collisions_finish env s = s := by
    intro s hs
    unfold handle_collisions_finish
    simp only [hs, List.length_nil, Nat.lt_irrefl, if_false, ite_self]
    cases s
    simp_all
  have hcount : (gather_collision_queue env st).1[env.this_node]? = some 0 := by
    unfold gather_collision_queue
    simp only
    split
    · simp [List.getElem?_replicate, hnode]
    · simp only
      rw [counts_this_node env st hnode, hq]
      rfl
  unfold handle_collisions
  rw [hexc, hbonds]
  simp only [Option.some_bind, hvs, hthree, if_true]
  unfold handle_collisions_three_particle
  simp only [hcount, Nat.lt_irrefl, if_false, Option.some_bind, gt_iff_lt]
  rw [hfin _ (by
    show (gather_collision_queue env st).2.collision_queue = []
    unfold gather_collision_queue
    simp only
    split <;> exact hq)]
  congr 1
  unfold gather_collision_queue
  simp only
  by_cases ht : ((rank_queues env st).map List.length).sum = 0
  · simp [ht]
  · have hpos : 0 < ((rank_queues env st).map List.length).sum := Nat.pos_of_ne_zero ht
    simp [ht, hpos]

/-- C24 (amended): with THREE_PARTICLE set and no domain decomposition. On a rank whose Local
Queue is empty `handle_collisions` returns the given state with the Global Queue discarded and
its total reset, whatever the Global Queue holds: no placement is made. On a rank whose Local
Queue is not empty and on which both particles of every Global Queue event are stored,
`handle_collisions` runs after the bond and virtual site passes exactly the placements of the
full sweep on the Global Queue (the concatenation of the Local Queues of all ranks), in order:
for every particle P stored in a local cell and every Global Queue event `(p1, p2)` whose
particles have other identities than P, the three placements (center P; p1, p2),
(center p1; P, p2), (center p2; P, p1), one after the other. The cells are assumed to hold
addresses of stored particles. -/
theorem handle_collisions_full_search_placements [FloorRing K] (env : Env K) (fuel : Nat)
    (st0 : State K)
    (hthree : flag_set st0.collision_params.mode env.COLLISION_MODE_BIND_THREE_PARTICLES = true)
    (hnd : env.domdec = false)
    (hnode : env.this_node < env.n_nodes)
    (hsz : 0 < env.sizeof_collision_struct) :
    (st0.collision_queue = [] →
      handle_collisions env fuel st0
        = some { st0 with
            gathered_queue :=
              (if 0 < ((rank_queues env st0).map List.length).sum then []
                else st0.gathered_queue)
            total_collisions := 0 })
    ∧ (st0.collision_queue ≠ [] → ∀ st : State K,
      (handle_collisions_bonds env (handle_collisions_exceptions env st0)).bind
          (handle_collisions_virtual_sites env fuel) = some st →
      (∀ c ∈ env.local_cells, ∃ cell, st.cells[c]? = some cell
        ∧ ∀ p ∈ cell, p < st.mem.length) →
      (∀ g ∈ (rank_queues env st).flatten, ∃ p1 p2, st.local_particles g.pp1 = some p1
        ∧ st.local_particles g.pp2 = some p2 ∧ p1 < st.mem.length ∧ p2 < st.mem.length) →
      gathered_entries (gather_collision_queue env st).2 = (rank_queues env st).flatten
      ∧ handle_collisions env fuel st0
        = ((full_search_placements env (gather_collision_queue env st).2).foldlM
              (fun s t => coldet_do_three_particle_bond env s t.1 t.2.1 t.2.2)
              (gather_collision_queue env st).2).bind
            (fun st2 => some (handle_collisions_finish env { st2 with
                gathered_queue := if st2.total_collisions > 0 then [] else st2.gathered_queue
                total_collisions := 0 }))
      ∧ ∀ c ∈ env.local_cells, ∀ p ∈ (gather_collision_queue env st).2.cells.getD c [],
          ∀ g ∈ gathered_entries (gather_collision_queue env st).2,
          ∀ (p1 p2 : Nat) (r r1 r2 : Particle K),
            (gather_collision_queue env st).2.local_particles g.pp1 = some p1 →
            (gather_collision_queue env st).2.local_particles g.pp2 = some p2 →
            (gather_collision_queue env st).2.mem[p]? = some r →
            (gather_collision_queue env st).2.mem[p1]? = some r1 →
            (gather_collision_queue env st).2.mem[p2]? = some r2 →
            r.identity ≠ r1.identity → r.identity ≠ r2.identity →
            ∃ pre post, full_search_placements env (gather_collision_queue env st).2
              = pre ++ [(p, p1, p2), (p1, p, p2), (p2, p, p1)] ++ post) := by
  refine ⟨fun hq => handle_collisions_three_particle_empty_queue env fuel st0 hq hnode hthree,
    ?_⟩
  intro hq st hpre hcells hev
  obtain ⟨s2, hb, hv⟩ := Option.bind_eq_some.mp hpre
  have hk : signals_kept st0 st := by
    obtain ⟨n, hn⟩ := handle_collisions_exceptions_frame env st0
    have h0 : signals_kept st0 (handle_collisions_exceptions env st0) := by
      rw [hn]; exact ⟨rfl, rfl, rfl⟩
    exact signals_kept_trans _ _ _ h0 (signals_kept_trans _ _ _
      (signals_kept_of_bonds env _ s2 hb) (signals_kept_of_virtual_sites env fuel s2 st hv))
  obtain ⟨_, hkq, hkp⟩ := hk
  have hq' : st.collision_queue ≠ [] := by rw [hkq]; exact hq
  obtain ⟨hg, hent, hpos⟩ := gather_of_nonempty_queue env st hq' hnode hsz
  refine ⟨hent, ?_, ?_⟩
  · have hsearch : three_particle_binding_full_search env (gather_collision_queue env st).2
        = (full_search_placements env (gather_collision_queue env st).2).foldlM
            (fun s t => coldet_do_three_particle_bond env s t.1 t.2.1 t.2.2)
            (gather_collision_queue env st).2 := by
      apply full_search_eq_placements
      · intro c hc
        obtain ⟨cell, hcell, hlt⟩ := hcells c hc
        refine ⟨cell, ?_, ?_⟩
        · rw [hg]; exact hcell
        · rw [hg]; exact hlt
      · intro g hgm
        rw [hent] at hgm
        obtain ⟨p1, p2, h1, h2, hl1, hl2⟩ := hev g hgm
        refine ⟨p1, p2, ?_, ?_, ?_, ?_⟩
        · rw [hg]; exact h1
        · rw [hg]; exact h2
        · rw [hg]; exact hl1
        · rw [hg]; exact hl2
    have hcount : ((gather_collision_queue env st).1)[env.this_node]?
        = some st.collision_queue.length := by
      rw [hg]
      exact counts_this_node env st hnode
    have hlenpos : st.collision_queue.length > 0 := List.length_pos.mpr hq'
    have hphase : handle_collisions_three_particle env st
        = ((full_search_placements env (gather_collision_queue env st).2).foldlM
            (fun s t => coldet_do_three_particle_bond env s t.1 t.2.1 t.2.2)
            (gather_collision_queue env st).2).bind
          (fun st2 => some { st2 with
              gathered_queue := if st2.total_collisions > 0 then [] else st2.gathered_queue
              total_collisions := 0 }) := by
      unfold handle_collisions_three_particle
      simp only [hcount]
      rw [if_pos hlenpos, hnd, if_pos (by rfl), hsearch]
    unfold handle_collisions
    rw [hb, Option.some_bind, hv, Option.some_bind, hkp, if_pos hthree, hphase]
    cases (full_search_placements env (gather_collision_queue env st).2).foldlM
        (fun s t => coldet_do_three_particle_bond env s t.1 t.2.1 t.2.2)
        (gather_collision_queue env st).2 with
    | none => rfl
    | some s4 => rfl
  · intro c hc p hp g hgm p1 p2 r r1 r2 h1 h2 hr hr1 hr2 hne1 hne2
    have hthis : full_search_entry_placements (gather_collision_queue env st).2 p g
        = [(p, p1, p2), (p1, p, p2), (p2, p, p1)] := by
      unfold full_search_entry_placements
      rw [h1, h2]
      simp [hr, hr1, hr2, hne1, hne2]
    rw [← hthis]
    unfold full_search_placements
    exact segment_trans _ _ _
      (flatMap_segment
        (fun g => full_search_entry_placements (gather_collision_queue env st).2 p g) hgm)
      (segment_trans _ _ _
        (flatMap_segment (fun p => (gathered_entries (gather_collision_queue env st).2).flatMap
          fun g => full_search_entry_placements (gather_collision_queue env st).2 p g) hp)
        (flatMap_segment (fun c => ((gather_collision_queue env st).2.cells.getD c []).flatMap
          fun p => (gathered_entries (gather_collision_queue env st).2).flatMap
            fun g => full_search_entry_placements (gather_collision_queue env st).2 p g) hc))

/-- C24 (amended), run on two ranks without domain decomposition. On the rank with the local
particles 0 and 2, the ghost 1 and the Local Queue `[(1, 2)]`, `handle_collisions` runs the
placements of the full sweep on the Global Queue `[(1, 2)]`, which start with the three
placements for the particle 0: (center 0; 1, 2), (center 1; 0, 2), (center 2; 0, 1). On the
rank with the same particles and an empty Local Queue, where the other rank has queued the
pair (1, 2), `handle_collisions` returns the state it was given. -/
theorem handle_collisions_full_search_placements_witness :
    (handle_collisions (example_env_two_ranks false) 0 example_ghost_state
        = ((full_search_placements (example_env_two_ranks false)
              (gather_collision_queue (example_env_two_ranks false)
                (example_ghost_progress [] 0 [] [] [0, 1])).2).foldlM
            (fun s t => coldet_do_three_particle_bond (example_env_two_ranks false) s
              t.1 t.2.1 t.2.2)
            (gather_collision_queue (example_env_two_ranks false)
              (example_ghost_progress [] 0 [] [] [0, 1])).2).bind
          (fun st2 => some (handle_collisions_finish (example_env_two_ranks false) { st2 with
              gathered_queue := if st2.total_collisions > 0 then [] else st2.gathered_queue
              total_collisions := 0 }))
      ∧ ∃ pre post, full_search_placements (example_env_two_ranks false)
            (gather_collision_queue (example_env_two_ranks false)
              (example_ghost_progress [] 0 [] [] [0, 1])).2
          = pre ++ [(0, 1, 2), (1, 0, 2), (2, 0, 1)] ++ post)
    ∧ handle_collisions example_env_remote_event 0 (example_remote_progress [] 0 [])
        = some (example_remote_progress [] 0 []) := by
  have hg : gather_collision_queue (example_env_two_ranks false)
      (example_ghost_progress [] 0 [] [] [0, 1])
      = ([1, 0], example_ghost_progress [⟨1, 2, ⟨3 / 4, 0, 0⟩⟩] 1 [] [] [0, 1]) := by
    rw [gather_collision_queue_eq _ _ (by decide) (by decide)]
    rfl
  have h := (handle_collisions_full_search_placements (example_env_two_ranks false) 0
    example_ghost_state rfl rfl (by decide) (by decide)).2
    (by intro h; exact List.noConfusion h) (example_ghost_progress [] 0 [] [] [0, 1]) rfl
    (by
      intro c hc
      have hc0 : c = 0 := List.mem_singleton.mp hc
      subst hc0
      refine ⟨[0, 2], rfl, ?_⟩
      intro p hp
      have : p = 0 ∨ p = 2 := by simpa using hp
      rcases this with rfl | rfl
      · decide
      · decide)
    (by
      intro g hgm
      have hg1 : g = ⟨1, 2, ⟨3 / 4, 0, 0⟩⟩ := by
        have : (rank_queues (example_env_two_ranks false)
            (example_ghost_progress [] 0 [] [] [0, 1])).flatten = [⟨1, 2, ⟨3 / 4, 0, 0⟩⟩] := rfl
        rw [this] at hgm
        exact List.mem_singleton.mp hgm
      subst hg1
      exact ⟨1, 2, rfl, rfl, by decide, by decide⟩)
  have hempty := (handle_collisions_full_search_placements example_env_remote_event 0
    (example_remote_progress [] 0 []) rfl rfl (by decide) (by decide)).1 rfl
  refine ⟨⟨h.2.1, ?_⟩, hempty.trans rfl⟩
  refine h.2.2 0 (List.mem_singleton.mpr rfl) 0 ?_ ⟨1, 2, ⟨3 / 4, 0, 0⟩⟩ ?_ 1 2
    { example_particle 0 1 0 false false with bl := [] }
    (example_particle 1 1 (1 / 2) true false)
    { example_particle 2 1 1 false false with bl := [0, 1] } ?_ ?_ ?_ ?_ ?_
    (by decide) (by decide)
  · rw [hg]; exact List.mem_cons_self _ _
  · rw [hg]; exact List.mem_singleton.mpr rfl
  · rw [hg]; rfl
  · rw [hg]; rfl
  · rw [hg]; rfl
  · rw [hg]; rfl
  · rw [hg]; rfl

theorem example_remote_coldet :
    coldet_do_three_particle_bond example_env_remote_event
        (example_remote_progress [⟨1, 2, ⟨3 / 4, 0, 0⟩⟩] 1 []) 0 1 2
      = some (example_remote_progress [⟨1, 2, ⟨3 / 4, 0, 0⟩⟩] 1 [2, 1, 2]) := by
  norm_num [coldet_do_three_particle_bond, example_remote_progress, example_ghost_progress,
    example_env_remote_event, example_env_two_ranks,
    example_state, example_params, example_env_angles, example_env, example_particle,
    example_sqrt, sqrlen, Vec3.sub, three_particle_bond_exists_loop, three_particle_cosine, int_wrap,
    three_particle_bond_id_of_cosine,
    three_particle_bond_id, local_change_bond, modify_particle, modify_at, Vec3.smul, scalar,
    (by decide : Int.toNat 2 = 2)]

/-- C24 as stated fails, with THREE_PARTICLE set and no domain decomposition on two ranks, a
non-empty Global Queue and the locally stored particle 0. On a rank whose own Local Queue is
empty while the other rank has queued the pair (1, 2), the Global Queue is `[(1, 2)]` and the
count of this rank is 0, and `handle_collisions` returns with the bond list of particle 0 still
empty, although the placement (center 0; 1, 2) on the gathered state inserts the bond
`(2, 1, 2)`: no placement is attempted. On a rank with the Local Queue `[(1, 2)]` while the
other rank has queued the pair (5, 6) of particles this rank does not store, the Global Queue
is `[(5, 6), (1, 2)]`, `local_particles[5]` is null and `handle_collisions` does not return a
state: the sweep reads through the null pointer before any placement. -/
theorem handle_collisions_full_search_not_attempted :
    (flag_set (example_remote_progress [] 0 []).collision_params.mode
        example_env_remote_event.COLLISION_MODE_BIND_THREE_PARTICLES = true
    ∧ example_env_remote_event.domdec = false
    ∧ (example_remote_progress [] 0 []).collision_queue = []
    ∧ gather_collision_queue example_env_remote_event (example_remote_progress [] 0 [])
      = ([0, 1], example_remote_progress [⟨1, 2, ⟨3 / 4, 0, 0⟩⟩] 1 [])
    ∧ gathered_entries (example_remote_progress [⟨1, 2, ⟨3 / 4, 0, 0⟩⟩] 1 [])
      = [⟨1, 2, ⟨3 / 4, 0, 0⟩⟩]
    ∧ handle_collisions example_env_remote_event 0 (example_remote_progress [] 0 [])
      = some (example_remote_progress [] 0 [])
    ∧ ((example_remote_progress [] 0 []).mem.map fun (r : Particle ℚ) => (r.identity, r.bl))
      = [(0, []), (1, []), (2, [])]
    ∧ coldet_do_three_particle_bond example_env_remote_event
        (example_remote_progress [⟨1, 2, ⟨3 / 4, 0, 0⟩⟩] 1 []) 0 1 2
      = some (example_remote_progress [⟨1, 2, ⟨3 / 4, 0, 0⟩⟩] 1 [2, 1, 2]))
    ∧ (flag_set example_ghost_state.collision_params.mode
        example_env_unknown_event.COLLISION_MODE_BIND_THREE_PARTICLES = true
    ∧ example_env_unknown_event.domdec = false
    ∧ example_ghost_state.collision_queue = [⟨1, 2, ⟨3 / 4, 0, 0⟩⟩]
    ∧ gather_collision_queue example_env_unknown_event
        (example_ghost_progress [] 0 [] [] [0, 1])
      = ([1, 1], example_ghost_progress [⟨5, 6, ⟨1, 0, 0⟩⟩, ⟨1, 2, ⟨3 / 4, 0, 0⟩⟩] 2
          [] [] [0, 1])
    ∧ gathered_entries
        (example_ghost_progress [⟨5, 6, ⟨1, 0, 0⟩⟩, ⟨1, 2, ⟨3 / 4, 0, 0⟩⟩] 2 [] [] [0, 1])
      = [⟨5, 6, ⟨1, 0, 0⟩⟩, ⟨1, 2, ⟨3 / 4, 0, 0⟩⟩]
    ∧ example_ghost_state.local_particles 5 = none
    ∧ (example_ghost_state.cells.getD 0 []) = [0, 2]
    ∧ handle_collisions example_env_unknown_event 0 example_ghost_state = none) := by
  have hg : gather_collision_queue example_env_remote_event (example_remote_progress [] 0 [])
      = ([0, 1], example_remote_progress [⟨1, 2, ⟨3 / 4, 0, 0⟩⟩] 1 []) := by
    rw [gather_collision_queue_eq _ _ (by decide) (by decide)]
    rfl
  have hgu : gather_collision_queue example_env_unknown_event
      (example_ghost_progress [] 0 [] [] [0, 1])
      = ([1, 1], example_ghost_progress [⟨5, 6, ⟨1, 0, 0⟩⟩, ⟨1, 2, ⟨3 / 4, 0, 0⟩⟩] 2
          [] [] [0, 1]) := by
    rw [gather_collision_queue_eq _ _ (by decide) (by decide)]
    rfl
  refine ⟨⟨rfl, rfl, rfl, hg, rfl, ?_, rfl, example_remote_coldet⟩,
    ⟨rfl, rfl, rfl, hgu, rfl, rfl, rfl, ?_⟩⟩
  · have hb : handle_collisions_bonds example_env_remote_event
        (handle_collisions_exceptions example_env_remote_event
          (example_remote_progress [] 0 []))
        = some (example_remote_progress [] 0 []) := rfl
    have hv : handle_collisions_virtual_sites example_env_remote_event 0
        (example_remote_progress [] 0 []) = some (example_remote_progress [] 0 []) := rfl
    have hflag : flag_set (example_remote_progress [] 0 []).collision_params.mode
        example_env_remote_event.COLLISION_MODE_BIND_THREE_PARTICLES = true := rfl
    have hphase : handle_collisions_three_particle example_env_remote_event
        (example_remote_progress [] 0 []) = some (example_remote_progress [] 0 []) := by
      unfold handle_collisions_three_particle
      rw [hg]
      rfl
    unfold handle_collisions
    rw [hb, Option.some_bind, hv, Option.some_bind, if_pos hflag, hphase, Option.some_bind]
    rfl
  · have hb : handle_collisions_bonds example_env_unknown_event
        (handle_collisions_exceptions example_env_unknown_event example_ghost_state)
        = some (example_ghost_progress [] 0 [] [] [0, 1]) := rfl
    have hv : handle_collisions_virtual_sites example_env_unknown_event 0
        (example_ghost_progress [] 0 [] [] [0, 1])
        = some (example_ghost_progress [] 0 [] [] [0, 1]) := rfl
    have hflag : flag_set (example_ghost_progress [] 0 [] [] [0, 1]).collision_params.mode
        example_env_unknown_event.COLLISION_MODE_BIND_THREE_PARTICLES = true := rfl
    have hphase : handle_collisions_three_particle example_env_unknown_event
        (example_ghost_progress [] 0 [] [] [0, 1]) = none := by
      unfold handle_collisions_three_particle
      rw [hgu]
      rfl
    unfold handle_collisions
    rw [hb, Option.some_bind, hv, Option.some_bind, if_pos hflag, hphase]
    rfl

/-! ### The number of virtual sites created -/

theorem sites_created_refl (s : State K) : sites_created s s 0 := by
  refine ⟨rfl, by simp, by simp, fun _ _ => rfl, ?_, ?_, ?_⟩
  · intro a r hr; exact ⟨r, hr, rfl, rfl, rfl⟩
  · intro a h1 h2; omega
  · intro j hj; omega

theorem sites_created_modify (s0 s : State K) (k : Nat) (a : Nat) (r : Particle K)
    (f : Particle K → Particle K) (h : sites_created s0 s k)
    (hr : s.mem[a]? = some r)
    (hid : (f r).identity = r.identity) (hv : (f r).isVirtual = r.isVirtual)
    (hpos : (f r).pos = r.pos)
    (hty : (f r).type = r.type ∨ a < s0.mem.length) :
    sites_created s0 { s with mem := s.mem.set a (f r) } k := by
  obtain ⟨hcp, hlen, hmax, hlp, hold, hnew, hids⟩ := h
  have hlt : a < s.mem.length := (List.getElem?_eq_some.mp hr).1
  refine ⟨hcp, ?_, hmax, hlp, ?_, ?_, hids⟩
  · show (s.mem.set a (f r)).length = _
    rw [List.length_set]; exact hlen
  · intro b r0 hr0
    obtain ⟨r', hr', h1, h2, h3⟩ := hold b r0 hr0
    show ∃ r'' : Particle K, (s.mem.set a (f r))[b]? = some r'' ∧ _
    by_cases hab : a = b
    · subst hab
      have e1 : r' = r := Option.some.inj (hr'.symm.trans hr)
      subst e1
      exact ⟨f r', by simp [List.getElem?_set, hlt], hid.trans h1, hv.trans h2, hpos.trans h3⟩
    · exact ⟨r', by simp [List.getElem?_set, hab, hr'], h1, h2, h3⟩
  · intro b hb1 hb2
    have hb2' : b < s.mem.length := by
      have : (s.mem.set a (f r)).length = s.mem.length := List.length_set _ _ _
      have hb3 : b < (s.mem.set a (f r)).length := hb2
      omega
    obtain ⟨sr, hsr, hsv, hst⟩ := hnew b hb1 hb2'
    show ∃ sr' : Particle K, (s.mem.set a (f r))[b]? = some sr' ∧ _
    by_cases hab : a = b
    · subst hab
      have e1 : sr = r := Option.some.inj (hsr.symm.trans hr)
      subst e1
      refine ⟨f sr, by simp [List.getElem?_set, hlt], hv.trans hsv, ?_⟩
      rcases hty with h | h
      · exact h.trans hst
      · omega
    · exact ⟨sr, by simp [List.getElem?_set, hab, hsr], hsv, hst⟩

theorem sites_created_of_modify (s0 s s' : State K) (k : Nat) (id : Int)
    (f : Particle K → Particle K) (h : sites_created s0 s k)
    (hid : ∀ r, (f r).identity = r.identity) (hv : ∀ r, (f r).isVirtual = r.isVirtual)
    (hpos : ∀ r, (f r).pos = r.pos) (hty : ∀ r, (f r).type = r.type)
    (hrun : modify_particle s id f = some s') : sites_created s0 s' k := by
  obtain ⟨a, r, _, hr, rfl⟩ := modify_particle_eq s s' id f hrun
  exact sites_created_modify s0 s k a r f h hr (hid r) (hv r) (hpos r) (Or.inl (hty r))

theorem sites_created_of_local_change_bond (s0 s s' : State K) (k : Nat) (id : Int)
    (bond : List Int) (h : sites_created s0 s k)
    (hrun : local_change_bond s id bond = some s') : sites_created s0 s' k :=
  sites_created_of_modify s0 s s' k id (fun r => { r with bl := r.bl ++ bond }) h
    (fun _ => rfl) (fun _ => rfl) (fun _ => rfl) (fun _ => rfl) hrun

theorem place_vs_full (env : Env K) (s : State K) (pos : Vec3 K) (relate_to : Int)
    (a2 : Nat) (r2 : Particle K) (hle : relate_to ≤ s.max_seen_particle)
    (ha2 : s.local_particles relate_to = some a2) (hr2 : s.mem[a2]? = some r2) :
    ∃ s' : State K,
      place_vs_and_relate_to_particle env s pos relate_to = some s'
      ∧ s'.collision_params = s.collision_params
      ∧ s'.max_seen_particle = s.max_seen_particle + 1
      ∧ s'.local_particles
          = Function.update s.local_particles (s.max_seen_particle + 1) (some s.mem.length)
      ∧ s'.mem.length = s.mem.length + 1
      ∧ (∀ (a : Nat) (r : Particle K), s.mem[a]? = some r →
          ∃ r' : Particle K, s'.mem[a]? = some r' ∧ r' = { r with rotation := r'.rotation })
      ∧ s'.mem[s.mem.length]? = some (Particle.mk (s.max_seen_particle + 1)
          s.collision_params.vs_particle_type true 0 relate_to pos false []) := by
  have hne : relate_to ≠ s.max_seen_particle + 1 := by omega
  have hlt : a2 < s.mem.length := (List.getElem?_eq_some.mp hr2).1
  have hmax : max s.max_seen_particle (s.max_seen_particle + 1) = s.max_seen_particle + 1 := by
    omega
  have hne2 : ¬ a2 = s.mem.length := by omega
  have hne3 : ¬ s.mem.length = a2 := by omega
  unfold place_vs_and_relate_to_particle
  cases hrot : env.ROTATION_PER_PARTICLE
  · simp only [place_particle, vs_relate_to, get_particle, modify_particle, modify_at, hmax,
      Function.update_same, Function.update_noteq hne, ha2, List.getElem?_append_left hlt, hr2,
      List.getElem?_concat_length, Option.some_bind, List.length_append, List.length_singleton,
      List.getElem?_set, List.length_set, Nat.lt_succ_self, hne2, hne3, ↓reduceIte,
      Bool.false_eq_true]
    refine ⟨_, rfl, rfl, rfl, rfl, by simp, ?_, ?_⟩
    · intro a r hr
      have hlta : a < s.mem.length := (List.getElem?_eq_some.mp hr).1
      have hna : ¬ s.mem.length = a := by omega
      refine ⟨r, ?_, rfl⟩
      simp [List.getElem?_set, hna, List.getElem?_append_left hlta, hr]
    · simp
  · simp only [place_particle, vs_relate_to, get_particle, modify_particle, modify_at, hmax,
      Function.update_same, Function.update_noteq hne, ha2, List.getElem?_append_left hlt, hr2,
      List.getElem?_concat_length, Option.some_bind, List.length_append, List.length_singleton,
      List.getElem?_set, List.length_set, Nat.lt_succ_self, hne2, hne3, ↓reduceIte]
    refine ⟨_, rfl, rfl, rfl, rfl, by simp, ?_, ?_⟩
    · intro a r hr
      have hlta : a < s.mem.length := (List.getElem?_eq_some.mp hr).1
      have hna : ¬ s.mem.length = a := by omega
      by_cases haa : a2 = a
      · subst haa
        have : r = r2 := Option.some.inj (hr.symm.trans hr2)
        subst this
        exact ⟨{ r with rotation := 14 },
          by simp [List.getElem?_set, List.getElem?_append, hna, hlt], rfl⟩
      · exact ⟨r, by simp [List.getElem?_set, hna, haa, List.getElem?_append_left hlta, hr], rfl⟩
    · simp [List.getElem?_set, hne2]

theorem sites_created_place_vs (env : Env K) (s0 s : State K) (k : Nat) (pos : Vec3 K)
    (relate_to : Int) (a2 : Nat) (r2 : Particle K) (h : sites_created s0 s k)
    (hle : relate_to ≤ s0.max_seen_particle)
    (ha2 : s0.local_particles relate_to = some a2) (hr2 : s0.mem[a2]? = some r2) :
    ∃ s' : State K, place_vs_and_relate_to_particle env s pos relate_to = some s'
      ∧ sites_created s0 s' (k + 1) := by
  obtain ⟨hcp, hlen, hmax, hlp, hold, hnew, hids⟩ := h
  obtain ⟨r2', hr2', _⟩ := hold a2 r2 hr2
  obtain ⟨s', hrun, hcp', hmax', hlp', hlen', hold', hsite⟩ := place_vs_full env s pos relate_to
    a2 r2' (by rw [hmax]; omega) (by rw [hlp relate_to hle]; exact ha2) hr2'
  refine ⟨s', hrun, hcp'.trans hcp, by rw [hlen', hlen]; ring, by rw [hmax', hmax]; push_cast; ring,
    ?_, ?_, ?_, ?_⟩
  · intro id hid
    rw [hlp', Function.update_noteq (by rw [hmax]; omega)]
    exact hlp id hid
  · intro a r hr
    obtain ⟨r1, hr1, h1, h2, h3⟩ := hold a r hr
    obtain ⟨r1', hr1', heq⟩ := hold' a r1 hr1
    refine ⟨r1', hr1', ?_, ?_, ?_⟩
    · rw [heq]; exact h1
    · rw [heq]; exact h2
    · rw [heq]; exact h3
  · intro a ha1 ha2'
    by_cases hlast : a = s.mem.length
    · subst hlast
      exact ⟨_, hsite, rfl, by rw [hcp]⟩
    · have hlta : a < s.mem.length := by omega
      obtain ⟨sr, hsr, hsv, hst⟩ := hnew a ha1 hlta
      obtain ⟨sr', hsr', heq⟩ := hold' a sr hsr
      refine ⟨sr', hsr', ?_, ?_⟩
      · rw [heq]; exact hsv
      · rw [heq]; exact hst
  · intro j hj
    rw [hlp']
    by_cases hjk : j = k
    · subst hjk
      have : s0.max_seen_particle + 1 + (j : Int) = s.max_seen_particle + 1 := by
        rw [hmax]; ring
      rw [this, Function.update_same, hlen]
    · rw [Function.update_noteq (by rw [hmax]; omega)]
      exact hids j (by omega)

theorem sites_created_modify_exists (s0 s : State K) (k : Nat) (id : Int) (a : Nat)
    (r : Particle K) (f : Particle K → Particle K) (h : sites_created s0 s k)
    (hl : s.local_particles id = some a) (hr : s.mem[a]? = some r)
    (hid : (f r).identity = r.identity) (hv : (f r).isVirtual = r.isVirtual)
    (hpos : (f r).pos = r.pos)
    (hty : (f r).type = r.type ∨ a < s0.mem.length) :
    ∃ s' : State K, modify_particle s id f = some s' ∧ sites_created s0 s' k :=
  ⟨_, modify_particle_of_resolved s id f a r hl hr,
    sites_created_modify s0 s k a r f h hr hid hv hpos hty⟩

theorem sites_created_bond_site (s0 s : State K) (k : Nat) (id : Int) (bond : List Int)
    (h : sites_created s0 s k) (j : Nat) (hj : j < k)
    (hid : id = s0.max_seen_particle + 1 + (j : Int)) :
    ∃ s' : State K, local_change_bond s id bond = some s' ∧ sites_created s0 s' k := by
  have hl : s.local_particles id = some (s0.mem.length + j) := by rw [hid]; exact h.2.2.2.2.2.2 j hj
  obtain ⟨sr, hsr, _, _⟩ := h.2.2.2.2.2.1 (s0.mem.length + j) (by omega) (by rw [h.2.1]; omega)
  exact sites_created_modify_exists s0 s k id _ sr (fun r => { r with bl := r.bl ++ bond }) h hl
    hsr rfl rfl rfl (Or.inl rfl)

theorem sites_created_old_resolved (s0 s : State K) (k : Nat) (id : Int) (a : Nat)
    (r : Particle K) (h : sites_created s0 s k) (hle : id ≤ s0.max_seen_particle)
    (ha : s0.local_particles id = some a) (hr : s0.mem[a]? = some r) :
    s.local_particles id = some a ∧ a < s0.mem.length
      ∧ ∃ r' : Particle K, s.mem[a]? = some r' ∧ r'.pos = r.pos := by
  obtain ⟨r', hr', _, _, hp⟩ := h.2.2.2.2.1 a r hr
  exact ⟨by rw [h.2.2.2.1 id hle]; exact ha, (List.getElem?_eq_some.mp hr).1, r', hr', hp⟩

theorem sites_created_bind_at_poc (env : Env K) (s0 s : State K) (k : Nat)
    (e : collision_struct K) (h : sites_created s0 s k) (hk : 2 ≤ k) :
    ∃ s' : State K, bind_at_poc_create_bond_between_vs env s e = some s'
      ∧ sites_created s0 s' k := by
  unfold bind_at_poc_create_bond_between_vs
  simp only
  split
  · exact sites_created_bond_site s0 s k _ _ h (k - 1) (by omega) (by rw [h.2.2.1]; omega)
  · obtain ⟨s1, h1, hc1⟩ := sites_created_bond_site s0 s k s.max_seen_particle
      [s.collision_params.bond_vs, e.pp1, e.pp2] h (k - 1) (by omega) (by rw [h.2.2.1]; omega)
    obtain ⟨s2, h2, hc2⟩ := sites_created_bond_site s0 s1 k (s1.max_seen_particle - 1)
      [s.collision_params.bond_vs, e.pp1, e.pp2] hc1 (k - 2) (by omega)
      (by rw [hc1.2.2.1]; omega)
    obtain ⟨s3, h3, hc3⟩ := sites_created_bond_site s0 s2 k s2.max_seen_particle
      [3, s2.max_seen_particle - 1] hc2 (k - 1) (by omega) (by rw [hc2.2.2.1]; omega)
    exact ⟨s3, by rw [h1, Option.some_bind, h2, Option.some_bind, h3], hc3⟩
  · exact ⟨s, rfl, h⟩

theorem sites_created_glue (s0 s : State K) (k : Nat) (e : collision_struct K) (a1 : Nat)
    (r1 : Particle K) (h : sites_created s0 s k) (hle : e.pp1 ≤ s0.max_seen_particle)
    (ha1 : s0.local_particles e.pp1 = some a1) (hr1 : s0.mem[a1]? = some r1) :
    ∃ s' : State K, glue_to_surface_bind_vs_to_pp1 s e = some s' ∧ sites_created s0 s' k := by
  obtain ⟨hl, hlt, r', hr', _⟩ := sites_created_old_resolved s0 s k e.pp1 a1 r1 h hle ha1 hr1
  obtain ⟨sA, hA, hcA⟩ := sites_created_modify_exists s0 s k e.pp1 a1 r'
    (fun r => { r with bl := r.bl ++ [s.collision_params.bond_vs, s.max_seen_particle] }) h hl hr'
    rfl rfl rfl (Or.inl rfl)
  obtain ⟨hlA, _, rA, hrA, _⟩ := sites_created_old_resolved s0 sA k e.pp1 a1 r1 hcA hle ha1 hr1
  obtain ⟨sB, hB, hcB⟩ := sites_created_modify_exists s0 sA k e.pp1 a1 rA
    (fun r => { r with type := sA.collision_params.part_type_after_glueing }) hcA hlA hrA
    rfl rfl rfl (Or.inr hlt)
  refine ⟨sB, ?_, hcB⟩
  unfold glue_to_surface_bind_vs_to_pp1 local_change_bond
  rw [hA, Option.some_bind, hB]

theorem sites_created_corner (env : Env K) (s0 s : State K) (k : Nat)
    (e : collision_struct K) (corner : Vec3 K) (a1 a2 : Nat) (r1 r2 : Particle K)
    (h : sites_created s0 s k)
    (hle1 : e.pp1 ≤ s0.max_seen_particle) (ha1 : s0.local_particles e.pp1 = some a1)
    (hr1 : s0.mem[a1]? = some r1)
    (hle2 : e.pp2 ≤ s0.max_seen_particle) (ha2 : s0.local_particles e.pp2 = some a2)
    (hr2 : s0.mem[a2]? = some r2) :
    ∃ s' : State K, ellipsoid_collision_corner env e s corner = some s'
      ∧ sites_created s0 s' (k + 2) := by
  obtain ⟨sA, hA, hcA⟩ := sites_created_place_vs env s0 s k corner e.pp1 a1 r1 h hle1 ha1 hr1
  obtain ⟨sB, hB, hcB⟩ := sites_created_place_vs env s0 sA (k + 1) corner e.pp2 a2 r2 hcA hle2
    ha2 hr2
  obtain ⟨sC, hC, hcC⟩ := sites_created_bond_site s0 sB (k + 1 + 1) sB.max_seen_particle
    [3, sB.max_seen_particle - 1] hcB (k + 1) (by omega) (by rw [hcB.2.2.1]; push_cast; ring)
  refine ⟨sC, ?_, hcC⟩
  unfold ellipsoid_collision_corner
  rw [hA, Option.some_bind, hB, Option.some_bind, hC]

theorem sites_created_ellipsoid (env : Env K) (fuel : Nat) (s0 s s' : State K) (k : Nat)
    (e : collision_struct K) (a1 a2 : Nat) (r1 r2 : Particle K)
    (h : sites_created s0 s k)
    (hle1 : e.pp1 ≤ s0.max_seen_particle) (ha1 : s0.local_particles e.pp1 = some a1)
    (hr1 : s0.mem[a1]? = some r1)
    (hle2 : e.pp2 ≤ s0.max_seen_particle) (ha2 : s0.local_particles e.pp2 = some a2)
    (hr2 : s0.mem[a2]? = some r2)
    (hrun : ellipsoid_collision env fuel s e = some s') :
    sites_created s0 s' (k + 6) := by
  unfold ellipsoid_collision at hrun
  split at hrun
  · split at hrun
    · rename_i c1 c2 c3 rng1 _
      have h0 : sites_created s0 { s with rng := rng1 } k := h
      obtain ⟨sA, hA, hcA⟩ := sites_created_corner env s0 _ k e c1 a1 a2 r1 r2 h0 hle1 ha1 hr1
        hle2 ha2 hr2
      obtain ⟨sB, hB, hcB⟩ := sites_created_corner env s0 sA (k + 2) e c2 a1 a2 r1 r2 hcA hle1
        ha1 hr1 hle2 ha2 hr2
      obtain ⟨sC, hC, hcC⟩ := sites_created_corner env s0 sB (k + 2 + 2) e c3 a1 a2 r1 r2 hcB
        hle1 ha1 hr1 hle2 ha2 hr2
      rw [hA, Option.some_bind, hB, Option.some_bind, hC] at hrun
      cases Option.some.inj hrun
      exact hcC
    · exact Option.noConfusion hrun
  · exact Option.noConfusion hrun

theorem sites_created_vs_step_exists (env : Env K) (fuel : Nat) (s0 s : State K) (k : Nat)
    (e : collision_struct K) (a1 a2 : Nat) (r1 r2 : Particle K)
    (h : sites_created s0 s k)
    (htri : flag_set s0.collision_params.mode env.COLLISION_MODE_TRIANGLE_BINDING = false)
    (hle1 : e.pp1 ≤ s0.max_seen_particle) (ha1 : s0.local_particles e.pp1 = some a1)
    (hr1 : s0.mem[a1]? = some r1)
    (hle2 : e.pp2 ≤ s0.max_seen_particle) (ha2 : s0.local_particles e.pp2 = some a2)
    (hr2 : s0.mem[a2]? = some r2) :
    ∃ s' : State K, handle_collisions_vs env fuel s e = some s'
      ∧ sites_created s0 s' (k + sites_per_entry env s0.collision_params.mode) := by
  have hmode : s.collision_params.mode = s0.collision_params.mode := by rw [h.1]
  unfold handle_collisions_vs sites_per_entry
  simp only [hmode, htri, Bool.false_eq_true, if_false]
  cases hvs : flag_set s0.collision_params.mode env.COLLISION_MODE_VS
  · simp only [Bool.false_eq_true, if_false, Option.some_bind]
    obtain ⟨sB, hB, hcB⟩ := sites_created_place_vs env s0 s k e.point_of_collision e.pp2 a2 r2 h
      hle2 ha2 hr2
    rw [hB, Option.some_bind]
    cases hgl : flag_set s0.collision_params.mode env.COLLISION_MODE_GLUE_TO_SURF
    · exact ⟨sB, rfl, hcB⟩
    · simp only [if_true]
      exact sites_created_glue s0 sB (k + 1) e a1 r1 hcB hle1 ha1 hr1
  · simp only [if_true]
    obtain ⟨sA, hA, hcA⟩ := sites_created_place_vs env s0 s k e.point_of_collision e.pp1 a1 r1 h
      hle1 ha1 hr1
    obtain ⟨sB, hB, hcB⟩ := sites_created_place_vs env s0 sA (k + 1) e.point_of_collision e.pp2
      a2 r2 hcA hle2 ha2 hr2
    obtain ⟨sC, hC, hcC⟩ := sites_created_bind_at_poc env s0 sB (k + 1 + 1) e hcB (by omega)
    rw [hA, Option.some_bind, hB, Option.some_bind, hC, Option.some_bind]
    cases hgl : flag_set s0.collision_params.mode env.COLLISION_MODE_GLUE_TO_SURF
    · exact ⟨sC, rfl, hcC⟩
    · simp only [if_true]
      exact sites_created_glue s0 sC (k + 2) e a1 r1 hcC hle1 ha1 hr1

theorem sites_created_vs_step (env : Env K) (fuel : Nat) (s0 s s' : State K) (k : Nat)
    (e : collision_struct K) (a1 a2 : Nat) (r1 r2 : Particle K)
    (h : sites_created s0 s k)
    (hle1 : e.pp1 ≤ s0.max_seen_particle) (ha1 : s0.local_particles e.pp1 = some a1)
    (hr1 : s0.mem[a1]? = some r1)
    (hle2 : e.pp2 ≤ s0.max_seen_particle) (ha2 : s0.local_particles e.pp2 = some a2)
    (hr2 : s0.mem[a2]? = some r2)
    (hrun : handle_collisions_vs env fuel s e = some s') :
    sites_created s0 s' (k + sites_per_entry env s0.collision_params.mode) := by
  cases htri : flag_set s0.collision_params.mode env.COLLISION_MODE_TRIANGLE_BINDING
  · obtain ⟨s'', hrun', hc⟩ := sites_created_vs_step_exists env fuel s0 s k e a1 a2 r1 r2 h htri
      hle1 ha1 hr1 hle2 ha2 hr2
    rw [hrun'] at hrun
    cases Option.some.inj hrun
    exact hc
  · have hmode : s.collision_params.mode = s0.collision_params.mode := by rw [h.1]
    unfold handle_collisions_vs at hrun
    simp only [hmode, htri, if_true] at hrun
    have h6 : sites_per_entry env s0.collision_params.mode = 6 := by
      unfold sites_per_entry
      rw [htri]
      rfl
    rw [h6]
    exact sites_created_ellipsoid env fuel s0 s s' k e a1 a2 r1 r2 h hle1 ha1 hr1 hle2 ha2 hr2
      hrun

theorem sites_created_vs_fold (env : Env K) (fuel : Nat) (s0 : State K)
    (q : List (collision_struct K)) :
    (∀ e ∈ q, ∃ (a1 a2 : Nat) (r1 r2 : Particle K),
      e.pp1 ≤ s0.max_seen_particle ∧ s0.local_particles e.pp1 = some a1 ∧ s0.mem[a1]? = some r1
      ∧ e.pp2 ≤ s0.max_seen_particle ∧ s0.local_particles e.pp2 = some a2
      ∧ s0.mem[a2]? = some r2) →
    ∀ (s : State K) (k : Nat), sites_created s0 s k →
      (∀ s' : State K, q.foldlM (handle_collisions_vs env fuel) s = some s' →
        sites_created s0 s' (k + sites_per_entry env s0.collision_params.mode * q.length))
      ∧ (flag_set s0.collision_params.mode env.COLLISION_MODE_TRIANGLE_BINDING = false →
          ∃ s' : State K, q.foldlM (handle_collisions_vs env fuel) s = some s') := by
  induction q with
  | nil =>
    intro _ s k h
    refine ⟨?_, fun _ => ⟨s, rfl⟩⟩
    intro s' hrun
    simp only [List.foldlM_nil] at hrun
    cases Option.some.inj hrun
    simpa using h
  | cons e q ih =>
    intro hres s k h
    obtain ⟨a1, a2, r1, r2, hle1, ha1, hr1, hle2, ha2, hr2⟩ := hres e (List.mem_cons_self _ _)
    have hres' := fun e' (he' : e' ∈ q) => hres e' (List.mem_cons_of_mem _ he')
    constructor
    · intro s' hrun
      rw [List.foldlM_cons] at hrun
      cases hstep : handle_collisions_vs env fuel s e with
      | none => rw [hstep] at hrun; exact Option.noConfusion hrun
      | some s1 =>
        rw [hstep] at hrun
        have h1 := sites_created_vs_step env fuel s0 s s1 k e a1 a2 r1 r2 h hle1 ha1 hr1 hle2
          ha2 hr2 hstep
        have h2 := (ih hres' s1 _ h1).1 s' hrun
        have hk : k + sites_per_entry env s0.collision_params.mode
            + sites_per_entry env s0.collision_params.mode * q.length
            = k + sites_per_entry env s0.collision_params.mode * (e :: q).length := by
          rw [List.length_cons]; ring
        rw [← hk]
        exact h2
    · intro htri
      obtain ⟨s1, hstep, h1⟩ := sites_created_vs_step_exists env fuel s0 s k e a1 a2 r1 r2 h htri
        hle1 ha1 hr1 hle2 ha2 hr2
      obtain ⟨s', hrest⟩ := (ih hres' s1 _ h1).2 htri
      exact ⟨s', by rw [List.foldlM_cons, hstep]; exact hrest⟩

theorem length_eq_of_getElem?_map {α : Type} (l l' : List α) (f : Nat → α → α)
    (h : ∀ a : Nat, l'[a]? = (l[a]?).map (f a)) : l'.length = l.length := by
  apply le_antisymm
  · by_contra hlt
    have h1 := h l.length
    rw [List.getElem?_eq_none (le_refl _)] at h1
    have h2 : l'.length ≤ l.length := List.getElem?_eq_none_iff.mp h1
    exact hlt h2
  · by_contra hlt
    have h1 := h l'.length
    rw [List.getElem?_eq_none (le_refl _)] at h1
    cases hl : l[l'.length]? with
    | none => exact hlt (List.getElem?_eq_none_iff.mp hl)
    | some x => rw [hl] at h1; exact Option.noConfusion h1

theorem sites_created_of_bonds_only (s0 s s' : State K) (k : Nat) (h : sites_created s0 s k)
    (hb : bonds_only s s') : sites_created s0 s' k := by
  obtain ⟨hcp, hlen, hmax, hlp, hold, hnew, hids⟩ := h
  obtain ⟨blp, bcp, bmax, _, added, bmem⟩ := hb
  have hl : s'.mem.length = s.mem.length :=
    length_eq_of_getElem?_map s.mem s'.mem (fun a r => { r with bl := r.bl ++ added a }) bmem
  refine ⟨bcp.trans hcp, hl.trans hlen, bmax.trans hmax, ?_, ?_, ?_, ?_⟩
  · intro id hid; rw [blp]; exact hlp id hid
  · intro a r hr
    obtain ⟨r1, hr1, h1, h2, h3⟩ := hold a r hr
    exact ⟨{ r1 with bl := r1.bl ++ added a }, by rw [bmem a, hr1]; rfl, h1, h2, h3⟩
  · intro a ha1 ha2
    obtain ⟨sr, hsr, hsv, hst⟩ := hnew a ha1 (by rw [← hl]; exact ha2)
    exact ⟨{ sr with bl := sr.bl ++ added a }, by rw [bmem a, hsr]; rfl, hsv, hst⟩
  · intro j hj; rw [blp]; exact hids j hj

theorem bonds_only_of_bonds_pass (env : Env K) (s s' : State K)
    (h : handle_collisions_bonds env s = some s') : bonds_only s s' := by
  unfold handle_collisions_bonds at h
  split at h
  · refine foldlM_rel bonds_only bonds_only_refl bonds_only_trans _ ?_ _ s s' h
    intro a e b he
    unfold handle_collisions_bond at he
    split at he
    · split at he
      · exact bonds_only_of_local_change_bond a b _ _ he
      · exact bonds_only_of_local_change_bond a b _ _ he
    · exact Option.noConfusion he
  · cases Option.some.inj h; exact bonds_only_refl s

theorem sites_created_finish (env : Env K) (s0 s : State K) (k : Nat)
    (h : sites_created s0 s k) : sites_created s0 (handle_collisions_finish env s) k := by
  unfold handle_collisions_finish announce_resort_particles
  simp only
  split
  · split
    · exact h
    · exact h
  · exact h

theorem sites_per_entry_eq (env : Env K) (mode : Nat)
    (h : (flag_set mode env.COLLISION_MODE_VS || flag_set mode env.COLLISION_MODE_GLUE_TO_SURF
      || flag_set mode env.COLLISION_MODE_TRIANGLE_BINDING) = true) :
    sites_per_entry env mode = sites_per_mode env mode := by
  unfold sites_per_entry sites_per_mode
  cases h1 : flag_set mode env.COLLISION_MODE_TRIANGLE_BINDING
  · cases h2 : flag_set mode env.COLLISION_MODE_VS
    · cases h3 : flag_set mode env.COLLISION_MODE_GLUE_TO_SURF
      · rw [h1, h2, h3] at h
        exact Bool.noConfusion h
      · rfl
    · rfl
  · rfl

theorem sites_per_mode_zero (env : Env K) (mode : Nat)
    (h : (flag_set mode env.COLLISION_MODE_VS || flag_set mode env.COLLISION_MODE_GLUE_TO_SURF
      || flag_set mode env.COLLISION_MODE_TRIANGLE_BINDING) = false) :
    sites_per_mode env mode = 0 := by
  unfold sites_per_mode
  cases h1 : flag_set mode env.COLLISION_MODE_TRIANGLE_BINDING
  · cases h2 : flag_set mode env.COLLISION_MODE_VS
    · cases h3 : flag_set mode env.COLLISION_MODE_GLUE_TO_SURF
      · rfl
      · rw [h1, h2, h3] at h
        exact Bool.noConfusion h
    · rw [h1, h2] at h
      simp at h
  · rw [h1] at h
    simp at h

theorem sites_created_virtual_sites (env : Env K) (fuel : Nat) (s0 s : State K)
    (hvsr : env.VIRTUAL_SITES_RELATIVE = true)
    (h : sites_created s0 s 0) (hq : s.collision_queue = s0.collision_queue)
    (hres : ∀ e ∈ s0.collision_queue, ∃ (a1 a2 : Nat) (r1 r2 : Particle K),
      e.pp1 ≤ s0.max_seen_particle ∧ s0.local_particles e.pp1 = some a1 ∧ s0.mem[a1]? = some r1
      ∧ e.pp2 ≤ s0.max_seen_particle ∧ s0.local_particles e.pp2 = some a2
      ∧ s0.mem[a2]? = some r2) :
    (∀ s' : State K, handle_collisions_virtual_sites env fuel s = some s' →
      sites_created s0 s'
        (sites_per_mode env s0.collision_params.mode * s0.collision_queue.length))
    ∧ (flag_set s0.collision_params.mode env.COLLISION_MODE_TRIANGLE_BINDING = false →
        ∃ s' : State K, handle_collisions_virtual_sites env fuel s = some s') := by
  have hmode : s.collision_params.mode = s0.collision_params.mode := by rw [h.1]
  unfold handle_collisions_virtual_sites
  simp only [hmode, hvsr, Bool.true_and, hq]
  cases hany : (flag_set s0.collision_params.mode env.COLLISION_MODE_VS
      || flag_set s0.collision_params.mode env.COLLISION_MODE_GLUE_TO_SURF
      || flag_set s0.collision_params.mode env.COLLISION_MODE_TRIANGLE_BINDING)
  · simp only [Bool.false_eq_true, if_false]
    refine ⟨?_, fun _ => ⟨s, rfl⟩⟩
    intro s' hrun
    cases Option.some.inj hrun
    rw [sites_per_mode_zero env _ hany, Nat.zero_mul]
    exact h
  · simp only [if_true]
    obtain ⟨hA, hB⟩ := sites_created_vs_fold env fuel s0 s0.collision_queue hres s 0 h
    refine ⟨?_, hB⟩
    intro s' hrun
    have := hA s' hrun
    rw [Nat.zero_add, sites_per_entry_eq env _ hany] at this
    exact this

theorem sites_created_ellipsoid_exists (env : Env K) (fuel : Nat) (s0 s : State K) (k : Nat)
    (e : collision_struct K) (a1 a2 : Nat) (r1 r2 : Particle K)
    (h : sites_created s0 s k)
    (hle1 : e.pp1 ≤ s0.max_seen_particle) (ha1 : s0.local_particles e.pp1 = some a1)
    (hr1 : s0.mem[a1]? = some r1)
    (hle2 : e.pp2 ≤ s0.max_seen_particle) (ha2 : s0.local_particles e.pp2 = some a2)
    (hr2 : s0.mem[a2]? = some r2)
    (hcorners : ∀ (q1 q2 : Particle K) (rng : Nat), q1.pos = r1.pos → q2.pos = r2.pos →
      ∃ c rng1, triangle_binding_calc_corners env fuel rng q1 q2 = some (c, rng1)) :
    ∃ s' : State K, ellipsoid_collision env fuel s e = some s'
      ∧ sites_created s0 s' (k + 6) := by
  obtain ⟨hl1, _, q1, hq1, hp1⟩ := sites_created_old_resolved s0 s k e.pp1 a1 r1 h hle1 ha1 hr1
  obtain ⟨hl2, _, q2, hq2, hp2⟩ := sites_created_old_resolved s0 s k e.pp2 a2 r2 h hle2 ha2 hr2
  have hg1 : get_particle s e.pp1 = some q1 := (get_particle_eq_some _ _ _).mpr ⟨a1, hl1, hq1⟩
  have hg2 : get_particle s e.pp2 = some q2 := (get_particle_eq_some _ _ _).mpr ⟨a2, hl2, hq2⟩
  obtain ⟨⟨c1, c2, c3⟩, rng1, hc⟩ := hcorners q1 q2 s.rng hp1 hp2
  have h0 : sites_created s0 { s with rng := rng1 } k := h
  obtain ⟨sA, hA, hcA⟩ := sites_created_corner env s0 _ k e c1 a1 a2 r1 r2 h0 hle1 ha1 hr1
    hle2 ha2 hr2
  obtain ⟨sB, hB, hcB⟩ := sites_created_corner env s0 sA (k + 2) e c2 a1 a2 r1 r2 hcA hle1
    ha1 hr1 hle2 ha2 hr2
  obtain ⟨sC, hC, hcC⟩ := sites_created_corner env s0 sB (k + 2 + 2) e c3 a1 a2 r1 r2 hcB
    hle1 ha1 hr1 hle2 ha2 hr2
  refine ⟨sC, ?_, hcC⟩
  unfold ellipsoid_collision
  simp only [hg1, hg2, hc]
  rw [hA, Option.some_bind, hB, Option.some_bind, hC]

theorem sites_created_triangle_fold_exists (env : Env K) (fuel : Nat) (s0 : State K)
    (htri : flag_set s0.collision_params.mode env.COLLISION_MODE_TRIANGLE_BINDING = true)
    (q : List (collision_struct K)) :
    (∀ e ∈ q, ∃ (a1 a2 : Nat) (r1 r2 : Particle K),
      e.pp1 ≤ s0.max_seen_particle ∧ s0.local_particles e.pp1 = some a1 ∧ s0.mem[a1]? = some r1
      ∧ e.pp2 ≤ s0.max_seen_particle ∧ s0.local_particles e.pp2 = some a2
      ∧ s0.mem[a2]? = some r2
      ∧ ∀ (q1 q2 : Particle K) (rng : Nat), q1.pos = r1.pos → q2.pos = r2.pos →
          ∃ c rng1, triangle_binding_calc_corners env fuel rng q1 q2 = some (c, rng1)) →
    ∀ (s : State K) (k : Nat), sites_created s0 s k →
      ∃ s' : State K, q.foldlM (handle_collisions_vs env fuel) s = some s' := by
  induction q with
  | nil => intro _ s k _; exact ⟨s, rfl⟩
  | cons e q ih =>
    intro hres s k h
    obtain ⟨a1, a2, r1, r2, hle1, ha1, hr1, hle2, ha2, hr2, hc⟩ :=
      hres e (List.mem_cons_self _ _)
    obtain ⟨s1, hstep, h1⟩ := sites_created_ellipsoid_exists env fuel s0 s k e a1 a2 r1 r2 h
      hle1 ha1 hr1 hle2 ha2 hr2 hc
    have hmode : s.collision_params.mode = s0.collision_params.mode := by rw [h.1]
    have hvs : handle_collisions_vs env fuel s e = some s1 := by
      unfold handle_collisions_vs
      simp only [hmode, htri, if_true]
      exact hstep
    obtain ⟨s', hrest⟩ := ih (fun e' he' => hres e' (List.mem_cons_of_mem _ he')) s1 _ h1
    exact ⟨s', by rw [List.foldlM_cons, hvs]; exact hrest⟩

theorem example_triangle_corners_any (rng : Nat) (p1 p2 : Particle ℚ)
    (h1 : p1.pos = ⟨0, 0, 0⟩) (h2 : p2.pos = ⟨1, 0, 0⟩) :
    triangle_binding_calc_corners example_env 1 rng p1 p2
      = some ((⟨1 / 2, 0, -(1 / 2)⟩, ⟨1 / 2, 0, -(1 / 2)⟩, ⟨1 / 2, 0, -(1 / 2)⟩), rng + 2) := by
  simp [triangle_binding_calc_corners, triangle_binding_draw, get_mi_random_vector,
    example_env, example_sqrt, vector_product, sqrlen, scalar, Vec3.sub,
    Vec3.smul, Vec3.add, h1, h2]
  norm_num

/-- Site counts of the runs of `handle_collisions` that return: with virtual sites compiled in,
`max_seen_particle` an upper bound of the known identities and every queued event resolving to
two stored particles, whenever `handle_collisions` returns on a Local Queue of `n` events it has created exactly
`sites_per_mode * n` particles, where `sites_per_mode` is 6 with TRIANGLE, otherwise 2 with
VS_PAIR, otherwise 1 with GLUE_TO_SURF, otherwise 0: the particle memory has that many new
records, every new record is flagged virtual and has the configured vs particle type,
`max_seen_particle` grew by exactly that number, the identities after the old
`max_seen_particle` resolve to the new records in order, and every old record is still at its
address with its identity and virtual flag. With the three particle flag off
`handle_collisions` does return, in the triangle mode provided the random corner search
succeeds within the fuel for the positions of the particles of every event. -/
theorem handle_collisions_creates_sites [FloorRing K] (env : Env K) (fuel : Nat) (st : State K)
    (hvsr : env.VIRTUAL_SITES_RELATIVE = true)
    (hseen : ids_seen st)
    (hres : ∀ e ∈ st.collision_queue, ∃ (a1 a2 : Nat) (r1 r2 : Particle K),
      st.local_particles e.pp1 = some a1 ∧ st.mem[a1]? = some r1
      ∧ st.local_particles e.pp2 = some a2 ∧ st.mem[a2]? = some r2) :
    (∀ st' : State K, handle_collisions env fuel st = some st' →
      st'.mem.length = st.mem.length
          + sites_per_mode env st.collision_params.mode * st.collision_queue.length
      ∧ st'.max_seen_particle = st.max_seen_particle
          + ((sites_per_mode env st.collision_params.mode * st.collision_queue.length : Nat) : Int)
      ∧ (∀ a : Nat, st.mem.length ≤ a → a < st'.mem.length →
          ∃ sr : Particle K, st'.mem[a]? = some sr ∧ sr.isVirtual = true
            ∧ sr.type = st.collision_params.vs_particle_type)
      ∧ (∀ (a : Nat) (r : Particle K), st.mem[a]? = some r →
          ∃ r' : Particle K, st'.mem[a]? = some r' ∧ r'.identity = r.identity
            ∧ r'.isVirtual = r.isVirtual)
      ∧ sites_created st st'
          (sites_per_mode env st.collision_params.mode * st.collision_queue.length))
    ∧ (flag_set st.collision_params.mode env.COLLISION_MODE_BIND_THREE_PARTICLES = false →
        (flag_set st.collision_params.mode env.COLLISION_MODE_TRIANGLE_BINDING = false
          ∨ ∀ e ∈ st.collision_queue, ∀ r1 r2 : Particle K,
              get_particle st e.pp1 = some r1 → get_particle st e.pp2 = some r2 →
              ∀ (q1 q2 : Particle K) (rng : Nat), q1.pos = r1.pos → q2.pos = r2.pos →
                ∃ c rng1, triangle_binding_calc_corners env fuel rng q1 q2 = some (c, rng1)) →
        ∃ st' : State K, handle_collisions env fuel st = some st') := by
  have hres0 : ∀ e ∈ st.collision_queue, ∃ (a1 a2 : Nat) (r1 r2 : Particle K),
      e.pp1 ≤ st.max_seen_particle ∧ st.local_particles e.pp1 = some a1 ∧ st.mem[a1]? = some r1
      ∧ e.pp2 ≤ st.max_seen_particle ∧ st.local_particles e.pp2 = some a2
      ∧ st.mem[a2]? = some r2 := by
    intro e he
    obtain ⟨a1, a2, r1, r2, h1, h2, h3, h4⟩ := hres e he
    exact ⟨a1, a2, r1, r2, hseen _ _ h1, h1, h2, hseen _ _ h3, h3, h4⟩
  obtain ⟨n, hn⟩ := handle_collisions_exceptions_frame env st
  have c0 : sites_created st (handle_collisions_exceptions env st) 0 := by
    rw [hn]; exact sites_created_refl st
  have hq0 : (handle_collisions_exceptions env st).collision_queue = st.collision_queue := by
    rw [hn]
  have key : ∀ st' : State K, handle_collisions env fuel st = some st' →
      sites_created st st'
        (sites_per_mode env st.collision_params.mode * st.collision_queue.length) := by
    intro st' hrun
    unfold handle_collisions at hrun
    cases hb : handle_collisions_bonds env (handle_collisions_exceptions env st) with
    | none => rw [hb] at hrun; exact Option.noConfusion hrun
    | some s2 =>
      rw [hb, Option.some_bind] at hrun
      have hbo := bonds_only_of_bonds_pass env _ s2 hb
      have c2 := sites_created_of_bonds_only st _ s2 0 c0 hbo
      have hq2 : s2.collision_queue = st.collision_queue := hbo.2.2.2.1.trans hq0
      cases hv : handle_collisions_virtual_sites env fuel s2 with
      | none => rw [hv] at hrun; exact Option.noConfusion hrun
      | some s3 =>
        rw [hv, Option.some_bind] at hrun
        have c3 := (sites_created_virtual_sites env fuel st s2 hvsr c2 hq2 hres0).1 s3 hv
        cases h3 : (if flag_set s3.collision_params.mode env.COLLISION_MODE_BIND_THREE_PARTICLES
            then handle_collisions_three_particle env s3 else some s3) with
        | none => rw [h3] at hrun; exact Option.noConfusion hrun
        | some s4 =>
          rw [h3, Option.some_bind] at hrun
          cases Option.some.inj hrun
          apply sites_created_finish
          split at h3
          · exact sites_created_of_bonds_only st s3 s4 _ c3
              (bonds_only_of_three_particle env s3 s4 h3)
          · cases Option.some.inj h3
            exact c3
  constructor
  · intro st' hrun
    have hc := key st' hrun
    exact ⟨hc.2.1, hc.2.2.1, hc.2.2.2.2.2.1, fun a r hr => by
      obtain ⟨r', hr', h1, h2, _⟩ := hc.2.2.2.2.1 a r hr
      exact ⟨r', hr', h1, h2⟩, hc⟩
  · intro hthree hcase
    obtain ⟨s2, added, hb, _, _⟩ := bonds_pass_spec env (handle_collisions_exceptions env st) (by
      rw [hn]
      intro e he
      exact hres e he)
    have hbo := bonds_only_of_bonds_pass env _ s2 hb
    have c2 := sites_created_of_bonds_only st _ s2 0 c0 hbo
    have hq2 : s2.collision_queue = st.collision_queue := hbo.2.2.2.1.trans hq0
    obtain ⟨hA, hB⟩ := sites_created_virtual_sites env fuel st s2 hvsr c2 hq2 hres0
    have hvex : ∃ s3 : State K, handle_collisions_virtual_sites env fuel s2 = some s3 := by
      cases htri : flag_set st.collision_params.mode env.COLLISION_MODE_TRIANGLE_BINDING
      · exact hB htri
      · rcases hcase with hf | hcorners
        · rw [htri] at hf
          exact Bool.noConfusion hf
        · have hmode : s2.collision_params.mode = st.collision_params.mode := by rw [c2.1]
          unfold handle_collisions_virtual_sites
          simp only [hmode, hvsr, htri, Bool.true_and, Bool.or_true, if_true, hq2]
          refine sites_created_triangle_fold_exists env fuel st htri st.collision_queue ?_ s2 0 c2
          intro e he
          obtain ⟨a1, a2, r1, r2, hle1, ha1, hr1, hle2, ha2, hr2⟩ := hres0 e he
          exact ⟨a1, a2, r1, r2, hle1, ha1, hr1, hle2, ha2, hr2,
            hcorners e he r1 r2 ((get_particle_eq_some _ _ _).mpr ⟨a1, ha1, hr1⟩)
              ((get_particle_eq_some _ _ _).mpr ⟨a2, ha2, hr2⟩)⟩
    obtain ⟨s3, hv⟩ := hvex
    have c3 := hA s3 hv
    refine ⟨handle_collisions_finish env s3, ?_⟩
    unfold handle_collisions
    rw [hb, Option.some_bind, hv, Option.some_bind, c3.1, hthree]
    rfl

/-- The site counts on the queue `[(0, 1)]` of one event of two particles at distance 1: in
the mode BOND + VS_PAIR (6)
`handle_collisions` returns, the particle memory has 2 more records and `max_seen_particle`
grew from 1 to 3; in the mode BOND + TRIANGLE (34) it returns, the particle memory has 6 more
records and `max_seen_particle` grew from 1 to 7; the new records are virtual and of the vs
particle type 5. -/
theorem handle_collisions_creates_sites_witness :
    (∃ st' : State ℚ,
      handle_collisions example_env 0
          (example_state (example_params 6) [⟨0, 1, ⟨1 / 2, 0, 0⟩⟩] (example_pair 1)) = some st'
      ∧ st'.mem.length = 2 + 2 ∧ st'.max_seen_particle = 1 + 2
      ∧ (∀ a : Nat, 2 ≤ a → a < st'.mem.length →
          ∃ sr : Particle ℚ, st'.mem[a]? = some sr ∧ sr.isVirtual = true ∧ sr.type = 5))
    ∧ (∃ st' : State ℚ,
      handle_collisions example_env 1
          (example_state (example_params 34) [⟨0, 1, ⟨1 / 2, 0, 0⟩⟩] (example_pair 1)) = some st'
      ∧ st'.mem.length = 2 + 6 ∧ st'.max_seen_particle = 1 + 6
      ∧ (∀ a : Nat, 2 ≤ a → a < st'.mem.length →
          ∃ sr : Particle ℚ, st'.mem[a]? = some sr ∧ sr.isVirtual = true ∧ sr.type = 5)) := by
  have hseen : ∀ mode : Nat, ids_seen (example_state (example_params mode)
      [⟨0, 1, ⟨1 / 2, 0, 0⟩⟩] (example_pair 1)) := by
    intro mode id a h
    have hlt : 0 ≤ id ∧ id < 2 := by
      by_contra hn
      simp [example_state, example_pair, hn] at h
    show id ≤ ((example_pair 1).length : Int) - 1
    simp only [example_pair, List.length_cons, List.length_nil]
    omega
  have hres : ∀ mode : Nat, ∀ e ∈ (example_state (example_params mode)
      [⟨0, 1, ⟨1 / 2, 0, 0⟩⟩] (example_pair 1)).collision_queue,
      ∃ (a1 a2 : Nat) (r1 r2 : Particle ℚ),
        (example_state (example_params mode) [⟨0, 1, ⟨1 / 2, 0, 0⟩⟩]
          (example_pair 1)).local_particles e.pp1 = some a1
        ∧ (example_state (example_params mode) [⟨0, 1, ⟨1 / 2, 0, 0⟩⟩]
          (example_pair 1)).mem[a1]? = some r1
        ∧ (example_state (example_params mode) [⟨0, 1, ⟨1 / 2, 0, 0⟩⟩]
          (example_pair 1)).local_particles e.pp2 = some a2
        ∧ (example_state (example_params mode) [⟨0, 1, ⟨1 / 2, 0, 0⟩⟩]
          (example_pair 1)).mem[a2]? = some r2 := by
    intro mode e he
    exact ⟨0, 1, example_particle 0 1 0 false false, example_particle 1 2 1 false false,
      by rw [List.mem_singleton.mp he]; rfl, rfl, by rw [List.mem_singleton.mp he]; rfl, rfl⟩
  have hpair := handle_collisions_creates_sites example_env 0
    (example_state (example_params 6) [⟨0, 1, ⟨1 / 2, 0, 0⟩⟩] (example_pair 1)) rfl (hseen 6)
    (hres 6)
  have htriangle := handle_collisions_creates_sites example_env 1
    (example_state (example_params 34) [⟨0, 1, ⟨1 / 2, 0, 0⟩⟩] (example_pair 1)) rfl (hseen 34)
    (hres 34)
  constructor
  · obtain ⟨st', hrun⟩ := hpair.2 (by decide) (Or.inl (by decide))
    obtain ⟨h1, h2, h3, _, _⟩ := hpair.1 st' hrun
    exact ⟨st', hrun, h1, h2, h3⟩
  · obtain ⟨st', hrun⟩ := htriangle.2 (by decide) (Or.inr (by
      intro e he r1 r2 hg1 hg2 q1 q2 rng hq1 hq2
      have he' : e = ⟨0, 1, ⟨1 / 2, 0, 0⟩⟩ := List.mem_singleton.mp he
      subst he'
      have e1 : r1 = example_particle 0 1 0 false false := (Option.some.inj hg1).symm
      have e2 : r2 = example_particle 1 2 1 false false := (Option.some.inj hg2).symm
      subst e1 e2
      exact ⟨_, _, example_triangle_corners_any rng q1 q2 hq1 hq2⟩))
    obtain ⟨h1, h2, h3, _, _⟩ := htriangle.1 st' hrun
    exact ⟨st', hrun, h1, h2, h3⟩

theorem triangle_binding_draw_coincident (env : Env K) (abs_connecting_vector : K)
    (fuel rng : Nat) :
    triangle_binding_draw env ⟨0, 0, 0⟩ abs_connecting_vector fuel rng = none := by
  induction fuel generalizing rng with
  | zero => rfl
  | succ fuel ih =>
    unfold triangle_binding_draw
    have h0 : sqrlen (get_mi_random_vector env rng (⟨0, 0, 0⟩ : Vec3 K)) ≤ 0 := by
      simp [get_mi_random_vector, vector_product, sqrlen, scalar]
    simp only [h0, true_or, if_true]
    exact ih (rng + 2)

theorem handle_collisions_triangle_coincident [FloorRing K] (env : Env K) (fuel : Nat)
    (st st2 : State K) (e : collision_struct K) (rest : List (collision_struct K))
    (p1 p2 : Particle K)
    (hb : handle_collisions_bonds env (handle_collisions_exceptions env st) = some st2)
    (hvsr : env.VIRTUAL_SITES_RELATIVE = true)
    (htri : flag_set st2.collision_params.mode env.COLLISION_MODE_TRIANGLE_BINDING = true)
    (hq : st2.collision_queue = e :: rest)
    (h1 : get_particle st2 e.pp1 = some p1) (h2 : get_particle st2 e.pp2 = some p2)
    (hv : env.get_mi_vector p1.pos p2.pos = ⟨0, 0, 0⟩) :
    handle_collisions env fuel st = none := by
  have hcorners : triangle_binding_calc_corners env fuel st2.rng p1 p2 = none := by
    unfold triangle_binding_calc_corners
    simp only [hv, triangle_binding_draw_coincident]
  have hell : ellipsoid_collision env fuel st2 e = none := by
    unfold ellipsoid_collision
    simp only [h1, h2, hcorners]
  have hone : handle_collisions_vs env fuel st2 e = none := by
    unfold handle_collisions_vs
    simp only [htri, if_true]
    exact hell
  have hvs : handle_collisions_virtual_sites env fuel st2 = none := by
    unfold handle_collisions_virtual_sites
    simp only [hvsr, htri, Bool.or_true, Bool.true_and, if_true, hq, List.foldlM_cons, hone]
    rfl
  unfold handle_collisions
  rw [hb, Option.some_bind, hvs]
  rfl

/-- C21 at a failing input: in the mode BOND + TRIANGLE (34) the detector queues the pair
`(0, 1)` of two particles at the same position, and on that Local Queue of one event
`handle_collisions` does not return, whatever the number of random draws allowed to the corner
search: the connecting vector is zero, so every vector drawn in the loop of line 513 has
squared length 0 and the loop condition `director_sqr <= 0` stays true. No particle is
created. -/
theorem handle_collisions_coincident_pair_no_return :
    detect_collisions example_env (example_state (example_params 34) [] (example_pair 0))
        [(0, 1)]
      = some (example_state (example_params 34) [⟨0, 1, ⟨0, 0, 0⟩⟩] (example_pair 0))
    ∧ flag_set (example_params 34).mode example_env.COLLISION_MODE_TRIANGLE_BINDING = true
    ∧ (∀ (fuel rng : Nat) (p1 p2 : Particle ℚ), p1.pos = ⟨0, 0, 0⟩ → p2.pos = ⟨0, 0, 0⟩ →
        triangle_binding_calc_corners example_env fuel rng p1 p2 = none)
    ∧ ∀ fuel : Nat,
        handle_collisions example_env fuel
          (example_state (example_params 34) [⟨0, 1, ⟨0, 0, 0⟩⟩] (example_pair 0)) = none := by
  have hcorners : ∀ (fuel rng : Nat) (p1 p2 : Particle ℚ), p1.pos = ⟨0, 0, 0⟩ →
      p2.pos = ⟨0, 0, 0⟩ → triangle_binding_calc_corners example_env fuel rng p1 p2 = none := by
    intro fuel rng p1 p2 h1 h2
    unfold triangle_binding_calc_corners
    have hv : example_env.get_mi_vector p1.pos p2.pos = ⟨0, 0, 0⟩ := by
      rw [h1, h2]
      simp [example_env, Vec3.sub]
    simp only [hv, triangle_binding_draw_coincident]
  refine ⟨?_, by decide, hcorners, ?_⟩
  · have hb : flag_set 34 2 = true := by decide
    have hg : flag_set 34 8 = false := by decide
    norm_num [detect_collisions, detect_collision, detect_collision_resolved,
      detect_collision_queue_pair, example_state, example_params, example_env, example_pair,
      example_particle, example_sqrt, distance2vec, sqrlen, Vec3.sub, Vec3.smul, bond_exists,
      bond_exists_loop, queue_collision, hb, hg, (by decide : Int.toNat 1 = 1)]
  · intro fuel
    exact handle_collisions_triangle_coincident example_env fuel _
      (example_state (example_params 34) [⟨0, 1, ⟨0, 0, 0⟩⟩]
        [{ example_particle 0 1 0 false false with bl := [0, 1] },
         example_particle 1 2 0 false false])
      ⟨0, 1, ⟨0, 0, 0⟩⟩ [] { example_particle 0 1 0 false false with bl := [0, 1] }
      (example_particle 1 2 0 false false) rfl rfl (by decide) rfl rfl rfl
      (by simp [example_env, example_particle, Vec3.sub])

/-! ## Cluster labelling (src/core/cluster_analysis.cpp) -/

/-! ### Maps as lists of entries -/

theorem map_find_insert {V : Type} (m : List (Int × V)) (k : Int) (v : V) (a : Int) :
    map_find (map_insert m k v) a = if a = k then some v else map_find m a := by
  induction m with
  | nil =>
    by_cases h : a = k
    · subst h; simp [map_insert, map_find]
    · have h' : ¬ k = a := fun e => h e.symm
      simp [map_insert, map_find, h, h']
  | cons e m ih =>
    obtain ⟨k', v'⟩ := e
    unfold map_insert
    by_cases h1 : k < k'
    · rw [if_pos h1]
      by_cases h : a = k
      · subst h; simp [map_find]
      · have h' : ¬ k = a := fun e => h e.symm
        simp [map_find, h, h']
    · rw [if_neg h1]
      by_cases h2 : k = k'
      · rw [if_pos h2]
        subst h2
        by_cases h : a = k
        · subst h; simp [map_find]
        · have h' : ¬ k = a := fun e => h e.symm
          simp [map_find, h, h']
      · rw [if_neg h2]
        by_cases h : a = k
        · subst h
          have h3 : ¬ k' = a := fun e => h2 e.symm
          simp [map_find, h3, ih]
        · by_cases h4 : k' = a
          · simp [map_find, h4, h]
          · simp [map_find, h4, ih, h]

theorem map_find_mem {V : Type} (m : List (Int × V)) (k : Int) (v : V)
    (h : map_find m k = some v) : (k, v) ∈ m := by
  induction m with
  | nil => simp [map_find] at h
  | cons e m ih =>
    obtain ⟨k', v'⟩ := e
    unfold map_find at h
    by_cases hk : k' = k
    · rw [if_pos hk] at h
      cases Option.some.inj h
      subst hk
      exact List.mem_cons_self _ _
    · rw [if_neg hk] at h
      exact List.mem_cons_of_mem _ (ih h)

theorem map_find_none_iff {V : Type} (m : List (Int × V)) (k : Int) :
    map_find m k = none ↔ ∀ e ∈ m, e.1 ≠ k := by
  induction m with
  | nil => simp [map_find]
  | cons e m ih =>
    obtain ⟨k', v'⟩ := e
    unfold map_find
    by_cases hk : k' = k
    · simp [hk]
    · simp [hk, ih]

theorem mem_map_insert {V : Type} (m : List (Int × V)) (k : Int) (v : V) (e : Int × V)
    (h : e ∈ map_insert m k v) : e = (k, v) ∨ (e ∈ m ∧ e.1 ≠ k) ∨ (e ∈ m ∧ ¬ keys_ascending m) := by
  induction m with
  | nil =>
    simp [map_insert] at h
    exact Or.inl h
  | cons e' m ih =>
    obtain ⟨k', v'⟩ := e'
    unfold map_insert at h
    by_cases h1 : k < k'
    · rw [if_pos h1] at h
      rcases List.mem_cons.mp h with h | h
      · exact Or.inl h
      · by_cases hs : keys_ascending ((k', v') :: m)
        · right; left
          refine ⟨h, ?_⟩
          rcases List.mem_cons.mp h with h | h
          · rw [h]; exact fun e => by simp at e; omega
          · have hs' := hs
            unfold keys_ascending at hs'
            simp only [List.map_cons, List.pairwise_cons] at hs'
            have := hs'.1 e.1 (List.mem_map.mpr ⟨e, h, rfl⟩)
            omega
        · exact Or.inr (Or.inr ⟨h, hs⟩)
    · rw [if_neg h1] at h
      by_cases h2 : k = k'
      · rw [if_pos h2] at h
        subst h2
        rcases List.mem_cons.mp h with h | h
        · exact Or.inl h
        · by_cases hs : keys_ascending ((k, v') :: m)
          · right; left
            refine ⟨List.mem_cons_of_mem _ h, ?_⟩
            have hs' := hs
            unfold keys_ascending at hs'
            simp only [List.map_cons, List.pairwise_cons] at hs'
            have := hs'.1 e.1 (List.mem_map.mpr ⟨e, h, rfl⟩)
            omega
          · exact Or.inr (Or.inr ⟨List.mem_cons_of_mem _ h, hs⟩)
      · rw [if_neg h2] at h
        rcases List.mem_cons.mp h with h | h
        · right; left
          exact ⟨by rw [h]; exact List.mem_cons_self _ _, by rw [h]; exact fun e => h2 e.symm⟩
        · rcases ih h with h | ⟨h, hne⟩ | ⟨h, hs⟩
          · exact Or.inl h
          · exact Or.inr (Or.inl ⟨List.mem_cons_of_mem _ h, hne⟩)
          · right; right
            refine ⟨List.mem_cons_of_mem _ h, ?_⟩
            intro hs'
            apply hs
            unfold keys_ascending at hs' ⊢
            simp only [List.map_cons, List.pairwise_cons] at hs'
            exact hs'.2

theorem mem_map_insert_weak {V : Type} (m : List (Int × V)) (k : Int) (v : V) (e : Int × V)
    (h : e ∈ map_insert m k v) : e = (k, v) ∨ e ∈ m := by
  rcases mem_map_insert m k v e h with h | ⟨h, _⟩ | ⟨h, _⟩
  · exact Or.inl h
  · exact Or.inr h
  · exact Or.inr h

theorem mem_map_insert_self {V : Type} (m : List (Int × V)) (k : Int) (v : V) :
    (k, v) ∈ map_insert m k v :=
  map_find_mem _ k v (by rw [map_find_insert, if_pos rfl])

theorem mem_map_insert_of_mem {V : Type} (m : List (Int × V)) (k : Int) (v : V) (e : Int × V)
    (h : e ∈ m) (hne : e.1 ≠ k) : e ∈ map_insert m k v := by
  induction m with
  | nil => simp at h
  | cons e' m ih =>
    obtain ⟨k', v'⟩ := e'
    unfold map_insert
    by_cases h1 : k < k'
    · rw [if_pos h1]
      exact List.mem_cons_of_mem _ h
    · rw [if_neg h1]
      by_cases h2 : k = k'
      · rw [if_pos h2]
        subst h2
        rcases List.mem_cons.mp h with h | h
        · rw [h] at hne; exact absurd rfl hne
        · exact List.mem_cons_of_mem _ h
      · rw [if_neg h2]
        rcases List.mem_cons.mp h with h | h
        · rw [h]; exact List.mem_cons_self _ _
        · exact List.mem_cons_of_mem _ (ih h)

theorem keys_ascending_insert {V : Type} (m : List (Int × V)) (k : Int) (v : V)
    (h : keys_ascending m) : keys_ascending (map_insert m k v) := by
  induction m with
  | nil => simp [map_insert, keys_ascending]
  | cons e' m ih =>
    obtain ⟨k', v'⟩ := e'
    have h' := h
    unfold keys_ascending at h'
    simp only [List.map_cons, List.pairwise_cons] at h'
    obtain ⟨hhead, htail⟩ := h'
    unfold map_insert
    by_cases h1 : k < k'
    · rw [if_pos h1]
      unfold keys_ascending
      simp only [List.map_cons, List.pairwise_cons]
      refine ⟨?_, hhead, htail⟩
      intro a ha
      rcases List.mem_cons.mp ha with ha | ha
      · rw [ha]; exact h1
      · have := hhead a ha
        omega
    · rw [if_neg h1]
      by_cases h2 : k = k'
      · rw [if_pos h2]
        subst h2
        unfold keys_ascending
        simp only [List.map_cons, List.pairwise_cons]
        exact ⟨hhead, htail⟩
      · rw [if_neg h2]
        unfold keys_ascending
        simp only [List.map_cons, List.pairwise_cons]
        refine ⟨?_, ih htail⟩
        intro a ha
        obtain ⟨e, he, rfl⟩ := List.mem_map.mp ha
        rcases mem_map_insert_weak m k v e he with he | he
        · rw [he]
          show k' < k
          omega
        · exact hhead e.1 (List.mem_map.mpr ⟨e, he, rfl⟩)

theorem map_find_of_mem {V : Type} (m : List (Int × V)) (k : Int) (v : V)
    (hs : keys_ascending m) (h : (k, v) ∈ m) : map_find m k = some v := by
  induction m with
  | nil => simp at h
  | cons e' m ih =>
    obtain ⟨k', v'⟩ := e'
    have h' := hs
    unfold keys_ascending at h'
    simp only [List.map_cons, List.pairwise_cons] at h'
    obtain ⟨hhead, htail⟩ := h'
    unfold map_find
    rcases List.mem_cons.mp h with h | h
    · cases h
      rw [if_pos rfl]
    · have hlt := hhead k (List.mem_map.mpr ⟨(k, v), h, rfl⟩)
      rw [if_neg (by omega)]
      exact ih htail h
/-! ### The chain walk of `find_id_for` -/

theorem find_id_for_loop_mono (m : List (Int × Int)) (n : Nat) (x r : Int)
    (h : find_id_for_loop m n x = some r) (n' : Nat) (hn : n ≤ n') :
    find_id_for_loop m n' x = some r := by
  induction n generalizing x n' with
  | zero => simp [find_id_for_loop] at h
  | succ n ih =>
    cases n' with
    | zero => omega
    | succ n' =>
      unfold find_id_for_loop at h ⊢
      cases hx : map_find m x with
      | none => rw [hx] at h; exact h
      | some next =>
        rw [hx] at h
        exact ih next h n' (by omega)

theorem find_id_for_loop_root (m : List (Int × Int)) (n : Nat) (x : Int)
    (h : map_find m x = none) : find_id_for_loop m (n + 1) x = some x := by
  unfold find_id_for_loop
  rw [h]

theorem countP_lt_of_imp {α : Type} (p q : α → Bool) (l : List α)
    (himp : ∀ e ∈ l, p e = true → q e = true) (e : α) (he : e ∈ l) (hq : q e = true)
    (hp : p e = false) : l.countP p < l.countP q := by
  induction l with
  | nil => simp at he
  | cons a l ih =>
    rcases List.mem_cons.mp he with rfl | he
    · rw [List.countP_cons_of_pos _ _ hq, List.countP_cons_of_neg _ _ (by simp [hp])]
      have : l.countP p ≤ l.countP q :=
        List.countP_mono_left fun x hx => himp x (List.mem_cons_of_mem _ hx)
      omega
    · have := ih (fun x hx => himp x (List.mem_cons_of_mem _ hx)) he
      by_cases hpa : p a = true
      · rw [List.countP_cons_of_pos _ _ hpa,
          List.countP_cons_of_pos _ _ (himp a (List.mem_cons_self _ _) hpa)]
        omega
      · rw [List.countP_cons_of_neg _ _ hpa]
        by_cases hqa : q a = true
        · rw [List.countP_cons_of_pos _ _ hqa]; omega
        · rw [List.countP_cons_of_neg _ _ hqa]; exact this

theorem find_id_for_loop_terminates (m : List (Int × Int)) (hd : identities_decreasing m)
    (n : Nat) (x : Int) (hn : m.countP (fun e => decide (e.1 ≤ x)) < n) :
    ∃ r, find_id_for_loop m n x = some r := by
  induction n generalizing x with
  | zero => omega
  | succ n ih =>
    unfold find_id_for_loop
    cases hx : map_find m x with
    | none => exact ⟨x, rfl⟩
    | some next =>
      have hlt := hd x next hx
      have hmem := map_find_mem m x next hx
      apply ih next
      have : m.countP (fun e => decide (e.1 ≤ next)) < m.countP (fun e => decide (e.1 ≤ x)) := by
        apply countP_lt_of_imp _ _ m _ (x, next) hmem
        · simp
        · simp; exact hlt
        · intro e _ he
          simp at he ⊢
          omega
      omega

theorem find_id_for_loop_enough (m : List (Int × Int)) (hd : identities_decreasing m)
    (n : Nat) (x : Int) (hn : m.length < n) :
    ∃ r, find_id_for_loop m n x = some r :=
  find_id_for_loop_terminates m hd n x
    (lt_of_le_of_lt (List.countP_le_length _) hn)

theorem find_id_for_loop_result (m : List (Int × Int)) (n : Nat) (x r : Int)
    (h : find_id_for_loop m n x = some r) :
    map_find m r = none ∧ (r = x ∨ ∃ k, map_find m k = some r) := by
  induction n generalizing x with
  | zero => simp [find_id_for_loop] at h
  | succ n ih =>
    unfold find_id_for_loop at h
    cases hx : map_find m x with
    | none =>
      rw [hx] at h
      cases Option.some.inj h
      exact ⟨hx, Or.inl rfl⟩
    | some next =>
      rw [hx] at h
      obtain ⟨h1, h2⟩ := ih next h
      refine ⟨h1, Or.inr ?_⟩
      rcases h2 with rfl | h2
      · exact ⟨x, hx⟩
      · exact h2

theorem find_id_for_loop_le (m : List (Int × Int)) (hd : identities_decreasing m)
    (n : Nat) (x r : Int) (h : find_id_for_loop m n x = some r) : r ≤ x := by
  induction n generalizing x with
  | zero => simp [find_id_for_loop] at h
  | succ n ih =>
    unfold find_id_for_loop at h
    cases hx : map_find m x with
    | none =>
      rw [hx] at h
      cases Option.some.inj h
      exact le_refl _
    | some next =>
      rw [hx] at h
      have := ih next h
      have := hd x next hx
      omega

/-- Writing `hi ↦ lo` for two distinct current roots redirects exactly the chains that ended
in `hi`. -/
theorem find_id_for_loop_insert (m : List (Int × Int)) (hi lo : Int)
    (hhi : map_find m hi = none) (hlo : map_find m lo = none) (hne : lo ≠ hi)
    (n : Nat) (x r : Int) (h : find_id_for_loop m n x = some r) :
    find_id_for_loop (map_insert m hi lo) (n + 2) x = some (if r = hi then lo else r) := by
  induction n generalizing x with
  | zero => simp [find_id_for_loop] at h
  | succ n ih =>
    unfold find_id_for_loop at h
    cases hx : map_find m x with
    | none =>
      rw [hx] at h
      have hr : x = r := Option.some.inj h
      rw [← hr]
      by_cases hxh : x = hi
      · rw [if_pos hxh]
        unfold find_id_for_loop
        rw [map_find_insert, if_pos hxh]
        show find_id_for_loop (map_insert m hi lo) (n + 1 + 1) lo = some lo
        apply find_id_for_loop_root
        rw [map_find_insert, if_neg hne]
        exact hlo
      · rw [if_neg hxh]
        apply find_id_for_loop_root
        rw [map_find_insert, if_neg hxh]
        exact hx
    | some next =>
      rw [hx] at h
      have hxh : x ≠ hi := by
        intro e
        rw [e, hhi] at hx
        cases hx
      have := ih next h
      unfold find_id_for_loop
      rw [map_find_insert, if_neg hxh, hx]
      exact this

theorem map_insert_length_le {V : Type} (m : List (Int × V)) (k : Int) (v : V) :
    m.length ≤ (map_insert m k v).length ∧ (map_insert m k v).length ≤ m.length + 1 := by
  induction m with
  | nil => simp [map_insert]
  | cons e m ih =>
    obtain ⟨k', v'⟩ := e
    unfold map_insert
    by_cases h1 : k < k'
    · rw [if_pos h1]; simp
    · rw [if_neg h1]
      by_cases h2 : k = k'
      · rw [if_pos h2]; simp
      · rw [if_neg h2]
        simp only [List.length_cons]
        omega

theorem identities_decreasing_insert (m : List (Int × Int)) (hi lo : Int)
    (hd : identities_decreasing m) (hlt : lo < hi) :
    identities_decreasing (map_insert m hi lo) := by
  intro k v hkv
  rw [map_find_insert] at hkv
  by_cases hk : k = hi
  · rw [if_pos hk] at hkv
    cases Option.some.inj hkv
    rw [hk]; exact hlt
  · rw [if_neg hk] at hkv
    exact hd k v hkv
/-! ### Labellings and chains of pairs -/

theorem labels_match_graph_same (L : Int → Option Int) (R R' : Int → Int → Prop) (u v c : Int)
    (h : labels_match_graph L R) (hu : L u = some c) (hv : L v = some c)
    (hR' : ∀ a b, R' a b ↔ R a b ∨ (a = u ∧ b = v) ∨ (a = v ∧ b = u)) :
    labels_match_graph L R' := by
  obtain ⟨hA, hB, hD⟩ := h
  refine ⟨?_, ?_, ?_⟩
  · intro a b hab
    rcases (hR' a b).mp hab with h | ⟨rfl, rfl⟩ | ⟨rfl, rfl⟩
    · exact hA a b h
    · exact ⟨c, hu, hv⟩
    · exact ⟨c, hv, hu⟩
  · intro a b c' ha hb
    exact Relation.ReflTransGen.mono (fun x y hxy => (hR' x y).mpr (Or.inl hxy)) (hB a b c' ha hb)
  · intro a c' ha
    obtain ⟨z, hz⟩ := hD a c' ha
    exact ⟨z, (hR' a z).mpr (Or.inl hz)⟩

theorem labels_match_graph_new (L L' : Int → Option Int) (R R' : Int → Int → Prop)
    (u v c0 : Int) (h : labels_match_graph L R) (hu : L u = none) (hv : L v = none)
    (hfresh : ∀ a, L a ≠ some c0)
    (hL' : ∀ a, L' a = if a = u ∨ a = v then some c0 else L a)
    (hR' : ∀ a b, R' a b ↔ R a b ∨ (a = u ∧ b = v) ∨ (a = v ∧ b = u)) :
    labels_match_graph L' R' := by
  obtain ⟨hA, hB, hD⟩ := h
  have hold : ∀ a c, L a = some c → L' a = some c := by
    intro a c ha
    rw [hL' a, if_neg]
    · exact ha
    · rintro (rfl | rfl)
      · rw [hu] at ha; cases ha
      · rw [hv] at ha; cases ha
  have hu' : L' u = some c0 := by rw [hL' u, if_pos (Or.inl rfl)]
  have hv' : L' v = some c0 := by rw [hL' v, if_pos (Or.inr rfl)]
  have huv : R' u v := (hR' u v).mpr (Or.inr (Or.inl ⟨rfl, rfl⟩))
  have hvu : R' v u := (hR' v u).mpr (Or.inr (Or.inr ⟨rfl, rfl⟩))
  refine ⟨?_, ?_, ?_⟩
  · intro a b hab
    rcases (hR' a b).mp hab with h | ⟨rfl, rfl⟩ | ⟨rfl, rfl⟩
    · obtain ⟨c, ha, hb⟩ := hA a b h
      exact ⟨c, hold a c ha, hold b c hb⟩
    · exact ⟨c0, hu', hv'⟩
    · exact ⟨c0, hv', hu'⟩
  · intro a b c ha hb
    rw [hL' a] at ha
    rw [hL' b] at hb
    by_cases ha' : a = u ∨ a = v
    · rw [if_pos ha'] at ha
      have hc : c0 = c := Option.some.inj ha
      by_cases hb' : b = u ∨ b = v
      · rcases ha' with rfl | rfl <;> rcases hb' with rfl | rfl
        · exact Relation.ReflTransGen.refl
        · exact Relation.ReflTransGen.single huv
        · exact Relation.ReflTransGen.single hvu
        · exact Relation.ReflTransGen.refl
      · rw [if_neg hb'] at hb
        rw [← hc] at hb
        exact absurd hb (hfresh b)
    · rw [if_neg ha'] at ha
      by_cases hb' : b = u ∨ b = v
      · rw [if_pos hb'] at hb
        have hc : c0 = c := Option.some.inj hb
        rw [← hc] at ha
        exact absurd ha (hfresh a)
      · rw [if_neg hb'] at hb
        exact Relation.ReflTransGen.mono (fun x y hxy => (hR' x y).mpr (Or.inl hxy))
          (hB a b c ha hb)
  · intro a c ha
    rw [hL' a] at ha
    by_cases ha' : a = u ∨ a = v
    · rcases ha' with rfl | rfl
      · exact ⟨v, huv⟩
      · exact ⟨u, hvu⟩
    · rw [if_neg ha'] at ha
      obtain ⟨z, hz⟩ := hD a c ha
      exact ⟨z, (hR' a z).mpr (Or.inl hz)⟩

theorem labels_match_graph_join (L L' : Int → Option Int) (R R' : Int → Int → Prop)
    (u v c0 : Int) (h : labels_match_graph L R) (hu : L u = none) (hv : L v = some c0)
    (hL' : ∀ a, L' a = if a = u then some c0 else L a)
    (hR' : ∀ a b, R' a b ↔ R a b ∨ (a = u ∧ b = v) ∨ (a = v ∧ b = u)) :
    labels_match_graph L' R' := by
  obtain ⟨hA, hB, hD⟩ := h
  have hold : ∀ a c, L a = some c → L' a = some c := by
    intro a c ha
    rw [hL' a, if_neg]
    · exact ha
    · rintro rfl
      rw [hu] at ha; cases ha
  have hu' : L' u = some c0 := by rw [hL' u, if_pos rfl]
  have hv' : L' v = some c0 := hold v c0 hv
  have huv : R' u v := (hR' u v).mpr (Or.inr (Or.inl ⟨rfl, rfl⟩))
  have hvu : R' v u := (hR' v u).mpr (Or.inr (Or.inr ⟨rfl, rfl⟩))
  have hmono : ∀ a b, Relation.ReflTransGen R a b → Relation.ReflTransGen R' a b :=
    fun a b => Relation.ReflTransGen.mono (fun x y hxy => (hR' x y).mpr (Or.inl hxy))
  refine ⟨?_, ?_, ?_⟩
  · intro a b hab
    rcases (hR' a b).mp hab with h | ⟨rfl, rfl⟩ | ⟨rfl, rfl⟩
    · obtain ⟨c, ha, hb⟩ := hA a b h
      exact ⟨c, hold a c ha, hold b c hb⟩
    · exact ⟨c0, hu', hv'⟩
    · exact ⟨c0, hv', hu'⟩
  · intro a b c ha hb
    rw [hL' a] at ha
    rw [hL' b] at hb
    by_cases ha' : a = u
    · rw [if_pos ha'] at ha
      have hc : c0 = c := Option.some.inj ha
      by_cases hb' : b = u
      · rw [ha', hb']
      · rw [if_neg hb'] at hb
        rw [ha']
        rw [← hc] at hb
        exact Relation.ReflTransGen.head huv (hmono v b (hB v b c0 hv hb))
    · rw [if_neg ha'] at ha
      by_cases hb' : b = u
      · rw [if_pos hb'] at hb
        have hc : c0 = c := Option.some.inj hb
        rw [hb']
        rw [← hc] at ha
        exact Relation.ReflTransGen.tail (hmono a v (hB a v c0 ha hv)) hvu
      · rw [if_neg hb'] at hb
        exact hmono a b (hB a b c ha hb)
  · intro a c ha
    rw [hL' a] at ha
    by_cases ha' : a = u
    · rw [ha']
      exact ⟨v, huv⟩
    · rw [if_neg ha'] at ha
      obtain ⟨z, hz⟩ := hD a c ha
      exact ⟨z, (hR' a z).mpr (Or.inl hz)⟩

theorem labels_match_graph_union (L L' : Int → Option Int) (R R' : Int → Int → Prop)
    (u v hi lo : Int) (h : labels_match_graph L R) (hu : L u = some hi) (hv : L v = some lo)
    (hL' : ∀ a, L' a = (L a).map fun c => if c = hi then lo else c)
    (hR' : ∀ a b, R' a b ↔ R a b ∨ (a = u ∧ b = v) ∨ (a = v ∧ b = u)) :
    labels_match_graph L' R' := by
  obtain ⟨hA, hB, hD⟩ := h
  have huv : R' u v := (hR' u v).mpr (Or.inr (Or.inl ⟨rfl, rfl⟩))
  have hvu : R' v u := (hR' v u).mpr (Or.inr (Or.inr ⟨rfl, rfl⟩))
  have hmono : ∀ a b, Relation.ReflTransGen R a b → Relation.ReflTransGen R' a b :=
    fun a b => Relation.ReflTransGen.mono (fun x y hxy => (hR' x y).mpr (Or.inl hxy))
  have hu' : L' u = some lo := by rw [hL' u, hu]; simp
  have hv' : L' v = some lo := by
    rw [hL' v, hv]
    by_cases hlo : lo = hi
    · simp [hlo]
    · simp [hlo]
  refine ⟨?_, ?_, ?_⟩
  · intro a b hab
    rcases (hR' a b).mp hab with h | ⟨rfl, rfl⟩ | ⟨rfl, rfl⟩
    · obtain ⟨c, ha, hb⟩ := hA a b h
      exact ⟨if c = hi then lo else c, by rw [hL' a, ha]; rfl, by rw [hL' b, hb]; rfl⟩
    · exact ⟨lo, hu', hv'⟩
    · exact ⟨lo, hv', hu'⟩
  · intro a b c ha hb
    rw [hL' a] at ha
    rw [hL' b] at hb
    cases hLa : L a with
    | none => rw [hLa] at ha; cases ha
    | some ca =>
      cases hLb : L b with
      | none => rw [hLb] at hb; cases hb
      | some cb =>
        rw [hLa] at ha
        rw [hLb] at hb
        have ha2 : (if ca = hi then lo else ca) = c := Option.some.inj ha
        have hb2 : (if cb = hi then lo else cb) = c := Option.some.inj hb
        by_cases hca : ca = hi
        · rw [if_pos hca] at ha2
          by_cases hcb : cb = hi
          · exact hmono a b (hB a b hi (hca ▸ hLa) (hcb ▸ hLb))
          · rw [if_neg hcb] at hb2
            have hLb' : L b = some lo := by rw [hLb, hb2, ha2]
            exact Relation.ReflTransGen.trans (hmono a u (hB a u hi (hca ▸ hLa) hu))
              (Relation.ReflTransGen.head huv (hmono v b (hB v b lo hv hLb')))
        · rw [if_neg hca] at ha2
          by_cases hcb : cb = hi
          · rw [if_pos hcb] at hb2
            have hLa' : L a = some lo := by rw [hLa, ha2, hb2]
            exact Relation.ReflTransGen.trans (hmono a v (hB a v lo hLa' hv))
              (Relation.ReflTransGen.head hvu (hmono u b (hB u b hi hu (hcb ▸ hLb))))
          · rw [if_neg hcb] at hb2
            exact hmono a b (hB a b c (by rw [hLa, ha2]) (by rw [hLb, hb2]))
  · intro a c ha
    rw [hL' a] at ha
    cases hLa : L a with
    | none => rw [hLa] at ha; cases ha
    | some ca =>
      obtain ⟨z, hz⟩ := hD a ca hLa
      exact ⟨z, (hR' a z).mpr (Or.inl hz)⟩

/-- A labelling that agrees with a symmetric relation of pairs decides its chains: two ids have
one label exactly when a chain of pairs joins them, and an id in no pair has no label. -/
theorem labels_match_graph_chain (L : Int → Option Int) (R : Int → Int → Prop)
    (hsymm : ∀ a b, R a b → R b a) (h : labels_match_graph L R) :
    (∀ a b, (∃ c, L a = some c ∧ L b = some c) ↔ Relation.TransGen R a b) ∧
    (∀ a, L a = none ↔ ¬ ∃ z, R a z) := by
  obtain ⟨hA, hB, hD⟩ := h
  refine ⟨?_, ?_⟩
  · intro a b
    constructor
    · rintro ⟨c, ha, hb⟩
      rcases Relation.reflTransGen_iff_eq_or_transGen.mp (hB a b c ha hb) with heq | ht
      · obtain ⟨z, hz⟩ := hD a c ha
        rw [heq]
        exact Relation.TransGen.tail (Relation.TransGen.single hz) (hsymm a z hz)
      · exact ht
    · intro ht
      induction ht with
      | single hab => exact hA a _ hab
      | tail _ hbc ih =>
        obtain ⟨c, ha, hb⟩ := ih
        obtain ⟨c', hb', hc'⟩ := hA _ _ hbc
        rw [hb] at hb'
        cases hb'
        exact ⟨c, ha, hc'⟩
  · intro a
    constructor
    · rintro ha ⟨z, hz⟩
      obtain ⟨c, hc, _⟩ := hA a z hz
      rw [ha] at hc
      cases hc
    · intro hno
      cases hLa : L a with
      | none => rfl
      | some c => exact absurd (hD a c hLa) hno
/-! ### `find_id_for` and `get_next_free_cluster_id` on a structure -/

theorem find_id_for_some (cs : ClusterStructure K)
    (hd : identities_decreasing cs.cluster_identities) (x : Int) :
    ∃ r, cs.find_id_for x = some r ∧ map_find cs.cluster_identities r = none ∧ r ≤ x := by
  obtain ⟨r, hr⟩ := find_id_for_loop_enough cs.cluster_identities hd
    (cs.cluster_identities.length + 1) x (Nat.lt_succ_self _)
  exact ⟨r, hr, (find_id_for_loop_result _ _ _ _ hr).1, find_id_for_loop_le _ hd _ _ _ hr⟩

theorem find_id_for_root (cs : ClusterStructure K) (x : Int)
    (h : map_find cs.cluster_identities x = none) : cs.find_id_for x = some x :=
  find_id_for_loop_root _ _ _ h

theorem find_id_for_congr (cs cs' : ClusterStructure K)
    (h : cs'.cluster_identities = cs.cluster_identities) (x : Int) :
    cs'.find_id_for x = cs.find_id_for x := by
  unfold ClusterStructure.find_id_for
  rw [h]

theorem find_id_for_insert (cs cs' : ClusterStructure K) (hi lo : Int)
    (hd : identities_decreasing cs.cluster_identities)
    (hhi : map_find cs.cluster_identities hi = none)
    (hlo : map_find cs.cluster_identities lo = none) (hlt : lo < hi)
    (h : cs'.cluster_identities = map_insert cs.cluster_identities hi lo) (x r : Int)
    (hr : cs.find_id_for x = some r) :
    cs'.find_id_for x = some (if r = hi then lo else r) := by
  have hd' : identities_decreasing cs'.cluster_identities := by
    rw [h]; exact identities_decreasing_insert _ hi lo hd hlt
  obtain ⟨r', hr', -, -⟩ := find_id_for_some cs' hd' x
  have h1 := find_id_for_loop_insert cs.cluster_identities hi lo hhi hlo (ne_of_lt hlt)
    _ x r hr
  rw [← h] at h1
  have hlen : cs'.cluster_identities.length + 1 ≤ cs.cluster_identities.length + 1 + 2 := by
    rw [h]
    have := (map_insert_length_le cs.cluster_identities hi lo).2
    omega
  have h2 := find_id_for_loop_mono _ _ _ _ hr' _ hlen
  rw [h1] at h2
  rw [hr', h2]

theorem foldl_max_bound (l : List (Int × Int)) (init : Int) :
    init ≤ l.foldl (fun m it => if m < it.2 then it.2 else m) init ∧
    ∀ e ∈ l, e.2 ≤ l.foldl (fun m it => if m < it.2 then it.2 else m) init := by
  induction l generalizing init with
  | nil => simp
  | cons e l ih =>
    simp only [List.foldl_cons]
    obtain ⟨h1, h2⟩ := ih (if init < e.2 then e.2 else init)
    have h3 : init ≤ (if init < e.2 then e.2 else init) ∧
        e.2 ≤ (if init < e.2 then e.2 else init) := by
      split_ifs <;> omega
    refine ⟨le_trans h3.1 h1, ?_⟩
    intro e' he'
    rcases List.mem_cons.mp he' with rfl | he'
    · exact le_trans h3.2 h1
    · exact h2 e' he'

theorem lt_get_next_free_cluster_id (cs : ClusterStructure K) (pid c : Int)
    (h : map_find cs.cluster_id pid = some c) : c < cs.get_next_free_cluster_id := by
  have := (foldl_max_bound cs.cluster_id 0).2 (pid, c) (map_find_mem _ _ _ h)
  unfold ClusterStructure.get_next_free_cluster_id
  simp only at this
  omega

theorem get_next_free_cluster_id_fresh (cs : ClusterStructure K) (pairs : List (Int × Int))
    (hinv : labelling_invariant cs pairs) :
    map_find cs.cluster_identities cs.get_next_free_cluster_id = none ∧
    ∀ a, cluster_label cs a ≠ some cs.get_next_free_cluster_id := by
  refine ⟨?_, ?_⟩
  · cases hk : map_find cs.cluster_identities cs.get_next_free_cluster_id with
    | none => rfl
    | some v =>
      obtain ⟨pid, c, hc, hle⟩ := hinv.keys_bounded _ v hk
      have := lt_get_next_free_cluster_id cs pid c hc
      omega
  · intro a ha
    unfold cluster_label at ha
    cases hc : map_find cs.cluster_id a with
    | none => rw [hc] at ha; cases ha
    | some c =>
      rw [hc] at ha
      obtain ⟨r, hr, -, hle⟩ := find_id_for_some cs hinv.decreasing c
      have : cs.find_id_for c = some cs.get_next_free_cluster_id := ha
      rw [hr] at this
      have := Option.some.inj this
      have := lt_get_next_free_cluster_id cs a c hc
      omega

theorem pair_edge_append (pairs : List (Int × Int)) (u v a b : Int) :
    pair_edge (pairs ++ [(u, v)]) a b ↔
      pair_edge pairs a b ∨ (a = u ∧ b = v) ∨ (a = v ∧ b = u) := by
  unfold pair_edge
  simp only [List.mem_append, List.mem_singleton, Prod.mk.injEq]
  tauto

theorem pair_edge_symm (pairs : List (Int × Int)) (a b : Int) (h : pair_edge pairs a b) :
    pair_edge pairs b a := by
  unfold pair_edge at h ⊢
  tauto
/-! ### One `add_pair` call -/

theorem labelling_invariant_congr (cs cs' : ClusterStructure K) (pairs : List (Int × Int))
    (hinv : labelling_invariant cs pairs) (hcid : cs'.cluster_id = cs.cluster_id)
    (hids : cs'.cluster_identities = cs.cluster_identities) (hcl : cs'.clusters = cs.clusters) :
    labelling_invariant cs' pairs := by
  have hL : cluster_label cs' = cluster_label cs := by
    funext a
    unfold cluster_label
    rw [hcid]
    cases map_find cs.cluster_id a with
    | none => rfl
    | some c => exact find_id_for_congr cs cs' hids c
  refine ⟨?_, ?_, ?_, ?_, ?_⟩
  · rw [hids]; exact hinv.decreasing
  · rw [hids, hcid]; exact hinv.keys_bounded
  · rw [hcid]; exact hinv.ascending
  · rw [hcl]; exact hinv.no_clusters
  · rw [hL]; exact hinv.labels

theorem labelling_invariant_same (cs : ClusterStructure K) (pairs pairs' : List (Int × Int))
    (u v c : Int) (hinv : labelling_invariant cs pairs)
    (hu : cluster_label cs u = some c) (hv : cluster_label cs v = some c)
    (hR' : ∀ a b, pair_edge pairs' a b ↔
      pair_edge pairs a b ∨ (a = u ∧ b = v) ∨ (a = v ∧ b = u)) :
    labelling_invariant cs pairs' :=
  ⟨hinv.decreasing, hinv.keys_bounded, hinv.ascending, hinv.no_clusters,
    labels_match_graph_same _ _ _ u v c hinv.labels hu hv hR'⟩

theorem labelling_invariant_new (cs cs' : ClusterStructure K) (pairs pairs' : List (Int × Int))
    (u v : Int) (hinv : labelling_invariant cs pairs)
    (hu : map_find cs.cluster_id u = none) (hv : map_find cs.cluster_id v = none)
    (hcid : cs'.cluster_id =
      map_insert (map_insert cs.cluster_id u cs.get_next_free_cluster_id) v
        cs.get_next_free_cluster_id)
    (hids : cs'.cluster_identities = cs.cluster_identities) (hcl : cs'.clusters = cs.clusters)
    (hR' : ∀ a b, pair_edge pairs' a b ↔
      pair_edge pairs a b ∨ (a = u ∧ b = v) ∨ (a = v ∧ b = u)) :
    labelling_invariant cs' pairs' := by
  obtain ⟨hfresh1, hfresh2⟩ := get_next_free_cluster_id_fresh cs pairs hinv
  refine ⟨?_, ?_, ?_, ?_, ?_⟩
  · rw [hids]; exact hinv.decreasing
  · intro k w hk
    rw [hids] at hk
    obtain ⟨pid, c, hc, hle⟩ := hinv.keys_bounded k w hk
    refine ⟨pid, c, ?_, hle⟩
    rw [hcid, map_find_insert, map_find_insert]
    have h1 : pid ≠ v := by rintro rfl; rw [hv] at hc; cases hc
    have h2 : pid ≠ u := by rintro rfl; rw [hu] at hc; cases hc
    rw [if_neg h1, if_neg h2]
    exact hc
  · rw [hcid]
    exact keys_ascending_insert _ _ _ (keys_ascending_insert _ _ _ hinv.ascending)
  · rw [hcl]; exact hinv.no_clusters
  · apply labels_match_graph_new (cluster_label cs) (cluster_label cs') _ _ u v
      cs.get_next_free_cluster_id hinv.labels
    · unfold cluster_label; rw [hu]; rfl
    · unfold cluster_label; rw [hv]; rfl
    · exact hfresh2
    · intro a
      unfold cluster_label
      rw [hcid, map_find_insert, map_find_insert]
      have hroot : cs'.find_id_for cs.get_next_free_cluster_id =
          some cs.get_next_free_cluster_id := by
        rw [find_id_for_congr cs cs' hids]
        exact find_id_for_root cs _ hfresh1
      by_cases h1 : a = v
      · rw [if_pos h1, if_pos (Or.inr h1)]
        exact hroot
      · rw [if_neg h1]
        by_cases h2 : a = u
        · rw [if_pos h2, if_pos (Or.inl h2)]
          exact hroot
        · rw [if_neg h2, if_neg (by tauto)]
          cases map_find cs.cluster_id a with
          | none => rfl
          | some c => exact find_id_for_congr cs cs' hids c
    · exact hR'

theorem labelling_invariant_join (cs cs' : ClusterStructure K) (pairs pairs' : List (Int × Int))
    (u v c2 cid : Int) (hinv : labelling_invariant cs pairs)
    (hu : map_find cs.cluster_id u = none) (hv : map_find cs.cluster_id v = some c2)
    (hroot : cs.find_id_for c2 = some cid)
    (hcid : cs'.cluster_id = map_insert cs.cluster_id u cid)
    (hids : cs'.cluster_identities = cs.cluster_identities) (hcl : cs'.clusters = cs.clusters)
    (hR' : ∀ a b, pair_edge pairs' a b ↔
      pair_edge pairs a b ∨ (a = u ∧ b = v) ∨ (a = v ∧ b = u)) :
    labelling_invariant cs' pairs' := by
  have hnokey : map_find cs.cluster_identities cid = none :=
    (find_id_for_loop_result _ _ _ _ hroot).1
  refine ⟨?_, ?_, ?_, ?_, ?_⟩
  · rw [hids]; exact hinv.decreasing
  · intro k w hk
    rw [hids] at hk
    obtain ⟨pid, c, hc, hle⟩ := hinv.keys_bounded k w hk
    refine ⟨pid, c, ?_, hle⟩
    rw [hcid, map_find_insert]
    have h2 : pid ≠ u := by rintro rfl; rw [hu] at hc; cases hc
    rw [if_neg h2]
    exact hc
  · rw [hcid]
    exact keys_ascending_insert _ _ _ hinv.ascending
  · rw [hcl]; exact hinv.no_clusters
  · apply labels_match_graph_join (cluster_label cs) (cluster_label cs') _ _ u v cid hinv.labels
    · unfold cluster_label; rw [hu]; rfl
    · unfold cluster_label; rw [hv]; exact hroot
    · intro a
      unfold cluster_label
      rw [hcid, map_find_insert]
      by_cases h2 : a = u
      · rw [if_pos h2, if_pos h2]
        show cs'.find_id_for cid = some cid
        rw [find_id_for_congr cs cs' hids]
        exact find_id_for_root cs _ hnokey
      · rw [if_neg h2, if_neg h2]
        cases map_find cs.cluster_id a with
        | none => rfl
        | some c => exact find_id_for_congr cs cs' hids c
    · exact hR'

theorem labelling_invariant_union (cs cs' : ClusterStructure K)
    (pairs pairs' : List (Int × Int)) (u v c1 c2 hi lo : Int)
    (hinv : labelling_invariant cs pairs)
    (hu : map_find cs.cluster_id u = some c1) (hv : map_find cs.cluster_id v = some c2)
    (hroot1 : cs.find_id_for c1 = some hi) (hroot2 : cs.find_id_for c2 = some lo)
    (hlt : lo < hi) (hcid : cs'.cluster_id = cs.cluster_id)
    (hids : cs'.cluster_identities = map_insert cs.cluster_identities hi lo)
    (hcl : cs'.clusters = cs.clusters)
    (hR' : ∀ a b, pair_edge pairs' a b ↔
      pair_edge pairs a b ∨ (a = u ∧ b = v) ∨ (a = v ∧ b = u)) :
    labelling_invariant cs' pairs' := by
  have hnokey1 : map_find cs.cluster_identities hi = none :=
    (find_id_for_loop_result _ _ _ _ hroot1).1
  have hnokey2 : map_find cs.cluster_identities lo = none :=
    (find_id_for_loop_result _ _ _ _ hroot2).1
  refine ⟨?_, ?_, ?_, ?_, ?_⟩
  · rw [hids]; exact identities_decreasing_insert _ hi lo hinv.decreasing hlt
  · intro k w hk
    rw [hids, map_find_insert] at hk
    rw [hcid]
    by_cases hkh : k = hi
    · refine ⟨u, c1, hu, ?_⟩
      rw [hkh]
      exact find_id_for_loop_le _ hinv.decreasing _ _ _ hroot1
    · rw [if_neg hkh] at hk
      exact hinv.keys_bounded k w hk
  · rw [hcid]; exact hinv.ascending
  · rw [hcl]; exact hinv.no_clusters
  · apply labels_match_graph_union (cluster_label cs) (cluster_label cs') _ _ u v hi lo
      hinv.labels
    · unfold cluster_label; rw [hu]; exact hroot1
    · unfold cluster_label; rw [hv]; exact hroot2
    · intro a
      unfold cluster_label
      rw [hcid]
      cases map_find cs.cluster_id a with
      | none => rfl
      | some c =>
        obtain ⟨r, hr, -, -⟩ := find_id_for_some cs hinv.decreasing c
        show cs'.find_id_for c = (cs.find_id_for c).map _
        rw [find_id_for_insert cs cs' hi lo hinv.decreasing hnokey1 hnokey2 hlt hids c r hr, hr]
        rfl
    · exact hR'
theorem pair_edge_append_swap (pairs : List (Int × Int)) (u v a b : Int) :
    pair_edge (pairs ++ [(v, u)]) a b ↔
      pair_edge pairs a b ∨ (a = u ∧ b = v) ∨ (a = v ∧ b = u) := by
  rw [pair_edge_append]
  tauto

/-- One call of `add_pair` on a state between `clear()` and `merge_clusters()` returns, keeps
the state of that kind with the pair added when the criterion held, and writes at most one
redirection to `cluster_identities`. -/
theorem add_pair_step (cs : ClusterStructure K) (pairs : List (Int × Int))
    (hinv : labelling_invariant cs pairs) (p1 p2 : Particle K) :
    ∃ cs', cs.add_pair p1 p2 = some cs' ∧ cs'.nc = cs.nc ∧
      labelling_invariant cs' (pairs ++ neighbour_pairs cs.nc [(p1, p2)]) ∧
      identities_write cs cs' := by
  cases hnc : cs.nc with
  | none =>
    refine ⟨{ cs with
      runtime_errors := cs.runtime_errors ++ ["No cluster criterion defined"] },
      by simp only [ClusterStructure.add_pair, hnc], hnc, ?_, Or.inl rfl⟩
    simp only [neighbour_pairs, List.append_nil]
    exact labelling_invariant_congr cs _ pairs hinv rfl rfl rfl
  | some f =>
    by_cases hf : f p1 p2 = true
    · have hpairs : neighbour_pairs (some f) [(p1, p2)] = [(p1.identity, p2.identity)] := by
        simp [neighbour_pairs, hf]
      rw [hpairs]
      cases h1 : map_find cs.cluster_id p1.identity with
      | none =>
        cases h2 : map_find cs.cluster_id p2.identity with
        | none =>
          refine ⟨{ cs with
            cluster_id := map_insert (map_insert cs.cluster_id p1.identity
              cs.get_next_free_cluster_id) p2.identity cs.get_next_free_cluster_id },
            by simp [ClusterStructure.add_pair, ClusterStructure.part_of_cluster, hnc,
            hf, h1, h2], hnc, ?_, Or.inl rfl⟩
          exact labelling_invariant_new cs _ pairs _ p1.identity p2.identity hinv h1 h2 rfl rfl
            rfl (pair_edge_append pairs _ _)
        | some c2 =>
          obtain ⟨cid, hcid, -, -⟩ := find_id_for_some cs hinv.decreasing c2
          refine ⟨{ cs with cluster_id := map_insert cs.cluster_id p1.identity cid },
            by simp [ClusterStructure.add_pair, ClusterStructure.part_of_cluster, hnc,
            hf, h1, h2, hcid], hnc, ?_, Or.inl rfl⟩
          exact labelling_invariant_join cs _ pairs _ p1.identity p2.identity c2 cid hinv h1 h2
            hcid rfl rfl rfl (pair_edge_append pairs _ _)
      | some c1 =>
        obtain ⟨cid1, hcid1, -, -⟩ := find_id_for_some cs hinv.decreasing c1
        cases h2 : map_find cs.cluster_id p2.identity with
        | none =>
          refine ⟨{ cs with cluster_id := map_insert cs.cluster_id p2.identity cid1 },
            by simp [ClusterStructure.add_pair, ClusterStructure.part_of_cluster, hnc,
            hf, h1, h2, hcid1], hnc, ?_, Or.inl rfl⟩
          exact labelling_invariant_join cs _ pairs _ p2.identity p1.identity c1 cid1 hinv h2 h1
            hcid1 rfl rfl rfl (pair_edge_append_swap pairs _ _)
        | some c2 =>
          obtain ⟨cid2, hcid2, -, -⟩ := find_id_for_some cs hinv.decreasing c2
          have hl1 : cluster_label cs p1.identity = some cid1 := by
            unfold cluster_label; rw [h1]; exact hcid1
          have hl2 : cluster_label cs p2.identity = some cid2 := by
            unfold cluster_label; rw [h2]; exact hcid2
          by_cases hc : c1 = c2
          · refine ⟨cs, by simp [ClusterStructure.add_pair, ClusterStructure.part_of_cluster,
              hnc, hf, h1, h2, hc], hnc, ?_, Or.inl rfl⟩
            have : cid1 = cid2 := by
              rw [hc, hcid2] at hcid1
              exact (Option.some.inj hcid1).symm
            rw [← this] at hl2
            exact labelling_invariant_same cs pairs _ p1.identity p2.identity cid1 hinv hl1 hl2
              (pair_edge_append pairs _ _)
          · rcases lt_trichotomy cid1 cid2 with hlt | heq | hgt
            · refine ⟨{ cs with
                  cluster_identities := map_insert cs.cluster_identities cid2 cid1 },
                by simp [ClusterStructure.add_pair, ClusterStructure.part_of_cluster, hnc, hf,
                  h1, h2, hc, hcid1, hcid2, hlt, not_lt.mpr (le_of_lt hlt)], hnc, ?_, ?_⟩
              · exact labelling_invariant_union cs _ pairs _ p2.identity p1.identity c2 c1
                  cid2 cid1 hinv h2 h1 hcid2 hcid1 hlt rfl rfl rfl
                  (pair_edge_append_swap pairs _ _)
              · exact Or.inr ⟨cid2, cid1, rfl, hlt,
                  (find_id_for_loop_result _ _ _ _ hcid2).1,
                  ⟨p2.identity, c2, h2, hcid2⟩, ⟨p1.identity, c1, h1, hcid1⟩⟩
            · refine ⟨cs, by simp [ClusterStructure.add_pair, ClusterStructure.part_of_cluster,
                hnc, hf, h1, h2, hc, hcid1, hcid2, heq], hnc, ?_, Or.inl rfl⟩
              rw [← heq] at hl2
              exact labelling_invariant_same cs pairs _ p1.identity p2.identity cid1 hinv hl1
                hl2 (pair_edge_append pairs _ _)
            · refine ⟨{ cs with
                  cluster_identities := map_insert cs.cluster_identities cid1 cid2 },
                by simp [ClusterStructure.add_pair, ClusterStructure.part_of_cluster, hnc, hf,
                  h1, h2, hc, hcid1, hcid2, hgt], hnc, ?_, ?_⟩
              · exact labelling_invariant_union cs _ pairs _ p1.identity p2.identity c1 c2
                  cid1 cid2 hinv h1 h2 hcid1 hcid2 hgt rfl rfl rfl
                  (pair_edge_append pairs _ _)
              · exact Or.inr ⟨cid1, cid2, rfl, hgt,
                  (find_id_for_loop_result _ _ _ _ hcid1).1,
                  ⟨p1.identity, c1, h1, hcid1⟩, ⟨p2.identity, c2, h2, hcid2⟩⟩
    · have hpairs : neighbour_pairs (some f) [(p1, p2)] = [] := by
        simp [neighbour_pairs, hf]
      rw [hpairs, List.append_nil]
      exact ⟨cs, by simp [ClusterStructure.add_pair, hnc, hf], hnc, hinv, Or.inl rfl⟩
/-! ### A sequence of `add_pair` calls after `clear()` -/

theorem labelling_invariant_clear (cs0 : ClusterStructure K) :
    labelling_invariant cs0.clear [] := by
  refine ⟨?_, ?_, ?_, rfl, ?_, ?_, ?_⟩
  · intro k v h
    simp [ClusterStructure.clear, map_find] at h
  · intro k v h
    simp [ClusterStructure.clear, map_find] at h
  · simp [ClusterStructure.clear, keys_ascending]
  · intro a b h
    simp [pair_edge] at h
  · intro a b c h
    simp [cluster_label, ClusterStructure.clear, map_find] at h
  · intro a c h
    simp [cluster_label, ClusterStructure.clear, map_find] at h

theorem neighbour_pairs_cons (nc : Option (Particle K → Particle K → Bool))
    (c : Particle K × Particle K) (calls : List (Particle K × Particle K)) :
    neighbour_pairs nc (c :: calls) = neighbour_pairs nc [c] ++ neighbour_pairs nc calls := by
  cases nc with
  | none => rfl
  | some f =>
    by_cases hf : f c.1 c.2 = true
    · simp [neighbour_pairs, hf]
    · simp [neighbour_pairs, hf]

theorem add_pairs_cons (cs : ClusterStructure K) (c : Particle K × Particle K)
    (calls : List (Particle K × Particle K)) :
    cs.add_pairs (c :: calls) = (cs.add_pair c.1 c.2).bind fun s => s.add_pairs calls := by
  simp [ClusterStructure.add_pairs, List.foldlM_cons]

theorem add_pairs_append (cs : ClusterStructure K)
    (pre post : List (Particle K × Particle K)) :
    cs.add_pairs (pre ++ post) = (cs.add_pairs pre).bind fun s => s.add_pairs post := by
  simp [ClusterStructure.add_pairs, List.foldlM_append]

theorem add_pairs_invariant (calls : List (Particle K × Particle K)) (cs : ClusterStructure K)
    (pairs : List (Int × Int)) (hinv : labelling_invariant cs pairs) :
    ∃ cs', cs.add_pairs calls = some cs' ∧ cs'.nc = cs.nc ∧
      labelling_invariant cs' (pairs ++ neighbour_pairs cs.nc calls) := by
  induction calls generalizing cs pairs with
  | nil =>
    refine ⟨cs, rfl, rfl, ?_⟩
    have : neighbour_pairs cs.nc ([] : List (Particle K × Particle K)) = [] := by
      cases cs.nc <;> rfl
    rw [this, List.append_nil]
    exact hinv
  | cons c calls ih =>
    obtain ⟨s, hs, hnc, hinv', -⟩ := add_pair_step cs pairs hinv c.1 c.2
    obtain ⟨cs', hcs', hnc', hinv''⟩ := ih s _ hinv'
    refine ⟨cs', ?_, hnc'.trans hnc, ?_⟩
    · rw [add_pairs_cons, hs]
      exact hcs'
    · rw [neighbour_pairs_cons, ← List.append_assoc]
      rw [hnc] at hinv''
      exact hinv''

theorem add_pairs_after_clear (cs0 : ClusterStructure K)
    (calls : List (Particle K × Particle K)) :
    ∃ cs, cs0.clear.add_pairs calls = some cs ∧ cs.nc = cs0.nc ∧
      labelling_invariant cs (neighbour_pairs cs0.nc calls) := by
  obtain ⟨cs, h1, h2, h3⟩ := add_pairs_invariant calls cs0.clear [] (labelling_invariant_clear cs0)
  exact ⟨cs, h1, h2, by simpa [ClusterStructure.clear] using h3⟩

/-! ### `merge_clusters` -/

theorem foldl_insert_find_of_not_key {V : Type} (l : List (Int × V)) (m0 : List (Int × V))
    (a : Int) (h : ∀ e ∈ l, e.1 ≠ a) :
    map_find (l.foldl (fun m it => map_insert m it.1 it.2) m0) a = map_find m0 a := by
  induction l generalizing m0 with
  | nil => rfl
  | cons e l ih =>
    simp only [List.foldl_cons]
    rw [ih _ (fun e' he' => h e' (List.mem_cons_of_mem _ he')), map_find_insert,
      if_neg (fun heq => h e (List.mem_cons_self _ _) heq.symm)]

theorem foldl_insert_find_of_key {V : Type} (l : List (Int × V)) (m0 : List (Int × V))
    (a : Int) (v : V) (hex : ∃ e ∈ l, e.1 = a) (hv : ∀ e ∈ l, e.1 = a → e.2 = v) :
    map_find (l.foldl (fun m it => map_insert m it.1 it.2) m0) a = some v := by
  induction l generalizing m0 with
  | nil =>
    obtain ⟨e, he, -⟩ := hex
    simp at he
  | cons e l ih =>
    simp only [List.foldl_cons]
    by_cases hl : ∃ e' ∈ l, e'.1 = a
    · exact ih _ hl (fun e' he' => hv e' (List.mem_cons_of_mem _ he'))
    · have hl' : ∀ e' ∈ l, e'.1 ≠ a := fun e' he' heq => hl ⟨e', he', heq⟩
      rw [foldl_insert_find_of_not_key l _ a hl', map_find_insert]
      obtain ⟨e', he', hea⟩ := hex
      rcases List.mem_cons.mp he' with rfl | he'
      · rw [if_pos hea.symm, hv e' (List.mem_cons_self _ _) hea]
      · exact absurd hea (hl' e' he')

theorem foldl_insert_mem {V : Type} (l : List (Int × V)) (m0 : List (Int × V)) (e : Int × V)
    (h : e ∈ l.foldl (fun m it => map_insert m it.1 it.2) m0) : e ∈ m0 ∨ e ∈ l := by
  induction l generalizing m0 with
  | nil => exact Or.inl h
  | cons e' l ih =>
    simp only [List.foldl_cons] at h
    rcases ih _ h with h | h
    · rcases mem_map_insert_weak _ _ _ _ h with h | h
      · exact Or.inr (by rw [h]; exact List.mem_cons_self _ _)
      · exact Or.inl h
    · exact Or.inr (List.mem_cons_of_mem _ h)

theorem foldl_insert_ascending {V : Type} (l : List (Int × V)) (m0 : List (Int × V))
    (h : keys_ascending m0) :
    keys_ascending (l.foldl (fun m it => map_insert m it.1 it.2) m0) := by
  induction l generalizing m0 with
  | nil => exact h
  | cons e' l ih =>
    simp only [List.foldl_cons]
    exact ih _ (keys_ascending_insert _ _ _ h)

/-- The first loop of `merge_clusters` when every lookup of `find_id_for` returns: the notes and
the cluster objects it leaves, as plain folds. -/
theorem merge_clusters_note_fold (cs : ClusterStructure K) (l : List (Int × Int))
    (acc : List (Int × Int) × List (Int × Cluster))
    (h : ∀ it ∈ l, ∃ r, cs.find_id_for it.2 = some r) :
    l.foldlM (merge_clusters_note cs) acc =
      some ((l.map fun it => (it.1, (cs.find_id_for it.2).getD 0)).foldl
          (fun m it => map_insert m it.1 it.2) acc.1,
        l.foldl (fun cl it =>
          if (map_find cl ((cs.find_id_for it.2).getD 0)).isNone
          then map_insert cl ((cs.find_id_for it.2).getD 0) ⟨[]⟩ else cl) acc.2) := by
  induction l generalizing acc with
  | nil => rfl
  | cons it l ih =>
    obtain ⟨r, hr⟩ := h it (List.mem_cons_self _ _)
    rw [List.foldlM_cons]
    have : merge_clusters_note cs acc it =
        some (map_insert acc.1 it.1 r,
          if (map_find acc.2 r).isNone then map_insert acc.2 r ⟨[]⟩ else acc.2) := by
      simp [merge_clusters_note, hr]
    rw [this]
    show l.foldlM (merge_clusters_note cs) _ = _
    rw [ih _ (fun it' hit' => h it' (List.mem_cons_of_mem _ hit'))]
    simp [hr]

theorem sort_cluster_copies_eq (clusters : List (Int × Cluster)) :
    sort_cluster_copies clusters = clusters := by
  unfold sort_cluster_copies
  generalize hc : clusters = acc
  have : ∀ (l : List (Int × Cluster)) (acc : List (Int × Cluster)),
      l.foldl (fun acc c =>
        (fun (_ : Cluster) => acc) ⟨List.insertionSort (fun a b => a ≤ b) c.2.particles⟩)
        acc = acc := by
    intro l
    induction l with
    | nil => intro acc; rfl
    | cons c l ih => intro acc; exact ih acc
  exact this _ _
theorem relabel_find (m : List (Int × Int)) (root : Int → Int) (hs : keys_ascending m)
    (a : Int) :
    map_find (((m.map fun it => (it.1, root it.2)).foldl
      (fun m it => map_insert m it.1 it.2) []).foldl (fun m it => map_insert m it.1 it.2) m) a
      = (map_find m a).map root := by
  have hin : ∀ e, e ∈ (m.map fun it => (it.1, root it.2)).foldl
      (fun m it => map_insert m it.1 it.2) [] → ∃ it ∈ m, e = (it.1, root it.2) := by
    intro e he
    rcases foldl_insert_mem _ _ e he with he | he
    · simp at he
    · obtain ⟨it, hit, rfl⟩ := List.mem_map.mp he
      exact ⟨it, hit, rfl⟩
  cases hc : map_find m a with
  | none =>
    have hno := (map_find_none_iff m a).mp hc
    rw [foldl_insert_find_of_not_key _ _ a, hc]
    · rfl
    · intro e he
      obtain ⟨it, hit, rfl⟩ := hin e he
      exact hno it hit
  | some c =>
    have hval : ∀ it ∈ m, it.1 = a → it.2 = c := by
      intro it hit hia
      have := map_find_of_mem m it.1 it.2 hs hit
      rw [hia, hc] at this
      exact (Option.some.inj this).symm
    have h1 : map_find ((m.map fun it => (it.1, root it.2)).foldl
        (fun m it => map_insert m it.1 it.2) []) a = some (root c) := by
      apply foldl_insert_find_of_key
      · exact ⟨(a, root c), List.mem_map.mpr ⟨(a, c), map_find_mem m a c hc, rfl⟩, rfl⟩
      · intro e he hea
        obtain ⟨it, hit, rfl⟩ := List.mem_map.mp he
        show root it.2 = root c
        rw [hval it hit hea]
    show _ = some (root c)
    apply foldl_insert_find_of_key
    · exact ⟨(a, root c), map_find_mem _ _ _ h1, rfl⟩
    · intro e he hea
      obtain ⟨it, hit, rfl⟩ := hin e he
      show root it.2 = root c
      rw [hval it hit hea]

theorem empty_clusters_fold (root : Int → Int) (M l : List (Int × Int))
    (cl0 : List (Int × Cluster)) (hl : ∀ it ∈ l, it ∈ M) (h0 : keys_ascending cl0)
    (h1 : ∀ e ∈ cl0, e.2 = ⟨[]⟩ ∧ ∃ it ∈ M, root it.2 = e.1) :
    keys_ascending (l.foldl (fun cl it =>
      if (map_find cl (root it.2)).isNone then map_insert cl (root it.2) ⟨[]⟩ else cl) cl0) ∧
    ∀ e ∈ l.foldl (fun cl it =>
      if (map_find cl (root it.2)).isNone then map_insert cl (root it.2) ⟨[]⟩ else cl) cl0,
      e.2 = ⟨[]⟩ ∧ ∃ it ∈ M, root it.2 = e.1 := by
  induction l generalizing cl0 with
  | nil => exact ⟨h0, h1⟩
  | cons it l ih =>
    simp only [List.foldl_cons]
    apply ih _ (fun it' hit' => hl it' (List.mem_cons_of_mem _ hit'))
    · split_ifs
      · exact keys_ascending_insert _ _ _ h0
      · exact h0
    · intro e he
      split_ifs at he
      · rcases mem_map_insert_weak _ _ _ _ he with rfl | he
        · exact ⟨rfl, it, hl it (List.mem_cons_self _ _), rfl⟩
        · exact h1 e he
      · exact h1 e he

theorem push_fold_find (l : List (Int × Int)) (cl0 : List (Int × Cluster)) (c : Int) :
    map_find (l.foldl (fun cl it => push_particle cl it.2 it.1) cl0) c =
      if cluster_members l c = [] then map_find cl0 c
      else some ⟨((map_find cl0 c).getD ⟨[]⟩).particles ++ cluster_members l c⟩ := by
  induction l generalizing cl0 with
  | nil => simp [cluster_members]
  | cons it l ih =>
    simp only [List.foldl_cons]
    rw [ih]
    have key : map_find (push_particle cl0 it.2 it.1) c =
        if c = it.2 then
          some ⟨((map_find cl0 it.2).getD ⟨[]⟩).particles ++ [it.1]⟩
        else map_find cl0 c := by
      unfold push_particle
      rw [map_find_insert]
    rw [key]
    by_cases hc : it.2 = c
    · have hm : cluster_members (it :: l) c = it.1 :: cluster_members l c := by
        simp [cluster_members, hc]
      rw [hm, if_pos hc.symm, if_neg (List.cons_ne_nil _ _), hc]
      by_cases hl : cluster_members l c = []
      · rw [if_pos hl, hl]
      · rw [if_neg hl]
        simp
    · have hm : cluster_members (it :: l) c = cluster_members l c := by
        simp [cluster_members, hc]
      have hcne : ¬ c = it.2 := fun h => hc h.symm
      rw [hm, if_neg hcne]

theorem push_fold_ascending (l : List (Int × Int)) (cl0 : List (Int × Cluster))
    (h : keys_ascending cl0) :
    keys_ascending (l.foldl (fun cl it => push_particle cl it.2 it.1) cl0) := by
  induction l generalizing cl0 with
  | nil => exact h
  | cons it l ih =>
    simp only [List.foldl_cons]
    exact ih _ (keys_ascending_insert _ _ _ h)

theorem mem_cluster_members (m : List (Int × Int)) (hs : keys_ascending m) (pid c : Int) :
    pid ∈ cluster_members m c ↔ map_find m pid = some c := by
  unfold cluster_members
  constructor
  · intro h
    obtain ⟨it, hit, rfl⟩ := List.mem_map.mp h
    obtain ⟨hit1, hit2⟩ := List.mem_filter.mp hit
    have := map_find_of_mem m it.1 it.2 hs hit1
    rw [this]
    simpa using hit2
  · intro h
    exact List.mem_map.mpr ⟨(pid, c), List.mem_filter.mpr ⟨map_find_mem m pid c h, by simp⟩, rfl⟩

theorem cluster_members_ascending (m : List (Int × Int)) (hs : keys_ascending m) (c : Int) :
    (cluster_members m c).Pairwise (fun a b => a < b) := by
  unfold cluster_members
  unfold keys_ascending at hs
  exact List.Pairwise.sublist (List.Sublist.map _ (List.filter_sublist _)) hs
/-- The run of `merge_clusters` on a state between `clear()` and `merge_clusters()`: it
returns, every particle id gets the cluster it was labelled with, and every cluster object holds
the ids of its cluster in key order. -/
theorem merge_clusters_result (cs : ClusterStructure K) (pairs : List (Int × Int))
    (hinv : labelling_invariant cs pairs) :
    ∃ cs', cs.merge_clusters = some cs' ∧
      keys_ascending cs'.cluster_id ∧
      (∀ a, map_find cs'.cluster_id a = cluster_label cs a) ∧
      keys_ascending cs'.clusters ∧
      (∀ k cl, (k, cl) ∈ cs'.clusters →
        cl.particles = cluster_members cs'.cluster_id k ∧
        cluster_members cs'.cluster_id k ≠ []) ∧
      (∀ pid c, map_find cs'.cluster_id pid = some c →
        map_find cs'.clusters c = some ⟨cluster_members cs'.cluster_id c⟩) := by
  have hterm : ∀ it ∈ cs.cluster_id, ∃ r, cs.find_id_for it.2 = some r := by
    intro it _
    obtain ⟨r, hr, -, -⟩ := find_id_for_some cs hinv.decreasing it.2
    exact ⟨r, hr⟩
  obtain ⟨root, hroot⟩ : ∃ root : Int → Int, root = fun c => (cs.find_id_for c).getD 0 :=
    ⟨_, rfl⟩
  obtain ⟨cid', hcid'⟩ : ∃ x, x = ((cs.cluster_id.map fun it => (it.1, root it.2)).foldl
      (fun m it => map_insert m it.1 it.2) []).foldl (fun m it => map_insert m it.1 it.2)
      cs.cluster_id := ⟨_, rfl⟩
  obtain ⟨cl1, hcl1⟩ : ∃ x, x = cs.cluster_id.foldl (fun cl it =>
      if (map_find cl (root it.2)).isNone then map_insert cl (root it.2) ⟨[]⟩ else cl)
      cs.clusters := ⟨_, rfl⟩
  obtain ⟨cl2, hcl2⟩ : ∃ x, x = cid'.foldl (fun cl it => push_particle cl it.2 it.1) cl1 :=
    ⟨_, rfl⟩
  have hmerge : cs.merge_clusters = some { cs with cluster_id := cid', clusters := cl2 } := by
    unfold ClusterStructure.merge_clusters
    rw [merge_clusters_note_fold cs cs.cluster_id _ hterm]
    simp only [Option.map_some', sort_cluster_copies_eq]
    rw [hcl2, hcl1, hcid', hroot]
  have hasc : keys_ascending cid' := by
    rw [hcid']
    exact foldl_insert_ascending _ _ hinv.ascending
  have hfind : ∀ a, map_find cid' a = (map_find cs.cluster_id a).map root := by
    intro a
    rw [hcid']
    exact relabel_find cs.cluster_id root hinv.ascending a
  have hlabel : ∀ a, map_find cid' a = cluster_label cs a := by
    intro a
    rw [hfind a]
    unfold cluster_label
    cases map_find cs.cluster_id a with
    | none => rfl
    | some c =>
      obtain ⟨r, hr, -, -⟩ := find_id_for_some cs hinv.decreasing c
      show some (root c) = cs.find_id_for c
      rw [hroot]
      simp only [hr, Option.getD_some]
  have hcl1p := empty_clusters_fold root cs.cluster_id cs.cluster_id cs.clusters
    (fun _ h => h) (by rw [hinv.no_clusters]; simp [keys_ascending])
    (by rw [hinv.no_clusters]; simp)
  rw [← hcl1] at hcl1p
  obtain ⟨hasc1, hent1⟩ := hcl1p
  have hasc2 : keys_ascending cl2 := by
    rw [hcl2]
    exact push_fold_ascending _ _ hasc1
  have hold : ∀ c, ((map_find cl1 c).getD ⟨[]⟩).particles = [] := by
    intro c
    cases hc : map_find cl1 c with
    | none => rfl
    | some cl =>
      have := (hent1 (c, cl) (map_find_mem _ _ _ hc)).1
      simp only at this
      rw [this]
      rfl
  have hpush : ∀ c, map_find cl2 c =
      if cluster_members cid' c = [] then map_find cl1 c
      else some ⟨cluster_members cid' c⟩ := by
    intro c
    rw [hcl2, push_fold_find, hold c]
    rfl
  refine ⟨_, hmerge, hasc, hlabel, hasc2, ?_, ?_⟩
  · intro k cl hmem
    have hk := map_find_of_mem cl2 k cl hasc2 hmem
    rw [hpush k] at hk
    by_cases hm : cluster_members cid' k = []
    · rw [if_pos hm] at hk
      obtain ⟨-, it, hit, hroot'⟩ := hent1 (k, cl) (map_find_mem _ _ _ hk)
      have h1 : map_find cid' it.1 = some k := by
        rw [hfind, map_find_of_mem cs.cluster_id it.1 it.2 hinv.ascending hit]
        show some (root it.2) = some k
        rw [hroot']
      have := (mem_cluster_members cid' hasc it.1 k).mpr h1
      rw [hm] at this
      simp at this
    · rw [if_neg hm] at hk
      have := Option.some.inj hk
      exact ⟨by rw [← this], hm⟩
  · intro pid c hpid
    show map_find cl2 c = _
    rw [hpush c, if_neg]
    intro hm
    have := (mem_cluster_members cid' hasc pid c).mpr hpid
    rw [hm] at this
    simp at this
/-- The example run: `clear()`, the six example calls and `merge_clusters()` leave the ids 1 to
5 in cluster 1 and the ids 7 and 8 in cluster 3, one redirection `2 ↦ 1`, and no entry for
the id 6. -/
theorem add_pairs_merge_example :
    ((example_cluster_structure.clear.add_pairs example_cluster_calls).bind
        ClusterStructure.merge_clusters).map
      (fun s => (s.cluster_id, s.cluster_identities, s.clusters.map fun e => (e.1, e.2.particles)))
      = some ([(1, 1), (2, 1), (3, 1), (4, 1), (5, 1), (7, 3), (8, 3)], [(2, 1)],
          [(1, [1, 2, 3, 4, 5]), (3, [7, 8])]) := by
  decide
theorem count_sum_one (cl : List (Int × Cluster)) (hs : keys_ascending cl) (pid c : Int)
    (cl0 : Cluster) (hmem : (c, cl0) ∈ cl) (h1 : cl0.particles.count pid = 1)
    (h0 : ∀ e ∈ cl, e.1 ≠ c → e.2.particles.count pid = 0) :
    (cl.map fun e => e.2.particles.count pid).sum = 1 := by
  induction cl with
  | nil => simp at hmem
  | cons e cl ih =>
    have hs' := hs
    unfold keys_ascending at hs'
    simp only [List.map_cons, List.pairwise_cons] at hs'
    obtain ⟨hhead, htail⟩ := hs'
    simp only [List.map_cons, List.sum_cons]
    rcases List.mem_cons.mp hmem with heq | hin
    · have hzero : ∀ x ∈ cl.map (fun e => e.2.particles.count pid), x = 0 := by
        intro x hx
        obtain ⟨e', he', rfl⟩ := List.mem_map.mp hx
        apply h0 e' (List.mem_cons_of_mem _ he')
        have := hhead e'.1 (List.mem_map.mpr ⟨e', he', rfl⟩)
        rw [← heq] at this
        exact ne_of_gt this
      rw [List.sum_eq_zero hzero, ← heq]
      exact h1
    · have hne : e.1 ≠ c := by
        have := hhead c (List.mem_map.mpr ⟨(c, cl0), hin, rfl⟩)
        exact ne_of_lt this
      rw [h0 e (List.mem_cons_self _ _) hne, Nat.zero_add]
      exact ih htail hin (fun e' he' => h0 e' (List.mem_cons_of_mem _ he'))

/-- C31: after `clear()`, any sequence of `add_pair` calls and then `merge_clusters()` (all of
which return), two particle ids have one and the same cluster id exactly when a chain of pairs
that passed the neighbour criterion joins them, and a particle id has no cluster id exactly when
it was in no such pair. -/
theorem merge_clusters_labels_chains (cs0 : ClusterStructure K)
    (calls : List (Particle K × Particle K)) :
    ∃ cs cs', cs0.clear.add_pairs calls = some cs ∧ cs.merge_clusters = some cs' ∧
      (∀ a b, (∃ c, map_find cs'.cluster_id a = some c ∧ map_find cs'.cluster_id b = some c) ↔
        chain_connected (neighbour_pairs cs0.nc calls) a b) ∧
      (∀ a, map_find cs'.cluster_id a = none ↔
        ¬ ∃ z, pair_edge (neighbour_pairs cs0.nc calls) a z) := by
  obtain ⟨cs, hcs, -, hinv⟩ := add_pairs_after_clear cs0 calls
  obtain ⟨cs', hcs', -, hlabel, -, -, -⟩ := merge_clusters_result cs _ hinv
  obtain ⟨h1, h2⟩ := labels_match_graph_chain (cluster_label cs)
    (pair_edge (neighbour_pairs cs0.nc calls)) (pair_edge_symm _) hinv.labels
  refine ⟨cs, cs', hcs, hcs', ?_, ?_⟩
  · intro a b
    rw [hlabel a, hlabel b]
    exact h1 a b
  · intro a
    rw [hlabel a]
    exact h2 a

/-- C32: after `clear()`, any sequence of `add_pair` calls and `merge_clusters()`, the cluster
objects partition the particle ids that have a cluster id: such an id is in the cluster keyed by
its cluster id and occurs once in all particle lists together, every id in a particle list has
that cluster's key as its cluster id, no particle list is empty, and every particle list is in
strictly ascending order, although the sort loop only sorts copies. -/
theorem merge_clusters_partitions (cs0 : ClusterStructure K)
    (calls : List (Particle K × Particle K)) :
    ∃ cs cs', cs0.clear.add_pairs calls = some cs ∧ cs.merge_clusters = some cs' ∧
      keys_ascending cs'.clusters ∧
      (∀ pid c, map_find cs'.cluster_id pid = some c →
        (∃ cl, map_find cs'.clusters c = some cl ∧ pid ∈ cl.particles) ∧
        (cs'.clusters.map fun e => e.2.particles.count pid).sum = 1) ∧
      (∀ e ∈ cs'.clusters, e.2.particles ≠ [] ∧
        e.2.particles.Pairwise (fun a b => a < b) ∧
        ∀ pid ∈ e.2.particles, map_find cs'.cluster_id pid = some e.1) := by
  obtain ⟨cs, hcs, -, hinv⟩ := add_pairs_after_clear cs0 calls
  obtain ⟨cs', hcs', hasc, -, hasc2, hent, hown⟩ := merge_clusters_result cs _ hinv
  have hall : ∀ e ∈ cs'.clusters, e.2.particles ≠ [] ∧
      e.2.particles.Pairwise (fun a b => a < b) ∧
      ∀ pid ∈ e.2.particles, map_find cs'.cluster_id pid = some e.1 := by
    intro e he
    obtain ⟨h1, h2⟩ := hent e.1 e.2 he
    rw [h1]
    exact ⟨h2, cluster_members_ascending _ hasc _,
      fun pid hpid => (mem_cluster_members _ hasc pid e.1).mp hpid⟩
  refine ⟨cs, cs', hcs, hcs', hasc2, ?_, hall⟩
  intro pid c hpid
  have hc := hown pid c hpid
  have hin : pid ∈ cluster_members cs'.cluster_id c :=
    (mem_cluster_members _ hasc pid c).mpr hpid
  refine ⟨⟨_, hc, hin⟩, ?_⟩
  apply count_sum_one cs'.clusters hasc2 pid c _ (map_find_mem _ _ _ hc)
  · apply List.count_eq_one_of_mem _ hin
    exact (cluster_members_ascending _ hasc c).imp (fun h => ne_of_lt h)
  · intro e he hne
    apply List.count_eq_zero_of_not_mem
    intro hmem
    have := (hall e he).2.2 pid hmem
    rw [hpid] at this
    exact hne (Option.some.inj this).symm

/-- C33: in any sequence of `add_pair` calls after `clear()`, every call returns and writes at
most one entry to `cluster_identities`; a written entry maps a cluster id to a strictly smaller
one under a key that had no entry and that `find_id_for` had just returned. After the call
`find_id_for` returns for every argument, with any number of lookups above the number of
entries, and the id returned is not a key of `cluster_identities`. -/
theorem add_pair_writes_decreasing (cs0 : ClusterStructure K)
    (pre : List (Particle K × Particle K)) (p1 p2 : Particle K) :
    ∃ cs cs', cs0.clear.add_pairs pre = some cs ∧ cs.add_pair p1 p2 = some cs' ∧
      identities_write cs cs' ∧
      ∀ x, ∃ r, cs'.find_id_for x = some r ∧
        (∀ n, cs'.cluster_identities.length < n →
          find_id_for_loop cs'.cluster_identities n x = some r) ∧
        map_find cs'.cluster_identities r = none := by
  obtain ⟨cs, hcs, -, hinv⟩ := add_pairs_after_clear cs0 pre
  obtain ⟨cs', hcs', -, hinv', hwrite⟩ := add_pair_step cs _ hinv p1 p2
  refine ⟨cs, cs', hcs, hcs', hwrite, ?_⟩
  intro x
  obtain ⟨r, hr, hnokey, -⟩ := find_id_for_some cs' hinv'.decreasing x
  exact ⟨r, hr, fun n hn => find_id_for_loop_mono _ _ _ _ hr n hn, hnokey⟩

end Collision
